import Mathlib

/-!
# Sweep-line intersection of circles: a shallow embedding of `intersect_circles`

The C++ program computes with `float`.  The embedding is parametric in an ordered field `F`
and in the square-root function `sqrt : F → F`; the theorems read the arithmetic as exact
real arithmetic, that is `F := ℝ` and `sqrt := Real.sqrt`.

* `Point`, `Circle`, `Arc` follow `intersect_circles.hpp`.
* A `std::shared_ptr<Arc>` is an `ArcPtr`: the arc together with the address of the object.
* The red-black tree is embedded without a heap.  A `Node*` that points into the tree is a
  `Loc`: the subtree below the pointer and the chain of parents above it (what the `parent`
  fields give).  The shared sentinel `nil` is the constructor `Node.nil`.
* Undefined behaviour (dereferencing `nullptr`, a failing `assert`) is the result `none`.
-/

namespace IntersectCircles

variable {F : Type} [LinearOrderedField F]

/-! ## Geometric primitives (`intersect_circles.hpp`) -/

/-- The class `Point`: the two coordinates. -/
structure Point (F : Type) where
  x : F
  y : F
deriving DecidableEq

/-- The class `Circle`: centre and radius. -/
structure Circle (F : Type) where
  center : Point F
  radius : F
deriving DecidableEq

/-- The class `Arc` without its back-pointer `node`: a circle and the flag of the upper half. -/
structure Arc (F : Type) where
  circle : Circle F
  upper : Bool
deriving DecidableEq

/-- A `std::shared_ptr<Arc>`: the arc object and its address.  The address is what
identifies the object; the back-pointer `arc->node` is the tree node whose key has it. -/
structure ArcPtr (F : Type) where
  addr : Nat
  arc : Arc F
deriving DecidableEq

/-- `Point::distance`. -/
def Point.distance (sqrt : F → F) (a p : Point F) : F :=
  sqrt ((a.x - p.x) * (a.x - p.x) + (a.y - p.y) * (a.y - p.y))

/-- `Point::add`. -/
def Point.add (a p : Point F) : Point F := ⟨a.x + p.x, a.y + p.y⟩

/-- `Point::sub`. -/
def Point.sub (a p : Point F) : Point F := ⟨a.x - p.x, a.y - p.y⟩

/-- `Point::scale`. -/
def Point.scale (a : Point F) (s : F) : Point F := ⟨s * a.x, s * a.y⟩

/-- `Point::turn`. -/
def Point.turn (a : Point F) : Point F := ⟨-a.y, a.x⟩

/-- `operator<` on points: lexicographic, x first. -/
def Point.lt (a b : Point F) : Bool :=
  decide (a.x < b.x) || (decide (a.x = b.x) && decide (a.y < b.y))

/-- `operator==` on points. -/
def Point.eq (a b : Point F) : Bool := decide (a.x = b.x) && decide (a.y = b.y)

/-- `operator!=` on points. -/
def Point.ne (a b : Point F) : Bool := !(Point.eq a b)

/-- `operator!=` on circles. -/
def Circle.ne (a b : Circle F) : Bool := Point.ne a.center b.center || decide (a.radius ≠ b.radius)

/-- `Circle::begin`: the leftmost point. -/
def Circle.begin (c : Circle F) : Point F := c.center.sub ⟨c.radius, 0⟩

/-- `Circle::end`: the rightmost point. -/
def Circle.end_ (c : Circle F) : Point F := c.center.add ⟨c.radius, 0⟩

/-- `Circle::intersect` (intersect_circles.cpp, lines 15-32). -/
def Circle.intersect (sqrt : F → F) (c circle : Circle F) : List (Point F) :=
  let d := c.center.distance sqrt circle.center
  if d = 0 then []
  else if c.radius + circle.radius < d ∨ d < |c.radius - circle.radius| then []
  else
    let a := (c.radius * c.radius + d * d - circle.radius * circle.radius) / (2 * d)
    let diff := circle.center.sub c.center
    let p := c.center.add (diff.scale (a / d))
    let h := sqrt (c.radius * c.radius - a * a)
    if h = 0 then [p]
    else
      let n := diff.turn.scale (h / d)
      [p.add n, p.sub n]

/-! ## Arcs -/

/-- `Arc::at` (lines 66-76): the height of the arc at `x`, the centre's height outside the
span of the circle. -/
def Arc.at_ (sqrt : F → F) (a : Arc F) (x : F) : F :=
  if |x - a.circle.center.x| > a.circle.radius then a.circle.center.y
  else
    let dx := x - a.circle.center.x
    let dy := sqrt (a.circle.radius * a.circle.radius - dx * dx)
    if a.upper then a.circle.center.y + dy else a.circle.center.y - dy

/-- `Arc::contains` (intersect_circles.hpp, lines 56-58). -/
def Arc.contains (sqrt : F → F) (a : Arc F) (p : Point F) : Bool :=
  decide (|a.at_ sqrt p.x - p.y| < 1 / 100000)

/-- `Arc::above` (lines 81-87); `other = none` is the null pointer. -/
def Arc.above (sqrt : F → F) (a : Arc F) (p : Point F) (other : Option (Arc F)) : Bool :=
  match other with
  | none => decide (a.at_ sqrt p.x ≥ p.y)
  | some o => decide (a.at_ sqrt (p.x + 1 / 1000) ≥ o.at_ sqrt (p.x + 1 / 1000))

/-- `Arc::intersect` (lines 91-98): the points of the circle intersection at which the two
heights differ by more than `1e-5` are erased. -/
def Arc.intersect (sqrt : F → F) (a arc : Arc F) : List (Point F) :=
  (a.circle.intersect sqrt arc.circle).filter
    (fun p => !decide (|a.at_ sqrt p.x - arc.at_ sqrt p.x| > 1 / 100000))

/-! ## The red-black tree -/

/-- The enum `Color`. -/
inductive Color where
  | RED
  | BLACK
deriving DecidableEq

/-- The struct `Node` seen from above: the sentinel `nil`, or a real node with its key, its
colour and its two subtrees.  The `parent` field is the `Path` of a `Loc`. -/
inductive Node (κ : Type) where
  | nil : Node κ
  | node (key : κ) (color : Color) (left right : Node κ) : Node κ

/-- The chain of `parent` pointers above a node: the node is the root, or the left child of
a parent (with the parent's key, colour and right subtree), or its right child. -/
inductive Path (κ : Type) where
  | root : Path κ
  | left (parent : Path κ) (key : κ) (color : Color) (right : Node κ) : Path κ
  | right (parent : Path κ) (key : κ) (color : Color) (left : Node κ) : Path κ

/-- A `Node*` into a tree: the subtree it points to, and the parents above. -/
structure Loc (κ : Type) where
  path : Path κ
  node : Node κ

/-- The class `RBTree`: its root (`nil` is `Node.nil`). -/
structure RBTree (κ : Type) where
  root : Node κ

variable {κ : Type}

/-- `node->color`; the sentinel is BLACK. -/
def Node.color : Node κ → Color
  | .nil => .BLACK
  | .node _ c _ _ => c

/-- `node->color = c` (no effect on the sentinel, which is BLACK and only ever set BLACK). -/
def Node.setColor (c : Color) : Node κ → Node κ
  | .nil => .nil
  | .node k _ l r => .node k c l r

/-- The number of real nodes. -/
def Node.size : Node κ → Nat
  | .nil => 0
  | .node _ _ l r => l.size + 1 + r.size

/-- The keys in order (what `RBTree::print` walks). -/
def Node.inorder : Node κ → List κ
  | .nil => []
  | .node k _ l r => l.inorder ++ k :: r.inorder

/-- Invariant (3) below a node: no RED node has a RED child. -/
def Node.noRedRed : Node κ → Prop
  | .nil => True
  | .node _ c l r => (c = .RED → l.color = .BLACK ∧ r.color = .BLACK) ∧ l.noRedRed ∧ r.noRedRed

/-- The number of BLACK nodes on the leftmost path from a node down to the sentinel. -/
def Node.blackHeight : Node κ → Nat
  | .nil => 0
  | .node _ c l _ => l.blackHeight + (if c = .BLACK then 1 else 0)

/-- Invariant (4) below a node: at every node the two subtrees have the same black height,
so that all paths from a node down to the sentinel count the same number of BLACK nodes. -/
def Node.balanced : Node κ → Prop
  | .nil => True
  | .node _ _ l r => l.blackHeight = r.blackHeight ∧ l.balanced ∧ r.balanced

/-- The numbers of BLACK nodes on the paths from a node down to the sentinel, one entry for
each path. -/
def Node.blackCounts : Node κ → List Nat
  | .nil => [0]
  | .node _ c l r => (l.blackCounts ++ r.blackCounts).map (· + (if c = .BLACK then 1 else 0))

/-- The subtrees of a tree: one for each node, and the sentinel. -/
def Node.subtrees : Node κ → List (Node κ)
  | .nil => [.nil]
  | .node k c l r => .node k c l r :: (l.subtrees ++ r.subtrees)

/-- The tree around a hole, with `t` put in the hole. -/
def Path.fill : Path κ → Node κ → Node κ
  | .root, t => t
  | .left parent k c r, t => parent.fill (.node k c t r)
  | .right parent k c l, t => parent.fill (.node k c l t)

/-- The whole tree a pointer points into. -/
def Loc.tree (z : Loc κ) : RBTree κ := ⟨z.path.fill z.node⟩

/-- The red-black invariant of the specification: (1) the root is BLACK, (2) the sentinel
is BLACK, (3) no RED node has a RED child, (4) all paths from a node down to the sentinel
count the same number of BLACK nodes. -/
def RBTree.invariant (t : RBTree κ) : Prop :=
  t.root.color = .BLACK ∧ (Node.nil : Node κ).color = .BLACK ∧ t.root.noRedRed ∧
    ∀ n ∈ t.root.subtrees, ∀ a ∈ n.blackCounts, ∀ b ∈ n.blackCounts, a = b

/-- `RBTree::RBTree()`: `root = nil`. -/
def RBTree.empty : RBTree κ := ⟨.nil⟩

/-- The loop of `RBTree::insertPos` (lines 286-292): `x` is the subtree at `path`, `y` the
last real node seen. `above k` is `k->above(p, arc)` for the `p` and `arc` of the call. -/
def insertPosLoop (above : κ → Bool) : Path κ → Node κ → Loc κ → Loc κ
  | _, .nil, y => y
  | path, .node k c l r, _ =>
    if above k then insertPosLoop above (.left path k c r) l ⟨path, .node k c l r⟩
    else insertPosLoop above (.right path k c l) r ⟨path, .node k c l r⟩

/-- `RBTree::insertPos` (lines 283-294): the node under which the key would be attached,
the sentinel for the empty tree. -/
def RBTree.insertPos (above : κ → Bool) (t : RBTree κ) : Loc κ :=
  insertPosLoop above .root t.root ⟨.root, .nil⟩

/-- `RBTree::leftRotate` (lines 248-263); the result is the pointer `node` in the rotated
tree. `none`: the assertion `y != nil` fails. -/
def leftRotate : Loc κ → Option (Loc κ)
  | ⟨path, .node k c l (.node yk yc yl yr)⟩ => some ⟨.left path yk yc yr, .node k c l yl⟩
  | _ => none

/-- `RBTree::rightRotate` (lines 264-279); the result is the pointer `node` in the rotated
tree. `none`: the assertion `y != nil` fails. -/
def rightRotate : Loc κ → Option (Loc κ)
  | ⟨path, .node k c (.node yk yc yl yr) r⟩ => some ⟨.right path yk yc yl, .node k c yr r⟩
  | _ => none

/-- Line 334 (`root->color = BLACK`) and line 399 when `x` is the root. -/
def blackenRoot (t : Node κ) : RBTree κ := ⟨t.setColor .BLACK⟩

/-- `RBTree::insertFixup` (lines 295-335) for `z` = the subtree `z` at `path`.
Each equation is one pass of the `while`; after a rotation case `z->parent` has just been
coloured BLACK, so the loop test fails and line 334 follows.
`none`: `z->parent` is a RED root, and `z->parent->parent->left` is read off the sentinel. -/
def insertFixup : Path κ → Node κ → Option (RBTree κ)
  -- z->parent is the sentinel: BLACK
  | .root, z => some (blackenRoot z)
  -- z->parent is BLACK
  | .left pp pk .BLACK s, z => some (blackenRoot (pp.fill (.node pk .BLACK z s)))
  | .right pp pk .BLACK s, z => some (blackenRoot (pp.fill (.node pk .BLACK s z)))
  -- z->parent is RED and is the root
  | .left .root _ .RED _, _ => none
  | .right .root _ .RED _, _ => none
  -- z->parent == z->parent->parent->left, z is its left child
  | .left (.left gp gk _ uncle) pk .RED s, z =>
    match uncle with
    | .node uk .RED ul ur =>
      insertFixup gp (.node gk .RED (.node pk .BLACK z s) (.node uk .BLACK ul ur))
    | _ =>
      -- lines 311-313
      (rightRotate ⟨gp, .node gk .RED (.node pk .BLACK z s) uncle⟩).map
        fun g => blackenRoot g.tree.root
  -- z->parent == z->parent->parent->left, z is its right child
  | .right (.left gp gk gc uncle) pk .RED s, z =>
    match uncle with
    | .node uk .RED ul ur =>
      insertFixup gp (.node gk .RED (.node pk .BLACK s z) (.node uk .BLACK ul ur))
    | _ =>
      -- lines 308-309: z = z->parent; leftRotate(z); then lines 311-313
      match leftRotate ⟨.left gp gk gc uncle, .node pk .RED s z⟩ with
      | some ⟨.left (.left gp2 gk2 _ u2) pk2 _ s2, z2⟩ =>
        (rightRotate ⟨gp2, .node gk2 .RED (.node pk2 .BLACK z2 s2) u2⟩).map
          fun g => blackenRoot g.tree.root
      | _ => none
  -- z->parent == z->parent->parent->right, z is its right child
  | .right (.right gp gk _ uncle) pk .RED s, z =>
    match uncle with
    | .node uk .RED ul ur =>
      insertFixup gp (.node gk .RED (.node uk .BLACK ul ur) (.node pk .BLACK s z))
    | _ =>
      -- lines 328-330
      (leftRotate ⟨gp, .node gk .RED uncle (.node pk .BLACK s z)⟩).map
        fun g => blackenRoot g.tree.root
  -- z->parent == z->parent->parent->right, z is its left child
  | .left (.right gp gk gc uncle) pk .RED s, z =>
    match uncle with
    | .node uk .RED ul ur =>
      insertFixup gp (.node gk .RED (.node uk .BLACK ul ur) (.node pk .BLACK z s))
    | _ =>
      -- lines 325-326: z = z->parent; rightRotate(z); then lines 328-330
      match rightRotate ⟨.right gp gk gc uncle, .node pk .RED z s⟩ with
      | some ⟨.right (.right gp2 gk2 _ u2) pk2 _ s2, z2⟩ =>
        (leftRotate ⟨gp2, .node gk2 .RED u2 (.node pk2 .BLACK s2 z2)⟩).map
          fun g => blackenRoot g.tree.root
      | _ => none

/-- `RBTree::insert` (lines 186-197). `above k` is `k->above(p, arc)`. -/
def RBTree.insert (above : κ → Bool) (t : RBTree κ) (arc : κ) : Option (RBTree κ) :=
  match t.insertPos above with
  | ⟨_, .nil⟩ => insertFixup .root (.node arc .RED .nil .nil)
  | ⟨path, .node k c l r⟩ =>
    if above k then insertFixup (.left path k c r) (.node arc .RED .nil .nil)
    else insertFixup (.right path k c l) (.node arc .RED .nil .nil)

/-- Lines 361-371 of `RBTree::removeFixup`: `x` is the left child of the node `pk` (colour
`pc`, at `path`), its sibling `w` is BLACK and has a RED child.  Line 371 sets `x = root`,
the loop ends and line 399 colours the root BLACK. -/
def removeFixupLeftRot (path : Path κ) (pk : κ) (pc : Color) (x w : Node κ) :
    Option (RBTree κ) :=
  -- lines 361-366
  let w2 : Option (Node κ) :=
    match w with
    | .nil => none
    | .node wk wc wl wr =>
      if wr.color = .BLACK then
        (rightRotate ⟨.right path pk pc x, .node wk .RED (wl.setColor .BLACK) wr⟩).map
          fun l => match l.path with
            | .right _ yk yc yl => .node yk yc yl l.node
            | _ => l.node
      else some (.node wk wc wl wr)
  -- lines 367-371
  match w2 with
  | some (.node wk _ wl wr) =>
    (leftRotate ⟨path, .node pk .BLACK x (.node wk pc wl (wr.setColor .BLACK))⟩).map
      fun l => blackenRoot l.tree.root
  | _ => none

/-- Lines 385-395 of `RBTree::removeFixup`, the mirror image: `x` is the right child. -/
def removeFixupRightRot (path : Path κ) (pk : κ) (pc : Color) (x w : Node κ) :
    Option (RBTree κ) :=
  -- lines 385-390
  let w2 : Option (Node κ) :=
    match w with
    | .nil => none
    | .node wk wc wl wr =>
      if wl.color = .BLACK then
        (leftRotate ⟨.left path pk pc x, .node wk .RED wl (wr.setColor .BLACK)⟩).map
          fun l => match l.path with
            | .left _ yk yc yr => .node yk yc l.node yr
            | _ => l.node
      else some (.node wk wc wl wr)
  -- lines 391-395
  match w2 with
  | some (.node wk _ wl wr) =>
    (rightRotate ⟨path, .node pk .BLACK (.node wk pc (wl.setColor .BLACK) wr) x⟩).map
      fun l => blackenRoot l.tree.root
  | _ => none

/-- `RBTree::removeFixup` (lines 347-400) for `x` = the subtree `x` at `path`.
Each equation is one pass of the `while`, followed by line 399 when the loop ends.
When the sibling is RED (lines 351-356) and its inner child then has two BLACK children,
`x = x->parent` is the node coloured RED in line 353: the loop ends and line 399 colours it
BLACK.  `none`: the sibling is the sentinel, whose `left` is read in line 357. -/
def removeFixup : Path κ → Node κ → Option (RBTree κ)
  -- x == root
  | .root, x => some ⟨x.setColor .BLACK⟩
  -- x is the left child
  | .left pp pk pc w, x =>
    if x.color = .RED then some ⟨(Path.left pp pk pc w).fill (x.setColor .BLACK)⟩
    else
      match w with
      | .nil => none
      | .node wk .RED wl wr =>
        -- lines 352-355: recolour, leftRotate(x->parent), w = x->parent->right
        match wl with
        | .nil => none
        | .node k2 c2 l2 r2 =>
          if l2.color = .BLACK ∧ r2.color = .BLACK then
            some ⟨pp.fill (.node wk .BLACK (.node pk .BLACK x (.node k2 .RED l2 r2)) wr)⟩
          else removeFixupLeftRot (.left pp wk .BLACK wr) pk .RED x (.node k2 c2 l2 r2)
      | .node wk .BLACK wl wr =>
        if wl.color = .BLACK ∧ wr.color = .BLACK then
          -- lines 358-359
          removeFixup pp (.node pk pc x (.node wk .RED wl wr))
        else removeFixupLeftRot pp pk pc x (.node wk .BLACK wl wr)
  -- x is the right child
  | .right pp pk pc w, x =>
    if x.color = .RED then some ⟨(Path.right pp pk pc w).fill (x.setColor .BLACK)⟩
    else
      match w with
      | .nil => none
      | .node wk .RED wl wr =>
        -- lines 376-379: recolour, rightRotate(x->parent), w = x->parent->left
        match wr with
        | .nil => none
        | .node k2 c2 l2 r2 =>
          if r2.color = .BLACK ∧ l2.color = .BLACK then
            some ⟨pp.fill (.node wk .BLACK wl (.node pk .BLACK (.node k2 .RED l2 r2) x))⟩
          else removeFixupRightRot (.right pp wk .BLACK wl) pk .RED x (.node k2 c2 l2 r2)
      | .node wk .BLACK wl wr =>
        if wr.color = .BLACK ∧ wl.color = .BLACK then
          -- lines 382-383
          removeFixup pp (.node pk pc (.node wk .RED wl wr) x)
        else removeFixupRightRot pp pk pc x (.node wk .BLACK wl wr)

/-- The key of the leftmost node (the `while (node->left != nil)` of `upper_bound`). -/
def Node.minKey : Node κ → Option κ
  | .nil => none
  | .node k _ .nil _ => some k
  | .node _ _ l _ => l.minKey

/-- The leftmost node `y` of the subtree at `path` is replaced by its right child `x`
(`replaceNode(y, y->right)`): the colour of `y` and the pointer `x`. -/
def spliceMin : Path κ → Node κ → Option (Color × Loc κ)
  | _, .nil => none
  | path, .node _ c .nil r => some (c, ⟨path, r⟩)
  | path, .node k c l r => spliceMin (.left path k c r) l

/-- `RBTree::remove` (lines 198-229) for the node `node` of the tree `node.tree`.
With two children, `y = upper_bound(node)` is the leftmost node of the right subtree; it is
cut out there and takes the place, the children and the colour of `node` (lines 209-224).
`none`: `node` is the sentinel. -/
def RBTree.remove : Loc κ → Option (RBTree κ)
  | ⟨_, .nil⟩ => none
  | ⟨path, .node _ c .nil r⟩ =>
    if c = .BLACK then removeFixup path r else some ⟨path.fill r⟩
  | ⟨path, .node _ c l .nil⟩ =>
    if c = .BLACK then removeFixup path l else some ⟨path.fill l⟩
  | ⟨path, .node _ c l r⟩ =>
    match r.minKey with
    | none => none
    | some yk =>
      match spliceMin (.right path yk c l) r with
      | none => none
      | some (yc, x) => if yc = .BLACK then removeFixup x.path x.node else some x.tree

/-- The `while (node->left != nil) node = node->left` of `upper_bound`. -/
def leftmost : Path κ → Node κ → Loc κ
  | path, .nil => ⟨path, .nil⟩
  | path, .node k c .nil r => ⟨path, .node k c .nil r⟩
  | path, .node k c l r => leftmost (.left path k c r) l

/-- The `while (node->right != nil) node = node->right` of `lower_bound`. -/
def rightmost : Path κ → Node κ → Loc κ
  | path, .nil => ⟨path, .nil⟩
  | path, .node k c l .nil => ⟨path, .node k c l .nil⟩
  | path, .node k c l r => rightmost (.right path k c l) r

/-- Lines 155-161: climb while the node is a right child; the parent of the first left
child, `nullptr` at the root. -/
def climbRight : Path κ → Node κ → Option (Loc κ)
  | .root, _ => none
  | .right pp k c l, n => climbRight pp (.node k c l n)
  | .left pp k c r, n => some ⟨pp, .node k c n r⟩

/-- Lines 138-144: climb while the node is a left child; the parent of the first right
child, `nullptr` at the root. -/
def climbLeft : Path κ → Node κ → Option (Loc κ)
  | .root, _ => none
  | .left pp k c r, n => climbLeft pp (.node k c n r)
  | .right pp k c l, n => some ⟨pp, .node k c l n⟩

/-- `RBTree::upper_bound(Node*)` (lines 147-163); `none` is `nullptr`. -/
def RBTree.upper_bound : Loc κ → Option (Loc κ)
  | ⟨_, .nil⟩ => none
  | ⟨path, .node k c l .nil⟩ => climbRight path (.node k c l .nil)
  | ⟨path, .node k c l r⟩ => some (leftmost (.right path k c l) r)

/-- `RBTree::lower_bound(Node*)` (lines 130-146); `none` is `nullptr`. -/
def RBTree.lower_bound : Loc κ → Option (Loc κ)
  | ⟨_, .nil⟩ => none
  | ⟨path, .node k c .nil r⟩ => climbLeft path (.node k c .nil r)
  | ⟨path, .node k c l r⟩ => some (rightmost (.left path k c r) l)

/-- `RBTree::upper_bound(Point&, arc)` (lines 164-166). -/
def RBTree.upper_bound_at (above : κ → Bool) (t : RBTree κ) : Option (Loc κ) :=
  RBTree.upper_bound (t.insertPos above)

/-- `RBTree::lower_bound(Point&, arc)` (lines 167-169). -/
def RBTree.lower_bound_at (above : κ → Bool) (t : RBTree κ) : Option (Loc κ) :=
  RBTree.lower_bound (t.insertPos above)

/-- The loop of `RBTree::contains` (lines 176-183): `y` is the pointer (`none` for
`nullptr`), `answer` the vector; `fuel` bounds the number of passes. -/
def containsLoop (inside : κ → Bool) : Nat → Option (Loc κ) → List κ → Option (List κ)
  | _, none, answer => some answer
  | _, some ⟨_, .nil⟩, answer => some answer
  | 0, some ⟨_, .node _ _ _ _⟩, _ => none
  | fuel + 1, some ⟨path, .node k c l r⟩, answer =>
    if inside k then
      containsLoop inside fuel (RBTree.upper_bound ⟨path, .node k c l r⟩) (answer ++ [k])
    else if answer.length > 0 then some answer
    else containsLoop inside fuel (RBTree.upper_bound ⟨path, .node k c l r⟩) answer

/-- `RBTree::contains` (lines 173-185). `above k` is `k->above(p)` and `inside k` is
`k->contains(p)`; the walk visits each node at most once, so `size` passes are enough. -/
def RBTree.contains (above inside : κ → Bool) (t : RBTree κ) : Option (List κ) :=
  containsLoop inside t.root.size (some (t.insertPos above)) []

/-- The node of the subtree at `path` whose key satisfies `isKey`, the first in order
(`arc->node` for the arc object `isKey` recognises). -/
def locate (isKey : κ → Bool) : Path κ → Node κ → Option (Loc κ)
  | _, .nil => none
  | path, .node k c l r =>
    match locate isKey (.left path k c r) l with
    | some z => some z
    | none =>
      if isKey k then some ⟨path, .node k c l r⟩
      else locate isKey (.right path k c l) r

/-- `arc->node` in the tree `t`. -/
def RBTree.nodeOf (isKey : κ → Bool) (t : RBTree κ) : Option (Loc κ) :=
  locate isKey .root t.root

/-! ## Auxiliary definitions for the proofs about the tree -/

/-- The colour of the parent of the hole; the sentinel at the root. -/
def Path.color : Path κ → Color
  | .root => .BLACK
  | .left _ _ c _ => c
  | .right _ _ c _ => c

/-- No RED node has a RED child, among the nodes around the hole. -/
def Path.noRedRed : Path κ → Prop
  | .root => True
  | .left pp _ c r => r.noRedRed ∧ (c = .RED → r.color = .BLACK ∧ pp.color = .BLACK) ∧ pp.noRedRed
  | .right pp _ c l => l.noRedRed ∧ (c = .RED → l.color = .BLACK ∧ pp.color = .BLACK) ∧ pp.noRedRed

/-- The black heights around the hole agree when the hole has black height `n`. -/
def Path.balanced : Path κ → Nat → Prop
  | .root, _ => True
  | .left pp _ c r, n =>
    r.blackHeight = n ∧ r.balanced ∧ pp.balanced (n + (if c = .BLACK then 1 else 0))
  | .right pp _ c l, n =>
    l.blackHeight = n ∧ l.balanced ∧ pp.balanced (n + (if c = .BLACK then 1 else 0))

/-- The root of the tree around the hole is BLACK (nothing to say when the hole is the root). -/
def Path.rootBlack : Path κ → Prop
  | .root => True
  | .left .root _ c _ => c = .BLACK
  | .right .root _ c _ => c = .BLACK
  | .left pp _ _ _ => pp.rootBlack
  | .right pp _ _ _ => pp.rootBlack

/-- The place (the chain of parents of a sentinel) the descent of `insertPos` ends at. -/
def descend (above : κ → Bool) : Path κ → Node κ → Path κ
  | path, .nil => path
  | path, .node k c l r =>
    if above k then descend above (.left path k c r) l else descend above (.right path k c l) r

/-- The keys before the hole, in order. -/
def Path.before : Path κ → List κ
  | .root => []
  | .left pp _ _ _ => pp.before
  | .right pp k _ l => pp.before ++ l.inorder ++ [k]

/-- The keys after the hole, in order. -/
def Path.after : Path κ → List κ
  | .root => []
  | .left pp k _ r => k :: r.inorder ++ pp.after
  | .right pp _ _ _ => pp.after

/-! ## The event queue and the sweep (`circleIntersect`, lines 422-511) -/

/-- The map `events`: its entries in ascending order of the key. -/
abbrev Events (F : Type) := List (Point F × List (ArcPtr F))

/-- `events.find(p)`: the arcs stored under the key `p`, `none` for `events.end()`. -/
def Events.find : Events F → Point F → Option (List (ArcPtr F))
  | [], _ => none
  | (q, v) :: rest, p => if q = p then some v else Events.find rest p

/-- `events[p] = v`: the entry is overwritten, or inserted at its place in the order. -/
def Events.set : Events F → Point F → List (ArcPtr F) → Events F
  | [], p, v => [(p, v)]
  | (q, w) :: rest, p, v =>
    if q = p then (q, v) :: rest
    else if Point.lt p q then (p, v) :: (q, w) :: rest
    else (q, w) :: Events.set rest p v

/-- `events.erase(event)` for the entry of key `p`. -/
def Events.erase : Events F → Point F → Events F
  | [], _ => []
  | (q, w) :: rest, p => if q = p then rest else (q, w) :: Events.erase rest p

/-- Lines 429-442: the events of one circle, whose two arcs get the addresses `2 * i` and
`2 * i + 1`. -/
def seedCircle (events : Events F) (i : Nat) (circle : Circle F) : Events F :=
  let arcu : ArcPtr F := ⟨2 * i, ⟨circle, true⟩⟩
  let arcl : ArcPtr F := ⟨2 * i + 1, ⟨circle, false⟩⟩
  let events :=
    match Events.find events circle.begin with
    | some v => Events.set events circle.begin (v ++ [arcu, arcl])
    | none => Events.set events circle.begin [arcu, arcl]
  match Events.find events circle.end_ with
  | some _ => events
  | none => Events.set events circle.end_ []

/-- Lines 427-443: the loop over the circles, `i` the number of circles seen before. -/
def seedEvents : Events F → Nat → List (Circle F) → Events F
  | events, _, [] => events
  | events, i, c :: cs => seedEvents (seedCircle events i c) (i + 1) cs

/-- The state of the sweep between two passes of the loop. -/
structure Sweep (F : Type) where
  intersections : List (Point F)
  events : Events F
  status : RBTree (ArcPtr F)

/-- `k->above(p, arc)` as a function of the key `k`. -/
def aboveAt (sqrt : F → F) (p : Point F) (arc : Option (ArcPtr F)) (k : ArcPtr F) : Bool :=
  k.arc.above sqrt p (arc.map fun a => a.arc)

/-- `arc->node == n` as a function of the key of `n`. -/
def isArc (arc : ArcPtr F) (k : ArcPtr F) : Bool := k.addr == arc.addr

/-- Lines 450-460: the event point is reported. -/
def report (intersections : List (Point F)) (p : Point F) (born contains : List (ArcPtr F)) :
    List (Point F) :=
  if born.length > 2 then intersections ++ [p]
  else if contains.length > 2 then intersections ++ [p]
  else
    match born with
    | [] => intersections
    | b :: _ =>
      contains.foldl
        (fun acc arc => if Circle.ne arc.arc.circle b.arc.circle then acc ++ [p] else acc)
        intersections

/-- Lines 462-463: the arcs through `p` are removed from the status. -/
def removeAll : RBTree (ArcPtr F) → List (ArcPtr F) → Option (RBTree (ArcPtr F))
  | status, [] => some status
  | status, arc :: rest =>
    match status.nodeOf (isArc arc) with
    | none => none
    | some n =>
      match RBTree.remove n with
      | none => none
      | some status => removeAll status rest

/-- Lines 467-471: the arcs through `p` that do not end there are inserted again. -/
def reinsert (sqrt : F → F) (p : Point F) :
    RBTree (ArcPtr F) → List (ArcPtr F) → List (ArcPtr F) →
    Option (RBTree (ArcPtr F) × List (ArcPtr F))
  | status, uandc, [] => some (status, uandc)
  | status, uandc, arc :: rest =>
    if Point.ne p arc.arc.circle.end_ then
      match status.insert (aboveAt sqrt p (some arc)) arc with
      | none => none
      | some status => reinsert sqrt p status (uandc ++ [arc]) rest
    else reinsert sqrt p status uandc rest

/-- Lines 472-475: the arcs that begin at `p` are inserted. -/
def insertBorn (sqrt : F → F) (p : Point F) :
    RBTree (ArcPtr F) → List (ArcPtr F) → List (ArcPtr F) →
    Option (RBTree (ArcPtr F) × List (ArcPtr F))
  | status, uandc, [] => some (status, uandc)
  | status, uandc, arc :: rest =>
    match status.insert (aboveAt sqrt p (some arc)) arc with
    | none => none
    | some status => insertBorn sqrt p status (uandc ++ [arc]) rest

/-- The body of the three scheduling loops (lines 481-485, 496-500, 502-506). -/
def schedule (p : Point F) :
    List (Point F) × Events F → List (Point F) → List (Point F) × Events F
  | st, [] => st
  | (intersections, events), point :: rest =>
    if (Events.find events point).isNone && Point.lt p point then
      schedule p (intersections ++ [point], Events.set events point []) rest
    else schedule p (intersections, events) rest

/-- `std::min_element` with the comparison `comp(a, b) = b->above(p, a)`. -/
def minArc (sqrt : F → F) (p : Point F) : ArcPtr F → List (ArcPtr F) → ArcPtr F
  | smallest, [] => smallest
  | smallest, a :: rest =>
    if aboveAt sqrt p (some a) smallest then minArc sqrt p a rest
    else minArc sqrt p smallest rest

/-- `std::max_element` with the comparison `comp(a, b) = b->above(p, a)`. -/
def maxArc (sqrt : F → F) (p : Point F) : ArcPtr F → List (ArcPtr F) → ArcPtr F
  | largest, [] => largest
  | largest, a :: rest =>
    if aboveAt sqrt p (some largest) a then maxArc sqrt p a rest
    else maxArc sqrt p largest rest

/-- The key of a real node (`n->key`). -/
def Loc.key? : Loc κ → Option κ
  | ⟨_, .nil⟩ => none
  | ⟨_, .node k _ _ _⟩ => some k

/-- Lines 476-507: the neighbours of what was inserted are tested. -/
def discover (sqrt : F → F) (p : Point F) (status : RBTree (ArcPtr F))
    (uandc : List (ArcPtr F)) (st : List (Point F) × Events F) :
    Option (List (Point F) × Events F) :=
  match uandc with
  | [] =>
    match status.lower_bound_at (aboveAt sqrt p none), status.upper_bound_at (aboveAt sqrt p none) with
    | some lb, some ub =>
      match lb.key?, ub.key? with
      | some l, some u => some (schedule p st (l.arc.intersect sqrt u.arc))
      | _, _ => none
    | _, _ => some st
  | a :: rest =>
    let min_arc := minArc sqrt p a rest
    let max_arc := maxArc sqrt p a rest
    match status.nodeOf (isArc min_arc), status.nodeOf (isArc max_arc) with
    | some nmin, some nmax =>
      let st1 : Option (List (Point F) × Events F) :=
        match RBTree.lower_bound nmin with
        | none => some st
        | some lb =>
          match lb.key? with
          | some l => some (schedule p st (l.arc.intersect sqrt min_arc.arc))
          | none => none
      match st1 with
      | none => none
      | some st1 =>
        match RBTree.upper_bound nmax with
        | none => some st1
        | some ub =>
          match ub.key? with
          | some u => some (schedule p st1 (u.arc.intersect sqrt max_arc.arc))
          | none => none
    | _, _ => none

/-- One pass of the loop of lines 444-509 for the first event `(p, born)`. -/
def sweepStep (sqrt : F → F) (intersections : List (Point F)) (p : Point F)
    (born : List (ArcPtr F)) (rest : Events F) (status : RBTree (ArcPtr F)) :
    Option (Sweep F) :=
  match status.contains (aboveAt sqrt p none) (fun k => k.arc.contains sqrt p) with
  | none => none
  | some contains =>
    let intersections := report intersections p born contains
    match removeAll status contains with
    | none => none
    | some status =>
      match reinsert sqrt p status [] contains with
      | none => none
      | some (status, uandc) =>
        match insertBorn sqrt p status uandc born with
        | none => none
        | some (status, uandc) =>
          match discover sqrt p status uandc (intersections, (p, born) :: rest) with
          | none => none
          | some (intersections, events) =>
            -- line 508
            some ⟨intersections, Events.erase events p, status⟩

/-- The loop of lines 444-509: the state in which the queue is empty; `none` when `fuel`
passes do not empty the queue. -/
def sweepLoop (sqrt : F → F) : Nat → Sweep F → Option (Sweep F)
  | _, ⟨intersections, [], status⟩ => some ⟨intersections, [], status⟩
  | 0, ⟨_, _ :: _, _⟩ => none
  | fuel + 1, ⟨intersections, (p, born) :: rest, status⟩ =>
    match sweepStep sqrt intersections p born rest status with
    | none => none
    | some s => sweepLoop sqrt fuel s

/-- Lines 424-509 of `circleIntersect`: the queue is filled and the loop runs, with a bound
on the number of passes; the state at the `return` statement of line 510. -/
def eventLoop (sqrt : F → F) (fuel : Nat) (circles : List (Circle F)) : Option (Sweep F) :=
  sweepLoop sqrt fuel ⟨[], seedEvents [] 0 circles, RBTree.empty⟩

/-- `destroyRecursive` (lines 241-247) on a subtree: how often `delete` is called on the
sentinel `nil`.  The test `if (node)` is true of the sentinel, whose own children are null
pointers, so every link to `nil` deletes it once, after the two subtrees of a real node. -/
def Node.destroyRecursive : Node κ → Nat
  | .nil => 1
  | .node _ _ left right => left.destroyRecursive + right.destroyRecursive

/-- The destructor `~RBTree` (hpp line 88), `destroyRecursive(root)`: `none` when the
sentinel is deleted more than once (undefined behaviour), which is so whenever the tree has
a real node. -/
def RBTree.destroy (t : RBTree κ) : Option Unit :=
  if t.root.destroyRecursive ≤ 1 then some () else none

/-- `circleIntersect` (lines 422-511) with a bound on the number of passes of the loop: the
list `intersections` of line 510, returned after the destructor of the local `status` has
run. -/
def circleIntersect (sqrt : F → F) (fuel : Nat) (circles : List (Circle F)) :
    Option (List (Point F)) :=
  match eventLoop sqrt fuel circles with
  | none => none
  | some s =>
    match s.status.destroy with
    | none => none
    | some _ => some s.intersections

/-! ## Auxiliary definitions: the place of a node in the in-order sequence -/

/-- The keys that stand before the key of the node a pointer points to, in order (for the
sentinel: before the place of the sentinel). -/
def Loc.before : Loc κ → List κ
  | ⟨path, .nil⟩ => path.before
  | ⟨path, .node _ _ l _⟩ => path.before ++ l.inorder

/-- The keys that stand after the key of the node a pointer points to, in order. -/
def Loc.after : Loc κ → List κ
  | ⟨path, .nil⟩ => path.after
  | ⟨path, .node _ _ _ r⟩ => r.inorder ++ path.after

/-! ## Auxiliary definitions for the proofs about the sweep -/

/-- The arc objects stored in the event queue, in the order of the queue. -/
def Events.arcs : Events F → List (ArcPtr F)
  | [] => []
  | (_, v) :: rest => v ++ Events.arcs rest

/-- The keys of the queue ascend strictly (the queue is a `std::map`). -/
def Events.sorted (ev : Events F) : Prop :=
  ev.Pairwise fun a b => Point.lt a.1 b.1 = true

/-- The arc object belongs to the circle at the position `addr / 2` of the input. -/
def ArcPtr.ofInput (circles : List (Circle F)) (a : ArcPtr F) : Prop :=
  circles[a.addr / 2]? = some a.arc.circle

/-- The point `q` passes the test `Arc::contains` for an arc of each of two circles that
stand at different positions of the input. -/
def NearTwoCircles (sqrt : F → F) (circles : List (Circle F)) (q : Point F) : Prop :=
  ∃ (i j : Nat) (ci cj : Circle F) (bi bj : Bool), i ≠ j ∧ circles[i]? = some ci ∧ circles[j]? = some cj ∧
    Arc.contains sqrt ⟨ci, bi⟩ q = true ∧ Arc.contains sqrt ⟨cj, bj⟩ q = true

/-- What holds of the state of the sweep between two passes of the loop: the points
reported so far are near two circles, every arc object in the queue or in the status
belongs to its circle of the input, an arc object in the queue is stored under the leftmost
point of its circle, and no arc object is stored twice. -/
structure SweepInv (sqrt : F → F) (circles : List (Circle F)) (s : Sweep F) : Prop where
  reported : ∀ q ∈ s.intersections, NearTwoCircles sqrt circles q
  queued : ∀ e ∈ s.events, ∀ a ∈ e.2, a.ofInput circles ∧ a.arc.circle.begin = e.1
  stored : ∀ a ∈ s.status.root.inorder, a.ofInput circles
  distinct : ((s.status.root.inorder ++ s.events.arcs).map fun a => a.addr).Nodup

/-! ## Auxiliary definitions for the proof of termination -/

/-- The leftmost and the rightmost points of the circles of a list. -/
def endpoints : List (Circle F) → List (Point F)
  | [] => []
  | c :: cs => c.begin :: c.end_ :: endpoints cs

/-- The points `Circle::intersect` returns for a circle and the circles of a list. -/
def crossingsWith (sqrt : F → F) (a : Circle F) : List (Circle F) → List (Point F)
  | [] => []
  | b :: bs => a.intersect sqrt b ++ crossingsWith sqrt a bs

/-- The points `Circle::intersect` returns for the circles of a list and the circles of
`all`. -/
def crossings (sqrt : F → F) (all : List (Circle F)) : List (Circle F) → List (Point F)
  | [] => []
  | a :: rest => crossingsWith sqrt a all ++ crossings sqrt all rest

/-- The points that can become keys of the event queue for an input. -/
def candidates (sqrt : F → F) (circles : List (Circle F)) : List (Point F) :=
  endpoints circles ++ crossings sqrt circles circles

/-- What holds of the state of the sweep between two passes of the loop, as far as the
passes need it to go through: the status is a red-black tree, the keys of the queue ascend
and are candidate points, every arc object belongs to its circle of the input, and no arc
object is stored twice. -/
structure SweepWF (sqrt : F → F) (circles : List (Circle F)) (s : Sweep F) : Prop where
  balanced : s.status.invariant
  sorted : s.events.sorted
  keys : ∀ e ∈ s.events, e.1 ∈ candidates sqrt circles
  queued : ∀ e ∈ s.events, ∀ a ∈ e.2, a.ofInput circles
  stored : ∀ a ∈ s.status.root.inorder, a.ofInput circles
  distinct : ((s.status.root.inorder ++ s.events.arcs).map fun a => a.addr).Nodup

/-- The radicand of `h` in `Circle::intersect`, factored. -/
theorem radicand_eq (r1 r2 d : ℝ) (hd : d ≠ 0) :
    r1 * r1 - ((r1 * r1 + d * d - r2 * r2) / (2 * d)) * ((r1 * r1 + d * d - r2 * r2) / (2 * d))
      = (r1 + r2 - d) * (r2 + d - r1) * (d + r1 - r2) * (d + r1 + r2) / (4 * (d * d)) := by
  field_simp
  ring

theorem distance_nonneg (a b : Point ℝ) : 0 ≤ a.distance Real.sqrt b := Real.sqrt_nonneg _

theorem distance_sq (a b : Point ℝ) :
    a.distance Real.sqrt b * a.distance Real.sqrt b
      = (a.x - b.x) * (a.x - b.x) + (a.y - b.y) * (a.y - b.y) := by
  unfold Point.distance
  exact Real.mul_self_sqrt (add_nonneg (mul_self_nonneg _) (mul_self_nonneg _))

theorem distance_eq_zero_iff (a b : Point ℝ) : a.distance Real.sqrt b = 0 ↔ a = b := by
  unfold Point.distance
  rw [Real.sqrt_eq_zero (add_nonneg (mul_self_nonneg _) (mul_self_nonneg _))]
  constructor
  · intro h
    have h1 : a.x - b.x = 0 := by nlinarith [mul_self_nonneg (a.x - b.x), mul_self_nonneg (a.y - b.y)]
    have h2 : a.y - b.y = 0 := by nlinarith [mul_self_nonneg (a.x - b.x), mul_self_nonneg (a.y - b.y)]
    cases a; cases b; simp at *; constructor <;> linarith
  · rintro rfl; simp

/-- The three cases of `Circle::intersect` by the distance of the centres. -/
theorem intersect_cases (c1 c2 : Circle ℝ)
    (h1 : 0 ≤ c1.radius) (h2 : 0 ≤ c2.radius) :
    ((c1.center.distance Real.sqrt c2.center = 0
        ∨ c1.center.distance Real.sqrt c2.center > c1.radius + c2.radius
        ∨ c1.center.distance Real.sqrt c2.center < |c1.radius - c2.radius|) →
      c1.intersect Real.sqrt c2 = []) ∧
    (c1.center.distance Real.sqrt c2.center ≠ 0 →
      (c1.center.distance Real.sqrt c2.center = c1.radius + c2.radius
        ∨ c1.center.distance Real.sqrt c2.center = |c1.radius - c2.radius|) →
      ∃ p, c1.intersect Real.sqrt c2 = [p]) ∧
    (¬ (c1.center.distance Real.sqrt c2.center = 0
        ∨ c1.center.distance Real.sqrt c2.center > c1.radius + c2.radius
        ∨ c1.center.distance Real.sqrt c2.center < |c1.radius - c2.radius|) →
      ¬ (c1.center.distance Real.sqrt c2.center = c1.radius + c2.radius
        ∨ c1.center.distance Real.sqrt c2.center = |c1.radius - c2.radius|) →
      ∃ p q, p ≠ q ∧ c1.intersect Real.sqrt c2 = [p, q]) := by
  obtain ⟨⟨x1, y1⟩, r1⟩ := c1
  obtain ⟨⟨x2, y2⟩, r2⟩ := c2
  simp only at h1 h2 ⊢
  generalize hd : Point.distance Real.sqrt (⟨x1, y1⟩ : Point ℝ) ⟨x2, y2⟩ = d
  have hd0 : 0 ≤ d := hd ▸ distance_nonneg _ _
  have hdd : d * d = (x1 - x2) * (x1 - x2) + (y1 - y2) * (y1 - y2) := hd ▸ distance_sq _ _
  refine ⟨?_, ?_, ?_⟩
  · rintro (h | h | h)
    · simp [Circle.intersect, hd, h]
    · simp only [Circle.intersect, hd]
      split_ifs <;> first | rfl | (exfalso; tauto)
    · simp only [Circle.intersect, hd]
      split_ifs <;> first | rfl | (exfalso; tauto)
  · intro hne htan
    have hrad : r1 * r1 - ((r1 * r1 + d * d - r2 * r2) / (2 * d)) * ((r1 * r1 + d * d - r2 * r2) / (2 * d)) = 0 := by
      rw [radicand_eq r1 r2 d hne]
      rcases htan with h | h
      · rw [h]; simp
      · rcases abs_cases (r1 - r2) with ⟨ha, _⟩ | ⟨ha, _⟩
        · rw [h, ha]; simp
        · rw [h, ha]; simp
    have hguard : ¬ (r1 + r2 < d ∨ d < |r1 - r2|) := by
      rcases htan with h | h
      · have : |r1 - r2| ≤ r1 + r2 := by rw [abs_le]; constructor <;> linarith
        rw [h]; push_neg; exact ⟨le_refl _, this⟩
      · have : |r1 - r2| ≤ r1 + r2 := by rw [abs_le]; constructor <;> linarith
        rw [h]; push_neg; exact ⟨this, le_refl _⟩
    simp only [Circle.intersect, hd, if_neg hne, if_neg hguard, hrad, Real.sqrt_zero, if_true]
    exact ⟨_, rfl⟩
  · intro hno hnt
    push_neg at hno hnt
    obtain ⟨hne, hle, hge⟩ := hno
    obtain ⟨hn1, hn2⟩ := hnt
    have hlt1 : d < r1 + r2 := lt_of_le_of_ne hle hn1
    have hlt2 : |r1 - r2| < d := lt_of_le_of_ne hge (Ne.symm hn2)
    have hdpos : 0 < d := lt_of_le_of_ne hd0 (Ne.symm hne)
    obtain ⟨ha1, ha2⟩ := abs_lt.1 hlt2
    have hrad : 0 < r1 * r1 - ((r1 * r1 + d * d - r2 * r2) / (2 * d)) * ((r1 * r1 + d * d - r2 * r2) / (2 * d)) := by
      rw [radicand_eq r1 r2 d hne]
      apply div_pos
      · apply mul_pos (mul_pos (mul_pos _ _) _) _ <;> linarith
      · positivity
    have hh : Real.sqrt (r1 * r1 - ((r1 * r1 + d * d - r2 * r2) / (2 * d)) * ((r1 * r1 + d * d - r2 * r2) / (2 * d))) ≠ 0 :=
      ne_of_gt (Real.sqrt_pos.2 hrad)
    have hguard : ¬ (r1 + r2 < d ∨ d < |r1 - r2|) := by
      push_neg; exact ⟨hle, hge⟩
    simp only [Circle.intersect, hd, if_neg hne, if_neg hguard, if_neg hh]
    refine ⟨_, _, ?_, rfl⟩
    intro heq
    simp only [Point.add, Point.sub, Point.scale, Point.turn, Point.mk.injEq] at heq
    obtain ⟨e1, e2⟩ := heq
    have hq : Real.sqrt (r1 * r1 - ((r1 * r1 + d * d - r2 * r2) / (2 * d)) * ((r1 * r1 + d * d - r2 * r2) / (2 * d))) / d ≠ 0 :=
      div_ne_zero hh hne
    have e1' : y2 - y1 = 0 := by
      have : Real.sqrt (r1 * r1 - ((r1 * r1 + d * d - r2 * r2) / (2 * d)) * ((r1 * r1 + d * d - r2 * r2) / (2 * d))) / d * (y2 - y1) = 0 := by linarith
      rcases mul_eq_zero.1 this with h | h
      · exact absurd h hq
      · exact h
    have e2' : x2 - x1 = 0 := by
      have : Real.sqrt (r1 * r1 - ((r1 * r1 + d * d - r2 * r2) / (2 * d)) * ((r1 * r1 + d * d - r2 * r2) / (2 * d))) / d * (x2 - x1) = 0 := by linarith
      rcases mul_eq_zero.1 this with h | h
      · exact absurd h hq
      · exact h
    have : d * d = 0 := by rw [hdd]; nlinarith
    exact hne (mul_self_eq_zero.1 this)

theorem distance_eq_iff (a b : Point ℝ) (r : ℝ) (hr : 0 ≤ r) :
    a.distance Real.sqrt b = r ↔ (a.x - b.x) * (a.x - b.x) + (a.y - b.y) * (a.y - b.y) = r * r := by
  constructor
  · intro h; rw [← h, distance_sq]
  · intro h
    unfold Point.distance
    rw [h, Real.sqrt_mul_self hr]

/-- no common point when the guard of line 20 returns -/
theorem no_common_point (X Y ux uy r1 r2 d : ℝ) (hr1 : 0 ≤ r1) (hr2 : 0 ≤ r2) (hd : 0 < d)
    (hdd : d * d = X * X + Y * Y)
    (e1 : ux * ux + uy * uy = r1 * r1) (e2 : (ux - X) * (ux - X) + (uy - Y) * (uy - Y) = r2 * r2) :
    d ≤ r1 + r2 ∧ |r1 - r2| ≤ d := by
  have hdot : 2 * (ux * X + uy * Y) = r1 * r1 + d * d - r2 * r2 := by nlinarith
  have hcs : (ux * X + uy * Y) * (ux * X + uy * Y) ≤ (r1 * r1) * (d * d) := by
    rw [← e1, hdd]; nlinarith [mul_self_nonneg (ux * Y - uy * X)]
  have hprod : (d - r1 - r2) * (d - r1 + r2) * (d + r1 - r2) * (d + r1 + r2) ≤ 0 := by
    nlinarith
  constructor
  · by_contra hlt
    push_neg at hlt
    have : 0 < (d - r1 - r2) * (d - r1 + r2) * (d + r1 - r2) * (d + r1 + r2) := by
      apply mul_pos (mul_pos (mul_pos _ _) _) _ <;> linarith
    linarith
  · by_contra hlt
    push_neg at hlt
    rcases abs_cases (r1 - r2) with ⟨ha, _⟩ | ⟨ha, _⟩
    · rw [ha] at hlt
      have : 0 < (r1 + r2 - d) * (r1 - r2 - d) * (d + r1 - r2) * (d + r1 + r2) := by
        apply mul_pos (mul_pos (mul_pos _ _) _) _ <;> linarith
      nlinarith
    · rw [ha] at hlt
      have : 0 < (r1 + r2 - d) * (d - r1 + r2) * (r2 - r1 - d) * (d + r1 + r2) := by
        apply mul_pos (mul_pos (mul_pos _ _) _) _ <;> linarith
      nlinarith

/-- `Circle::intersect` returns the common points of the two circles. -/
theorem intersect_mem_iff (c1 c2 : Circle ℝ) (h1 : 0 ≤ c1.radius) (h2 : 0 ≤ c2.radius)
    (hc : c1.center ≠ c2.center) (q : Point ℝ) :
    q ∈ c1.intersect Real.sqrt c2 ↔
      q.distance Real.sqrt c1.center = c1.radius ∧ q.distance Real.sqrt c2.center = c2.radius := by
  obtain ⟨⟨x1, y1⟩, r1⟩ := c1
  obtain ⟨⟨x2, y2⟩, r2⟩ := c2
  obtain ⟨qx, qy⟩ := q
  simp only at h1 h2 hc ⊢
  rw [distance_eq_iff _ _ _ h1, distance_eq_iff _ _ _ h2]
  simp only
  have hne : Point.distance Real.sqrt (⟨x1, y1⟩ : Point ℝ) ⟨x2, y2⟩ ≠ 0 := by
    rw [Ne, distance_eq_zero_iff]; exact hc
  generalize hd : Point.distance Real.sqrt (⟨x1, y1⟩ : Point ℝ) ⟨x2, y2⟩ = d at hne
  have hd0 : 0 ≤ d := hd ▸ distance_nonneg _ _
  have hdd : d * d = (x1 - x2) * (x1 - x2) + (y1 - y2) * (y1 - y2) := hd ▸ distance_sq _ _
  have hdpos : 0 < d := lt_of_le_of_ne hd0 (Ne.symm hne)
  clear hc
  obtain ⟨X, rfl⟩ : ∃ X, x2 = x1 + X := ⟨x2 - x1, by ring⟩
  obtain ⟨Y, rfl⟩ : ∃ Y, y2 = y1 + Y := ⟨y2 - y1, by ring⟩
  obtain ⟨ux, rfl⟩ : ∃ ux, qx = x1 + ux := ⟨qx - x1, by ring⟩
  obtain ⟨uy, rfl⟩ : ∃ uy, qy = y1 + uy := ⟨qy - y1, by ring⟩
  have hdd' : d * d = X * X + Y * Y := by rw [hdd]; ring
  have s1 : x1 + ux - x1 = ux := by ring
  have s2 : y1 + uy - y1 = uy := by ring
  have s3 : x1 + ux - (x1 + X) = ux - X := by ring
  have s4 : y1 + uy - (y1 + Y) = uy - Y := by ring
  have s5 : x1 + X - x1 = X := by ring
  have s6 : y1 + Y - y1 = Y := by ring
  rw [s1, s2, s3, s4]
  by_cases hguard : r1 + r2 < d ∨ d < |r1 - r2|
  · simp only [Circle.intersect, hd, if_neg hne, if_pos hguard, List.not_mem_nil, false_iff]
    rintro ⟨e1, e2⟩
    have := no_common_point X Y ux uy r1 r2 d h1 h2 hdpos hdd' e1 e2
    rcases hguard with h | h
    · linarith [this.1]
    · linarith [this.2]
  · have hg := hguard
    push_neg at hg
    obtain ⟨hle, hge⟩ := hg
    obtain ⟨ha1, ha2⟩ := abs_le.1 hge
    have hrad : 0 ≤ r1 * r1 - ((r1 * r1 + d * d - r2 * r2) / (2 * d)) * ((r1 * r1 + d * d - r2 * r2) / (2 * d)) := by
      rw [radicand_eq r1 r2 d hne]
      apply div_nonneg
      · apply mul_nonneg (mul_nonneg (mul_nonneg _ _) _) _ <;> linarith
      · positivity
    have had : 2 * ((r1 * r1 + d * d - r2 * r2) / (2 * d) * d) = r1 * r1 + d * d - r2 * r2 := by
      field_simp; ring
    simp only [Circle.intersect, hd, if_neg hne, if_neg hguard, Point.add, Point.sub,
      Point.scale, Point.turn, s5, s6]
    generalize (r1 * r1 + d * d - r2 * r2) / (2 * d) = a at hrad had
    generalize hh : Real.sqrt (r1 * r1 - a * a) = h
    have hh0 : 0 ≤ h := hh ▸ Real.sqrt_nonneg _
    have hhh : h * h = r1 * r1 - a * a := hh ▸ Real.mul_self_sqrt hrad
    -- the scaled coordinates
    have hAd : a / d * d = a := by field_simp
    have hHd : h / d * d = h := by field_simp
    have hH0 : h = 0 → h / d = 0 := by intro hz; rw [hz]; simp
    have hHd' : ∀ v : ℝ, v / d * d = v := by intro v; field_simp
    generalize a / d = A at hAd
    generalize hHdef : h / d = H at hHd hH0
    have key1 : (A * A + H * H) * (d * d) = r1 * r1 := by
      have : (A * d) * (A * d) + (H * d) * (H * d) = r1 * r1 := by rw [hAd, hHd, hhh]; ring
      linarith [this]
    have key2 : 2 * (A * (d * d)) = r1 * r1 + d * d - r2 * r2 := by
      rw [← had, ← hAd]; ring
    constructor
    · intro hmem
      have hcase : (ux = A * X + H * -Y ∧ uy = A * Y + H * X)
          ∨ (ux = A * X - H * -Y ∧ uy = A * Y - H * X) := by
        split_ifs at hmem with hz
        · have hH0 : H = 0 := hH0 hz
          simp only [List.mem_singleton, Point.mk.injEq] at hmem
          left; rw [hH0]; constructor <;> linarith [hmem.1, hmem.2]
        · simp only [List.mem_cons, Point.mk.injEq, List.mem_singleton, List.not_mem_nil, or_false] at hmem
          rcases hmem with ⟨e1, e2⟩ | ⟨e1, e2⟩
          · left; constructor <;> linarith
          · right; constructor <;> linarith
      rcases hcase with ⟨ex, ey⟩ | ⟨ex, ey⟩
      · subst ex ey
        constructor
        · linear_combination key1 - (A * A + H * H) * hdd'
        · linear_combination key1 - key2 - ((A - 1) * (A - 1) + H * H) * hdd'
      · subst ex ey
        constructor
        · linear_combination key1 - (A * A + H * H) * hdd'
        · linear_combination key1 - key2 - ((A - 1) * (A - 1) + H * H) * hdd'
    · rintro ⟨e1, e2⟩
      have hdot : ux * X + uy * Y = a * d := by
        rw [← hAd]
        linear_combination (1 / 2) * e1 - (1 / 2) * e2 - (1 / 2) * key2 - (1 / 2) * hdd'
      have hv : (uy * X - ux * Y - h * d) * (uy * X - ux * Y + h * d) = 0 := by
        have e : (uy * X - ux * Y) * (uy * X - ux * Y)
            = (ux * ux + uy * uy) * (X * X + Y * Y) - (ux * X + uy * Y) * (ux * X + uy * Y) := by ring
        have : (uy * X - ux * Y) * (uy * X - ux * Y) = (h * d) * (h * d) := by
          rw [e, e1, ← hdd', hdot]
          linear_combination (-(d * d)) * hhh
        linear_combination this
      have hxx : ∀ v : ℝ, uy * X - ux * Y = v * d →
          ux = A * X - (v / d) * Y ∧ uy = A * Y + (v / d) * X := by
        intro v hvv
        have hvd : v / d * d = v := hHd' v
        generalize v / d = V at hvd
        have hddne : d * d ≠ 0 := mul_ne_zero hne hne
        constructor
        · apply mul_left_cancel₀ hddne
          rw [← hvd] at hvv
          have e : d * d * ux = (ux * X + uy * Y) * X - (uy * X - ux * Y) * Y := by
            rw [hdd']; ring
          rw [e, hdot, hvv, ← hAd]; ring
        · apply mul_left_cancel₀ hddne
          rw [← hvd] at hvv
          have e : d * d * uy = (ux * X + uy * Y) * Y + (uy * X - ux * Y) * X := by
            rw [hdd']; ring
          rw [e, hdot, hvv, ← hAd]; ring
      have hHd' : h / d = H := hHdef
      rcases mul_eq_zero.1 hv with hv1 | hv2
      · have := hxx h (by linarith)
        rw [hHd'] at this
        split_ifs with hz
        · rw [hH0 hz] at this
          simp only [List.mem_singleton, Point.mk.injEq]
          constructor <;> linarith [this.1, this.2]
        · simp only [List.mem_cons, Point.mk.injEq, List.mem_singleton, List.not_mem_nil, or_false]
          left; constructor <;> linarith [this.1, this.2]
      · have := hxx (-h) (by linarith)
        rw [neg_div, hHd'] at this
        split_ifs with hz
        · rw [hH0 hz] at this
          simp only [List.mem_singleton, Point.mk.injEq]
          constructor <;> linarith [this.1, this.2]
        · simp only [List.mem_cons, Point.mk.injEq, List.mem_singleton, List.not_mem_nil, or_false]
          right; constructor <;> linarith [this.1, this.2]

@[simp]
theorem Node.color_nil : (Node.nil : Node κ).color = .BLACK := rfl
@[simp]
theorem Node.color_node (k : κ) (c l r) : (Node.node k c l r).color = c := rfl
@[simp]
theorem Path.color_root : (Path.root : Path κ).color = .BLACK := rfl
@[simp]
theorem Path.color_left (pp : Path κ) (k c r) : (Path.left pp k c r).color = c := rfl
@[simp]
theorem Path.color_right (pp : Path κ) (k c l) : (Path.right pp k c l).color = c := rfl
@[simp]
theorem Node.setColor_nil (c : Color) : (Node.nil : Node κ).setColor c = .nil := rfl
@[simp]
theorem Node.setColor_node (c' : Color) (k : κ) (c l r) :
    (Node.node k c l r).setColor c' = .node k c' l r := rfl

theorem Color.ne_red {c : Color} : c ≠ .RED ↔ c = .BLACK := by cases c <;> simp
theorem Color.ne_black {c : Color} : c ≠ .BLACK ↔ c = .RED := by cases c <;> simp

theorem fill_noRedRed (path : Path κ) (t : Node κ) :
    (path.fill t).noRedRed ↔ path.noRedRed ∧ t.noRedRed ∧ (path.color = .RED → t.color = .BLACK) := by
  induction path generalizing t with
  | root => simp [Path.fill, Path.noRedRed, Path.color]
  | left pp k c r ih =>
    simp only [Path.fill, ih, Node.noRedRed, Path.noRedRed, Path.color_left, Path.color_right,
      Node.color_node]
    cases c <;> cases hp : pp.color <;> simp <;> tauto
  | right pp k c l ih =>
    simp only [Path.fill, ih, Node.noRedRed, Path.noRedRed, Path.color_left, Path.color_right,
      Node.color_node]
    cases c <;> cases hp : pp.color <;> simp <;> tauto

theorem fill_balanced (path : Path κ) (t : Node κ) :
    (path.fill t).balanced ↔ t.balanced ∧ path.balanced t.blackHeight := by
  induction path generalizing t with
  | root => simp [Path.fill, Path.balanced]
  | left pp k c r ih =>
    simp only [Path.fill, ih, Node.balanced, Path.balanced, Node.blackHeight]
    constructor
    · rintro ⟨⟨h1, h2, h3⟩, h4⟩; exact ⟨h2, h1.symm, h3, h4⟩
    · rintro ⟨h2, h1, h3, h4⟩; exact ⟨⟨h1.symm, h2, h3⟩, h4⟩
  | right pp k c l ih =>
    simp only [Path.fill, ih, Node.balanced, Path.balanced, Node.blackHeight]
    constructor
    · rintro ⟨⟨h1, h2, h3⟩, h4⟩; exact ⟨h3, h1, h2, h1 ▸ h4⟩
    · rintro ⟨h2, h1, h3, h4⟩; exact ⟨⟨h1, h3, h2⟩, h1 ▸ h4⟩

theorem rootBlack_left {pp : Path κ} {k c r} (h : (Path.left pp k c r).rootBlack) : pp.rootBlack := by
  cases pp <;> simp_all [Path.rootBlack]

theorem rootBlack_right {pp : Path κ} {k c l} (h : (Path.right pp k c l).rootBlack) : pp.rootBlack := by
  cases pp <;> simp_all [Path.rootBlack]

/-- the colour of the root of a filled path -/
theorem fill_color (path : Path κ) (t : Node κ) (h : path.rootBlack) (ht : path = .root → t.color = .BLACK) :
    (path.fill t).color = .BLACK := by
  induction path generalizing t with
  | root => simpa [Path.fill] using ht
  | left pp k c r ih =>
    simp only [Path.fill]
    apply ih _ (rootBlack_left h)
    intro hpp; subst hpp; simpa [Path.rootBlack] using h
  | right pp k c l ih =>
    simp only [Path.fill]
    apply ih _ (rootBlack_right h)
    intro hpp; subst hpp; simpa [Path.rootBlack] using h

theorem fill_rootBlack (path : Path κ) (t : Node κ) (h : (path.fill t).color = .BLACK) (hp : path ≠ .root) :
    path.rootBlack := by
  induction path generalizing t with
  | root => exact absurd rfl hp
  | left pp k c r ih =>
    simp only [Path.fill] at h
    cases pp with
    | root => simpa [Path.rootBlack, Path.fill] using h
    | left _ _ _ _ => simpa [Path.rootBlack] using ih _ h (by simp)
    | right _ _ _ _ => simpa [Path.rootBlack] using ih _ h (by simp)
  | right pp k c l ih =>
    simp only [Path.fill] at h
    cases pp with
    | root => simpa [Path.rootBlack, Path.fill] using h
    | left _ _ _ _ => simpa [Path.rootBlack] using ih _ h (by simp)
    | right _ _ _ _ => simpa [Path.rootBlack] using ih _ h (by simp)

theorem blackHeight_mem_blackCounts (t : Node κ) : t.blackHeight ∈ t.blackCounts := by
  induction t with
  | nil => simp [Node.blackHeight, Node.blackCounts]
  | node k c l r ihl ihr =>
    simp only [Node.blackHeight, Node.blackCounts, List.mem_map, List.mem_append]
    exact ⟨_, Or.inl ihl, rfl⟩

theorem blackCounts_of_balanced (t : Node κ) (h : t.balanced) :
    ∀ a ∈ t.blackCounts, a = t.blackHeight := by
  induction t with
  | nil => simp [Node.blackHeight, Node.blackCounts]
  | node k c l r ihl ihr =>
    obtain ⟨h1, h2, h3⟩ := h
    intro a ha
    simp only [Node.blackCounts, List.mem_map, List.mem_append] at ha
    obtain ⟨b, hb | hb, rfl⟩ := ha
    · simp [Node.blackHeight, ihl h2 b hb]
    · simp [Node.blackHeight, ihr h3 b hb, h1]

theorem self_mem_subtrees (t : Node κ) : t ∈ t.subtrees := by
  cases t <;> simp [Node.subtrees]

theorem balanced_subtrees (t : Node κ) (h : t.balanced) : ∀ m ∈ t.subtrees, m.balanced := by
  induction t with
  | nil => intro m hm; simp [Node.subtrees] at hm; subst hm; trivial
  | node k c l r ihl ihr =>
    intro m hm
    simp only [Node.subtrees, List.mem_cons, List.mem_append] at hm
    rcases hm with rfl | hm | hm
    · exact h
    · exact ihl h.2.1 m hm
    · exact ihr h.2.2 m hm

theorem balanced_iff_paths (t : Node κ) :
    t.balanced ↔ ∀ n ∈ t.subtrees, ∀ a ∈ n.blackCounts, ∀ b ∈ n.blackCounts, a = b := by
  induction t with
  | nil => simp [Node.balanced, Node.subtrees, Node.blackCounts]
  | node k c l r ihl ihr =>
    constructor
    · intro h n hn a ha b hb
      have hbal := balanced_subtrees _ h
      rw [blackCounts_of_balanced n (hbal n hn) a ha, blackCounts_of_balanced n (hbal n hn) b hb]
    · intro h
      refine ⟨?_, ihl.2 ?_, ihr.2 ?_⟩
      · have h1 := h _ (self_mem_subtrees _) (l.blackHeight + (if c = .BLACK then 1 else 0))
          (by simp only [Node.blackCounts, List.mem_map, List.mem_append]
              exact ⟨_, Or.inl (blackHeight_mem_blackCounts l), rfl⟩)
          (r.blackHeight + (if c = .BLACK then 1 else 0))
          (by simp only [Node.blackCounts, List.mem_map, List.mem_append]
              exact ⟨_, Or.inr (blackHeight_mem_blackCounts r), rfl⟩)
        omega
      · intro n hn; exact h n (by simp [Node.subtrees, hn])
      · intro n hn; exact h n (by simp [Node.subtrees, hn])

/-- The invariant in the form the proofs use. -/
theorem invariant_iff (t : RBTree κ) :
    t.invariant ↔ t.root.color = .BLACK ∧ t.root.noRedRed ∧ t.root.balanced := by
  simp only [RBTree.invariant, ← balanced_iff_paths, Node.color_nil, true_and]

theorem setColor_noRedRed (t : Node κ) (h : t.noRedRed) : (t.setColor .BLACK).noRedRed := by
  cases t <;> simp_all [Node.noRedRed]

theorem setColor_balanced (t : Node κ) (c : Color) (h : t.balanced) : (t.setColor c).balanced := by
  cases t <;> simp_all [Node.balanced]

theorem setColor_color (t : Node κ) : (t.setColor .BLACK).color = .BLACK := by
  cases t <;> simp

theorem blackenRoot_invariant (t : Node κ) (h1 : t.noRedRed) (h2 : t.balanced) :
    (blackenRoot t).invariant := by
  rw [invariant_iff]
  exact ⟨setColor_color t, setColor_noRedRed t h1, setColor_balanced t _ h2⟩

theorem color_black_of_not_red (u : Node κ)
    (h : ∀ (uk : κ) (ul ur : Node κ), u = Node.node uk Color.RED ul ur → False) : u.color = .BLACK := by
  cases u with
  | nil => rfl
  | node k c l r => cases c with
    | RED => exact (h k l r rfl).elim
    | BLACK => rfl

theorem fill_ok (p : Path κ) (t : Node κ) (n : Nat) (hp1 : p.noRedRed) (hp2 : p.balanced n)
    (ht : t.noRedRed) (htb : t.balanced) (hbh : t.blackHeight = n)
    (hc : p.color = .RED → t.color = .BLACK) :
    (p.fill t).noRedRed ∧ (p.fill t).balanced :=
  ⟨(fill_noRedRed p t).2 ⟨hp1, ht, hc⟩, (fill_balanced p t).2 ⟨htb, hbh ▸ hp2⟩⟩

theorem red_is_node (z : Node κ) (hz : z.color = .RED) : ∃ k l r, z = .node k .RED l r := by
  cases z with
  | nil => simp at hz
  | node k c l r => simp at hz; subst hz; exact ⟨_, _, _, rfl⟩

set_option maxHeartbeats 4000000 in
theorem insertFixup_invariant (path : Path κ) (z : Node κ)
    (hz : z.color = .RED) (hz1 : z.noRedRed) (hz2 : z.balanced)
    (hp1 : path.noRedRed) (hp2 : path.balanced z.blackHeight) (hp3 : path.rootBlack) :
    ∃ t, insertFixup path z = some t ∧ t.invariant := by
  induction path, z using insertFixup.induct with
  | case1 z => exact ⟨_, by simp [insertFixup], blackenRoot_invariant _ hz1 hz2⟩
  | case2 pp pk s z =>
    have := fill_ok (Path.left pp pk .BLACK s) z _ hp1 hp2 hz1 hz2 rfl (by simp)
    exact ⟨_, by rw [insertFixup]; rfl, blackenRoot_invariant _ this.1 this.2⟩
  | case3 pp pk s z =>
    have := fill_ok (Path.right pp pk .BLACK s) z _ hp1 hp2 hz1 hz2 rfl (by simp)
    exact ⟨_, by rw [insertFixup]; rfl, blackenRoot_invariant _ this.1 this.2⟩
  | case4 k r x => simp [Path.rootBlack] at hp3
  | case5 k l x => simp [Path.rootBlack] at hp3
  | case6 gp gk gc pk s z uk ul ur ih =>
    rw [insertFixup]
    simp only [Path.noRedRed, Path.balanced, Node.noRedRed, Node.balanced, Node.blackHeight,
      Path.color_left, Path.color_right, Node.color_node] at hp1 hp2 ih ⊢
    have hgc : gc = .BLACK := by tauto
    subst hgc
    apply ih
    all_goals first
      | trivial
      | exact rootBlack_left (rootBlack_left hp3)
      | tauto
      | omega
      | (simp_all; done)
      | (simp_all; omega)
  | case7 gp gk gc uncle pk s z hu =>
    have hub := color_black_of_not_red uncle hu
    rw [insertFixup]
    · simp only [rightRotate, Option.map_some', Loc.tree, Path.fill]
      simp only [Path.noRedRed, Path.balanced, Node.noRedRed, Node.balanced, Node.blackHeight,
        Path.color_left, Path.color_right, Node.color_node] at hp1 hp2 ⊢
      have hgc : gc = .BLACK := by tauto
      subst hgc
      have := fill_ok gp (.node pk .BLACK z (.node gk .RED s uncle)) (z.blackHeight + 1)
        (by tauto) (by simp_all) (by simp_all [Node.noRedRed]) (by simp_all [Node.balanced, Node.blackHeight])
        (by simp [Node.blackHeight]) (by simp)
      exact ⟨_, rfl, blackenRoot_invariant _ this.1 this.2⟩
    · exact hu
  | case8 gp gk gc pk s z uk ul ur ih =>
    rw [insertFixup]
    simp only [Path.noRedRed, Path.balanced, Node.noRedRed, Node.balanced, Node.blackHeight,
      Path.color_left, Path.color_right, Node.color_node] at hp1 hp2 ih ⊢
    have hgc : gc = .BLACK := by tauto
    subst hgc
    apply ih
    all_goals first
      | trivial
      | exact rootBlack_left (rootBlack_right hp3)
      | tauto
      | omega
      | (simp_all; done)
      | (simp_all; omega)
  | case9 gp gk gc uncle pk s z gp2 gk2 c2 u2 pk2 c3 s2 z2 hrot hu =>
    have hub := color_black_of_not_red uncle hu
    obtain ⟨zk, zl, zr, rfl⟩ := red_is_node z hz
    rw [insertFixup]
    · simp only [leftRotate, rightRotate, Option.map_some', Loc.tree, Path.fill]
      simp only [Path.noRedRed, Path.balanced, Node.noRedRed, Node.balanced, Node.blackHeight,
        Path.color_left, Path.color_right, Node.color_node] at hp1 hp2 hz1 hz2 ⊢
      have hgc : gc = .BLACK := by tauto
      subst hgc
      have := fill_ok gp (.node zk .BLACK (.node pk .RED s zl) (.node gk .RED zr uncle))
        (zl.blackHeight + 1)
        (by tauto) (by simp_all) (by simp_all [Node.noRedRed])
        (by simp_all [Node.balanced, Node.blackHeight])
        (by simp_all [Node.blackHeight]) (by simp)
      exact ⟨_, rfl, blackenRoot_invariant _ this.1 this.2⟩
    · exact hu
  | case10 gp gk gc uncle pk s z hu hno =>
    obtain ⟨zk, zl, zr, rfl⟩ := red_is_node z hz
    exact (hno _ _ _ _ _ _ _ _ rfl).elim
  | case11 gp gk gc pk s z uk ul ur ih =>
    rw [insertFixup]
    simp only [Path.noRedRed, Path.balanced, Node.noRedRed, Node.balanced, Node.blackHeight,
      Path.color_left, Path.color_right, Node.color_node] at hp1 hp2 ih ⊢
    have hgc : gc = .BLACK := by tauto
    subst hgc
    apply ih
    all_goals first
      | trivial
      | exact rootBlack_right (rootBlack_right hp3)
      | tauto
      | omega
      | (simp_all; done)
      | (simp_all; omega)
  | case12 gp gk gc uncle pk s z hu =>
    have hub := color_black_of_not_red uncle hu
    rw [insertFixup]
    · simp only [leftRotate, Option.map_some', Loc.tree, Path.fill]
      simp only [Path.noRedRed, Path.balanced, Node.noRedRed, Node.balanced, Node.blackHeight,
        Path.color_left, Path.color_right, Node.color_node] at hp1 hp2 ⊢
      have hgc : gc = .BLACK := by tauto
      subst hgc
      have := fill_ok gp (.node pk .BLACK (.node gk .RED uncle s) z) (z.blackHeight + 1)
        (by tauto) (by simp_all) (by simp_all [Node.noRedRed]) (by simp_all [Node.balanced, Node.blackHeight])
        (by simp_all [Node.blackHeight]) (by simp)
      exact ⟨_, rfl, blackenRoot_invariant _ this.1 this.2⟩
    · exact hu
  | case13 gp gk gc pk s z uk ul ur ih =>
    rw [insertFixup]
    simp only [Path.noRedRed, Path.balanced, Node.noRedRed, Node.balanced, Node.blackHeight,
      Path.color_left, Path.color_right, Node.color_node] at hp1 hp2 ih ⊢
    have hgc : gc = .BLACK := by tauto
    subst hgc
    apply ih
    all_goals first
      | trivial
      | exact rootBlack_right (rootBlack_left hp3)
      | tauto
      | omega
      | (simp_all; done)
      | (simp_all; omega)
  | case14 gp gk gc uncle pk s z gp2 gk2 c2 u2 pk2 c3 s2 z2 hrot hu =>
    have hub := color_black_of_not_red uncle hu
    obtain ⟨zk, zl, zr, rfl⟩ := red_is_node z hz
    rw [insertFixup]
    · simp only [leftRotate, rightRotate, Option.map_some', Loc.tree, Path.fill]
      simp only [Path.noRedRed, Path.balanced, Node.noRedRed, Node.balanced, Node.blackHeight,
        Path.color_left, Path.color_right, Node.color_node] at hp1 hp2 hz1 hz2 ⊢
      have hgc : gc = .BLACK := by tauto
      subst hgc
      have := fill_ok gp (.node zk .BLACK (.node gk .RED uncle zl) (.node pk .RED zr s))
        (zl.blackHeight + 1)
        (by tauto) (by simp_all) (by simp_all [Node.noRedRed])
        (by simp_all [Node.balanced, Node.blackHeight])
        (by simp_all [Node.blackHeight]) (by simp)
      exact ⟨_, rfl, blackenRoot_invariant _ this.1 this.2⟩
    · exact hu
  | case15 gp gk gc uncle pk s z hu hno =>
    obtain ⟨zk, zl, zr, rfl⟩ := red_is_node z hz
    exact (hno _ _ _ _ _ _ _ _ rfl).elim

theorem color_cases (c : Color) : c = .RED ∨ c = .BLACK := by cases c <;> simp

theorem removeFixupLeftRot_invariant (path : Path κ) (pk : κ) (pc : Color) (x : Node κ)
    (wk : κ) (wl wr : Node κ)
    (hx1 : x.noRedRed) (hxc : x.color = .BLACK) (hx2 : x.balanced)
    (hw1 : (Node.node wk .BLACK wl wr).noRedRed) (hw2 : (Node.node wk .BLACK wl wr).balanced)
    (hwb : (Node.node wk .BLACK wl wr).blackHeight = x.blackHeight + 1)
    (hnb : ¬ (wl.color = .BLACK ∧ wr.color = .BLACK))
    (hp1 : path.noRedRed) (hp2 : path.balanced (x.blackHeight + 1 + (if pc = .BLACK then 1 else 0)))
    (hpc : pc = .RED → path.color = .BLACK) :
    ∃ t, removeFixupLeftRot path pk pc x (.node wk .BLACK wl wr) = some t ∧ t.invariant := by
  simp only [Node.noRedRed, Node.balanced, Node.blackHeight, if_true] at hw1 hw2 hwb
  rcases color_cases wr.color with hr | hr
  · -- w->right is RED: lines 367-371 only
    obtain ⟨rk, rl, rr, rfl⟩ := red_is_node wr hr
    simp only [removeFixupLeftRot, Node.color_node, leftRotate, Option.map_some', Loc.tree, Path.fill,
      Node.setColor_node]
    simp only [Node.noRedRed, Node.balanced, Node.blackHeight, Node.color_node] at hw1 hw2 hwb
    have := fill_ok path (.node wk pc (.node pk .BLACK x wl) (.node rk .BLACK rl rr))
        (x.blackHeight + 1 + (if pc = .BLACK then 1 else 0)) hp1 hp2
        (by simp_all [Node.noRedRed])
        (by simp_all [Node.balanced, Node.blackHeight])
        (by simp_all [Node.blackHeight])
        (by intro h; rcases color_cases pc with h' | h' <;> simp_all)
    exact ⟨_, by simp, blackenRoot_invariant _ this.1 this.2⟩
  · -- w->right is BLACK, so w->left is RED
    have hl : wl.color = .RED := by
      rcases color_cases wl.color with h | h
      · exact h
      · exact absurd ⟨h, hr⟩ hnb
    obtain ⟨lk, ll, lr, rfl⟩ := red_is_node wl hl
    simp only [removeFixupLeftRot, hr, if_true, rightRotate, Node.setColor_node, Option.map_some',
      leftRotate, Loc.tree, Path.fill]
    simp only [Node.noRedRed, Node.balanced, Node.blackHeight, Node.color_node] at hw1 hw2 hwb
    have := fill_ok path (.node lk pc (.node pk .BLACK x ll) ((Node.node wk .RED lr wr).setColor .BLACK))
        (x.blackHeight + 1 + (if pc = .BLACK then 1 else 0)) hp1 hp2
        (by simp_all [Node.noRedRed])
        (by simp_all [Node.balanced, Node.blackHeight])
        (by simp_all [Node.blackHeight])
        (by intro h; rcases color_cases pc with h' | h' <;> simp_all)
    exact ⟨_, by simp, blackenRoot_invariant _ this.1 this.2⟩

theorem removeFixupRightRot_invariant (path : Path κ) (pk : κ) (pc : Color) (x : Node κ)
    (wk : κ) (wl wr : Node κ)
    (hx1 : x.noRedRed) (hxc : x.color = .BLACK) (hx2 : x.balanced)
    (hw1 : (Node.node wk .BLACK wl wr).noRedRed) (hw2 : (Node.node wk .BLACK wl wr).balanced)
    (hwb : (Node.node wk .BLACK wl wr).blackHeight = x.blackHeight + 1)
    (hnb : ¬ (wr.color = .BLACK ∧ wl.color = .BLACK))
    (hp1 : path.noRedRed) (hp2 : path.balanced (x.blackHeight + 1 + (if pc = .BLACK then 1 else 0)))
    (hpc : pc = .RED → path.color = .BLACK) :
    ∃ t, removeFixupRightRot path pk pc x (.node wk .BLACK wl wr) = some t ∧ t.invariant := by
  simp only [Node.noRedRed, Node.balanced, Node.blackHeight, if_true] at hw1 hw2 hwb
  rcases color_cases wl.color with hl | hl
  · -- w->left is RED: lines 391-395 only
    obtain ⟨lk, ll, lr, rfl⟩ := red_is_node wl hl
    simp only [removeFixupRightRot, Node.color_node, rightRotate, Option.map_some', Loc.tree, Path.fill,
      Node.setColor_node]
    simp only [Node.noRedRed, Node.balanced, Node.blackHeight, Node.color_node] at hw1 hw2 hwb
    have := fill_ok path (.node wk pc (.node lk .BLACK ll lr) (.node pk .BLACK wr x))
        (x.blackHeight + 1 + (if pc = .BLACK then 1 else 0)) hp1 hp2
        (by simp_all [Node.noRedRed])
        (by simp_all [Node.balanced, Node.blackHeight])
        (by simp_all [Node.blackHeight])
        (by intro h; rcases color_cases pc with h' | h' <;> simp_all)
    exact ⟨_, by simp, blackenRoot_invariant _ this.1 this.2⟩
  · -- w->left is BLACK, so w->right is RED
    have hr : wr.color = .RED := by
      rcases color_cases wr.color with h | h
      · exact h
      · exact absurd ⟨h, hl⟩ hnb
    obtain ⟨rk, rl, rr, rfl⟩ := red_is_node wr hr
    simp only [removeFixupRightRot, hl, if_true, leftRotate, Node.setColor_node, Option.map_some',
      rightRotate, Loc.tree, Path.fill]
    simp only [Node.noRedRed, Node.balanced, Node.blackHeight, Node.color_node] at hw1 hw2 hwb
    have := fill_ok path (.node rk pc ((Node.node wk .RED wl rl).setColor .BLACK) (.node pk .BLACK rr x))
        (x.blackHeight + 1 + (if pc = .BLACK then 1 else 0)) hp1 hp2
        (by simp_all [Node.noRedRed])
        (by simp_all [Node.balanced, Node.blackHeight])
        (by simp_all [Node.blackHeight])
        (by intro h; rcases color_cases pc with h' | h' <;> simp_all)
    exact ⟨_, by simp, blackenRoot_invariant _ this.1 this.2⟩

theorem setColor_black_eq (x : Node κ) (h : x.color = .BLACK) : x.setColor .BLACK = x := by
  cases x with
  | nil => rfl
  | node k c l r => simp at h; subst h; rfl

theorem setColor_blackHeight (x : Node κ) (h : x.color = .RED) :
    (x.setColor .BLACK).blackHeight = x.blackHeight + 1 := by
  obtain ⟨k, l, r, rfl⟩ := red_is_node x h
  simp [Node.blackHeight]

theorem invariant_of_fill (path : Path κ) (t : Node κ) (hroot : path.rootBlack)
    (hne : path = .root → t.color = .BLACK)
    (h : (path.fill t).noRedRed ∧ (path.fill t).balanced) : (⟨path.fill t⟩ : RBTree κ).invariant := by
  rw [invariant_iff]
  exact ⟨fill_color path t hroot hne, h.1, h.2⟩

set_option maxHeartbeats 4000000 in
theorem removeFixup_invariant (path : Path κ) (x : Node κ)
    (hx1 : (x.setColor .BLACK).noRedRed) (hx2 : x.balanced)
    (hp1 : path.noRedRed) (hp2 : path.balanced (x.blackHeight + 1)) (hp3 : path.rootBlack) :
    ∃ t, removeFixup path x = some t ∧ t.invariant := by
  induction path, x using removeFixup.induct with
  | case1 x =>
    refine ⟨_, by rw [removeFixup], ?_⟩
    rw [invariant_iff]
    exact ⟨setColor_color x, hx1, setColor_balanced x _ hx2⟩
  | case2 pp pk pc w x hxr =>
    refine ⟨_, by simp only [removeFixup, if_pos hxr]; rfl, ?_⟩
    apply invariant_of_fill _ _ hp3 (by simp)
    exact fill_ok _ _ _ hp1 hp2 hx1 (setColor_balanced x _ hx2) (setColor_blackHeight x hxr)
      (fun _ => setColor_color x)
  | case3 pp pk pc x hxr =>
    simp [Path.balanced, Node.blackHeight] at hp2
  | case4 pp pk pc x hxr wk wr =>
    simp [Path.balanced, Node.blackHeight] at hp2
  | case5 pp pk pc x hxr wk wr k2 c2 l2 r2 hbb =>
    have hxb : x.color = .BLACK := Color.ne_red.1 hxr
    rw [setColor_black_eq x hxb] at hx1
    rw [removeFixup, if_neg hxr]
    simp only [if_pos hbb]
    simp only [Path.noRedRed, Path.balanced, Node.noRedRed, Node.balanced, Node.blackHeight,
      Path.color_left, Path.color_right, Node.color_node] at hp1 hp2
    refine ⟨_, rfl, ?_⟩
    have hpc : pc = .BLACK := by
      rcases color_cases pc with h | h
      · simp_all
      · exact h
    subst hpc
    apply invariant_of_fill _ _ (rootBlack_left hp3) (by simp)
    exact fill_ok pp _ (x.blackHeight + 1 + 1) (by tauto) (by simp_all)
      (by simp_all [Node.noRedRed])
      (by simp only [Node.balanced, Node.blackHeight]; refine ⟨?_, ⟨?_, ?_, ?_⟩, ?_⟩ <;>
            first | omega | tauto | (simp_all; done) | (simp_all; omega))
      (by simp_all [Node.blackHeight]) (by simp)
  | case6 pp pk pc x hxr wk wr k2 c2 l2 r2 hbb =>
    have hxb : x.color = .BLACK := Color.ne_red.1 hxr
    rw [setColor_black_eq x hxb] at hx1
    rw [removeFixup, if_neg hxr]
    simp only [if_neg hbb]
    simp only [Path.noRedRed, Node.noRedRed, Path.color_left, Path.color_right, Node.color_node,
      true_implies] at hp1
    have hpc : pc = .BLACK := by
      rcases color_cases pc with h | h
      · simp_all
      · exact h
    subst hpc
    have hc2 : c2 = .BLACK := by tauto
    subst hc2
    simp only [Path.balanced, Node.balanced, Node.blackHeight, if_true, if_false, reduceCtorEq] at hp2
    apply removeFixupLeftRot_invariant _ pk .RED x k2 l2 r2 hx1 hxb hx2
    · simp only [Node.noRedRed]; tauto
    · simp only [Node.balanced]; tauto
    · simp only [Node.blackHeight, if_true]; omega
    · exact hbb
    · simp only [Path.noRedRed, Path.color_left]; simp_all
    · simp only [Path.balanced, if_true, if_false]
      (repeat' apply And.intro) <;> first | omega | tauto | (simp_all; done) | (simp_all; omega)
    · simp
  | case7 pp pk pc x hxr wk wl wr hbb ih =>
    have hxb : x.color = .BLACK := Color.ne_red.1 hxr
    rw [setColor_black_eq x hxb] at hx1
    rw [removeFixup, if_neg hxr]
    simp only [if_pos hbb]
    simp only [Path.noRedRed, Path.balanced, Node.noRedRed, Node.balanced, Node.blackHeight,
      Path.color_left, Path.color_right, Node.color_node, Node.setColor_node, if_true, if_false]
      at hp1 hp2 ih ⊢
    apply ih
    · simp_all
    · (repeat' apply And.intro) <;> first | omega | tauto | (simp_all; done) | (simp_all; omega)
    · tauto
    · have := hp2.2.2
      rcases color_cases pc with h | h <;> simp_all <;> omega
    · exact rootBlack_left hp3
  | case8 pp pk pc x hxr wk wl wr hbb =>
    have hxb : x.color = .BLACK := Color.ne_red.1 hxr
    rw [setColor_black_eq x hxb] at hx1
    rw [removeFixup, if_neg hxr]
    simp only [if_neg hbb]
    simp only [Path.noRedRed, Path.balanced,
      Path.color_left, Path.color_right, Node.color_node] at hp1 hp2
    apply removeFixupLeftRot_invariant _ pk pc x wk wl wr hx1 hxb hx2
    · tauto
    · tauto
    · tauto
    · exact hbb
    · tauto
    · tauto
    · tauto
  | case9 pp pk pc w x hxr =>
    refine ⟨_, by simp only [removeFixup, if_pos hxr]; rfl, ?_⟩
    apply invariant_of_fill _ _ hp3 (by simp)
    exact fill_ok _ _ _ hp1 hp2 hx1 (setColor_balanced x _ hx2) (setColor_blackHeight x hxr)
      (fun _ => setColor_color x)
  | case10 pp pk pc x hxr =>
    simp [Path.balanced, Node.blackHeight] at hp2
  | case11 pp pk pc x hxr wk wr =>
    simp [Path.balanced, Node.blackHeight, Node.balanced] at hp2
    omega
  | case12 pp pk pc x hxr wk wl k2 c2 l2 r2 hbb =>
    have hxb : x.color = .BLACK := Color.ne_red.1 hxr
    rw [setColor_black_eq x hxb] at hx1
    rw [removeFixup, if_neg hxr]
    simp only [if_pos hbb]
    simp only [Path.noRedRed, Path.balanced, Node.noRedRed, Node.balanced, Node.blackHeight,
      Path.color_left, Path.color_right, Node.color_node] at hp1 hp2
    refine ⟨_, rfl, ?_⟩
    have hpc : pc = .BLACK := by
      rcases color_cases pc with h | h
      · simp_all
      · exact h
    subst hpc
    apply invariant_of_fill _ _ (rootBlack_right hp3) (by simp)
    exact fill_ok pp _ (x.blackHeight + 1 + 1) (by tauto) (by simp_all)
      (by simp_all [Node.noRedRed])
      (by simp only [Node.balanced, Node.blackHeight]; (repeat' apply And.intro) <;>
            first | omega | tauto | (simp_all; done) | (simp_all; omega))
      (by simp_all [Node.blackHeight]) (by simp)
  | case13 pp pk pc x hxr wk wl k2 c2 l2 r2 hbb =>
    have hxb : x.color = .BLACK := Color.ne_red.1 hxr
    rw [setColor_black_eq x hxb] at hx1
    rw [removeFixup, if_neg hxr]
    simp only [if_neg hbb]
    simp only [Path.noRedRed, Node.noRedRed, Path.color_left, Path.color_right, Node.color_node,
      true_implies] at hp1
    have hpc : pc = .BLACK := by
      rcases color_cases pc with h | h
      · simp_all
      · exact h
    subst hpc
    have hc2 : c2 = .BLACK := by tauto
    subst hc2
    simp only [Path.balanced, Node.balanced, Node.blackHeight, if_true, if_false, reduceCtorEq] at hp2
    apply removeFixupRightRot_invariant _ pk .RED x k2 l2 r2 hx1 hxb hx2
    · simp only [Node.noRedRed]; tauto
    · simp only [Node.balanced]; tauto
    · simp only [Node.blackHeight, if_true]; omega
    · exact hbb
    · simp only [Path.noRedRed, Path.color_left]; simp_all
    · simp only [Path.balanced, if_true, if_false]
      (repeat' apply And.intro) <;> first | omega | tauto | (simp_all; done) | (simp_all; omega)
    · simp
  | case14 pp pk pc x hxr wk wl wr hbb ih =>
    have hxb : x.color = .BLACK := Color.ne_red.1 hxr
    rw [setColor_black_eq x hxb] at hx1
    rw [removeFixup, if_neg hxr]
    simp only [if_pos hbb]
    simp only [Path.noRedRed, Path.balanced, Node.noRedRed, Node.balanced, Node.blackHeight,
      Path.color_left, Path.color_right, Node.color_node, Node.setColor_node, if_true, if_false]
      at hp1 hp2 ih ⊢
    apply ih
    · simp_all
    · (repeat' apply And.intro) <;> first | omega | tauto | (simp_all; done) | (simp_all; omega)
    · tauto
    · have := hp2.2.2
      rcases color_cases pc with h | h <;> simp_all <;> omega
    · exact rootBlack_right hp3
  | case15 pp pk pc x hxr wk wl wr hbb =>
    have hxb : x.color = .BLACK := Color.ne_red.1 hxr
    rw [setColor_black_eq x hxb] at hx1
    rw [removeFixup, if_neg hxr]
    simp only [if_neg hbb]
    simp only [Path.noRedRed, Path.balanced,
      Path.color_left, Path.color_right, Node.color_node] at hp1 hp2
    apply removeFixupRightRot_invariant _ pk pc x wk wl wr hx1 hxb hx2
    · tauto
    · tauto
    · tauto
    · exact hbb
    · tauto
    · tauto
    · tauto

theorem descend_fill (above : κ → Bool) (path : Path κ) (x : Node κ) :
    (descend above path x).fill .nil = path.fill x := by
  induction x generalizing path with
  | nil => rfl
  | node k c l r ihl ihr =>
    simp only [descend]
    split
    · rw [ihl]; rfl
    · rw [ihr]; rfl

/-- What `insertPos` returns, in terms of the place the descent ends at. -/
theorem insertPosLoop_spec (above : κ → Bool) (x : Node κ) (path : Path κ) (y : Loc κ) :
    (x = .nil ∧ insertPosLoop above path x y = y) ∨
    ∃ p' k' c' l' r', insertPosLoop above path x y = ⟨p', .node k' c' l' r'⟩ ∧
      ((above k' = true ∧ l' = .nil ∧ descend above path x = .left p' k' c' r')
        ∨ (above k' = false ∧ r' = .nil ∧ descend above path x = .right p' k' c' l')) := by
  induction x generalizing path y with
  | nil => exact Or.inl ⟨rfl, rfl⟩
  | node k c l r ihl ihr =>
    right
    by_cases h : above k = true
    · simp only [insertPosLoop, descend, h, if_true]
      rcases ihl (.left path k c r) ⟨path, .node k c l r⟩ with ⟨rfl, h2⟩ | h2
      · exact ⟨path, k, c, .nil, r, h2, Or.inl ⟨h, rfl, rfl⟩⟩
      · exact h2
    · simp only [insertPosLoop, descend, h, if_false]
      rcases ihr (.right path k c l) ⟨path, .node k c l r⟩ with ⟨rfl, h2⟩ | h2
      · exact ⟨path, k, c, l, .nil, h2, Or.inr ⟨by simpa using h, rfl, rfl⟩⟩
      · exact h2

/-- `insert` attaches the new RED node where the descent ends and calls `insertFixup`. -/
theorem insert_eq (above : κ → Bool) (t : RBTree κ) (arc : κ) :
    t.insert above arc = insertFixup (descend above .root t.root) (.node arc .RED .nil .nil) := by
  unfold RBTree.insert RBTree.insertPos
  rcases insertPosLoop_spec above t.root .root ⟨.root, .nil⟩ with ⟨h1, h2⟩ | ⟨p', k', c', l', r', h2, h3⟩
  · rw [h2, h1]; rfl
  · rw [h2]
    rcases h3 with ⟨ha, hl, hd⟩ | ⟨ha, hr, hd⟩
    · subst hl; simp only [ha, if_true, hd]
    · subst hr; simp [ha, hd]

theorem descend_rootBlack (above : κ → Bool) (t : Node κ) (h : t.color = .BLACK) :
    (descend above .root t).rootBlack := by
  by_cases hr : descend above .root t = .root
  · rw [hr]; trivial
  · apply fill_rootBlack _ .nil _ hr
    rw [descend_fill]; exact h

theorem insert_invariant (above : κ → Bool) (t : RBTree κ) (arc : κ) (h : t.invariant) :
    ∃ t', t.insert above arc = some t' ∧ t'.invariant := by
  rw [invariant_iff] at h
  obtain ⟨h1, h2, h3⟩ := h
  rw [insert_eq]
  have hf : (descend above .root t.root).fill .nil = t.root := descend_fill above .root t.root
  have hn := (fill_noRedRed (descend above .root t.root) .nil).1 (by rw [hf]; exact h2)
  have hb := (fill_balanced (descend above .root t.root) .nil).1 (by rw [hf]; exact h3)
  apply insertFixup_invariant
  · rfl
  · simp [Node.noRedRed]
  · simp [Node.balanced]
  · exact hn.1
  · simpa [Node.blackHeight] using hb.2
  · exact descend_rootBlack above t.root h1

theorem spliceMin_spec (r : Node κ) (path : Path κ) (hr : r ≠ .nil) :
    ∃ yk yc xn xp, spliceMin path r = some (yc, ⟨xp, xn⟩) ∧ r.minKey = some yk ∧
      xp.fill (.node yk yc .nil xn) = path.fill r ∧ (path ≠ .root → xp ≠ .root) := by
  induction r generalizing path with
  | nil => exact absurd rfl hr
  | node k c l r ihl _ =>
    cases l with
    | nil => exact ⟨k, c, r, path, by simp [spliceMin], by simp [Node.minKey], rfl, id⟩
    | node lk lc ll lr =>
      obtain ⟨yk, yc, xn, xp, h1, h2, h3, h4⟩ := ihl (.left path k c r) (by simp)
      exact ⟨yk, yc, xn, xp, by simpa [spliceMin] using h1, by simpa [Node.minKey] using h2,
        by rw [h3]; rfl, fun _ => h4 (by simp)⟩

theorem fill_color_congr (path : Path κ) (t t' : Node κ) (hc : t'.color = t.color)
    (h : (path.fill t).color = .BLACK) : (path.fill t').color = .BLACK := by
  by_cases hp : path = .root
  · subst hp; simpa [Path.fill, hc] using h
  · exact fill_color path t' (fill_rootBlack path t h hp) (fun e => absurd e hp)

theorem remove_invariant (node : Loc κ) (hnode : node.node ≠ .nil) (h : node.tree.invariant) :
    ∃ t', RBTree.remove node = some t' ∧ t'.invariant := by
  obtain ⟨path, n⟩ := node
  cases n with
  | nil => exact absurd rfl hnode
  | node k c l r =>
    rw [invariant_iff] at h
    simp only [Loc.tree] at h
    obtain ⟨h1, h2, h3⟩ := h
    have hn := (fill_noRedRed path _).1 h2
    have hb := (fill_balanced path _).1 h3
    simp only [Node.noRedRed, Node.balanced, Node.blackHeight, Node.color_node] at hn hb
    have hroot : path ≠ .root → path.rootBlack := fun hp => fill_rootBlack path _ h1 hp
    have hrootc : path = .root → c = .BLACK := by
      intro hp; subst hp; simpa [Path.fill] using h1
    cases l with
    | nil =>
      simp only [RBTree.remove]
      rcases color_cases c with hc | hc
      · subst hc
        simp only [reduceCtorEq, if_false]
        refine ⟨_, rfl, ?_⟩
        have hp : path ≠ .root := fun e => by simpa using hrootc e
        apply invariant_of_fill _ _ (hroot hp) (fun e => absurd e hp)
        exact fill_ok path r _ hn.1 hb.2 (by tauto) (by tauto)
          (by simp [Node.blackHeight] at hb ⊢; omega) (by tauto)
      · subst hc
        simp only [if_true]
        apply removeFixup_invariant
        · exact setColor_noRedRed _ (by tauto)
        · tauto
        · tauto
        · have := hb.2; simp [Node.blackHeight] at hb this ⊢
          have e : r.blackHeight = 0 := by omega
          rw [e]; simpa using this
        · by_cases hp : path = .root
          · subst hp; trivial
          · exact hroot hp
    | node lk lc ll lr =>
      cases r with
      | nil =>
        simp only [RBTree.remove]
        rcases color_cases c with hc | hc
        · subst hc
          simp only [reduceCtorEq, if_false]
          refine ⟨_, rfl, ?_⟩
          have hp : path ≠ .root := fun e => by simpa using hrootc e
          apply invariant_of_fill _ _ (hroot hp) (fun e => absurd e hp)
          exact fill_ok path _ _ hn.1 hb.2 (by tauto) (by tauto)
            (by simp [Node.blackHeight] at hb ⊢) (by tauto)
        · subst hc
          simp only [if_true]
          apply removeFixup_invariant
          · exact setColor_noRedRed _ (by tauto)
          · tauto
          · tauto
          · exact hb.2
          · by_cases hp : path = .root
            · subst hp; trivial
            · exact hroot hp
      | node rk rc rl rr =>
        obtain ⟨yk, yc, xn, xp, e1, e2, e3, e4⟩ :=
          spliceMin_spec (.node rk rc rl rr) (.right path ((Node.node rk rc rl rr).minKey.getD k) c
            (.node lk lc ll lr)) (by simp)
        rw [e2] at e1 e3 e4
        simp only [Option.getD_some] at e1 e3 e4
        simp only [RBTree.remove, e2, e1]
        -- the tree with the key of `y` at the place of `node`
        have h2' : (xp.fill (.node yk yc .nil xn)).noRedRed := by
          rw [e3]; simp only [Path.fill]
          exact (fill_noRedRed path _).2 ⟨hn.1, by simpa [Node.noRedRed] using hn.2.1, hn.2.2⟩
        have h3' : (xp.fill (.node yk yc .nil xn)).balanced := by
          rw [e3]; simp only [Path.fill]
          exact (fill_balanced path _).2 ⟨by simpa [Node.balanced] using hb.1,
            by simpa [Node.blackHeight] using hb.2⟩
        have h1' : (xp.fill (.node yk yc .nil xn)).color = .BLACK := by
          rw [e3]; simp only [Path.fill]
          exact fill_color_congr path (.node k c (.node lk lc ll lr) (.node rk rc rl rr)) _ rfl h1
        have hxp : xp ≠ .root := e4 (by simp)
        have hxroot := fill_rootBlack xp _ h1' hxp
        have hn' := (fill_noRedRed xp _).1 h2'
        have hb' := (fill_balanced xp _).1 h3'
        simp only [Node.noRedRed, Node.balanced, Node.blackHeight, Node.color_node] at hn' hb'
        rcases color_cases yc with hc | hc
        · subst hc
          simp only [reduceCtorEq, if_false]
          refine ⟨_, rfl, ?_⟩
          apply invariant_of_fill _ _ hxroot (fun e => absurd e hxp)
          exact fill_ok xp xn _ hn'.1 hb'.2 (by tauto) (by tauto)
            (by simp at hb' ⊢; omega) (by tauto)
        · subst hc
          simp only [if_true]
          apply removeFixup_invariant
          · exact setColor_noRedRed _ (by tauto)
          · tauto
          · tauto
          · have := hb'.2; simp at hb' this ⊢
            have e : xn.blackHeight = 0 := by omega
            rw [e]; simpa using this
          · exact hxroot

theorem fill_inorder (path : Path κ) (t : Node κ) :
    (path.fill t).inorder = path.before ++ t.inorder ++ path.after := by
  induction path generalizing t with
  | root => simp [Path.fill, Path.before, Path.after]
  | left pp k c r ih => simp [Path.fill, ih, Path.before, Path.after, Node.inorder]
  | right pp k c l ih => simp [Path.fill, ih, Path.before, Path.after, Node.inorder]

theorem setColor_inorder (c : Color) (t : Node κ) : (t.setColor c).inorder = t.inorder := by
  cases t <;> simp [Node.setColor, Node.inorder]

theorem blackenRoot_inorder (t : Node κ) : (blackenRoot t).root.inorder = t.inorder :=
  setColor_inorder _ t

theorem insertFixup_inorder (path : Path κ) (z : Node κ) (t : RBTree κ)
    (h : insertFixup path z = some t) : t.root.inorder = (path.fill z).inorder := by
  induction path, z using insertFixup.induct generalizing t with
  | case1 z => simp [insertFixup] at h; subst h; simp [blackenRoot_inorder, Path.fill]
  | case2 pp pk s z => rw [insertFixup] at h; simp at h; subst h; simp [blackenRoot_inorder, Path.fill]
  | case3 pp pk s z => rw [insertFixup] at h; simp at h; subst h; simp [blackenRoot_inorder, Path.fill]
  | case4 k r x => simp [insertFixup] at h
  | case5 k l x => simp [insertFixup] at h
  | case6 gp gk gc pk s z uk ul ur ih =>
    rw [insertFixup] at h
    rw [ih t h]; simp [Path.fill, fill_inorder, Node.inorder]
  | case7 gp gk gc uncle pk s z hu =>
    rw [insertFixup] at h
    · simp [rightRotate, Loc.tree] at h; subst h
      simp [blackenRoot_inorder, Path.fill, fill_inorder, Node.inorder]
    · exact hu
  | case8 gp gk gc pk s z uk ul ur ih =>
    rw [insertFixup] at h
    rw [ih t h]; simp [Path.fill, fill_inorder, Node.inorder]
  | case9 gp gk gc uncle pk s z gp2 gk2 c2 u2 pk2 c3 s2 z2 hrot hu =>
    rw [insertFixup] at h
    · cases z with
      | nil => simp [leftRotate] at hrot
      | node zk zc zl zr =>
        simp [leftRotate, rightRotate, Loc.tree] at h; subst h
        simp [blackenRoot_inorder, Path.fill, fill_inorder, Node.inorder]
    · exact hu
  | case10 gp gk gc uncle pk s z hu hno =>
    rw [insertFixup] at h
    · cases z with
      | nil => simp [leftRotate] at h
      | node zk zc zl zr => exact (hno _ _ _ _ _ _ _ _ rfl).elim
    · exact hu
  | case11 gp gk gc pk s z uk ul ur ih =>
    rw [insertFixup] at h
    rw [ih t h]; simp [Path.fill, fill_inorder, Node.inorder]
  | case12 gp gk gc uncle pk s z hu =>
    rw [insertFixup] at h
    · simp [leftRotate, Loc.tree] at h; subst h
      simp [blackenRoot_inorder, Path.fill, fill_inorder, Node.inorder]
    · exact hu
  | case13 gp gk gc pk s z uk ul ur ih =>
    rw [insertFixup] at h
    rw [ih t h]; simp [Path.fill, fill_inorder, Node.inorder]
  | case14 gp gk gc uncle pk s z gp2 gk2 c2 u2 pk2 c3 s2 z2 hrot hu =>
    rw [insertFixup] at h
    · cases z with
      | nil => simp [rightRotate] at hrot
      | node zk zc zl zr =>
        simp [leftRotate, rightRotate, Loc.tree] at h; subst h
        simp [blackenRoot_inorder, Path.fill, fill_inorder, Node.inorder]
    · exact hu
  | case15 gp gk gc uncle pk s z hu hno =>
    rw [insertFixup] at h
    · cases z with
      | nil => simp [rightRotate] at h
      | node zk zc zl zr => exact (hno _ _ _ _ _ _ _ _ rfl).elim
    · exact hu

theorem descend_before_after (above : κ → Bool) (x : Node κ) (path : Path κ) :
    (descend above path x).before ++ (descend above path x).after
      = path.before ++ x.inorder ++ path.after := by
  have := fill_inorder (descend above path x) .nil
  rw [descend_fill, fill_inorder] at this
  simpa [Node.inorder] using this.symm

theorem pairwise_mid (le : κ → κ → Prop) (A l r B : List κ) (k : κ)
    (hs : (A ++ (l ++ k :: r) ++ B).Pairwise le) :
    (∀ y ∈ r, le k y) ∧ (∀ y ∈ l, le y k) := by
  have h1 : (l ++ k :: r).Pairwise le :=
    (List.pairwise_append.1 (List.pairwise_append.1 hs).1).2.1
  obtain ⟨_, h2, h3⟩ := List.pairwise_append.1 h1
  exact ⟨(List.pairwise_cons.1 h2).1, fun y hy => h3 y hy k (List.mem_cons_self _ _)⟩

theorem descend_bounds (le : κ → κ → Prop) (htrans : ∀ a b c, le a b → le b c → le a c)
    (above : κ → Bool) (arc : κ)
    (hab1 : ∀ k, above k = true → le arc k) (hab2 : ∀ k, above k = false → le k arc)
    (x : Node κ) (path : Path κ)
    (hs : (path.before ++ x.inorder ++ path.after).Pairwise le)
    (hb : ∀ y ∈ path.before, le y arc) (ha : ∀ y ∈ path.after, le arc y) :
    (∀ y ∈ (descend above path x).before, le y arc) ∧
      (∀ y ∈ (descend above path x).after, le arc y) := by
  induction x generalizing path with
  | nil => exact ⟨hb, ha⟩
  | node k c l r ihl ihr =>
    simp only [descend]
    have hm := pairwise_mid le _ _ _ _ _ hs
    by_cases h : above k = true
    · simp only [h, if_true]
      apply ihl
      · have e : (Path.left path k c r).before ++ l.inorder ++ (Path.left path k c r).after
            = path.before ++ (Node.node k c l r).inorder ++ path.after := by
          simp [Path.before, Path.after, Node.inorder]
        rw [e]; exact hs
      · exact hb
      · intro y hy
        simp only [Path.after, List.mem_cons, List.mem_append, List.cons_append] at hy
        rcases hy with rfl | hy | hy
        · exact hab1 _ h
        · exact htrans _ _ _ (hab1 _ h) (hm.1 y hy)
        · exact ha y hy
    · have h' : above k = false := by simpa using h
      simp only [h', Bool.false_eq_true, if_false]
      apply ihr
      · have e : (Path.right path k c l).before ++ r.inorder ++ (Path.right path k c l).after
            = path.before ++ (Node.node k c l r).inorder ++ path.after := by
          simp [Path.before, Path.after, Node.inorder]
        rw [e]; exact hs
      · intro y hy
        simp only [Path.before, List.mem_append, List.mem_singleton] at hy
        rcases hy with (hy | hy) | rfl
        · exact hb y hy
        · exact htrans _ _ _ (hm.2 y hy) (hab2 _ h')
        · exact hab2 _ h'
      · exact ha

/-- The effect of `insert` on the in-order sequence, for any key type and comparison. -/
theorem insert_inorder (le : κ → κ → Prop) (htrans : ∀ a b c, le a b → le b c → le a c)
    (above : κ → Bool) (arc : κ)
    (hab1 : ∀ k, above k = true → le arc k) (hab2 : ∀ k, above k = false → le k arc)
    (t : RBTree κ) (h : t.invariant) :
    ∃ t' l1 l2, t.insert above arc = some t' ∧ t'.invariant ∧ t.root.inorder = l1 ++ l2 ∧
      t'.root.inorder = l1 ++ arc :: l2 ∧
      (t.root.inorder.Pairwise le → t'.root.inorder.Pairwise le) := by
  obtain ⟨t', ht', hinv⟩ := insert_invariant above t arc h
  have hio := insertFixup_inorder _ _ _ (insert_eq above t arc ▸ ht')
  rw [fill_inorder] at hio
  have hba := descend_before_after above t.root .root
  simp only [Path.before, Path.after, List.nil_append, List.append_nil] at hba
  refine ⟨t', _, _, ht', hinv, hba.symm, by simpa [Node.inorder] using hio, ?_⟩
  intro hs
  have hbd := descend_bounds le htrans above arc hab1 hab2 t.root .root
    (by simpa [Path.before, Path.after] using hs) (by simp [Path.before]) (by simp [Path.after])
  rw [hio]
  rw [← hba] at hs
  simp only [Node.inorder, List.nil_append, List.append_assoc, List.singleton_append]
  rw [List.pairwise_append] at hs ⊢
  refine ⟨hs.1, List.pairwise_cons.2 ⟨hbd.2, hs.2.1⟩, ?_⟩
  intro a ha b hb
  rcases List.mem_cons.1 hb with rfl | hb
  · exact hbd.1 a ha
  · exact hs.2.2 a ha b hb

/-! ## The destructor of the status at the end of `circleIntersect` -/

/-- The destructor is defined exactly for the empty tree. -/
theorem destroy_eq_some_iff (t : RBTree κ) : t.destroy = some () ↔ t.root = .nil := by
  have pos : ∀ n : Node κ, 1 ≤ n.destroyRecursive := by
    intro n
    induction n with
    | nil => simp [Node.destroyRecursive]
    | node k c l r ihl _ => simp only [Node.destroyRecursive]; omega
  obtain ⟨root⟩ := t
  cases root with
  | nil => simp [RBTree.destroy, Node.destroyRecursive]
  | node k c l r =>
    have h1 := pos l
    have h2 := pos r
    simp only [RBTree.destroy, Node.destroyRecursive, reduceCtorEq, iff_false]
    rw [if_neg (by omega)]
    simp

/-- What `circleIntersect` returns when the event loop ends with an empty status. -/
theorem circleIntersect_of_loop (sqrt : F → F) (fuel : Nat)
    (cs : List (Circle F)) (s : Sweep F) (h : eventLoop sqrt fuel cs = some s)
    (hs : s.status.root = .nil) : circleIntersect sqrt fuel cs = some s.intersections := by
  rw [circleIntersect, h]
  simp only
  rw [(destroy_eq_some_iff s.status).2 hs]

/-- The call `circleIntersect` is undefined when the event loop ends with a node in the status. -/
theorem circleIntersect_of_stale (sqrt : F → F) (fuel : Nat)
    (cs : List (Circle F)) (s : Sweep F) (h : eventLoop sqrt fuel cs = some s)
    (hs : s.status.root ≠ .nil) : circleIntersect sqrt fuel cs = none := by
  rw [circleIntersect, h]
  simp only
  cases hx : s.status.destroy with
  | none => rfl
  | some u => exact absurd ((destroy_eq_some_iff s.status).1 hx) hs

/-! ## The in-order sequence under `remove`, and the pointers into a tree -/

theorem removeFixupLeftRot_inorder (path : Path κ) (pk : κ) (pc : Color) (x w : Node κ)
    (t : RBTree κ) (h : removeFixupLeftRot path pk pc x w = some t) :
    t.root.inorder = (path.fill (.node pk pc x w)).inorder := by
  cases w with
  | nil => simp [removeFixupLeftRot] at h
  | node wk wc wl wr =>
    by_cases hr : wr.color = .BLACK
    · cases wl with
      | nil => simp [removeFixupLeftRot, hr, rightRotate] at h
      | node lk lc ll lr =>
        simp [removeFixupLeftRot, hr, rightRotate, leftRotate, Loc.tree] at h
        subst h
        simp [blackenRoot_inorder, Path.fill, fill_inorder, Node.inorder, setColor_inorder]
    · simp [removeFixupLeftRot, hr, leftRotate, Loc.tree] at h
      subst h
      simp [blackenRoot_inorder, Path.fill, fill_inorder, Node.inorder, setColor_inorder]

theorem removeFixupRightRot_inorder (path : Path κ) (pk : κ) (pc : Color) (x w : Node κ)
    (t : RBTree κ) (h : removeFixupRightRot path pk pc x w = some t) :
    t.root.inorder = (path.fill (.node pk pc w x)).inorder := by
  cases w with
  | nil => simp [removeFixupRightRot] at h
  | node wk wc wl wr =>
    by_cases hl : wl.color = .BLACK
    · cases wr with
      | nil => simp [removeFixupRightRot, hl, leftRotate] at h
      | node rk rc rl rr =>
        simp [removeFixupRightRot, hl, rightRotate, leftRotate, Loc.tree] at h
        subst h
        simp [blackenRoot_inorder, Path.fill, fill_inorder, Node.inorder, setColor_inorder]
    · simp [removeFixupRightRot, hl, rightRotate, Loc.tree] at h
      subst h
      simp [blackenRoot_inorder, Path.fill, fill_inorder, Node.inorder, setColor_inorder]

theorem removeFixup_inorder (path : Path κ) (x : Node κ) (t : RBTree κ)
    (h : removeFixup path x = some t) : t.root.inorder = (path.fill x).inorder := by
  induction path, x using removeFixup.induct generalizing t with
  | case1 x => simp [removeFixup] at h; subst h; simp [setColor_inorder, Path.fill]
  | case2 pp pk pc w x hxr =>
    simp only [removeFixup, if_pos hxr, Option.some.injEq] at h; subst h
    simp [fill_inorder, setColor_inorder]
  | case3 pp pk pc x hxr => simp [removeFixup, hxr] at h
  | case4 pp pk pc x hxr wk wr => simp [removeFixup, hxr] at h
  | case5 pp pk pc x hxr wk wr k2 c2 l2 r2 hbb =>
    rw [removeFixup, if_neg hxr] at h
    simp only [if_pos hbb, Option.some.injEq] at h; subst h
    simp [Path.fill, fill_inorder, Node.inorder]
  | case6 pp pk pc x hxr wk wr k2 c2 l2 r2 hbb =>
    rw [removeFixup, if_neg hxr] at h
    simp only [if_neg hbb] at h
    rw [removeFixupLeftRot_inorder _ _ _ _ _ _ h]
    simp [Path.fill, fill_inorder, Node.inorder]
  | case7 pp pk pc x hxr wk wl wr hbb ih =>
    rw [removeFixup, if_neg hxr] at h
    simp only [if_pos hbb] at h
    rw [ih t h]; simp [Path.fill, fill_inorder, Node.inorder]
  | case8 pp pk pc x hxr wk wl wr hbb =>
    rw [removeFixup, if_neg hxr] at h
    simp only [if_neg hbb] at h
    rw [removeFixupLeftRot_inorder _ _ _ _ _ _ h]
    simp [Path.fill, fill_inorder, Node.inorder]
  | case9 pp pk pc w x hxr =>
    simp only [removeFixup, if_pos hxr, Option.some.injEq] at h; subst h
    simp [fill_inorder, setColor_inorder]
  | case10 pp pk pc x hxr => simp [removeFixup, hxr] at h
  | case11 pp pk pc x hxr wk wr => simp [removeFixup, hxr] at h
  | case12 pp pk pc x hxr wk wl k2 c2 l2 r2 hbb =>
    rw [removeFixup, if_neg hxr] at h
    simp only [if_pos hbb, Option.some.injEq] at h; subst h
    simp [Path.fill, fill_inorder, Node.inorder]
  | case13 pp pk pc x hxr wk wl k2 c2 l2 r2 hbb =>
    rw [removeFixup, if_neg hxr] at h
    simp only [if_neg hbb] at h
    rw [removeFixupRightRot_inorder _ _ _ _ _ _ h]
    simp [Path.fill, fill_inorder, Node.inorder]
  | case14 pp pk pc x hxr wk wl wr hbb ih =>
    rw [removeFixup, if_neg hxr] at h
    simp only [if_pos hbb] at h
    rw [ih t h]; simp [Path.fill, fill_inorder, Node.inorder]
  | case15 pp pk pc x hxr wk wl wr hbb =>
    rw [removeFixup, if_neg hxr] at h
    simp only [if_neg hbb] at h
    rw [removeFixupRightRot_inorder _ _ _ _ _ _ h]
    simp [Path.fill, fill_inorder, Node.inorder]

theorem spliceMin_inorder (r : Node κ) (path : Path κ) (yc : Color) (x : Loc κ) (yk : κ)
    (h : spliceMin path r = some (yc, x)) (hk : r.minKey = some yk) :
    x.path.before = path.before ∧
      r.inorder ++ path.after = yk :: (x.node.inorder ++ x.path.after) := by
  induction r generalizing path with
  | nil => simp [spliceMin] at h
  | node k c l r ihl _ =>
    cases l with
    | nil =>
      simp only [spliceMin, Option.some.injEq, Prod.mk.injEq] at h
      simp only [Node.minKey, Option.some.injEq] at hk
      obtain ⟨_, rfl⟩ := h
      subst hk
      simp [Node.inorder]
    | node lk lc ll lr =>
      simp only [spliceMin] at h
      simp only [Node.minKey] at hk
      obtain ⟨h1, h2⟩ := ihl _ h hk
      refine ⟨by simpa [Path.before] using h1, ?_⟩
      rw [← h2]
      simp [Node.inorder, Path.after]

theorem remove_inorder (path : Path κ) (k : κ) (c : Color) (l r : Node κ) (t : RBTree κ)
    (h : RBTree.remove ⟨path, .node k c l r⟩ = some t) :
    t.root.inorder = path.before ++ l.inorder ++ r.inorder ++ path.after := by
  cases l with
  | nil =>
    simp only [RBTree.remove] at h
    split at h
    · rw [removeFixup_inorder _ _ _ h, fill_inorder]; simp [Node.inorder]
    · simp only [Option.some.injEq] at h; subst h
      rw [fill_inorder]; simp [Node.inorder]
  | node lk lc ll lr =>
    cases r with
    | nil =>
      simp only [RBTree.remove] at h
      split at h
      · rw [removeFixup_inorder _ _ _ h, fill_inorder]; simp [Node.inorder]
      · simp only [Option.some.injEq] at h; subst h
        rw [fill_inorder]; simp [Node.inorder]
    | node rk rc rl rr =>
      simp only [RBTree.remove] at h
      split at h
      · simp at h
      · rename_i yk hk
        split at h
        · simp at h
        · rename_i yc x hs
          obtain ⟨h1, h2⟩ := spliceMin_inorder _ _ _ _ _ hs hk
          have e : t.root.inorder = x.path.before ++ x.node.inorder ++ x.path.after := by
            split at h
            · rw [removeFixup_inorder _ _ _ h, fill_inorder]
            · simp only [Option.some.injEq] at h; subst h
              simp [Loc.tree, fill_inorder]
          rw [e, h1]
          simp only [Path.before, Path.after, List.append_assoc] at h2 ⊢
          rw [h2]; simp

theorem remove_perm (n : Loc κ) (t : RBTree κ) (h : RBTree.remove n = some t) :
    ∃ k c l r, n.node = .node k c l r ∧ List.Perm (k :: t.root.inorder) n.tree.root.inorder := by
  obtain ⟨path, node⟩ := n
  cases node with
  | nil => simp [RBTree.remove] at h
  | node k c l r =>
    refine ⟨k, c, l, r, rfl, ?_⟩
    rw [remove_inorder _ _ _ _ _ _ h]
    have e1 : (Loc.tree ⟨path, .node k c l r⟩).root.inorder
        = (path.before ++ l.inorder) ++ k :: (r.inorder ++ path.after) := by
      simp [Loc.tree, fill_inorder, Node.inorder]
    have e2 : path.before ++ l.inorder ++ r.inorder ++ path.after
        = (path.before ++ l.inorder) ++ (r.inorder ++ path.after) := by simp
    rw [e1, e2]
    exact List.perm_middle.symm

theorem insert_perm (above : κ → Bool) (t t' : RBTree κ) (arc : κ)
    (h : t.insert above arc = some t') : List.Perm t'.root.inorder (arc :: t.root.inorder) := by
  rw [insert_eq] at h
  rw [insertFixup_inorder _ _ _ h, fill_inorder]
  have e := descend_before_after above t.root .root
  simp only [Path.before, Path.after, List.nil_append, List.append_nil] at e
  rw [← e]
  simp [Node.inorder]

/-! ### Pointers stay in their tree -/

theorem locate_spec (isKey : κ → Bool) (t : Node κ) (path : Path κ) (n : Loc κ)
    (h : locate isKey path t = some n) :
    n.path.fill n.node = path.fill t ∧ ∃ k c l r, n.node = .node k c l r ∧ isKey k = true := by
  induction t generalizing path with
  | nil => simp [locate] at h
  | node k c l r ihl ihr =>
    simp only [locate] at h
    split at h
    · rename_i z hz
      simp only [Option.some.injEq] at h; subst h
      exact ihl _ hz
    · split at h
      · rename_i hk
        simp only [Option.some.injEq] at h; subst h
        exact ⟨rfl, k, c, l, r, rfl, hk⟩
      · exact ihr _ h

theorem leftmost_fill (t : Node κ) (path : Path κ) :
    (leftmost path t).path.fill (leftmost path t).node = path.fill t := by
  induction t generalizing path with
  | nil => rfl
  | node k c l r ihl _ =>
    cases l with
    | nil => rfl
    | node lk lc ll lr => simp only [leftmost]; rw [ihl]; rfl

theorem rightmost_fill (t : Node κ) (path : Path κ) :
    (rightmost path t).path.fill (rightmost path t).node = path.fill t := by
  induction t generalizing path with
  | nil => rfl
  | node k c l r _ ihr =>
    cases r with
    | nil => cases l <;> rfl
    | node rk rc rl rr =>
      have : rightmost path (.node k c l (.node rk rc rl rr))
          = rightmost (.right path k c l) (.node rk rc rl rr) := by
        cases l <;> rfl
      rw [this, ihr]; rfl

theorem climbRight_fill (path : Path κ) (n : Node κ) (z : Loc κ)
    (h : climbRight path n = some z) : z.path.fill z.node = path.fill n := by
  induction path generalizing n with
  | root => simp [climbRight] at h
  | left pp k c r _ => simp only [climbRight, Option.some.injEq] at h; subst h; rfl
  | right pp k c l ih => simp only [climbRight] at h; rw [ih _ h]; rfl

theorem climbLeft_fill (path : Path κ) (n : Node κ) (z : Loc κ)
    (h : climbLeft path n = some z) : z.path.fill z.node = path.fill n := by
  induction path generalizing n with
  | root => simp [climbLeft] at h
  | right pp k c l _ => simp only [climbLeft, Option.some.injEq] at h; subst h; rfl
  | left pp k c r ih => simp only [climbLeft] at h; rw [ih _ h]; rfl

theorem upper_bound_tree (z z' : Loc κ) (h : RBTree.upper_bound z = some z') :
    z'.tree = z.tree := by
  obtain ⟨path, node⟩ := z
  cases node with
  | nil => simp [RBTree.upper_bound] at h
  | node k c l r =>
    cases r with
    | nil =>
      simp only [RBTree.upper_bound] at h
      simp only [Loc.tree, climbRight_fill _ _ _ h]
    | node rk rc rl rr =>
      simp only [RBTree.upper_bound, Option.some.injEq] at h; subst h
      simp only [Loc.tree, leftmost_fill]; rfl

theorem lower_bound_tree (z z' : Loc κ) (h : RBTree.lower_bound z = some z') :
    z'.tree = z.tree := by
  obtain ⟨path, node⟩ := z
  cases node with
  | nil => simp [RBTree.lower_bound] at h
  | node k c l r =>
    cases l with
    | nil =>
      simp only [RBTree.lower_bound] at h
      simp only [Loc.tree, climbLeft_fill _ _ _ h]
    | node lk lc ll lr =>
      simp only [RBTree.lower_bound, Option.some.injEq] at h; subst h
      simp only [Loc.tree, rightmost_fill]; rfl

theorem insertPosLoop_tree (above : κ → Bool) (x : Node κ) (path : Path κ) (y : Loc κ) :
    insertPosLoop above path x y = y ∨
      (insertPosLoop above path x y).tree = ⟨path.fill x⟩ := by
  induction x generalizing path y with
  | nil => exact Or.inl rfl
  | node k c l r ihl ihr =>
    right
    simp only [insertPosLoop]
    split
    · rcases ihl (.left path k c r) ⟨path, .node k c l r⟩ with h | h
      · rw [h]; rfl
      · rw [h]; rfl
    · rcases ihr (.right path k c l) ⟨path, .node k c l r⟩ with h | h
      · rw [h]; rfl
      · rw [h]; rfl

theorem insertPos_tree (above : κ → Bool) (t : RBTree κ) :
    (t.insertPos above).node = .nil ∨ (t.insertPos above).tree = t := by
  rcases insertPosLoop_tree above t.root .root ⟨.root, .nil⟩ with h | h
  · left; unfold RBTree.insertPos; rw [h]
  · right; exact h

theorem upper_bound_at_tree (above : κ → Bool) (t : RBTree κ) (z : Loc κ)
    (h : t.upper_bound_at above = some z) : z.tree = t := by
  unfold RBTree.upper_bound_at at h
  rcases insertPos_tree above t with h0 | h0
  · generalize t.insertPos above = w at h h0
    obtain ⟨p, n⟩ := w
    simp only at h0; subst h0
    simp [RBTree.upper_bound] at h
  · rw [upper_bound_tree _ _ h, h0]

theorem lower_bound_at_tree (above : κ → Bool) (t : RBTree κ) (z : Loc κ)
    (h : t.lower_bound_at above = some z) : z.tree = t := by
  unfold RBTree.lower_bound_at at h
  rcases insertPos_tree above t with h0 | h0
  · generalize t.insertPos above = w at h h0
    obtain ⟨p, n⟩ := w
    simp only at h0; subst h0
    simp [RBTree.lower_bound] at h
  · rw [lower_bound_tree _ _ h, h0]

theorem key_mem_tree (z : Loc κ) (k : κ) (h : z.key? = some k) : k ∈ z.tree.root.inorder := by
  obtain ⟨path, node⟩ := z
  cases node with
  | nil => simp [Loc.key?] at h
  | node k' c l r =>
    simp only [Loc.key?, Option.some.injEq] at h; subst h
    simp [Loc.tree, fill_inorder, Node.inorder]

theorem containsLoop_mem (inside : κ → Bool) (T : RBTree κ) (fuel : Nat) (z : Option (Loc κ))
    (answer res : List κ)
    (hz : ∀ l, z = some l → l.node = .nil ∨ l.tree = T)
    (h : containsLoop inside fuel z answer = some res) :
    ∀ a ∈ res, a ∈ answer ∨ (a ∈ T.root.inorder ∧ inside a = true) := by
  induction fuel generalizing z answer with
  | zero =>
    match z, h with
    | none, h => simp only [containsLoop, Option.some.injEq] at h; subst h; exact fun a ha => Or.inl ha
    | some ⟨_, .nil⟩, h =>
      simp only [containsLoop, Option.some.injEq] at h; subst h; exact fun a ha => Or.inl ha
    | some ⟨_, .node _ _ _ _⟩, h => simp [containsLoop] at h
  | succ fuel ih =>
    match z, h, hz with
    | none, h, _ =>
      simp only [containsLoop, Option.some.injEq] at h; subst h; exact fun a ha => Or.inl ha
    | some ⟨_, .nil⟩, h, _ =>
      simp only [containsLoop, Option.some.injEq] at h; subst h; exact fun a ha => Or.inl ha
    | some ⟨path, .node k c l r⟩, h, hz =>
      have hT : (Loc.tree ⟨path, .node k c l r⟩) = T := by
        rcases hz _ rfl with h0 | h0
        · simp at h0
        · exact h0
      have hnext : ∀ l', RBTree.upper_bound ⟨path, .node k c l r⟩ = some l' →
          l'.node = .nil ∨ l'.tree = T := fun l' hl' => Or.inr (by rw [upper_bound_tree _ _ hl', hT])
      have hk : k ∈ T.root.inorder := by
        rw [← hT]; exact key_mem_tree ⟨path, .node k c l r⟩ k rfl
      simp only [containsLoop] at h
      split at h
      · rename_i hin
        intro a ha
        rcases ih _ _ hnext h a ha with h1 | h1
        · rcases List.mem_append.1 h1 with h2 | h2
          · exact Or.inl h2
          · simp only [List.mem_singleton] at h2; subst h2
            exact Or.inr ⟨hk, hin⟩
        · exact Or.inr h1
      · split at h
        · simp only [Option.some.injEq] at h; subst h; exact fun a ha => Or.inl ha
        · exact ih _ _ hnext h

theorem contains_mem (above inside : κ → Bool) (t : RBTree κ) (res : List κ)
    (h : t.contains above inside = some res) :
    ∀ a ∈ res, a ∈ t.root.inorder ∧ inside a = true := by
  intro a ha
  unfold RBTree.contains at h
  have hz : ∀ l, some (t.insertPos above) = some l → l.node = .nil ∨ l.tree = t := by
    intro l hl
    simp only [Option.some.injEq] at hl; subst hl
    exact insertPos_tree above t
  rcases containsLoop_mem inside t _ _ _ _ hz h a ha with h1 | h1
  · simp at h1
  · exact h1

/-! ## The neighbours of a node in the in-order sequence -/

theorem Loc.inorder_eq (z : Loc κ) (k : κ) (h : z.key? = some k) :
    z.tree.root.inorder = z.before ++ k :: z.after := by
  obtain ⟨path, node⟩ := z
  cases node with
  | nil => simp [Loc.key?] at h
  | node k' c l r =>
    simp only [Loc.key?, Option.some.injEq] at h; subst h
    simp [Loc.tree, fill_inorder, Node.inorder, Loc.before, Loc.after]

theorem inorder_ne_nil (t : Node κ) (h : t ≠ .nil) : t.inorder ≠ [] := by
  cases t with
  | nil => exact absurd rfl h
  | node k c l r => simp [Node.inorder]

theorem leftmost_spec (t : Node κ) (path : Path κ) (h : t ≠ .nil) :
    ∃ p' k' c' r', leftmost path t = ⟨p', .node k' c' .nil r'⟩ ∧ p'.before = path.before ∧
      k' :: (r'.inorder ++ p'.after) = t.inorder ++ path.after := by
  induction t generalizing path with
  | nil => exact absurd rfl h
  | node k c l r ihl _ =>
    cases l with
    | nil => exact ⟨path, k, c, r, rfl, rfl, by simp [Node.inorder]⟩
    | node lk lc ll lr =>
      obtain ⟨p', k', c', r', e1, e2, e3⟩ := ihl (.left path k c r) (by simp)
      refine ⟨p', k', c', r', by simpa [leftmost] using e1, by simpa [Path.before] using e2, ?_⟩
      rw [e3]; simp [Node.inorder, Path.after]

theorem rightmost_spec (t : Node κ) (path : Path κ) (h : t ≠ .nil) :
    ∃ p' k' c' l', rightmost path t = ⟨p', .node k' c' l' .nil⟩ ∧ p'.after = path.after ∧
      p'.before ++ l'.inorder ++ [k'] = path.before ++ t.inorder := by
  induction t generalizing path with
  | nil => exact absurd rfl h
  | node k c l r _ ihr =>
    cases r with
    | nil =>
      refine ⟨path, k, c, l, ?_, rfl, by simp [Node.inorder]⟩
      cases l <;> rfl
    | node rk rc rl rr =>
      obtain ⟨p', k', c', l', e1, e2, e3⟩ := ihr (.right path k c l) (by simp)
      have e0 : rightmost path (.node k c l (.node rk rc rl rr))
          = rightmost (.right path k c l) (.node rk rc rl rr) := by
        cases l <;> rfl
      refine ⟨p', k', c', l', by rw [e0, e1], by simpa [Path.after] using e2, ?_⟩
      rw [e3]; simp [Node.inorder, Path.before]

theorem climbRight_spec (path : Path κ) (n : Node κ) :
    (climbRight path n = none ↔ path.after = []) ∧
    ∀ z, climbRight path n = some z → ∃ pp k' c' m r', z = ⟨pp, .node k' c' m r'⟩ ∧
      pp.before ++ m.inorder = path.before ++ n.inorder ∧
      k' :: (r'.inorder ++ pp.after) = path.after := by
  induction path generalizing n with
  | root => simp [climbRight, Path.after]
  | left pp k c r _ =>
    refine ⟨by simp [climbRight, Path.after], ?_⟩
    intro z hz
    simp only [climbRight, Option.some.injEq] at hz; subst hz
    exact ⟨pp, k, c, n, r, rfl, by simp [Path.before], by simp [Path.after]⟩
  | right pp k c l ih =>
    obtain ⟨h1, h2⟩ := ih (.node k c l n)
    refine ⟨by simpa [climbRight, Path.after] using h1, ?_⟩
    intro z hz
    simp only [climbRight] at hz
    obtain ⟨pp', k', c', m, r', e1, e2, e3⟩ := h2 z hz
    exact ⟨pp', k', c', m, r', e1, by rw [e2]; simp [Path.before, Node.inorder],
      by simpa [Path.after] using e3⟩

theorem climbLeft_spec (path : Path κ) (n : Node κ) :
    (climbLeft path n = none ↔ path.before = []) ∧
    ∀ z, climbLeft path n = some z → ∃ pp k' c' l' m, z = ⟨pp, .node k' c' l' m⟩ ∧
      m.inorder ++ pp.after = n.inorder ++ path.after ∧
      pp.before ++ l'.inorder ++ [k'] = path.before := by
  induction path generalizing n with
  | root => simp [climbLeft, Path.before]
  | right pp k c l _ =>
    refine ⟨by simp [climbLeft, Path.before], ?_⟩
    intro z hz
    simp only [climbLeft, Option.some.injEq] at hz; subst hz
    exact ⟨pp, k, c, l, n, rfl, by simp [Path.after], by simp [Path.before]⟩
  | left pp k c r ih =>
    obtain ⟨h1, h2⟩ := ih (.node k c n r)
    refine ⟨by simpa [climbLeft, Path.before] using h1, ?_⟩
    intro z hz
    simp only [climbLeft] at hz
    obtain ⟨pp', k', c', l', m, e1, e2, e3⟩ := h2 z hz
    exact ⟨pp', k', c', l', m, e1, by rw [e2]; simp [Path.after, Node.inorder],
      by simpa [Path.before] using e3⟩

theorem upper_bound_spec (n : Loc κ) (k : κ) (hk : n.key? = some k) :
    (RBTree.upper_bound n = none ↔ n.after = []) ∧
    ∀ z, RBTree.upper_bound n = some z →
      z.tree = n.tree ∧ ∃ k', z.key? = some k' ∧ z.before = n.before ++ [k] ∧
        n.after = k' :: z.after := by
  refine ⟨?_, fun z hz => ⟨upper_bound_tree _ _ hz, ?_⟩⟩
  · obtain ⟨path, node⟩ := n
    cases node with
    | nil => simp [Loc.key?] at hk
    | node k0 c l r =>
      cases r with
      | nil =>
        simpa [RBTree.upper_bound, Loc.after, Node.inorder] using
          (climbRight_spec path (.node k0 c l .nil)).1
      | node rk rc rl rr => simp [RBTree.upper_bound, Loc.after, Node.inorder]
  · obtain ⟨path, node⟩ := n
    cases node with
    | nil => simp [Loc.key?] at hk
    | node k0 c l r =>
      simp only [Loc.key?, Option.some.injEq] at hk; subst hk
      cases r with
      | nil =>
        simp only [RBTree.upper_bound] at hz
        obtain ⟨pp, k', c', m, r', e1, e2, e3⟩ := (climbRight_spec path _).2 z hz
        subst e1
        refine ⟨k', rfl, ?_, ?_⟩
        · simp only [Loc.before]; rw [e2]; simp [Node.inorder]
        · simp only [Loc.after, Node.inorder, List.nil_append]; exact e3.symm
      | node rk rc rl rr =>
        simp only [RBTree.upper_bound, Option.some.injEq] at hz
        obtain ⟨p', k', c', r', e1, e2, e3⟩ :=
          leftmost_spec (.node rk rc rl rr) (.right path k0 c l) (by simp)
        rw [e1] at hz; subst hz
        refine ⟨k', rfl, ?_, ?_⟩
        · simp only [Loc.before, Node.inorder, List.append_nil]; rw [e2]; simp [Path.before]
        · simp only [Loc.after]
          rw [e3]; simp [Path.after]

theorem lower_bound_spec (n : Loc κ) (k : κ) (hk : n.key? = some k) :
    (RBTree.lower_bound n = none ↔ n.before = []) ∧
    ∀ z, RBTree.lower_bound n = some z →
      z.tree = n.tree ∧ ∃ k', z.key? = some k' ∧ n.before = z.before ++ [k'] ∧
        z.after = k :: n.after := by
  refine ⟨?_, fun z hz => ⟨lower_bound_tree _ _ hz, ?_⟩⟩
  · obtain ⟨path, node⟩ := n
    cases node with
    | nil => simp [Loc.key?] at hk
    | node k0 c l r =>
      cases l with
      | nil =>
        simpa [RBTree.lower_bound, Loc.before, Node.inorder] using
          (climbLeft_spec path (.node k0 c .nil r)).1
      | node lk lc ll lr => simp [RBTree.lower_bound, Loc.before, Node.inorder]
  · obtain ⟨path, node⟩ := n
    cases node with
    | nil => simp [Loc.key?] at hk
    | node k0 c l r =>
      simp only [Loc.key?, Option.some.injEq] at hk; subst hk
      cases l with
      | nil =>
        simp only [RBTree.lower_bound] at hz
        obtain ⟨pp, k', c', l', m, e1, e2, e3⟩ := (climbLeft_spec path _).2 z hz
        subst e1
        refine ⟨k', rfl, ?_, ?_⟩
        · simp only [Loc.before, Node.inorder, List.append_nil]; exact e3.symm
        · simp only [Loc.after]; rw [e2]; simp [Node.inorder]
      | node lk lc ll lr =>
        simp only [RBTree.lower_bound, Option.some.injEq] at hz
        obtain ⟨p', k', c', l', e1, e2, e3⟩ :=
          rightmost_spec (.node lk lc ll lr) (.left path k0 c r) (by simp)
        rw [e1] at hz; subst hz
        refine ⟨k', rfl, ?_, ?_⟩
        · simp only [Loc.before]
          rw [e3]; simp [Path.before]
        · simp only [Loc.after, Node.inorder, List.nil_append]; rw [e2]; simp [Path.after]

/-! ## The tree queries return -/

theorem inorder_length (t : Node κ) : t.inorder.length = t.size := by
  induction t with
  | nil => rfl
  | node k c l r ihl ihr => simp [Node.inorder, Node.size, ihl, ihr]; omega

theorem key_of_node (z : Loc κ) (h : z.node ≠ .nil) : ∃ k, z.key? = some k := by
  obtain ⟨path, node⟩ := z
  cases node with
  | nil => exact absurd rfl h
  | node k c l r => exact ⟨k, rfl⟩

theorem node_of_key (z : Loc κ) (k : κ) (h : z.key? = some k) : z.node ≠ .nil := by
  obtain ⟨path, node⟩ := z
  cases node with
  | nil => simp [Loc.key?] at h
  | node k c l r => simp

theorem upper_bound_key (n z : Loc κ) (h : RBTree.upper_bound n = some z) :
    ∃ k, z.key? = some k := by
  by_cases hn : n.node = .nil
  · obtain ⟨path, node⟩ := n
    simp only at hn; subst hn
    simp [RBTree.upper_bound] at h
  · obtain ⟨k, hk⟩ := key_of_node n hn
    obtain ⟨-, k', hk', -⟩ := (upper_bound_spec n k hk).2 z h
    exact ⟨k', hk'⟩

theorem lower_bound_key (n z : Loc κ) (h : RBTree.lower_bound n = some z) :
    ∃ k, z.key? = some k := by
  by_cases hn : n.node = .nil
  · obtain ⟨path, node⟩ := n
    simp only at hn; subst hn
    simp [RBTree.lower_bound] at h
  · obtain ⟨k, hk⟩ := key_of_node n hn
    obtain ⟨-, k', hk', -⟩ := (lower_bound_spec n k hk).2 z h
    exact ⟨k', hk'⟩

/-- The walk of `contains` ends within as many passes as there are nodes from the start on,
and collects keys from the start on, in order. -/
theorem containsLoop_total (inside : κ → Bool) (fuel : Nat) (z : Option (Loc κ))
    (answer : List κ)
    (hz : ∀ l k, z = some l → l.key? = some k → l.after.length < fuel) :
    ∃ res extra, containsLoop inside fuel z answer = some res ∧ res = answer ++ extra ∧
      (∀ l k, z = some l → l.key? = some k → List.Sublist extra (k :: l.after)) ∧
      ((∀ l, z = some l → l.key? = none) → extra = []) := by
  induction fuel generalizing z answer with
  | zero =>
    match z, hz with
    | none, _ => exact ⟨answer, [], rfl, by simp, fun l k h => by simp at h, fun _ => rfl⟩
    | some ⟨_, .nil⟩, _ =>
      exact ⟨answer, [], rfl, by simp, fun l k h hk => by
        simp only [Option.some.injEq] at h; subst h; simp [Loc.key?] at hk, fun _ => rfl⟩
    | some ⟨_, .node k _ _ _⟩, hz => exact absurd (hz _ k rfl rfl) (by simp)
  | succ fuel ih =>
    match z, hz with
    | none, _ => exact ⟨answer, [], rfl, by simp, fun l k h => by simp at h, fun _ => rfl⟩
    | some ⟨_, .nil⟩, _ =>
      exact ⟨answer, [], rfl, by simp, fun l k h hk => by
        simp only [Option.some.injEq] at h; subst h; simp [Loc.key?] at hk, fun _ => rfl⟩
    | some ⟨path, .node k c l r⟩, hz =>
      have hlen := hz _ k rfl rfl
      have hnext : ∀ l' k', RBTree.upper_bound ⟨path, .node k c l r⟩ = some l' →
          l'.key? = some k' → l'.after.length < fuel := by
        intro l' k' h1 h2
        obtain ⟨-, k'', hk'', -, e⟩ := (upper_bound_spec ⟨path, .node k c l r⟩ k rfl).2 l' h1
        rw [e] at hlen
        simp only [List.length_cons] at hlen
        omega
      have hsub : ∀ (extra : List κ),
          (∀ l' k', RBTree.upper_bound ⟨path, .node k c l r⟩ = some l' →
            l'.key? = some k' → List.Sublist extra (k' :: l'.after)) →
          ((∀ l', RBTree.upper_bound ⟨path, .node k c l r⟩ = some l' → l'.key? = none) →
            extra = []) →
          List.Sublist extra (Loc.after ⟨path, .node k c l r⟩) := by
        intro extra h h'
        cases hu : RBTree.upper_bound ⟨path, .node k c l r⟩ with
        | none =>
          rw [h' (fun l' hl' => by rw [hu] at hl'; simp at hl')]
          exact List.nil_sublist _
        | some l' =>
          obtain ⟨-, k', hk', -, e⟩ := (upper_bound_spec ⟨path, .node k c l r⟩ k rfl).2 l' hu
          rw [e]
          exact h l' k' hu hk'
      have hno : ¬ ∀ l0 : Loc κ, some (⟨path, .node k c l r⟩ : Loc κ) = some l0 →
          l0.key? = none := by
        intro h
        have := h _ rfl
        simp [Loc.key?] at this
      simp only [containsLoop]
      split
      · obtain ⟨res, extra, e1, e2, e3, e4⟩ := ih _ (answer ++ [k]) hnext
        refine ⟨res, k :: extra, e1, by rw [e2]; simp, ?_, fun h => absurd h hno⟩
        intro l0 k0 h0 hk0
        simp only [Option.some.injEq] at h0; subst h0
        simp only [Loc.key?, Option.some.injEq] at hk0; subst hk0
        exact List.Sublist.cons₂ _ (hsub extra e3 e4)
      · split
        · exact ⟨answer, [], rfl, by simp, fun _ _ _ _ => List.nil_sublist _, fun _ => rfl⟩
        · obtain ⟨res, extra, e1, e2, e3, e4⟩ := ih _ answer hnext
          refine ⟨res, extra, e1, e2, ?_, fun h => absurd h hno⟩
          intro l0 k0 h0 hk0
          simp only [Option.some.injEq] at h0; subst h0
          exact List.Sublist.cons _ (hsub extra e3 e4)

/-- `contains(p)` returns: a sublist of the in-order sequence of the tree. -/
theorem contains_total (above inside : κ → Bool) (t : RBTree κ) :
    ∃ res, t.contains above inside = some res ∧ List.Sublist res t.root.inorder := by
  unfold RBTree.contains
  have hstart : ∀ l k, some (t.insertPos above) = some l → l.key? = some k →
      l.tree = t := by
    intro l k hl hk
    simp only [Option.some.injEq] at hl; subst hl
    rcases insertPos_tree above t with h | h
    · exact absurd h (node_of_key _ k hk)
    · exact h
  have hlen : ∀ l k, some (t.insertPos above) = some l → l.key? = some k →
      l.after.length < t.root.size := by
    intro l k hl hk
    have e := Loc.inorder_eq l k hk
    rw [hstart l k hl hk] at e
    have := congrArg List.length e
    rw [inorder_length] at this
    simp only [List.length_append, List.length_cons] at this
    omega
  obtain ⟨res, extra, e1, e2, e3, e4⟩ := containsLoop_total inside _ _ [] hlen
  refine ⟨res, e1, ?_⟩
  simp only [List.nil_append] at e2
  subst e2
  cases hk : (t.insertPos above).key? with
  | none =>
    rw [e4 (fun l hl => by simp only [Option.some.injEq] at hl; subst hl; exact hk)]
    exact List.nil_sublist _
  | some k =>
    have e := Loc.inorder_eq _ k hk
    rw [hstart _ k rfl hk] at e
    rw [e]
    exact (e3 _ k rfl hk).trans (List.sublist_append_right _ _)

theorem locate_total (isKey : κ → Bool) (t : Node κ) (path : Path κ)
    (h : ∃ k ∈ t.inorder, isKey k = true) : ∃ n, locate isKey path t = some n := by
  induction t generalizing path with
  | nil => simp [Node.inorder] at h
  | node k c l r ihl ihr =>
    simp only [locate]
    cases hl : locate isKey (.left path k c r) l with
    | some z => exact ⟨z, rfl⟩
    | none =>
      simp only
      by_cases hk : isKey k = true
      · simp [hk]
      · simp only [hk, Bool.false_eq_true, if_false]
        apply ihr
        obtain ⟨k', hk', hin⟩ := h
        simp only [Node.inorder, List.mem_append, List.mem_cons] at hk'
        rcases hk' with h1 | rfl | h1
        · obtain ⟨n, hn⟩ := ihl (.left path k c r) ⟨k', h1, hin⟩
          rw [hl] at hn; simp at hn
        · exact absurd hin hk
        · exact ⟨k', h1, hin⟩

/-! ## Evaluation of the arithmetic at concrete inputs (exact real arithmetic) -/

theorem at_out (a : Arc ℝ) (x : ℝ) (h : a.circle.radius < |x - a.circle.center.x|) :
    a.at_ Real.sqrt x = a.circle.center.y := by
  simp [Arc.at_, h]

theorem at_upper (c : Circle ℝ) (x : ℝ) (h : |x - c.center.x| ≤ c.radius) :
    (⟨c, true⟩ : Arc ℝ).at_ Real.sqrt x
      = c.center.y + Real.sqrt (c.radius * c.radius - (x - c.center.x) * (x - c.center.x)) := by
  simp [Arc.at_, not_lt.2 h]

theorem at_lower (c : Circle ℝ) (x : ℝ) (h : |x - c.center.x| ≤ c.radius) :
    (⟨c, false⟩ : Arc ℝ).at_ Real.sqrt x
      = c.center.y - Real.sqrt (c.radius * c.radius - (x - c.center.x) * (x - c.center.x)) := by
  simp [Arc.at_, not_lt.2 h]

/-- The height of an upper arc where the radicand is the square of `v`. -/
theorem at_upper_val (c : Circle ℝ) (x v : ℝ) (hv : 0 ≤ v) (h : |x - c.center.x| ≤ c.radius)
    (hr : c.radius * c.radius - (x - c.center.x) * (x - c.center.x) = v * v) :
    (⟨c, true⟩ : Arc ℝ).at_ Real.sqrt x = c.center.y + v := by
  rw [at_upper c x h, hr, Real.sqrt_mul_self hv]

/-- The height of a lower arc where the radicand is the square of `v`. -/
theorem at_lower_val (c : Circle ℝ) (x v : ℝ) (hv : 0 ≤ v) (h : |x - c.center.x| ≤ c.radius)
    (hr : c.radius * c.radius - (x - c.center.x) * (x - c.center.x) = v * v) :
    (⟨c, false⟩ : Arc ℝ).at_ Real.sqrt x = c.center.y - v := by
  rw [at_lower c x h, hr, Real.sqrt_mul_self hv]

theorem sqrt_bounds (v lo hi : ℝ) (hlo : 0 ≤ lo) (hhi : 0 ≤ hi) (h1 : lo * lo < v)
    (h2 : v < hi * hi) : lo < Real.sqrt v ∧ Real.sqrt v < hi := by
  constructor
  · rw [← Real.sqrt_mul_self hlo]
    exact Real.sqrt_lt_sqrt (mul_self_nonneg lo) h1
  · rw [← Real.sqrt_mul_self hhi]
    exact Real.sqrt_lt_sqrt (le_trans (mul_self_nonneg lo) h1.le) h2

/-- Bounds on the height of an upper arc from bounds on the radicand. -/
theorem at_upper_bounds (c : Circle ℝ) (x lo hi : ℝ) (hlo : 0 ≤ lo) (hhi : 0 ≤ hi)
    (h : |x - c.center.x| ≤ c.radius)
    (h1 : lo * lo < c.radius * c.radius - (x - c.center.x) * (x - c.center.x))
    (h2 : c.radius * c.radius - (x - c.center.x) * (x - c.center.x) < hi * hi) :
    c.center.y + lo < (⟨c, true⟩ : Arc ℝ).at_ Real.sqrt x ∧
      (⟨c, true⟩ : Arc ℝ).at_ Real.sqrt x < c.center.y + hi := by
  rw [at_upper c x h]
  have := sqrt_bounds _ lo hi hlo hhi h1 h2
  constructor <;> linarith [this.1, this.2]

/-- Bounds on the height of a lower arc from bounds on the radicand. -/
theorem at_lower_bounds (c : Circle ℝ) (x lo hi : ℝ) (hlo : 0 ≤ lo) (hhi : 0 ≤ hi)
    (h : |x - c.center.x| ≤ c.radius)
    (h1 : lo * lo < c.radius * c.radius - (x - c.center.x) * (x - c.center.x))
    (h2 : c.radius * c.radius - (x - c.center.x) * (x - c.center.x) < hi * hi) :
    c.center.y - hi < (⟨c, false⟩ : Arc ℝ).at_ Real.sqrt x ∧
      (⟨c, false⟩ : Arc ℝ).at_ Real.sqrt x < c.center.y - lo := by
  rw [at_lower c x h]
  have := sqrt_bounds _ lo hi hlo hhi h1 h2
  constructor <;> linarith [this.1, this.2]

/-- `Circle::intersect` of two circles with the same centre. -/
theorem intersect_same_center (c1 c2 : Circle ℝ) (h : c1.center = c2.center) :
    c1.intersect Real.sqrt c2 = [] := by
  have : c1.center.distance Real.sqrt c2.center = 0 := (distance_eq_zero_iff _ _).2 h
  simp [Circle.intersect, this]

/-- `Circle::intersect` of two circles that are too far apart (`D` is the squared distance). -/
theorem intersect_far (c1 c2 : Circle ℝ) (D : ℝ)
    (hD : (c1.center.x - c2.center.x) * (c1.center.x - c2.center.x)
      + (c1.center.y - c2.center.y) * (c1.center.y - c2.center.y) = D)
    (hr : 0 ≤ c1.radius + c2.radius)
    (h : (c1.radius + c2.radius) * (c1.radius + c2.radius) < D) :
    c1.intersect Real.sqrt c2 = [] := by
  have hd : c1.radius + c2.radius < c1.center.distance Real.sqrt c2.center := by
    unfold Point.distance
    rw [hD, ← Real.sqrt_mul_self hr]
    exact Real.sqrt_lt_sqrt (mul_self_nonneg _) h
  have hne : c1.center.distance Real.sqrt c2.center ≠ 0 := by linarith
  simp [Circle.intersect, hd, hne]

/-- `Circle::intersect` where it returns points: `D` is the squared distance of the centres,
`A = a / d` and `H = h / d` are the two scale factors. -/
theorem intersect_eval (c1 c2 : Circle ℝ) (D A H : ℝ) (hD0 : 0 < D)
    (hD : (c1.center.x - c2.center.x) * (c1.center.x - c2.center.x)
      + (c1.center.y - c2.center.y) * (c1.center.y - c2.center.y) = D)
    (hr : 0 ≤ c1.radius + c2.radius)
    (hg1 : D ≤ (c1.radius + c2.radius) * (c1.radius + c2.radius))
    (hg2 : (c1.radius - c2.radius) * (c1.radius - c2.radius) ≤ D)
    (hA : A * (2 * D) = c1.radius * c1.radius + D - c2.radius * c2.radius)
    (hH0 : 0 ≤ H) (hH : H * H * D = c1.radius * c1.radius - A * A * D) :
    c1.intersect Real.sqrt c2 =
      if H = 0 then [c1.center.add ((c2.center.sub c1.center).scale A)]
      else [(c1.center.add ((c2.center.sub c1.center).scale A)).add
              ((c2.center.sub c1.center).turn.scale H),
            (c1.center.add ((c2.center.sub c1.center).scale A)).sub
              ((c2.center.sub c1.center).turn.scale H)] := by
  have hdd := distance_sq c1.center c2.center
  have hd0 := distance_nonneg c1.center c2.center
  rw [hD] at hdd
  generalize hdef : c1.center.distance Real.sqrt c2.center = d at hdd hd0
  have hdpos : 0 < d := by
    rcases eq_or_lt_of_le hd0 with h | h
    · rw [← h] at hdd; simp at hdd; linarith
    · exact h
  have hne : d ≠ 0 := ne_of_gt hdpos
  have hguard : ¬ (c1.radius + c2.radius < d ∨ d < |c1.radius - c2.radius|) := by
    push_neg
    constructor
    · by_contra hc; push_neg at hc
      nlinarith
    · rw [abs_le]
      constructor <;> by_contra hc <;> push_neg at hc <;> nlinarith
  have ha2 : (c1.radius * c1.radius + d * d - c2.radius * c2.radius) / (2 * d) = A * d := by
    rw [div_eq_iff (by positivity), hdd, ← hA, ← hdd]; ring
  have ha : A * d / d = A := by field_simp
  have hh : Real.sqrt (c1.radius * c1.radius - A * d * (A * d)) = H * d := by
    have : c1.radius * c1.radius - A * d * (A * d) = (H * d) * (H * d) := by
      have : A * d * (A * d) = A * A * D := by rw [← hdd]; ring
      rw [this, ← hH, ← hdd]; ring
    rw [this, Real.sqrt_mul_self (mul_nonneg hH0 hdpos.le)]
  have hhd : H * d / d = H := by field_simp
  have hz : (H * d = 0) = (H = 0) := by
    apply propext
    constructor
    · intro h; rcases mul_eq_zero.1 h with h | h
      · exact h
      · exact absurd h hne
    · intro h; rw [h]; simp
  simp only [Circle.intersect, hdef, if_neg hne, if_neg hguard, ha2, ha, hh, hhd, hz]

theorem red_ne_black : (Color.RED = Color.BLACK) = False := by simp

theorem black_ne_red : (Color.BLACK = Color.RED) = False := by simp

theorem above_upper_lower (p : Point ℝ) (c : Circle ℝ) (i j : Nat) :
    aboveAt Real.sqrt p (some ⟨i, ⟨c, false⟩⟩) ⟨j, ⟨c, true⟩⟩ = true := by
  show decide (Arc.at_ Real.sqrt ⟨c, true⟩ (p.x + 1 / 1000)
    ≥ Arc.at_ Real.sqrt ⟨c, false⟩ (p.x + 1 / 1000)) = true
  rw [decide_eq_true_eq, ge_iff_le]
  by_cases h : c.radius < |p.x + 1 / 1000 - c.center.x|
  · rw [at_out _ _ h, at_out _ _ h]
  · rw [at_upper _ _ (not_lt.1 h), at_lower _ _ (not_lt.1 h)]
    linarith [Real.sqrt_nonneg
      (c.radius * c.radius - (p.x + 1 / 1000 - c.center.x) * (p.x + 1 / 1000 - c.center.x))]

theorem at_end (c : Circle ℝ) (h : 0 ≤ c.radius) (b : Bool) :
    Arc.at_ Real.sqrt ⟨c, b⟩ c.end_.x = c.center.y := by
  have e : c.end_.x - c.center.x = c.radius := by simp [Circle.end_, Point.add]
  have h1 : |c.end_.x - c.center.x| ≤ c.radius := by rw [e, abs_of_nonneg h]
  cases b
  · rw [at_lower c _ h1, e]; simp
  · rw [at_upper c _ h1, e]; simp

theorem above_end (c : Circle ℝ) (h : 0 ≤ c.radius) (b : Bool) (i : Nat) :
    aboveAt Real.sqrt c.end_ none ⟨i, ⟨c, b⟩⟩ = true := by
  show decide (Arc.at_ Real.sqrt ⟨c, b⟩ c.end_.x ≥ c.end_.y) = true
  rw [decide_eq_true_eq, at_end c h b]
  simp [Circle.end_, Point.add]

theorem contains_end (c : Circle ℝ) (h : 0 ≤ c.radius) (b : Bool) :
    Arc.contains Real.sqrt ⟨c, b⟩ c.end_ = true := by
  show decide (|Arc.at_ Real.sqrt ⟨c, b⟩ c.end_.x - c.end_.y| < 1 / 100000) = true
  rw [decide_eq_true_eq, at_end c h b]
  simp [Circle.end_, Point.add]

theorem arc_intersect_same (c : Circle ℝ) (b1 b2 : Bool) :
    Arc.intersect Real.sqrt ⟨c, b1⟩ ⟨c, b2⟩ = [] := by
  unfold Arc.intersect
  simp only
  rw [intersect_same_center c c rfl]
  rfl

/-- The first pass of the loop for a single circle. -/
theorem single_step1 (c : Circle ℝ) (rest : Events ℝ) :
    sweepStep Real.sqrt [] c.begin [⟨0, ⟨c, true⟩⟩, ⟨1, ⟨c, false⟩⟩] rest RBTree.empty
      = some ⟨[], rest,
          ⟨.node ⟨0, ⟨c, true⟩⟩ .BLACK (.node ⟨1, ⟨c, false⟩⟩ .RED .nil .nil) .nil⟩⟩ := by
  have f1 := above_upper_lower c.begin c 1 0
  have f3 := arc_intersect_same c true false
  cases f2 : aboveAt Real.sqrt c.begin (some ⟨0, ⟨c, true⟩⟩) ⟨1, ⟨c, false⟩⟩ <;>
  simp [sweepStep, RBTree.contains, RBTree.insertPos, insertPosLoop, RBTree.empty,
    containsLoop, Node.size, report, removeAll, reinsert, insertBorn, RBTree.insert, insertFixup,
    blackenRoot, Node.setColor, Path.fill, discover, minArc, maxArc, RBTree.nodeOf, locate, isArc,
    RBTree.lower_bound, RBTree.upper_bound, climbLeft, climbRight, leftmost, rightmost,
    Events.erase, schedule, Loc.key?, f1, f2, f3]

/-- The second pass of the loop for a single circle: its arcs end. -/
theorem single_step2 (c : Circle ℝ) (h : 0 ≤ c.radius) :
    sweepStep Real.sqrt [] c.end_ [] []
        ⟨.node ⟨0, ⟨c, true⟩⟩ .BLACK (.node ⟨1, ⟨c, false⟩⟩ .RED .nil .nil) .nil⟩
      = some ⟨[], [], ⟨.nil⟩⟩ := by
  have g1 := above_end c h true 0
  have g2 := above_end c h false 1
  have c1 := contains_end c h true
  have c2 := contains_end c h false
  simp [sweepStep, RBTree.contains, RBTree.insertPos, insertPosLoop, RBTree.empty,
    containsLoop, Node.size, report, removeAll, reinsert, insertBorn, RBTree.insert, insertFixup,
    blackenRoot, Node.setColor, Path.fill, discover, minArc, maxArc, RBTree.nodeOf, locate, isArc,
    RBTree.lower_bound, RBTree.upper_bound, climbLeft, climbRight, leftmost, rightmost,
    Events.erase, schedule, Loc.key?, RBTree.remove, removeFixup, Point.ne, Point.eq,
    RBTree.lower_bound_at, RBTree.upper_bound_at, Node.color, g1, g2, c1, c2]

/-- The event loop for a single circle of positive radius: two passes, after which the status
is empty. -/
theorem single_circle_loop (c : Circle ℝ) (hpos : 0 < c.radius) (fuel : Nat) :
    eventLoop Real.sqrt (fuel + 2) [c] = some ⟨[], [], ⟨.nil⟩⟩ := by
  have ne : c.begin ≠ c.end_ := by
    intro e
    have := congrArg Point.x e
    simp [Circle.end_, Circle.begin, Point.add, Point.sub] at this
    linarith
  have hlt : Point.lt c.end_ c.begin = false := by
    simp [Point.lt, Circle.end_, Circle.begin, Point.add, Point.sub]
    linarith
  have hs : seedEvents ([] : Events ℝ) 0 [c]
      = [(c.begin, [⟨0, ⟨c, true⟩⟩, ⟨1, ⟨c, false⟩⟩]), (c.end_, [])] := by
    simp [seedEvents, seedCircle, Events.find, Events.set, ne, hlt]
  rw [eventLoop, hs, show fuel + 2 = (fuel + 1) + 1 from rfl, sweepLoop, single_step1]
  simp only
  rw [sweepLoop, single_step2 c hpos.le]
  simp only
  cases fuel <;> rfl

/-- The event loop for a single circle of radius 0: its begin and end are one event, the
single pass inserts both arcs, and nothing removes them. -/
theorem point_circle_loop (c : Circle ℝ) (h0 : c.radius = 0) (fuel : Nat) :
    eventLoop Real.sqrt (fuel + 1) [c] = some ⟨[], [],
      ⟨.node ⟨0, ⟨c, true⟩⟩ .BLACK (.node ⟨1, ⟨c, false⟩⟩ .RED .nil .nil) .nil⟩⟩ := by
  have e : c.end_ = c.begin := by
    simp [Circle.end_, Circle.begin, Point.add, Point.sub, h0]
  have hs : seedEvents ([] : Events ℝ) 0 [c] = [(c.begin, [⟨0, ⟨c, true⟩⟩, ⟨1, ⟨c, false⟩⟩])] := by
    simp [seedEvents, seedCircle, Events.find, Events.set, e]
  rw [eventLoop, hs, sweepLoop, single_step1]
  simp only
  cases fuel <;> rfl

/-- For a single circle of positive radius `circleIntersect` returns the empty list (whenever
the bound allows the two passes of the loop). -/
theorem single_circle (c : Circle ℝ) (hpos : 0 < c.radius) (fuel : Nat) :
    circleIntersect Real.sqrt (fuel + 2) [c] = some [] :=
  circleIntersect_of_loop _ _ _ _ (single_circle_loop c hpos fuel) rfl

/-! ## The pairwise intersections of the four circles of the example -/

theorem sq_pair_diag (x y a b : ℝ) (hl : y = a - x) (hq : (x - b) * (x - (b + 1)) = 0) :
    (x = b ∧ y = a - b) ∨ (x = b + 1 ∧ y = a - b - 1) := by
  rcases mul_eq_zero.mp hq with h | h
  · left; constructor <;> linarith
  · right; constructor <;> linarith

theorem sq_pair_anti (x y a b : ℝ) (hl : y = x - a) (hq : (x - b) * (x - (b + 1)) = 0) :
    (x = b ∧ y = b - a) ∨ (x = b + 1 ∧ y = b + 1 - a) := by
  rcases mul_eq_zero.mp hq with h | h
  · left; constructor <;> linarith
  · right; constructor <;> linarith

theorem four_pair01 (x y : ℝ) (e1 : (x - 0) * (x - 0) + (y - 0) * (y - 0) = 1 * 1)
    (e2 : (x - 1) * (x - 1) + (y - 1) * (y - 1) = 1 * 1) :
    (x = 0 ∧ y = 1) ∨ (x = 1 ∧ y = 0) := by
  have h := sq_pair_diag x y 1 0 (by linarith) (by nlinarith)
  norm_num at h; exact h

theorem four_pair02 (x y : ℝ) (e1 : (x - 0) * (x - 0) + (y - 0) * (y - 0) = 1 * 1)
    (e2 : (x - 1) * (x - 1) + (y - -1) * (y - -1) = 1 * 1) :
    (x = 0 ∧ y = -1) ∨ (x = 1 ∧ y = 0) := by
  have h := sq_pair_anti x y 1 0 (by linarith) (by nlinarith)
  norm_num at h; exact h

theorem four_pair03 (x y : ℝ) (e1 : (x - 0) * (x - 0) + (y - 0) * (y - 0) = 1 * 1)
    (e2 : (x - 2) * (x - 2) + (y - 0) * (y - 0) = 1 * 1) : x = 1 ∧ y = 0 := by
  have hx : x = 1 := by linarith
  subst hx
  exact ⟨rfl, mul_self_eq_zero.mp (by linarith)⟩

theorem four_pair12 (x y : ℝ) (e1 : (x - 1) * (x - 1) + (y - 1) * (y - 1) = 1 * 1)
    (e2 : (x - 1) * (x - 1) + (y - -1) * (y - -1) = 1 * 1) : x = 1 ∧ y = 0 := by
  have hy : y = 0 := by linarith
  subst hy
  have : (x - 1) * (x - 1) = 0 := by linarith
  exact ⟨by linarith [mul_self_eq_zero.mp this], rfl⟩

theorem four_pair13 (x y : ℝ) (e1 : (x - 1) * (x - 1) + (y - 1) * (y - 1) = 1 * 1)
    (e2 : (x - 2) * (x - 2) + (y - 0) * (y - 0) = 1 * 1) :
    (x = 1 ∧ y = 0) ∨ (x = 2 ∧ y = 1) := by
  have h := sq_pair_anti x y 1 1 (by linarith) (by nlinarith)
  norm_num at h; exact h

theorem four_pair23 (x y : ℝ) (e1 : (x - 1) * (x - 1) + (y - -1) * (y - -1) = 1 * 1)
    (e2 : (x - 2) * (x - 2) + (y - 0) * (y - 0) = 1 * 1) :
    (x = 1 ∧ y = 0) ∨ (x = 2 ∧ y = -1) := by
  have h := sq_pair_diag x y 1 1 (by linarith) (by nlinarith)
  norm_num at h; exact h

theorem four_circles_common_points (q : Point ℝ) :
    (∃ c1 ∈ ([⟨⟨0, 0⟩, 1⟩, ⟨⟨1, 1⟩, 1⟩, ⟨⟨1, -1⟩, 1⟩, ⟨⟨2, 0⟩, 1⟩] : List (Circle ℝ)),
      ∃ c2 ∈ ([⟨⟨0, 0⟩, 1⟩, ⟨⟨1, 1⟩, 1⟩, ⟨⟨1, -1⟩, 1⟩, ⟨⟨2, 0⟩, 1⟩] : List (Circle ℝ)),
        c1 ≠ c2 ∧ q.distance Real.sqrt c1.center = c1.radius ∧
          q.distance Real.sqrt c2.center = c2.radius) ↔
    q ∈ ([⟨0, -1⟩, ⟨0, 1⟩, ⟨1, 0⟩, ⟨2, -1⟩, ⟨2, 1⟩] : List (Point ℝ)) := by
  obtain ⟨x, y⟩ := q
  simp only [List.mem_cons, List.mem_singleton, List.not_mem_nil, or_false, Point.mk.injEq]
  constructor
  · rintro ⟨c1, h1, c2, h2, hne, e1, e2⟩
    rcases h1 with rfl | rfl | rfl | rfl <;> rcases h2 with rfl | rfl | rfl | rfl <;>
      rw [distance_eq_iff _ _ _ zero_le_one] at e1 e2 <;> dsimp only at e1 e2
    · exact absurd rfl hne
    · rcases four_pair01 x y e1 e2 with h | h <;> simp [h]
    · rcases four_pair02 x y e1 e2 with h | h <;> simp [h]
    · simp [four_pair03 x y e1 e2]
    · rcases four_pair01 x y e2 e1 with h | h <;> simp [h]
    · exact absurd rfl hne
    · simp [four_pair12 x y e1 e2]
    · rcases four_pair13 x y e1 e2 with h | h <;> simp [h]
    · rcases four_pair02 x y e2 e1 with h | h <;> simp [h]
    · simp [four_pair12 x y e2 e1]
    · exact absurd rfl hne
    · rcases four_pair23 x y e1 e2 with h | h <;> simp [h]
    · simp [four_pair03 x y e2 e1]
    · rcases four_pair13 x y e2 e1 with h | h <;> simp [h]
    · rcases four_pair23 x y e2 e1 with h | h <;> simp [h]
    · exact absurd rfl hne
  · have d := fun a b : Point ℝ => distance_eq_iff a b 1 zero_le_one
    rintro (⟨rfl, rfl⟩ | ⟨rfl, rfl⟩ | ⟨rfl, rfl⟩ | ⟨rfl, rfl⟩ | ⟨rfl, rfl⟩)
    · refine ⟨⟨⟨0, 0⟩, 1⟩, by simp, ⟨⟨1, -1⟩, 1⟩, by simp, by simp, ?_, ?_⟩ <;>
        (rw [d]; norm_num)
    · refine ⟨⟨⟨0, 0⟩, 1⟩, by simp, ⟨⟨1, 1⟩, 1⟩, by simp, by simp, ?_, ?_⟩ <;>
        (rw [d]; norm_num)
    · refine ⟨⟨⟨0, 0⟩, 1⟩, by simp, ⟨⟨2, 0⟩, 1⟩, by simp, by simp, ?_, ?_⟩ <;>
        (rw [d]; norm_num)
    · refine ⟨⟨⟨1, -1⟩, 1⟩, by simp, ⟨⟨2, 0⟩, 1⟩, by simp, by simp, ?_, ?_⟩ <;>
        (rw [d]; norm_num)
    · refine ⟨⟨⟨1, 1⟩, 1⟩, by simp, ⟨⟨2, 0⟩, 1⟩, by simp, by simp, ?_, ?_⟩ <;>
        (rw [d]; norm_num)

set_option maxHeartbeats 100000000 in
/-- The run of the event loop of `circleIntersect` for
the two circles of radius 1 with the centres (0,0) and (2,0):
the heights of the arcs and the comparisons the run makes, then the passes of the loop
one by one. -/
theorem EvTangent_run (fuel : Nat) :
    eventLoop Real.sqrt (fuel + 3) [⟨⟨0, 0⟩, 1⟩, ⟨⟨2, 0⟩, 1⟩]
      = some ⟨[⟨1, 0⟩, ⟨1, 0⟩], [],
        ⟨.nil⟩⟩ := by
  have EvTangent_at2 : 0 + (44710177 / 1000000000) < Arc.at_ Real.sqrt ⟨⟨⟨0, 0⟩, 1⟩, true⟩ (-(999 / 1000)) ∧
      Arc.at_ Real.sqrt ⟨⟨⟨0, 0⟩, 1⟩, true⟩ (-(999 / 1000)) < 0 + (22355089 / 500000000) :=
    at_upper_bounds ⟨⟨0, 0⟩, 1⟩ (-(999 / 1000)) (44710177 / 1000000000) (22355089 / 500000000) (by norm_num) (by norm_num)
      (abs_le.2 ⟨by norm_num, by norm_num⟩) (by norm_num) (by norm_num)
  have EvTangent_at3 : (44710177 / 1000000000) < Arc.at_ Real.sqrt ⟨⟨⟨0, 0⟩, 1⟩, true⟩ ((-1) + 1 / 1000) ∧ Arc.at_ Real.sqrt ⟨⟨⟨0, 0⟩, 1⟩, true⟩ ((-1) + 1 / 1000) < (22355089 / 500000000) := by
    have e : ((-1) + 1 / 1000 : ℝ) = (-(999 / 1000)) := by norm_num
    rw [e]
    have h := EvTangent_at2
    constructor <;> linarith only [h.1, h.2]
  have EvTangent_at4 : 0 - (22355089 / 500000000) < Arc.at_ Real.sqrt ⟨⟨⟨0, 0⟩, 1⟩, false⟩ (-(999 / 1000)) ∧
      Arc.at_ Real.sqrt ⟨⟨⟨0, 0⟩, 1⟩, false⟩ (-(999 / 1000)) < 0 - (44710177 / 1000000000) :=
    at_lower_bounds ⟨⟨0, 0⟩, 1⟩ (-(999 / 1000)) (44710177 / 1000000000) (22355089 / 500000000) (by norm_num) (by norm_num)
      (abs_le.2 ⟨by norm_num, by norm_num⟩) (by norm_num) (by norm_num)
  have EvTangent_at5 : (-(22355089 / 500000000)) < Arc.at_ Real.sqrt ⟨⟨⟨0, 0⟩, 1⟩, false⟩ ((-1) + 1 / 1000) ∧ Arc.at_ Real.sqrt ⟨⟨⟨0, 0⟩, 1⟩, false⟩ ((-1) + 1 / 1000) < (-(44710177 / 1000000000)) := by
    have e : ((-1) + 1 / 1000 : ℝ) = (-(999 / 1000)) := by norm_num
    rw [e]
    have h := EvTangent_at4
    constructor <;> linarith only [h.1, h.2]
  have EvTangent_f1 : aboveAt Real.sqrt ⟨(-1), 0⟩ (some ⟨1, ⟨⟨⟨0, 0⟩, 1⟩, false⟩⟩) ⟨0, ⟨⟨⟨0, 0⟩, 1⟩, true⟩⟩ = true := by
    show decide (Arc.at_ Real.sqrt ⟨⟨⟨0, 0⟩, 1⟩, true⟩ ((-1) + 1 / 1000) ≥ Arc.at_ Real.sqrt ⟨⟨⟨0, 0⟩, 1⟩, false⟩ ((-1) + 1 / 1000))
      = true
    rw [decide_eq_true_eq, ge_iff_le]
    all_goals linarith only [EvTangent_at3.1, EvTangent_at3.2, EvTangent_at5.1, EvTangent_at5.2]
  have EvTangent_f6 : aboveAt Real.sqrt ⟨(-1), 0⟩ (some ⟨0, ⟨⟨⟨0, 0⟩, 1⟩, true⟩⟩) ⟨1, ⟨⟨⟨0, 0⟩, 1⟩, false⟩⟩ = false := by
    show decide (Arc.at_ Real.sqrt ⟨⟨⟨0, 0⟩, 1⟩, false⟩ ((-1) + 1 / 1000) ≥ Arc.at_ Real.sqrt ⟨⟨⟨0, 0⟩, 1⟩, true⟩ ((-1) + 1 / 1000))
      = false
    rw [decide_eq_false_iff_not, ge_iff_le, not_le]
    all_goals linarith only [EvTangent_at5.1, EvTangent_at5.2, EvTangent_at3.1, EvTangent_at3.2]
  have EvTangent_at8 : Arc.at_ Real.sqrt ⟨⟨⟨0, 0⟩, 1⟩, true⟩ 1 = 0 + 0 :=
    at_upper_val ⟨⟨0, 0⟩, 1⟩ 1 0 (by norm_num)
      (abs_le.2 ⟨by norm_num, by norm_num⟩) (by norm_num)
  have EvTangent_f7 : aboveAt Real.sqrt ⟨1, 0⟩ none ⟨0, ⟨⟨⟨0, 0⟩, 1⟩, true⟩⟩ = true := by
    show decide (Arc.at_ Real.sqrt ⟨⟨⟨0, 0⟩, 1⟩, true⟩ 1 ≥ 0) = true
    rw [decide_eq_true_eq, ge_iff_le]
    rw [EvTangent_at8]
    all_goals norm_num
  have EvTangent_at10 : Arc.at_ Real.sqrt ⟨⟨⟨0, 0⟩, 1⟩, false⟩ 1 = 0 - 0 :=
    at_lower_val ⟨⟨0, 0⟩, 1⟩ 1 0 (by norm_num)
      (abs_le.2 ⟨by norm_num, by norm_num⟩) (by norm_num)
  have EvTangent_f9 : aboveAt Real.sqrt ⟨1, 0⟩ none ⟨1, ⟨⟨⟨0, 0⟩, 1⟩, false⟩⟩ = true := by
    show decide (Arc.at_ Real.sqrt ⟨⟨⟨0, 0⟩, 1⟩, false⟩ 1 ≥ 0) = true
    rw [decide_eq_true_eq, ge_iff_le]
    rw [EvTangent_at10]
    all_goals norm_num
  have EvTangent_f11 : Arc.contains Real.sqrt ⟨⟨⟨0, 0⟩, 1⟩, false⟩ ⟨1, 0⟩ = true := by
    show decide (|Arc.at_ Real.sqrt ⟨⟨⟨0, 0⟩, 1⟩, false⟩ 1 - 0| < 1 / 100000) = true
    rw [decide_eq_true_eq, abs_lt]
    rw [EvTangent_at10]
    constructor <;> norm_num
  have EvTangent_f12 : Arc.contains Real.sqrt ⟨⟨⟨0, 0⟩, 1⟩, true⟩ ⟨1, 0⟩ = true := by
    show decide (|Arc.at_ Real.sqrt ⟨⟨⟨0, 0⟩, 1⟩, true⟩ 1 - 0| < 1 / 100000) = true
    rw [decide_eq_true_eq, abs_lt]
    rw [EvTangent_at8]
    constructor <;> norm_num
  have EvTangent_at14 : 0 + (44710177 / 1000000000) < Arc.at_ Real.sqrt ⟨⟨⟨2, 0⟩, 1⟩, true⟩ (1001 / 1000) ∧
      Arc.at_ Real.sqrt ⟨⟨⟨2, 0⟩, 1⟩, true⟩ (1001 / 1000) < 0 + (22355089 / 500000000) :=
    at_upper_bounds ⟨⟨2, 0⟩, 1⟩ (1001 / 1000) (44710177 / 1000000000) (22355089 / 500000000) (by norm_num) (by norm_num)
      (abs_le.2 ⟨by norm_num, by norm_num⟩) (by norm_num) (by norm_num)
  have EvTangent_at15 : (44710177 / 1000000000) < Arc.at_ Real.sqrt ⟨⟨⟨2, 0⟩, 1⟩, true⟩ (1 + 1 / 1000) ∧ Arc.at_ Real.sqrt ⟨⟨⟨2, 0⟩, 1⟩, true⟩ (1 + 1 / 1000) < (22355089 / 500000000) := by
    have e : (1 + 1 / 1000 : ℝ) = (1001 / 1000) := by norm_num
    rw [e]
    have h := EvTangent_at14
    constructor <;> linarith only [h.1, h.2]
  have EvTangent_at16 : 0 - (22355089 / 500000000) < Arc.at_ Real.sqrt ⟨⟨⟨2, 0⟩, 1⟩, false⟩ (1001 / 1000) ∧
      Arc.at_ Real.sqrt ⟨⟨⟨2, 0⟩, 1⟩, false⟩ (1001 / 1000) < 0 - (44710177 / 1000000000) :=
    at_lower_bounds ⟨⟨2, 0⟩, 1⟩ (1001 / 1000) (44710177 / 1000000000) (22355089 / 500000000) (by norm_num) (by norm_num)
      (abs_le.2 ⟨by norm_num, by norm_num⟩) (by norm_num) (by norm_num)
  have EvTangent_at17 : (-(22355089 / 500000000)) < Arc.at_ Real.sqrt ⟨⟨⟨2, 0⟩, 1⟩, false⟩ (1 + 1 / 1000) ∧ Arc.at_ Real.sqrt ⟨⟨⟨2, 0⟩, 1⟩, false⟩ (1 + 1 / 1000) < (-(44710177 / 1000000000)) := by
    have e : (1 + 1 / 1000 : ℝ) = (1001 / 1000) := by norm_num
    rw [e]
    have h := EvTangent_at16
    constructor <;> linarith only [h.1, h.2]
  have EvTangent_f13 : aboveAt Real.sqrt ⟨1, 0⟩ (some ⟨3, ⟨⟨⟨2, 0⟩, 1⟩, false⟩⟩) ⟨2, ⟨⟨⟨2, 0⟩, 1⟩, true⟩⟩ = true := by
    show decide (Arc.at_ Real.sqrt ⟨⟨⟨2, 0⟩, 1⟩, true⟩ (1 + 1 / 1000) ≥ Arc.at_ Real.sqrt ⟨⟨⟨2, 0⟩, 1⟩, false⟩ (1 + 1 / 1000))
      = true
    rw [decide_eq_true_eq, ge_iff_le]
    all_goals linarith only [EvTangent_at15.1, EvTangent_at15.2, EvTangent_at17.1, EvTangent_at17.2]
  have EvTangent_f18 : aboveAt Real.sqrt ⟨1, 0⟩ (some ⟨2, ⟨⟨⟨2, 0⟩, 1⟩, true⟩⟩) ⟨3, ⟨⟨⟨2, 0⟩, 1⟩, false⟩⟩ = false := by
    show decide (Arc.at_ Real.sqrt ⟨⟨⟨2, 0⟩, 1⟩, false⟩ (1 + 1 / 1000) ≥ Arc.at_ Real.sqrt ⟨⟨⟨2, 0⟩, 1⟩, true⟩ (1 + 1 / 1000))
      = false
    rw [decide_eq_false_iff_not, ge_iff_le, not_le]
    all_goals linarith only [EvTangent_at17.1, EvTangent_at17.2, EvTangent_at15.1, EvTangent_at15.2]
  have EvTangent_at20 : Arc.at_ Real.sqrt ⟨⟨⟨2, 0⟩, 1⟩, true⟩ 3 = 0 + 0 :=
    at_upper_val ⟨⟨2, 0⟩, 1⟩ 3 0 (by norm_num)
      (abs_le.2 ⟨by norm_num, by norm_num⟩) (by norm_num)
  have EvTangent_f19 : aboveAt Real.sqrt ⟨3, 0⟩ none ⟨2, ⟨⟨⟨2, 0⟩, 1⟩, true⟩⟩ = true := by
    show decide (Arc.at_ Real.sqrt ⟨⟨⟨2, 0⟩, 1⟩, true⟩ 3 ≥ 0) = true
    rw [decide_eq_true_eq, ge_iff_le]
    rw [EvTangent_at20]
    all_goals norm_num
  have EvTangent_at22 : Arc.at_ Real.sqrt ⟨⟨⟨2, 0⟩, 1⟩, false⟩ 3 = 0 - 0 :=
    at_lower_val ⟨⟨2, 0⟩, 1⟩ 3 0 (by norm_num)
      (abs_le.2 ⟨by norm_num, by norm_num⟩) (by norm_num)
  have EvTangent_f21 : aboveAt Real.sqrt ⟨3, 0⟩ none ⟨3, ⟨⟨⟨2, 0⟩, 1⟩, false⟩⟩ = true := by
    show decide (Arc.at_ Real.sqrt ⟨⟨⟨2, 0⟩, 1⟩, false⟩ 3 ≥ 0) = true
    rw [decide_eq_true_eq, ge_iff_le]
    rw [EvTangent_at22]
    all_goals norm_num
  have EvTangent_f23 : Arc.contains Real.sqrt ⟨⟨⟨2, 0⟩, 1⟩, false⟩ ⟨3, 0⟩ = true := by
    show decide (|Arc.at_ Real.sqrt ⟨⟨⟨2, 0⟩, 1⟩, false⟩ 3 - 0| < 1 / 100000) = true
    rw [decide_eq_true_eq, abs_lt]
    rw [EvTangent_at22]
    constructor <;> norm_num
  have EvTangent_f24 : Arc.contains Real.sqrt ⟨⟨⟨2, 0⟩, 1⟩, true⟩ ⟨3, 0⟩ = true := by
    show decide (|Arc.at_ Real.sqrt ⟨⟨⟨2, 0⟩, 1⟩, true⟩ 3 - 0| < 1 / 100000) = true
    rw [decide_eq_true_eq, abs_lt]
    rw [EvTangent_at20]
    constructor <;> norm_num
  have EvTangent_seed :
      seedEvents ([] : Events ℝ) 0 [⟨⟨0, 0⟩, 1⟩, ⟨⟨2, 0⟩, 1⟩]
        = [(⟨(-1), 0⟩, [⟨0, ⟨⟨⟨0, 0⟩, 1⟩, true⟩⟩, ⟨1, ⟨⟨⟨0, 0⟩, 1⟩, false⟩⟩]), (⟨1, 0⟩, [⟨2, ⟨⟨⟨2, 0⟩, 1⟩, true⟩⟩, ⟨3, ⟨⟨⟨2, 0⟩, 1⟩, false⟩⟩]), (⟨3, 0⟩, [])] := by
    norm_num [seedEvents, seedCircle, Events.find, Events.set, Circle.begin, Circle.end_,
      Point.sub, Point.add, Point.lt]
  have EvTangent_step1 :
      sweepStep Real.sqrt [] ⟨(-1), 0⟩
        [⟨0, ⟨⟨⟨0, 0⟩, 1⟩, true⟩⟩, ⟨1, ⟨⟨⟨0, 0⟩, 1⟩, false⟩⟩]
        [(⟨1, 0⟩, [⟨2, ⟨⟨⟨2, 0⟩, 1⟩, true⟩⟩, ⟨3, ⟨⟨⟨2, 0⟩, 1⟩, false⟩⟩]), (⟨3, 0⟩, [])]
        ⟨.nil⟩
      = some ⟨[], [(⟨1, 0⟩, [⟨2, ⟨⟨⟨2, 0⟩, 1⟩, true⟩⟩, ⟨3, ⟨⟨⟨2, 0⟩, 1⟩, false⟩⟩]), (⟨3, 0⟩, [])],
          ⟨(.node ⟨0, ⟨⟨⟨0, 0⟩, 1⟩, true⟩⟩ .BLACK (.node ⟨1, ⟨⟨⟨0, 0⟩, 1⟩, false⟩⟩ .RED .nil .nil) .nil)⟩⟩ := by
    norm_num [sweepStep, RBTree.contains, RBTree.insertPos, insertPosLoop, RBTree.empty,
      containsLoop, Node.size, report, removeAll, reinsert, insertBorn, RBTree.insert, insertFixup,
      blackenRoot, Node.setColor, Path.fill, discover, minArc, maxArc, RBTree.nodeOf, locate, isArc,
      RBTree.lower_bound, RBTree.upper_bound, climbLeft, climbRight, leftmost, rightmost,
      Events.erase, Events.find, Events.set, schedule, RBTree.remove, removeFixup,
      removeFixupLeftRot, removeFixupRightRot, leftRotate, rightRotate, Circle.ne, Point.ne,
      Point.eq, Point.lt, Circle.end_, Point.add, RBTree.lower_bound_at, RBTree.upper_bound_at,
      Node.color, Loc.tree, Loc.key?, spliceMin, Node.minKey, red_ne_black, black_ne_red,
      EvTangent_f1, EvTangent_f6, EvTangent_f7, EvTangent_f9, EvTangent_f11, EvTangent_f12, EvTangent_f13, EvTangent_f18, EvTangent_f19, EvTangent_f21, EvTangent_f23, EvTangent_f24]
  have EvTangent_step2 :
      sweepStep Real.sqrt [] ⟨1, 0⟩
        [⟨2, ⟨⟨⟨2, 0⟩, 1⟩, true⟩⟩, ⟨3, ⟨⟨⟨2, 0⟩, 1⟩, false⟩⟩]
        [(⟨3, 0⟩, [])]
        ⟨(.node ⟨0, ⟨⟨⟨0, 0⟩, 1⟩, true⟩⟩ .BLACK (.node ⟨1, ⟨⟨⟨0, 0⟩, 1⟩, false⟩⟩ .RED .nil .nil) .nil)⟩
      = some ⟨[⟨1, 0⟩, ⟨1, 0⟩], [(⟨3, 0⟩, [])],
          ⟨(.node ⟨2, ⟨⟨⟨2, 0⟩, 1⟩, true⟩⟩ .BLACK (.node ⟨3, ⟨⟨⟨2, 0⟩, 1⟩, false⟩⟩ .RED .nil .nil) .nil)⟩⟩ := by
    norm_num [sweepStep, RBTree.contains, RBTree.insertPos, insertPosLoop, RBTree.empty,
      containsLoop, Node.size, report, removeAll, reinsert, insertBorn, RBTree.insert, insertFixup,
      blackenRoot, Node.setColor, Path.fill, discover, minArc, maxArc, RBTree.nodeOf, locate, isArc,
      RBTree.lower_bound, RBTree.upper_bound, climbLeft, climbRight, leftmost, rightmost,
      Events.erase, Events.find, Events.set, schedule, RBTree.remove, removeFixup,
      removeFixupLeftRot, removeFixupRightRot, leftRotate, rightRotate, Circle.ne, Point.ne,
      Point.eq, Point.lt, Circle.end_, Point.add, RBTree.lower_bound_at, RBTree.upper_bound_at,
      Node.color, Loc.tree, Loc.key?, spliceMin, Node.minKey, red_ne_black, black_ne_red,
      EvTangent_f1, EvTangent_f6, EvTangent_f7, EvTangent_f9, EvTangent_f11, EvTangent_f12, EvTangent_f13, EvTangent_f18, EvTangent_f19, EvTangent_f21, EvTangent_f23, EvTangent_f24]
  have EvTangent_step3 :
      sweepStep Real.sqrt [⟨1, 0⟩, ⟨1, 0⟩] ⟨3, 0⟩
        []
        []
        ⟨(.node ⟨2, ⟨⟨⟨2, 0⟩, 1⟩, true⟩⟩ .BLACK (.node ⟨3, ⟨⟨⟨2, 0⟩, 1⟩, false⟩⟩ .RED .nil .nil) .nil)⟩
      = some ⟨[⟨1, 0⟩, ⟨1, 0⟩], [],
          ⟨.nil⟩⟩ := by
    norm_num [sweepStep, RBTree.contains, RBTree.insertPos, insertPosLoop, RBTree.empty,
      containsLoop, Node.size, report, removeAll, reinsert, insertBorn, RBTree.insert, insertFixup,
      blackenRoot, Node.setColor, Path.fill, discover, minArc, maxArc, RBTree.nodeOf, locate, isArc,
      RBTree.lower_bound, RBTree.upper_bound, climbLeft, climbRight, leftmost, rightmost,
      Events.erase, Events.find, Events.set, schedule, RBTree.remove, removeFixup,
      removeFixupLeftRot, removeFixupRightRot, leftRotate, rightRotate, Circle.ne, Point.ne,
      Point.eq, Point.lt, Circle.end_, Point.add, RBTree.lower_bound_at, RBTree.upper_bound_at,
      Node.color, Loc.tree, Loc.key?, spliceMin, Node.minKey, red_ne_black, black_ne_red,
      EvTangent_f1, EvTangent_f6, EvTangent_f7, EvTangent_f9, EvTangent_f11, EvTangent_f12, EvTangent_f13, EvTangent_f18, EvTangent_f19, EvTangent_f21, EvTangent_f23, EvTangent_f24]
  rw [eventLoop, RBTree.empty, EvTangent_seed]
  rw [show fuel + 3 = (fuel + 2) + 1 from rfl, sweepLoop, EvTangent_step1]
  simp only
  rw [show fuel + 2 = (fuel + 1) + 1 from rfl, sweepLoop, EvTangent_step2]
  simp only
  rw [show fuel + 1 = (fuel + 0) + 1 from rfl, sweepLoop, EvTangent_step3]
  simp only
  cases fuel <;> rfl

set_option maxHeartbeats 100000000 in
/-- The run of the event loop of `circleIntersect` for
the two circles of radius 1/20000 with the centres (0,0) and (1/12500,0):
the heights of the arcs and the comparisons the run makes, then the passes of the loop
one by one. -/
theorem EvTiny_run (fuel : Nat) :
    eventLoop Real.sqrt (fuel + 4) [⟨⟨0, 0⟩, (1 / 20000)⟩, ⟨⟨(1 / 12500), 0⟩, (1 / 20000)⟩]
      = some ⟨[], [],
        ⟨.nil⟩⟩ := by
  have EvTiny_at2 : Arc.at_ Real.sqrt ⟨⟨⟨0, 0⟩, (1 / 20000)⟩, true⟩ (19 / 20000) = 0 :=
    at_out ⟨⟨⟨0, 0⟩, (1 / 20000)⟩, true⟩ (19 / 20000) (lt_abs.2 (Or.inl (by norm_num)))
  have EvTiny_at3 : Arc.at_ Real.sqrt ⟨⟨⟨0, 0⟩, (1 / 20000)⟩, true⟩ ((-(1 / 20000)) + 1 / 1000) = 0 := by
    have e : ((-(1 / 20000)) + 1 / 1000 : ℝ) = (19 / 20000) := by norm_num
    rw [e, EvTiny_at2]
  have EvTiny_at4 : Arc.at_ Real.sqrt ⟨⟨⟨0, 0⟩, (1 / 20000)⟩, false⟩ (19 / 20000) = 0 :=
    at_out ⟨⟨⟨0, 0⟩, (1 / 20000)⟩, false⟩ (19 / 20000) (lt_abs.2 (Or.inl (by norm_num)))
  have EvTiny_at5 : Arc.at_ Real.sqrt ⟨⟨⟨0, 0⟩, (1 / 20000)⟩, false⟩ ((-(1 / 20000)) + 1 / 1000) = 0 := by
    have e : ((-(1 / 20000)) + 1 / 1000 : ℝ) = (19 / 20000) := by norm_num
    rw [e, EvTiny_at4]
  have EvTiny_f1 : aboveAt Real.sqrt ⟨(-(1 / 20000)), 0⟩ (some ⟨1, ⟨⟨⟨0, 0⟩, (1 / 20000)⟩, false⟩⟩) ⟨0, ⟨⟨⟨0, 0⟩, (1 / 20000)⟩, true⟩⟩ = true := by
    show decide (Arc.at_ Real.sqrt ⟨⟨⟨0, 0⟩, (1 / 20000)⟩, true⟩ ((-(1 / 20000)) + 1 / 1000) ≥ Arc.at_ Real.sqrt ⟨⟨⟨0, 0⟩, (1 / 20000)⟩, false⟩ ((-(1 / 20000)) + 1 / 1000))
      = true
    rw [decide_eq_true_eq, ge_iff_le]
    rw [EvTiny_at3, EvTiny_at5]
    all_goals norm_num
  have EvTiny_f6 : aboveAt Real.sqrt ⟨(-(1 / 20000)), 0⟩ (some ⟨0, ⟨⟨⟨0, 0⟩, (1 / 20000)⟩, true⟩⟩) ⟨1, ⟨⟨⟨0, 0⟩, (1 / 20000)⟩, false⟩⟩ = true := by
    show decide (Arc.at_ Real.sqrt ⟨⟨⟨0, 0⟩, (1 / 20000)⟩, false⟩ ((-(1 / 20000)) + 1 / 1000) ≥ Arc.at_ Real.sqrt ⟨⟨⟨0, 0⟩, (1 / 20000)⟩, true⟩ ((-(1 / 20000)) + 1 / 1000))
      = true
    rw [decide_eq_true_eq, ge_iff_le]
    rw [EvTiny_at5, EvTiny_at3]
    all_goals norm_num
  have EvTiny_f7 : Arc.intersect Real.sqrt ⟨⟨⟨0, 0⟩, (1 / 20000)⟩, true⟩ ⟨⟨⟨0, 0⟩, (1 / 20000)⟩, false⟩ = [] := by
    unfold Arc.intersect
    simp only
    rw [intersect_same_center ⟨⟨0, 0⟩, (1 / 20000)⟩ ⟨⟨0, 0⟩, (1 / 20000)⟩ rfl]
    rfl
  have EvTiny_at9 : Arc.at_ Real.sqrt ⟨⟨⟨0, 0⟩, (1 / 20000)⟩, true⟩ (3 / 100000) = 0 + (1 / 25000) :=
    at_upper_val ⟨⟨0, 0⟩, (1 / 20000)⟩ (3 / 100000) (1 / 25000) (by norm_num)
      (abs_le.2 ⟨by norm_num, by norm_num⟩) (by norm_num)
  have EvTiny_f8 : aboveAt Real.sqrt ⟨(3 / 100000), 0⟩ none ⟨0, ⟨⟨⟨0, 0⟩, (1 / 20000)⟩, true⟩⟩ = true := by
    show decide (Arc.at_ Real.sqrt ⟨⟨⟨0, 0⟩, (1 / 20000)⟩, true⟩ (3 / 100000) ≥ 0) = true
    rw [decide_eq_true_eq, ge_iff_le]
    rw [EvTiny_at9]
    all_goals norm_num
  have EvTiny_at11 : Arc.at_ Real.sqrt ⟨⟨⟨0, 0⟩, (1 / 20000)⟩, false⟩ (3 / 100000) = 0 - (1 / 25000) :=
    at_lower_val ⟨⟨0, 0⟩, (1 / 20000)⟩ (3 / 100000) (1 / 25000) (by norm_num)
      (abs_le.2 ⟨by norm_num, by norm_num⟩) (by norm_num)
  have EvTiny_f10 : aboveAt Real.sqrt ⟨(3 / 100000), 0⟩ none ⟨1, ⟨⟨⟨0, 0⟩, (1 / 20000)⟩, false⟩⟩ = false := by
    show decide (Arc.at_ Real.sqrt ⟨⟨⟨0, 0⟩, (1 / 20000)⟩, false⟩ (3 / 100000) ≥ 0) = false
    rw [decide_eq_false_iff_not, ge_iff_le, not_le]
    rw [EvTiny_at11]
    all_goals norm_num
  have EvTiny_f12 : Arc.contains Real.sqrt ⟨⟨⟨0, 0⟩, (1 / 20000)⟩, false⟩ ⟨(3 / 100000), 0⟩ = false := by
    show decide (|Arc.at_ Real.sqrt ⟨⟨⟨0, 0⟩, (1 / 20000)⟩, false⟩ (3 / 100000) - 0| < 1 / 100000) = false
    rw [decide_eq_false_iff_not, not_lt]
    rw [EvTiny_at11]
    exact le_abs.2 (Or.inr (by norm_num))
  have EvTiny_f13 : Arc.contains Real.sqrt ⟨⟨⟨0, 0⟩, (1 / 20000)⟩, true⟩ ⟨(3 / 100000), 0⟩ = false := by
    show decide (|Arc.at_ Real.sqrt ⟨⟨⟨0, 0⟩, (1 / 20000)⟩, true⟩ (3 / 100000) - 0| < 1 / 100000) = false
    rw [decide_eq_false_iff_not, not_lt]
    rw [EvTiny_at9]
    exact le_abs.2 (Or.inl (by norm_num))
  have EvTiny_at15 : Arc.at_ Real.sqrt ⟨⟨⟨0, 0⟩, (1 / 20000)⟩, true⟩ (103 / 100000) = 0 :=
    at_out ⟨⟨⟨0, 0⟩, (1 / 20000)⟩, true⟩ (103 / 100000) (lt_abs.2 (Or.inl (by norm_num)))
  have EvTiny_at16 : Arc.at_ Real.sqrt ⟨⟨⟨0, 0⟩, (1 / 20000)⟩, true⟩ ((3 / 100000) + 1 / 1000) = 0 := by
    have e : ((3 / 100000) + 1 / 1000 : ℝ) = (103 / 100000) := by norm_num
    rw [e, EvTiny_at15]
  have EvTiny_at17 : Arc.at_ Real.sqrt ⟨⟨⟨(1 / 12500), 0⟩, (1 / 20000)⟩, true⟩ (103 / 100000) = 0 :=
    at_out ⟨⟨⟨(1 / 12500), 0⟩, (1 / 20000)⟩, true⟩ (103 / 100000) (lt_abs.2 (Or.inl (by norm_num)))
  have EvTiny_at18 : Arc.at_ Real.sqrt ⟨⟨⟨(1 / 12500), 0⟩, (1 / 20000)⟩, true⟩ ((3 / 100000) + 1 / 1000) = 0 := by
    have e : ((3 / 100000) + 1 / 1000 : ℝ) = (103 / 100000) := by norm_num
    rw [e, EvTiny_at17]
  have EvTiny_f14 : aboveAt Real.sqrt ⟨(3 / 100000), 0⟩ (some ⟨2, ⟨⟨⟨(1 / 12500), 0⟩, (1 / 20000)⟩, true⟩⟩) ⟨0, ⟨⟨⟨0, 0⟩, (1 / 20000)⟩, true⟩⟩ = true := by
    show decide (Arc.at_ Real.sqrt ⟨⟨⟨0, 0⟩, (1 / 20000)⟩, true⟩ ((3 / 100000) + 1 / 1000) ≥ Arc.at_ Real.sqrt ⟨⟨⟨(1 / 12500), 0⟩, (1 / 20000)⟩, true⟩ ((3 / 100000) + 1 / 1000))
      = true
    rw [decide_eq_true_eq, ge_iff_le]
    rw [EvTiny_at16, EvTiny_at18]
    all_goals norm_num
  have EvTiny_at20 : Arc.at_ Real.sqrt ⟨⟨⟨0, 0⟩, (1 / 20000)⟩, false⟩ (103 / 100000) = 0 :=
    at_out ⟨⟨⟨0, 0⟩, (1 / 20000)⟩, false⟩ (103 / 100000) (lt_abs.2 (Or.inl (by norm_num)))
  have EvTiny_at21 : Arc.at_ Real.sqrt ⟨⟨⟨0, 0⟩, (1 / 20000)⟩, false⟩ ((3 / 100000) + 1 / 1000) = 0 := by
    have e : ((3 / 100000) + 1 / 1000 : ℝ) = (103 / 100000) := by norm_num
    rw [e, EvTiny_at20]
  have EvTiny_f19 : aboveAt Real.sqrt ⟨(3 / 100000), 0⟩ (some ⟨2, ⟨⟨⟨(1 / 12500), 0⟩, (1 / 20000)⟩, true⟩⟩) ⟨1, ⟨⟨⟨0, 0⟩, (1 / 20000)⟩, false⟩⟩ = true := by
    show decide (Arc.at_ Real.sqrt ⟨⟨⟨0, 0⟩, (1 / 20000)⟩, false⟩ ((3 / 100000) + 1 / 1000) ≥ Arc.at_ Real.sqrt ⟨⟨⟨(1 / 12500), 0⟩, (1 / 20000)⟩, true⟩ ((3 / 100000) + 1 / 1000))
      = true
    rw [decide_eq_true_eq, ge_iff_le]
    rw [EvTiny_at21, EvTiny_at18]
    all_goals norm_num
  have EvTiny_at23 : Arc.at_ Real.sqrt ⟨⟨⟨(1 / 12500), 0⟩, (1 / 20000)⟩, false⟩ (103 / 100000) = 0 :=
    at_out ⟨⟨⟨(1 / 12500), 0⟩, (1 / 20000)⟩, false⟩ (103 / 100000) (lt_abs.2 (Or.inl (by norm_num)))
  have EvTiny_at24 : Arc.at_ Real.sqrt ⟨⟨⟨(1 / 12500), 0⟩, (1 / 20000)⟩, false⟩ ((3 / 100000) + 1 / 1000) = 0 := by
    have e : ((3 / 100000) + 1 / 1000 : ℝ) = (103 / 100000) := by norm_num
    rw [e, EvTiny_at23]
  have EvTiny_f22 : aboveAt Real.sqrt ⟨(3 / 100000), 0⟩ (some ⟨3, ⟨⟨⟨(1 / 12500), 0⟩, (1 / 20000)⟩, false⟩⟩) ⟨1, ⟨⟨⟨0, 0⟩, (1 / 20000)⟩, false⟩⟩ = true := by
    show decide (Arc.at_ Real.sqrt ⟨⟨⟨0, 0⟩, (1 / 20000)⟩, false⟩ ((3 / 100000) + 1 / 1000) ≥ Arc.at_ Real.sqrt ⟨⟨⟨(1 / 12500), 0⟩, (1 / 20000)⟩, false⟩ ((3 / 100000) + 1 / 1000))
      = true
    rw [decide_eq_true_eq, ge_iff_le]
    rw [EvTiny_at21, EvTiny_at24]
    all_goals norm_num
  have EvTiny_f25 : aboveAt Real.sqrt ⟨(3 / 100000), 0⟩ (some ⟨3, ⟨⟨⟨(1 / 12500), 0⟩, (1 / 20000)⟩, false⟩⟩) ⟨2, ⟨⟨⟨(1 / 12500), 0⟩, (1 / 20000)⟩, true⟩⟩ = true := by
    show decide (Arc.at_ Real.sqrt ⟨⟨⟨(1 / 12500), 0⟩, (1 / 20000)⟩, true⟩ ((3 / 100000) + 1 / 1000) ≥ Arc.at_ Real.sqrt ⟨⟨⟨(1 / 12500), 0⟩, (1 / 20000)⟩, false⟩ ((3 / 100000) + 1 / 1000))
      = true
    rw [decide_eq_true_eq, ge_iff_le]
    rw [EvTiny_at18, EvTiny_at24]
    all_goals norm_num
  have EvTiny_f26 : aboveAt Real.sqrt ⟨(3 / 100000), 0⟩ (some ⟨2, ⟨⟨⟨(1 / 12500), 0⟩, (1 / 20000)⟩, true⟩⟩) ⟨3, ⟨⟨⟨(1 / 12500), 0⟩, (1 / 20000)⟩, false⟩⟩ = true := by
    show decide (Arc.at_ Real.sqrt ⟨⟨⟨(1 / 12500), 0⟩, (1 / 20000)⟩, false⟩ ((3 / 100000) + 1 / 1000) ≥ Arc.at_ Real.sqrt ⟨⟨⟨(1 / 12500), 0⟩, (1 / 20000)⟩, true⟩ ((3 / 100000) + 1 / 1000))
      = true
    rw [decide_eq_true_eq, ge_iff_le]
    rw [EvTiny_at24, EvTiny_at18]
    all_goals norm_num
  have EvTiny_f27 : Arc.intersect Real.sqrt ⟨⟨⟨(1 / 12500), 0⟩, (1 / 20000)⟩, true⟩ ⟨⟨⟨(1 / 12500), 0⟩, (1 / 20000)⟩, false⟩ = [] := by
    unfold Arc.intersect
    simp only
    rw [intersect_same_center ⟨⟨(1 / 12500), 0⟩, (1 / 20000)⟩ ⟨⟨(1 / 12500), 0⟩, (1 / 20000)⟩ rfl]
    rfl
  have EvTiny_at29 : Arc.at_ Real.sqrt ⟨⟨⟨0, 0⟩, (1 / 20000)⟩, false⟩ (1 / 20000) = 0 - 0 :=
    at_lower_val ⟨⟨0, 0⟩, (1 / 20000)⟩ (1 / 20000) 0 (by norm_num)
      (abs_le.2 ⟨by norm_num, by norm_num⟩) (by norm_num)
  have EvTiny_f28 : aboveAt Real.sqrt ⟨(1 / 20000), 0⟩ none ⟨1, ⟨⟨⟨0, 0⟩, (1 / 20000)⟩, false⟩⟩ = true := by
    show decide (Arc.at_ Real.sqrt ⟨⟨⟨0, 0⟩, (1 / 20000)⟩, false⟩ (1 / 20000) ≥ 0) = true
    rw [decide_eq_true_eq, ge_iff_le]
    rw [EvTiny_at29]
    all_goals norm_num
  have EvTiny_at31 : Arc.at_ Real.sqrt ⟨⟨⟨(1 / 12500), 0⟩, (1 / 20000)⟩, true⟩ (1 / 20000) = 0 + (1 / 25000) :=
    at_upper_val ⟨⟨(1 / 12500), 0⟩, (1 / 20000)⟩ (1 / 20000) (1 / 25000) (by norm_num)
      (abs_le.2 ⟨by norm_num, by norm_num⟩) (by norm_num)
  have EvTiny_f30 : aboveAt Real.sqrt ⟨(1 / 20000), 0⟩ none ⟨2, ⟨⟨⟨(1 / 12500), 0⟩, (1 / 20000)⟩, true⟩⟩ = true := by
    show decide (Arc.at_ Real.sqrt ⟨⟨⟨(1 / 12500), 0⟩, (1 / 20000)⟩, true⟩ (1 / 20000) ≥ 0) = true
    rw [decide_eq_true_eq, ge_iff_le]
    rw [EvTiny_at31]
    all_goals norm_num
  have EvTiny_at33 : Arc.at_ Real.sqrt ⟨⟨⟨(1 / 12500), 0⟩, (1 / 20000)⟩, false⟩ (1 / 20000) = 0 - (1 / 25000) :=
    at_lower_val ⟨⟨(1 / 12500), 0⟩, (1 / 20000)⟩ (1 / 20000) (1 / 25000) (by norm_num)
      (abs_le.2 ⟨by norm_num, by norm_num⟩) (by norm_num)
  have EvTiny_f32 : aboveAt Real.sqrt ⟨(1 / 20000), 0⟩ none ⟨3, ⟨⟨⟨(1 / 12500), 0⟩, (1 / 20000)⟩, false⟩⟩ = false := by
    show decide (Arc.at_ Real.sqrt ⟨⟨⟨(1 / 12500), 0⟩, (1 / 20000)⟩, false⟩ (1 / 20000) ≥ 0) = false
    rw [decide_eq_false_iff_not, ge_iff_le, not_le]
    rw [EvTiny_at33]
    all_goals norm_num
  have EvTiny_f34 : Arc.contains Real.sqrt ⟨⟨⟨(1 / 12500), 0⟩, (1 / 20000)⟩, false⟩ ⟨(1 / 20000), 0⟩ = false := by
    show decide (|Arc.at_ Real.sqrt ⟨⟨⟨(1 / 12500), 0⟩, (1 / 20000)⟩, false⟩ (1 / 20000) - 0| < 1 / 100000) = false
    rw [decide_eq_false_iff_not, not_lt]
    rw [EvTiny_at33]
    exact le_abs.2 (Or.inr (by norm_num))
  have EvTiny_f35 : Arc.contains Real.sqrt ⟨⟨⟨(1 / 12500), 0⟩, (1 / 20000)⟩, true⟩ ⟨(1 / 20000), 0⟩ = false := by
    show decide (|Arc.at_ Real.sqrt ⟨⟨⟨(1 / 12500), 0⟩, (1 / 20000)⟩, true⟩ (1 / 20000) - 0| < 1 / 100000) = false
    rw [decide_eq_false_iff_not, not_lt]
    rw [EvTiny_at31]
    exact le_abs.2 (Or.inl (by norm_num))
  have EvTiny_f36 : Arc.contains Real.sqrt ⟨⟨⟨0, 0⟩, (1 / 20000)⟩, false⟩ ⟨(1 / 20000), 0⟩ = true := by
    show decide (|Arc.at_ Real.sqrt ⟨⟨⟨0, 0⟩, (1 / 20000)⟩, false⟩ (1 / 20000) - 0| < 1 / 100000) = true
    rw [decide_eq_true_eq, abs_lt]
    rw [EvTiny_at29]
    constructor <;> norm_num
  have EvTiny_at38 : Arc.at_ Real.sqrt ⟨⟨⟨0, 0⟩, (1 / 20000)⟩, true⟩ (1 / 20000) = 0 + 0 :=
    at_upper_val ⟨⟨0, 0⟩, (1 / 20000)⟩ (1 / 20000) 0 (by norm_num)
      (abs_le.2 ⟨by norm_num, by norm_num⟩) (by norm_num)
  have EvTiny_f37 : Arc.contains Real.sqrt ⟨⟨⟨0, 0⟩, (1 / 20000)⟩, true⟩ ⟨(1 / 20000), 0⟩ = true := by
    show decide (|Arc.at_ Real.sqrt ⟨⟨⟨0, 0⟩, (1 / 20000)⟩, true⟩ (1 / 20000) - 0| < 1 / 100000) = true
    rw [decide_eq_true_eq, abs_lt]
    rw [EvTiny_at38]
    constructor <;> norm_num
  have EvTiny_at40 : Arc.at_ Real.sqrt ⟨⟨⟨(1 / 12500), 0⟩, (1 / 20000)⟩, true⟩ (13 / 100000) = 0 + 0 :=
    at_upper_val ⟨⟨(1 / 12500), 0⟩, (1 / 20000)⟩ (13 / 100000) 0 (by norm_num)
      (abs_le.2 ⟨by norm_num, by norm_num⟩) (by norm_num)
  have EvTiny_f39 : aboveAt Real.sqrt ⟨(13 / 100000), 0⟩ none ⟨2, ⟨⟨⟨(1 / 12500), 0⟩, (1 / 20000)⟩, true⟩⟩ = true := by
    show decide (Arc.at_ Real.sqrt ⟨⟨⟨(1 / 12500), 0⟩, (1 / 20000)⟩, true⟩ (13 / 100000) ≥ 0) = true
    rw [decide_eq_true_eq, ge_iff_le]
    rw [EvTiny_at40]
    all_goals norm_num
  have EvTiny_at42 : Arc.at_ Real.sqrt ⟨⟨⟨(1 / 12500), 0⟩, (1 / 20000)⟩, false⟩ (13 / 100000) = 0 - 0 :=
    at_lower_val ⟨⟨(1 / 12500), 0⟩, (1 / 20000)⟩ (13 / 100000) 0 (by norm_num)
      (abs_le.2 ⟨by norm_num, by norm_num⟩) (by norm_num)
  have EvTiny_f41 : aboveAt Real.sqrt ⟨(13 / 100000), 0⟩ none ⟨3, ⟨⟨⟨(1 / 12500), 0⟩, (1 / 20000)⟩, false⟩⟩ = true := by
    show decide (Arc.at_ Real.sqrt ⟨⟨⟨(1 / 12500), 0⟩, (1 / 20000)⟩, false⟩ (13 / 100000) ≥ 0) = true
    rw [decide_eq_true_eq, ge_iff_le]
    rw [EvTiny_at42]
    all_goals norm_num
  have EvTiny_f43 : Arc.contains Real.sqrt ⟨⟨⟨(1 / 12500), 0⟩, (1 / 20000)⟩, false⟩ ⟨(13 / 100000), 0⟩ = true := by
    show decide (|Arc.at_ Real.sqrt ⟨⟨⟨(1 / 12500), 0⟩, (1 / 20000)⟩, false⟩ (13 / 100000) - 0| < 1 / 100000) = true
    rw [decide_eq_true_eq, abs_lt]
    rw [EvTiny_at42]
    constructor <;> norm_num
  have EvTiny_f44 : Arc.contains Real.sqrt ⟨⟨⟨(1 / 12500), 0⟩, (1 / 20000)⟩, true⟩ ⟨(13 / 100000), 0⟩ = true := by
    show decide (|Arc.at_ Real.sqrt ⟨⟨⟨(1 / 12500), 0⟩, (1 / 20000)⟩, true⟩ (13 / 100000) - 0| < 1 / 100000) = true
    rw [decide_eq_true_eq, abs_lt]
    rw [EvTiny_at40]
    constructor <;> norm_num
  have EvTiny_seed :
      seedEvents ([] : Events ℝ) 0 [⟨⟨0, 0⟩, (1 / 20000)⟩, ⟨⟨(1 / 12500), 0⟩, (1 / 20000)⟩]
        = [(⟨(-(1 / 20000)), 0⟩, [⟨0, ⟨⟨⟨0, 0⟩, (1 / 20000)⟩, true⟩⟩, ⟨1, ⟨⟨⟨0, 0⟩, (1 / 20000)⟩, false⟩⟩]), (⟨(3 / 100000), 0⟩, [⟨2, ⟨⟨⟨(1 / 12500), 0⟩, (1 / 20000)⟩, true⟩⟩, ⟨3, ⟨⟨⟨(1 / 12500), 0⟩, (1 / 20000)⟩, false⟩⟩]), (⟨(1 / 20000), 0⟩, []), (⟨(13 / 100000), 0⟩, [])] := by
    norm_num [seedEvents, seedCircle, Events.find, Events.set, Circle.begin, Circle.end_,
      Point.sub, Point.add, Point.lt]
  have EvTiny_step1 :
      sweepStep Real.sqrt [] ⟨(-(1 / 20000)), 0⟩
        [⟨0, ⟨⟨⟨0, 0⟩, (1 / 20000)⟩, true⟩⟩, ⟨1, ⟨⟨⟨0, 0⟩, (1 / 20000)⟩, false⟩⟩]
        [(⟨(3 / 100000), 0⟩, [⟨2, ⟨⟨⟨(1 / 12500), 0⟩, (1 / 20000)⟩, true⟩⟩, ⟨3, ⟨⟨⟨(1 / 12500), 0⟩, (1 / 20000)⟩, false⟩⟩]), (⟨(1 / 20000), 0⟩, []), (⟨(13 / 100000), 0⟩, [])]
        ⟨.nil⟩
      = some ⟨[], [(⟨(3 / 100000), 0⟩, [⟨2, ⟨⟨⟨(1 / 12500), 0⟩, (1 / 20000)⟩, true⟩⟩, ⟨3, ⟨⟨⟨(1 / 12500), 0⟩, (1 / 20000)⟩, false⟩⟩]), (⟨(1 / 20000), 0⟩, []), (⟨(13 / 100000), 0⟩, [])],
          ⟨(.node ⟨0, ⟨⟨⟨0, 0⟩, (1 / 20000)⟩, true⟩⟩ .BLACK (.node ⟨1, ⟨⟨⟨0, 0⟩, (1 / 20000)⟩, false⟩⟩ .RED .nil .nil) .nil)⟩⟩ := by
    norm_num [sweepStep, RBTree.contains, RBTree.insertPos, insertPosLoop, RBTree.empty,
      containsLoop, Node.size, report, removeAll, reinsert, insertBorn, RBTree.insert, insertFixup,
      blackenRoot, Node.setColor, Path.fill, discover, minArc, maxArc, RBTree.nodeOf, locate, isArc,
      RBTree.lower_bound, RBTree.upper_bound, climbLeft, climbRight, leftmost, rightmost,
      Events.erase, Events.find, Events.set, schedule, RBTree.remove, removeFixup,
      removeFixupLeftRot, removeFixupRightRot, leftRotate, rightRotate, Circle.ne, Point.ne,
      Point.eq, Point.lt, Circle.end_, Point.add, RBTree.lower_bound_at, RBTree.upper_bound_at,
      Node.color, Loc.tree, Loc.key?, spliceMin, Node.minKey, red_ne_black, black_ne_red,
      EvTiny_f1, EvTiny_f6, EvTiny_f7, EvTiny_f8, EvTiny_f10, EvTiny_f12, EvTiny_f13, EvTiny_f14, EvTiny_f19, EvTiny_f22, EvTiny_f25, EvTiny_f26, EvTiny_f27, EvTiny_f28, EvTiny_f30, EvTiny_f32, EvTiny_f34, EvTiny_f35, EvTiny_f36, EvTiny_f37, EvTiny_f39, EvTiny_f41, EvTiny_f43, EvTiny_f44]
  have EvTiny_step2 :
      sweepStep Real.sqrt [] ⟨(3 / 100000), 0⟩
        [⟨2, ⟨⟨⟨(1 / 12500), 0⟩, (1 / 20000)⟩, true⟩⟩, ⟨3, ⟨⟨⟨(1 / 12500), 0⟩, (1 / 20000)⟩, false⟩⟩]
        [(⟨(1 / 20000), 0⟩, []), (⟨(13 / 100000), 0⟩, [])]
        ⟨(.node ⟨0, ⟨⟨⟨0, 0⟩, (1 / 20000)⟩, true⟩⟩ .BLACK (.node ⟨1, ⟨⟨⟨0, 0⟩, (1 / 20000)⟩, false⟩⟩ .RED .nil .nil) .nil)⟩
      = some ⟨[], [(⟨(1 / 20000), 0⟩, []), (⟨(13 / 100000), 0⟩, [])],
          ⟨(.node ⟨1, ⟨⟨⟨0, 0⟩, (1 / 20000)⟩, false⟩⟩ .BLACK (.node ⟨2, ⟨⟨⟨(1 / 12500), 0⟩, (1 / 20000)⟩, true⟩⟩ .BLACK (.node ⟨3, ⟨⟨⟨(1 / 12500), 0⟩, (1 / 20000)⟩, false⟩⟩ .RED .nil .nil) .nil) (.node ⟨0, ⟨⟨⟨0, 0⟩, (1 / 20000)⟩, true⟩⟩ .BLACK .nil .nil))⟩⟩ := by
    norm_num [sweepStep, RBTree.contains, RBTree.insertPos, insertPosLoop, RBTree.empty,
      containsLoop, Node.size, report, removeAll, reinsert, insertBorn, RBTree.insert, insertFixup,
      blackenRoot, Node.setColor, Path.fill, discover, minArc, maxArc, RBTree.nodeOf, locate, isArc,
      RBTree.lower_bound, RBTree.upper_bound, climbLeft, climbRight, leftmost, rightmost,
      Events.erase, Events.find, Events.set, schedule, RBTree.remove, removeFixup,
      removeFixupLeftRot, removeFixupRightRot, leftRotate, rightRotate, Circle.ne, Point.ne,
      Point.eq, Point.lt, Circle.end_, Point.add, RBTree.lower_bound_at, RBTree.upper_bound_at,
      Node.color, Loc.tree, Loc.key?, spliceMin, Node.minKey, red_ne_black, black_ne_red,
      EvTiny_f1, EvTiny_f6, EvTiny_f7, EvTiny_f8, EvTiny_f10, EvTiny_f12, EvTiny_f13, EvTiny_f14, EvTiny_f19, EvTiny_f22, EvTiny_f25, EvTiny_f26, EvTiny_f27, EvTiny_f28, EvTiny_f30, EvTiny_f32, EvTiny_f34, EvTiny_f35, EvTiny_f36, EvTiny_f37, EvTiny_f39, EvTiny_f41, EvTiny_f43, EvTiny_f44]
  have EvTiny_step3 :
      sweepStep Real.sqrt [] ⟨(1 / 20000), 0⟩
        []
        [(⟨(13 / 100000), 0⟩, [])]
        ⟨(.node ⟨1, ⟨⟨⟨0, 0⟩, (1 / 20000)⟩, false⟩⟩ .BLACK (.node ⟨2, ⟨⟨⟨(1 / 12500), 0⟩, (1 / 20000)⟩, true⟩⟩ .BLACK (.node ⟨3, ⟨⟨⟨(1 / 12500), 0⟩, (1 / 20000)⟩, false⟩⟩ .RED .nil .nil) .nil) (.node ⟨0, ⟨⟨⟨0, 0⟩, (1 / 20000)⟩, true⟩⟩ .BLACK .nil .nil))⟩
      = some ⟨[], [(⟨(13 / 100000), 0⟩, [])],
          ⟨(.node ⟨2, ⟨⟨⟨(1 / 12500), 0⟩, (1 / 20000)⟩, true⟩⟩ .BLACK (.node ⟨3, ⟨⟨⟨(1 / 12500), 0⟩, (1 / 20000)⟩, false⟩⟩ .RED .nil .nil) .nil)⟩⟩ := by
    norm_num [sweepStep, RBTree.contains, RBTree.insertPos, insertPosLoop, RBTree.empty,
      containsLoop, Node.size, report, removeAll, reinsert, insertBorn, RBTree.insert, insertFixup,
      blackenRoot, Node.setColor, Path.fill, discover, minArc, maxArc, RBTree.nodeOf, locate, isArc,
      RBTree.lower_bound, RBTree.upper_bound, climbLeft, climbRight, leftmost, rightmost,
      Events.erase, Events.find, Events.set, schedule, RBTree.remove, removeFixup,
      removeFixupLeftRot, removeFixupRightRot, leftRotate, rightRotate, Circle.ne, Point.ne,
      Point.eq, Point.lt, Circle.end_, Point.add, RBTree.lower_bound_at, RBTree.upper_bound_at,
      Node.color, Loc.tree, Loc.key?, spliceMin, Node.minKey, red_ne_black, black_ne_red,
      EvTiny_f1, EvTiny_f6, EvTiny_f7, EvTiny_f8, EvTiny_f10, EvTiny_f12, EvTiny_f13, EvTiny_f14, EvTiny_f19, EvTiny_f22, EvTiny_f25, EvTiny_f26, EvTiny_f27, EvTiny_f28, EvTiny_f30, EvTiny_f32, EvTiny_f34, EvTiny_f35, EvTiny_f36, EvTiny_f37, EvTiny_f39, EvTiny_f41, EvTiny_f43, EvTiny_f44]
  have EvTiny_step4 :
      sweepStep Real.sqrt [] ⟨(13 / 100000), 0⟩
        []
        []
        ⟨(.node ⟨2, ⟨⟨⟨(1 / 12500), 0⟩, (1 / 20000)⟩, true⟩⟩ .BLACK (.node ⟨3, ⟨⟨⟨(1 / 12500), 0⟩, (1 / 20000)⟩, false⟩⟩ .RED .nil .nil) .nil)⟩
      = some ⟨[], [],
          ⟨.nil⟩⟩ := by
    norm_num [sweepStep, RBTree.contains, RBTree.insertPos, insertPosLoop, RBTree.empty,
      containsLoop, Node.size, report, removeAll, reinsert, insertBorn, RBTree.insert, insertFixup,
      blackenRoot, Node.setColor, Path.fill, discover, minArc, maxArc, RBTree.nodeOf, locate, isArc,
      RBTree.lower_bound, RBTree.upper_bound, climbLeft, climbRight, leftmost, rightmost,
      Events.erase, Events.find, Events.set, schedule, RBTree.remove, removeFixup,
      removeFixupLeftRot, removeFixupRightRot, leftRotate, rightRotate, Circle.ne, Point.ne,
      Point.eq, Point.lt, Circle.end_, Point.add, RBTree.lower_bound_at, RBTree.upper_bound_at,
      Node.color, Loc.tree, Loc.key?, spliceMin, Node.minKey, red_ne_black, black_ne_red,
      EvTiny_f1, EvTiny_f6, EvTiny_f7, EvTiny_f8, EvTiny_f10, EvTiny_f12, EvTiny_f13, EvTiny_f14, EvTiny_f19, EvTiny_f22, EvTiny_f25, EvTiny_f26, EvTiny_f27, EvTiny_f28, EvTiny_f30, EvTiny_f32, EvTiny_f34, EvTiny_f35, EvTiny_f36, EvTiny_f37, EvTiny_f39, EvTiny_f41, EvTiny_f43, EvTiny_f44]
  rw [eventLoop, RBTree.empty, EvTiny_seed]
  rw [show fuel + 4 = (fuel + 3) + 1 from rfl, sweepLoop, EvTiny_step1]
  simp only
  rw [show fuel + 3 = (fuel + 2) + 1 from rfl, sweepLoop, EvTiny_step2]
  simp only
  rw [show fuel + 2 = (fuel + 1) + 1 from rfl, sweepLoop, EvTiny_step3]
  simp only
  rw [show fuel + 1 = (fuel + 0) + 1 from rfl, sweepLoop, EvTiny_step4]
  simp only
  cases fuel <;> rfl

set_option maxHeartbeats 100000000 in
/-- The run of the event loop of `circleIntersect` for
the circles of centre (-1/16384, 3/16384), radius 1/16384, of centre (1/4096, 0), radius 5/16384,
and of centre (0,0), radius 1/16384, in this order:
the heights of the arcs and the comparisons the run makes, then the passes of the loop
one by one. -/
theorem EvOrdA_run (fuel : Nat) :
    eventLoop Real.sqrt (fuel + 5) [⟨⟨(-(1 / 16384)), (3 / 16384)⟩, (1 / 16384)⟩, ⟨⟨(1 / 4096), 0⟩, (5 / 16384)⟩, ⟨⟨0, 0⟩, (1 / 16384)⟩]
      = some ⟨[⟨(-(1 / 16384)), 0⟩, ⟨0, (3 / 16384)⟩], [],
        ⟨.nil⟩⟩ := by
  have EvOrdA_at2 : Arc.at_ Real.sqrt ⟨⟨⟨(-(1 / 16384)), (3 / 16384)⟩, (1 / 16384)⟩, true⟩ (899 / 1024000) = (3 / 16384) :=
    at_out ⟨⟨⟨(-(1 / 16384)), (3 / 16384)⟩, (1 / 16384)⟩, true⟩ (899 / 1024000) (lt_abs.2 (Or.inl (by norm_num)))
  have EvOrdA_at3 : Arc.at_ Real.sqrt ⟨⟨⟨(-(1 / 16384)), (3 / 16384)⟩, (1 / 16384)⟩, true⟩ ((-(1 / 8192)) + 1 / 1000) = (3 / 16384) := by
    have e : ((-(1 / 8192)) + 1 / 1000 : ℝ) = (899 / 1024000) := by norm_num
    rw [e, EvOrdA_at2]
  have EvOrdA_at4 : Arc.at_ Real.sqrt ⟨⟨⟨(-(1 / 16384)), (3 / 16384)⟩, (1 / 16384)⟩, false⟩ (899 / 1024000) = (3 / 16384) :=
    at_out ⟨⟨⟨(-(1 / 16384)), (3 / 16384)⟩, (1 / 16384)⟩, false⟩ (899 / 1024000) (lt_abs.2 (Or.inl (by norm_num)))
  have EvOrdA_at5 : Arc.at_ Real.sqrt ⟨⟨⟨(-(1 / 16384)), (3 / 16384)⟩, (1 / 16384)⟩, false⟩ ((-(1 / 8192)) + 1 / 1000) = (3 / 16384) := by
    have e : ((-(1 / 8192)) + 1 / 1000 : ℝ) = (899 / 1024000) := by norm_num
    rw [e, EvOrdA_at4]
  have EvOrdA_f1 : aboveAt Real.sqrt ⟨(-(1 / 8192)), (3 / 16384)⟩ (some ⟨1, ⟨⟨⟨(-(1 / 16384)), (3 / 16384)⟩, (1 / 16384)⟩, false⟩⟩) ⟨0, ⟨⟨⟨(-(1 / 16384)), (3 / 16384)⟩, (1 / 16384)⟩, true⟩⟩ = true := by
    show decide (Arc.at_ Real.sqrt ⟨⟨⟨(-(1 / 16384)), (3 / 16384)⟩, (1 / 16384)⟩, true⟩ ((-(1 / 8192)) + 1 / 1000) ≥ Arc.at_ Real.sqrt ⟨⟨⟨(-(1 / 16384)), (3 / 16384)⟩, (1 / 16384)⟩, false⟩ ((-(1 / 8192)) + 1 / 1000))
      = true
    rw [decide_eq_true_eq, ge_iff_le]
    rw [EvOrdA_at3, EvOrdA_at5]
    all_goals norm_num
  have EvOrdA_f6 : aboveAt Real.sqrt ⟨(-(1 / 8192)), (3 / 16384)⟩ (some ⟨0, ⟨⟨⟨(-(1 / 16384)), (3 / 16384)⟩, (1 / 16384)⟩, true⟩⟩) ⟨1, ⟨⟨⟨(-(1 / 16384)), (3 / 16384)⟩, (1 / 16384)⟩, false⟩⟩ = true := by
    show decide (Arc.at_ Real.sqrt ⟨⟨⟨(-(1 / 16384)), (3 / 16384)⟩, (1 / 16384)⟩, false⟩ ((-(1 / 8192)) + 1 / 1000) ≥ Arc.at_ Real.sqrt ⟨⟨⟨(-(1 / 16384)), (3 / 16384)⟩, (1 / 16384)⟩, true⟩ ((-(1 / 8192)) + 1 / 1000))
      = true
    rw [decide_eq_true_eq, ge_iff_le]
    rw [EvOrdA_at5, EvOrdA_at3]
    all_goals norm_num
  have EvOrdA_f7 : Arc.intersect Real.sqrt ⟨⟨⟨(-(1 / 16384)), (3 / 16384)⟩, (1 / 16384)⟩, true⟩ ⟨⟨⟨(-(1 / 16384)), (3 / 16384)⟩, (1 / 16384)⟩, false⟩ = [] := by
    unfold Arc.intersect
    simp only
    rw [intersect_same_center ⟨⟨(-(1 / 16384)), (3 / 16384)⟩, (1 / 16384)⟩ ⟨⟨(-(1 / 16384)), (3 / 16384)⟩, (1 / 16384)⟩ rfl]
    rfl
  have EvOrdA_at9 : Arc.at_ Real.sqrt ⟨⟨⟨(-(1 / 16384)), (3 / 16384)⟩, (1 / 16384)⟩, true⟩ (-(1 / 16384)) = (3 / 16384) + (1 / 16384) :=
    at_upper_val ⟨⟨(-(1 / 16384)), (3 / 16384)⟩, (1 / 16384)⟩ (-(1 / 16384)) (1 / 16384) (by norm_num)
      (abs_le.2 ⟨by norm_num, by norm_num⟩) (by norm_num)
  have EvOrdA_f8 : aboveAt Real.sqrt ⟨(-(1 / 16384)), 0⟩ none ⟨0, ⟨⟨⟨(-(1 / 16384)), (3 / 16384)⟩, (1 / 16384)⟩, true⟩⟩ = true := by
    show decide (Arc.at_ Real.sqrt ⟨⟨⟨(-(1 / 16384)), (3 / 16384)⟩, (1 / 16384)⟩, true⟩ (-(1 / 16384)) ≥ 0) = true
    rw [decide_eq_true_eq, ge_iff_le]
    rw [EvOrdA_at9]
    all_goals norm_num
  have EvOrdA_at11 : Arc.at_ Real.sqrt ⟨⟨⟨(-(1 / 16384)), (3 / 16384)⟩, (1 / 16384)⟩, false⟩ (-(1 / 16384)) = (3 / 16384) - (1 / 16384) :=
    at_lower_val ⟨⟨(-(1 / 16384)), (3 / 16384)⟩, (1 / 16384)⟩ (-(1 / 16384)) (1 / 16384) (by norm_num)
      (abs_le.2 ⟨by norm_num, by norm_num⟩) (by norm_num)
  have EvOrdA_f10 : aboveAt Real.sqrt ⟨(-(1 / 16384)), 0⟩ none ⟨1, ⟨⟨⟨(-(1 / 16384)), (3 / 16384)⟩, (1 / 16384)⟩, false⟩⟩ = true := by
    show decide (Arc.at_ Real.sqrt ⟨⟨⟨(-(1 / 16384)), (3 / 16384)⟩, (1 / 16384)⟩, false⟩ (-(1 / 16384)) ≥ 0) = true
    rw [decide_eq_true_eq, ge_iff_le]
    rw [EvOrdA_at11]
    all_goals norm_num
  have EvOrdA_f12 : Arc.contains Real.sqrt ⟨⟨⟨(-(1 / 16384)), (3 / 16384)⟩, (1 / 16384)⟩, false⟩ ⟨(-(1 / 16384)), 0⟩ = false := by
    show decide (|Arc.at_ Real.sqrt ⟨⟨⟨(-(1 / 16384)), (3 / 16384)⟩, (1 / 16384)⟩, false⟩ (-(1 / 16384)) - 0| < 1 / 100000) = false
    rw [decide_eq_false_iff_not, not_lt]
    rw [EvOrdA_at11]
    exact le_abs.2 (Or.inl (by norm_num))
  have EvOrdA_f13 : Arc.contains Real.sqrt ⟨⟨⟨(-(1 / 16384)), (3 / 16384)⟩, (1 / 16384)⟩, true⟩ ⟨(-(1 / 16384)), 0⟩ = false := by
    show decide (|Arc.at_ Real.sqrt ⟨⟨⟨(-(1 / 16384)), (3 / 16384)⟩, (1 / 16384)⟩, true⟩ (-(1 / 16384)) - 0| < 1 / 100000) = false
    rw [decide_eq_false_iff_not, not_lt]
    rw [EvOrdA_at9]
    exact le_abs.2 (Or.inl (by norm_num))
  have EvOrdA_at15 : Arc.at_ Real.sqrt ⟨⟨⟨(-(1 / 16384)), (3 / 16384)⟩, (1 / 16384)⟩, true⟩ (1923 / 2048000) = (3 / 16384) :=
    at_out ⟨⟨⟨(-(1 / 16384)), (3 / 16384)⟩, (1 / 16384)⟩, true⟩ (1923 / 2048000) (lt_abs.2 (Or.inl (by norm_num)))
  have EvOrdA_at16 : Arc.at_ Real.sqrt ⟨⟨⟨(-(1 / 16384)), (3 / 16384)⟩, (1 / 16384)⟩, true⟩ ((-(1 / 16384)) + 1 / 1000) = (3 / 16384) := by
    have e : ((-(1 / 16384)) + 1 / 1000 : ℝ) = (1923 / 2048000) := by norm_num
    rw [e, EvOrdA_at15]
  have EvOrdA_at17 : Arc.at_ Real.sqrt ⟨⟨⟨(1 / 4096), 0⟩, (5 / 16384)⟩, true⟩ (1923 / 2048000) = 0 :=
    at_out ⟨⟨⟨(1 / 4096), 0⟩, (5 / 16384)⟩, true⟩ (1923 / 2048000) (lt_abs.2 (Or.inl (by norm_num)))
  have EvOrdA_at18 : Arc.at_ Real.sqrt ⟨⟨⟨(1 / 4096), 0⟩, (5 / 16384)⟩, true⟩ ((-(1 / 16384)) + 1 / 1000) = 0 := by
    have e : ((-(1 / 16384)) + 1 / 1000 : ℝ) = (1923 / 2048000) := by norm_num
    rw [e, EvOrdA_at17]
  have EvOrdA_f14 : aboveAt Real.sqrt ⟨(-(1 / 16384)), 0⟩ (some ⟨2, ⟨⟨⟨(1 / 4096), 0⟩, (5 / 16384)⟩, true⟩⟩) ⟨0, ⟨⟨⟨(-(1 / 16384)), (3 / 16384)⟩, (1 / 16384)⟩, true⟩⟩ = true := by
    show decide (Arc.at_ Real.sqrt ⟨⟨⟨(-(1 / 16384)), (3 / 16384)⟩, (1 / 16384)⟩, true⟩ ((-(1 / 16384)) + 1 / 1000) ≥ Arc.at_ Real.sqrt ⟨⟨⟨(1 / 4096), 0⟩, (5 / 16384)⟩, true⟩ ((-(1 / 16384)) + 1 / 1000))
      = true
    rw [decide_eq_true_eq, ge_iff_le]
    rw [EvOrdA_at16, EvOrdA_at18]
    all_goals norm_num
  have EvOrdA_at20 : Arc.at_ Real.sqrt ⟨⟨⟨(-(1 / 16384)), (3 / 16384)⟩, (1 / 16384)⟩, false⟩ (1923 / 2048000) = (3 / 16384) :=
    at_out ⟨⟨⟨(-(1 / 16384)), (3 / 16384)⟩, (1 / 16384)⟩, false⟩ (1923 / 2048000) (lt_abs.2 (Or.inl (by norm_num)))
  have EvOrdA_at21 : Arc.at_ Real.sqrt ⟨⟨⟨(-(1 / 16384)), (3 / 16384)⟩, (1 / 16384)⟩, false⟩ ((-(1 / 16384)) + 1 / 1000) = (3 / 16384) := by
    have e : ((-(1 / 16384)) + 1 / 1000 : ℝ) = (1923 / 2048000) := by norm_num
    rw [e, EvOrdA_at20]
  have EvOrdA_f19 : aboveAt Real.sqrt ⟨(-(1 / 16384)), 0⟩ (some ⟨2, ⟨⟨⟨(1 / 4096), 0⟩, (5 / 16384)⟩, true⟩⟩) ⟨1, ⟨⟨⟨(-(1 / 16384)), (3 / 16384)⟩, (1 / 16384)⟩, false⟩⟩ = true := by
    show decide (Arc.at_ Real.sqrt ⟨⟨⟨(-(1 / 16384)), (3 / 16384)⟩, (1 / 16384)⟩, false⟩ ((-(1 / 16384)) + 1 / 1000) ≥ Arc.at_ Real.sqrt ⟨⟨⟨(1 / 4096), 0⟩, (5 / 16384)⟩, true⟩ ((-(1 / 16384)) + 1 / 1000))
      = true
    rw [decide_eq_true_eq, ge_iff_le]
    rw [EvOrdA_at21, EvOrdA_at18]
    all_goals norm_num
  have EvOrdA_at23 : Arc.at_ Real.sqrt ⟨⟨⟨(1 / 4096), 0⟩, (5 / 16384)⟩, false⟩ (1923 / 2048000) = 0 :=
    at_out ⟨⟨⟨(1 / 4096), 0⟩, (5 / 16384)⟩, false⟩ (1923 / 2048000) (lt_abs.2 (Or.inl (by norm_num)))
  have EvOrdA_at24 : Arc.at_ Real.sqrt ⟨⟨⟨(1 / 4096), 0⟩, (5 / 16384)⟩, false⟩ ((-(1 / 16384)) + 1 / 1000) = 0 := by
    have e : ((-(1 / 16384)) + 1 / 1000 : ℝ) = (1923 / 2048000) := by norm_num
    rw [e, EvOrdA_at23]
  have EvOrdA_f22 : aboveAt Real.sqrt ⟨(-(1 / 16384)), 0⟩ (some ⟨3, ⟨⟨⟨(1 / 4096), 0⟩, (5 / 16384)⟩, false⟩⟩) ⟨1, ⟨⟨⟨(-(1 / 16384)), (3 / 16384)⟩, (1 / 16384)⟩, false⟩⟩ = true := by
    show decide (Arc.at_ Real.sqrt ⟨⟨⟨(-(1 / 16384)), (3 / 16384)⟩, (1 / 16384)⟩, false⟩ ((-(1 / 16384)) + 1 / 1000) ≥ Arc.at_ Real.sqrt ⟨⟨⟨(1 / 4096), 0⟩, (5 / 16384)⟩, false⟩ ((-(1 / 16384)) + 1 / 1000))
      = true
    rw [decide_eq_true_eq, ge_iff_le]
    rw [EvOrdA_at21, EvOrdA_at24]
    all_goals norm_num
  have EvOrdA_f25 : aboveAt Real.sqrt ⟨(-(1 / 16384)), 0⟩ (some ⟨3, ⟨⟨⟨(1 / 4096), 0⟩, (5 / 16384)⟩, false⟩⟩) ⟨2, ⟨⟨⟨(1 / 4096), 0⟩, (5 / 16384)⟩, true⟩⟩ = true := by
    show decide (Arc.at_ Real.sqrt ⟨⟨⟨(1 / 4096), 0⟩, (5 / 16384)⟩, true⟩ ((-(1 / 16384)) + 1 / 1000) ≥ Arc.at_ Real.sqrt ⟨⟨⟨(1 / 4096), 0⟩, (5 / 16384)⟩, false⟩ ((-(1 / 16384)) + 1 / 1000))
      = true
    rw [decide_eq_true_eq, ge_iff_le]
    rw [EvOrdA_at18, EvOrdA_at24]
    all_goals norm_num
  have EvOrdA_at27 : Arc.at_ Real.sqrt ⟨⟨⟨0, 0⟩, (1 / 16384)⟩, true⟩ (1923 / 2048000) = 0 :=
    at_out ⟨⟨⟨0, 0⟩, (1 / 16384)⟩, true⟩ (1923 / 2048000) (lt_abs.2 (Or.inl (by norm_num)))
  have EvOrdA_at28 : Arc.at_ Real.sqrt ⟨⟨⟨0, 0⟩, (1 / 16384)⟩, true⟩ ((-(1 / 16384)) + 1 / 1000) = 0 := by
    have e : ((-(1 / 16384)) + 1 / 1000 : ℝ) = (1923 / 2048000) := by norm_num
    rw [e, EvOrdA_at27]
  have EvOrdA_f26 : aboveAt Real.sqrt ⟨(-(1 / 16384)), 0⟩ (some ⟨4, ⟨⟨⟨0, 0⟩, (1 / 16384)⟩, true⟩⟩) ⟨1, ⟨⟨⟨(-(1 / 16384)), (3 / 16384)⟩, (1 / 16384)⟩, false⟩⟩ = true := by
    show decide (Arc.at_ Real.sqrt ⟨⟨⟨(-(1 / 16384)), (3 / 16384)⟩, (1 / 16384)⟩, false⟩ ((-(1 / 16384)) + 1 / 1000) ≥ Arc.at_ Real.sqrt ⟨⟨⟨0, 0⟩, (1 / 16384)⟩, true⟩ ((-(1 / 16384)) + 1 / 1000))
      = true
    rw [decide_eq_true_eq, ge_iff_le]
    rw [EvOrdA_at21, EvOrdA_at28]
    all_goals norm_num
  have EvOrdA_f29 : aboveAt Real.sqrt ⟨(-(1 / 16384)), 0⟩ (some ⟨4, ⟨⟨⟨0, 0⟩, (1 / 16384)⟩, true⟩⟩) ⟨2, ⟨⟨⟨(1 / 4096), 0⟩, (5 / 16384)⟩, true⟩⟩ = true := by
    show decide (Arc.at_ Real.sqrt ⟨⟨⟨(1 / 4096), 0⟩, (5 / 16384)⟩, true⟩ ((-(1 / 16384)) + 1 / 1000) ≥ Arc.at_ Real.sqrt ⟨⟨⟨0, 0⟩, (1 / 16384)⟩, true⟩ ((-(1 / 16384)) + 1 / 1000))
      = true
    rw [decide_eq_true_eq, ge_iff_le]
    rw [EvOrdA_at18, EvOrdA_at28]
    all_goals norm_num
  have EvOrdA_f30 : aboveAt Real.sqrt ⟨(-(1 / 16384)), 0⟩ (some ⟨4, ⟨⟨⟨0, 0⟩, (1 / 16384)⟩, true⟩⟩) ⟨3, ⟨⟨⟨(1 / 4096), 0⟩, (5 / 16384)⟩, false⟩⟩ = true := by
    show decide (Arc.at_ Real.sqrt ⟨⟨⟨(1 / 4096), 0⟩, (5 / 16384)⟩, false⟩ ((-(1 / 16384)) + 1 / 1000) ≥ Arc.at_ Real.sqrt ⟨⟨⟨0, 0⟩, (1 / 16384)⟩, true⟩ ((-(1 / 16384)) + 1 / 1000))
      = true
    rw [decide_eq_true_eq, ge_iff_le]
    rw [EvOrdA_at24, EvOrdA_at28]
    all_goals norm_num
  have EvOrdA_at32 : Arc.at_ Real.sqrt ⟨⟨⟨0, 0⟩, (1 / 16384)⟩, false⟩ (1923 / 2048000) = 0 :=
    at_out ⟨⟨⟨0, 0⟩, (1 / 16384)⟩, false⟩ (1923 / 2048000) (lt_abs.2 (Or.inl (by norm_num)))
  have EvOrdA_at33 : Arc.at_ Real.sqrt ⟨⟨⟨0, 0⟩, (1 / 16384)⟩, false⟩ ((-(1 / 16384)) + 1 / 1000) = 0 := by
    have e : ((-(1 / 16384)) + 1 / 1000 : ℝ) = (1923 / 2048000) := by norm_num
    rw [e, EvOrdA_at32]
  have EvOrdA_f31 : aboveAt Real.sqrt ⟨(-(1 / 16384)), 0⟩ (some ⟨5, ⟨⟨⟨0, 0⟩, (1 / 16384)⟩, false⟩⟩) ⟨1, ⟨⟨⟨(-(1 / 16384)), (3 / 16384)⟩, (1 / 16384)⟩, false⟩⟩ = true := by
    show decide (Arc.at_ Real.sqrt ⟨⟨⟨(-(1 / 16384)), (3 / 16384)⟩, (1 / 16384)⟩, false⟩ ((-(1 / 16384)) + 1 / 1000) ≥ Arc.at_ Real.sqrt ⟨⟨⟨0, 0⟩, (1 / 16384)⟩, false⟩ ((-(1 / 16384)) + 1 / 1000))
      = true
    rw [decide_eq_true_eq, ge_iff_le]
    rw [EvOrdA_at21, EvOrdA_at33]
    all_goals norm_num
  have EvOrdA_f34 : aboveAt Real.sqrt ⟨(-(1 / 16384)), 0⟩ (some ⟨5, ⟨⟨⟨0, 0⟩, (1 / 16384)⟩, false⟩⟩) ⟨3, ⟨⟨⟨(1 / 4096), 0⟩, (5 / 16384)⟩, false⟩⟩ = true := by
    show decide (Arc.at_ Real.sqrt ⟨⟨⟨(1 / 4096), 0⟩, (5 / 16384)⟩, false⟩ ((-(1 / 16384)) + 1 / 1000) ≥ Arc.at_ Real.sqrt ⟨⟨⟨0, 0⟩, (1 / 16384)⟩, false⟩ ((-(1 / 16384)) + 1 / 1000))
      = true
    rw [decide_eq_true_eq, ge_iff_le]
    rw [EvOrdA_at24, EvOrdA_at33]
    all_goals norm_num
  have EvOrdA_f35 : aboveAt Real.sqrt ⟨(-(1 / 16384)), 0⟩ (some ⟨5, ⟨⟨⟨0, 0⟩, (1 / 16384)⟩, false⟩⟩) ⟨4, ⟨⟨⟨0, 0⟩, (1 / 16384)⟩, true⟩⟩ = true := by
    show decide (Arc.at_ Real.sqrt ⟨⟨⟨0, 0⟩, (1 / 16384)⟩, true⟩ ((-(1 / 16384)) + 1 / 1000) ≥ Arc.at_ Real.sqrt ⟨⟨⟨0, 0⟩, (1 / 16384)⟩, false⟩ ((-(1 / 16384)) + 1 / 1000))
      = true
    rw [decide_eq_true_eq, ge_iff_le]
    rw [EvOrdA_at28, EvOrdA_at33]
    all_goals norm_num
  have EvOrdA_f36 : aboveAt Real.sqrt ⟨(-(1 / 16384)), 0⟩ (some ⟨2, ⟨⟨⟨(1 / 4096), 0⟩, (5 / 16384)⟩, true⟩⟩) ⟨3, ⟨⟨⟨(1 / 4096), 0⟩, (5 / 16384)⟩, false⟩⟩ = true := by
    show decide (Arc.at_ Real.sqrt ⟨⟨⟨(1 / 4096), 0⟩, (5 / 16384)⟩, false⟩ ((-(1 / 16384)) + 1 / 1000) ≥ Arc.at_ Real.sqrt ⟨⟨⟨(1 / 4096), 0⟩, (5 / 16384)⟩, true⟩ ((-(1 / 16384)) + 1 / 1000))
      = true
    rw [decide_eq_true_eq, ge_iff_le]
    rw [EvOrdA_at24, EvOrdA_at18]
    all_goals norm_num
  have EvOrdA_f37 : aboveAt Real.sqrt ⟨(-(1 / 16384)), 0⟩ (some ⟨3, ⟨⟨⟨(1 / 4096), 0⟩, (5 / 16384)⟩, false⟩⟩) ⟨4, ⟨⟨⟨0, 0⟩, (1 / 16384)⟩, true⟩⟩ = true := by
    show decide (Arc.at_ Real.sqrt ⟨⟨⟨0, 0⟩, (1 / 16384)⟩, true⟩ ((-(1 / 16384)) + 1 / 1000) ≥ Arc.at_ Real.sqrt ⟨⟨⟨(1 / 4096), 0⟩, (5 / 16384)⟩, false⟩ ((-(1 / 16384)) + 1 / 1000))
      = true
    rw [decide_eq_true_eq, ge_iff_le]
    rw [EvOrdA_at28, EvOrdA_at24]
    all_goals norm_num
  have EvOrdA_f38 : aboveAt Real.sqrt ⟨(-(1 / 16384)), 0⟩ (some ⟨4, ⟨⟨⟨0, 0⟩, (1 / 16384)⟩, true⟩⟩) ⟨5, ⟨⟨⟨0, 0⟩, (1 / 16384)⟩, false⟩⟩ = true := by
    show decide (Arc.at_ Real.sqrt ⟨⟨⟨0, 0⟩, (1 / 16384)⟩, false⟩ ((-(1 / 16384)) + 1 / 1000) ≥ Arc.at_ Real.sqrt ⟨⟨⟨0, 0⟩, (1 / 16384)⟩, true⟩ ((-(1 / 16384)) + 1 / 1000))
      = true
    rw [decide_eq_true_eq, ge_iff_le]
    rw [EvOrdA_at33, EvOrdA_at28]
    all_goals norm_num
  have EvOrdA_f39 : Arc.intersect Real.sqrt ⟨⟨⟨0, 0⟩, (1 / 16384)⟩, true⟩ ⟨⟨⟨0, 0⟩, (1 / 16384)⟩, false⟩ = [] := by
    unfold Arc.intersect
    simp only
    rw [intersect_same_center ⟨⟨0, 0⟩, (1 / 16384)⟩ ⟨⟨0, 0⟩, (1 / 16384)⟩ rfl]
    rfl
  have EvOrdA_at41 : Arc.at_ Real.sqrt ⟨⟨⟨(-(1 / 16384)), (3 / 16384)⟩, (1 / 16384)⟩, false⟩ 0 = (3 / 16384) - 0 :=
    at_lower_val ⟨⟨(-(1 / 16384)), (3 / 16384)⟩, (1 / 16384)⟩ 0 0 (by norm_num)
      (abs_le.2 ⟨by norm_num, by norm_num⟩) (by norm_num)
  have EvOrdA_f40 : aboveAt Real.sqrt ⟨0, (3 / 16384)⟩ none ⟨1, ⟨⟨⟨(-(1 / 16384)), (3 / 16384)⟩, (1 / 16384)⟩, false⟩⟩ = true := by
    show decide (Arc.at_ Real.sqrt ⟨⟨⟨(-(1 / 16384)), (3 / 16384)⟩, (1 / 16384)⟩, false⟩ 0 ≥ (3 / 16384)) = true
    rw [decide_eq_true_eq, ge_iff_le]
    rw [EvOrdA_at41]
    all_goals norm_num
  have EvOrdA_at43 : Arc.at_ Real.sqrt ⟨⟨⟨(1 / 4096), 0⟩, (5 / 16384)⟩, false⟩ 0 = 0 - (3 / 16384) :=
    at_lower_val ⟨⟨(1 / 4096), 0⟩, (5 / 16384)⟩ 0 (3 / 16384) (by norm_num)
      (abs_le.2 ⟨by norm_num, by norm_num⟩) (by norm_num)
  have EvOrdA_f42 : aboveAt Real.sqrt ⟨0, (3 / 16384)⟩ none ⟨3, ⟨⟨⟨(1 / 4096), 0⟩, (5 / 16384)⟩, false⟩⟩ = false := by
    show decide (Arc.at_ Real.sqrt ⟨⟨⟨(1 / 4096), 0⟩, (5 / 16384)⟩, false⟩ 0 ≥ (3 / 16384)) = false
    rw [decide_eq_false_iff_not, ge_iff_le, not_le]
    rw [EvOrdA_at43]
    all_goals norm_num
  have EvOrdA_at45 : Arc.at_ Real.sqrt ⟨⟨⟨(1 / 4096), 0⟩, (5 / 16384)⟩, true⟩ 0 = 0 + (3 / 16384) :=
    at_upper_val ⟨⟨(1 / 4096), 0⟩, (5 / 16384)⟩ 0 (3 / 16384) (by norm_num)
      (abs_le.2 ⟨by norm_num, by norm_num⟩) (by norm_num)
  have EvOrdA_f44 : aboveAt Real.sqrt ⟨0, (3 / 16384)⟩ none ⟨2, ⟨⟨⟨(1 / 4096), 0⟩, (5 / 16384)⟩, true⟩⟩ = true := by
    show decide (Arc.at_ Real.sqrt ⟨⟨⟨(1 / 4096), 0⟩, (5 / 16384)⟩, true⟩ 0 ≥ (3 / 16384)) = true
    rw [decide_eq_true_eq, ge_iff_le]
    rw [EvOrdA_at45]
    all_goals norm_num
  have EvOrdA_f46 : Arc.contains Real.sqrt ⟨⟨⟨(1 / 4096), 0⟩, (5 / 16384)⟩, true⟩ ⟨0, (3 / 16384)⟩ = true := by
    show decide (|Arc.at_ Real.sqrt ⟨⟨⟨(1 / 4096), 0⟩, (5 / 16384)⟩, true⟩ 0 - (3 / 16384)| < 1 / 100000) = true
    rw [decide_eq_true_eq, abs_lt]
    rw [EvOrdA_at45]
    constructor <;> norm_num
  have EvOrdA_f47 : Arc.contains Real.sqrt ⟨⟨⟨(-(1 / 16384)), (3 / 16384)⟩, (1 / 16384)⟩, false⟩ ⟨0, (3 / 16384)⟩ = true := by
    show decide (|Arc.at_ Real.sqrt ⟨⟨⟨(-(1 / 16384)), (3 / 16384)⟩, (1 / 16384)⟩, false⟩ 0 - (3 / 16384)| < 1 / 100000) = true
    rw [decide_eq_true_eq, abs_lt]
    rw [EvOrdA_at41]
    constructor <;> norm_num
  have EvOrdA_at49 : Arc.at_ Real.sqrt ⟨⟨⟨(-(1 / 16384)), (3 / 16384)⟩, (1 / 16384)⟩, true⟩ 0 = (3 / 16384) + 0 :=
    at_upper_val ⟨⟨(-(1 / 16384)), (3 / 16384)⟩, (1 / 16384)⟩ 0 0 (by norm_num)
      (abs_le.2 ⟨by norm_num, by norm_num⟩) (by norm_num)
  have EvOrdA_f48 : Arc.contains Real.sqrt ⟨⟨⟨(-(1 / 16384)), (3 / 16384)⟩, (1 / 16384)⟩, true⟩ ⟨0, (3 / 16384)⟩ = true := by
    show decide (|Arc.at_ Real.sqrt ⟨⟨⟨(-(1 / 16384)), (3 / 16384)⟩, (1 / 16384)⟩, true⟩ 0 - (3 / 16384)| < 1 / 100000) = true
    rw [decide_eq_true_eq, abs_lt]
    rw [EvOrdA_at49]
    constructor <;> norm_num
  have EvOrdA_at51 : Arc.at_ Real.sqrt ⟨⟨⟨0, 0⟩, (1 / 16384)⟩, true⟩ (1 / 1000) = 0 :=
    at_out ⟨⟨⟨0, 0⟩, (1 / 16384)⟩, true⟩ (1 / 1000) (lt_abs.2 (Or.inl (by norm_num)))
  have EvOrdA_at52 : Arc.at_ Real.sqrt ⟨⟨⟨0, 0⟩, (1 / 16384)⟩, true⟩ (0 + 1 / 1000) = 0 := by
    have e : (0 + 1 / 1000 : ℝ) = (1 / 1000) := by norm_num
    rw [e, EvOrdA_at51]
  have EvOrdA_at53 : Arc.at_ Real.sqrt ⟨⟨⟨(1 / 4096), 0⟩, (5 / 16384)⟩, true⟩ (1 / 1000) = 0 :=
    at_out ⟨⟨⟨(1 / 4096), 0⟩, (5 / 16384)⟩, true⟩ (1 / 1000) (lt_abs.2 (Or.inl (by norm_num)))
  have EvOrdA_at54 : Arc.at_ Real.sqrt ⟨⟨⟨(1 / 4096), 0⟩, (5 / 16384)⟩, true⟩ (0 + 1 / 1000) = 0 := by
    have e : (0 + 1 / 1000 : ℝ) = (1 / 1000) := by norm_num
    rw [e, EvOrdA_at53]
  have EvOrdA_f50 : aboveAt Real.sqrt ⟨0, (3 / 16384)⟩ (some ⟨2, ⟨⟨⟨(1 / 4096), 0⟩, (5 / 16384)⟩, true⟩⟩) ⟨4, ⟨⟨⟨0, 0⟩, (1 / 16384)⟩, true⟩⟩ = true := by
    show decide (Arc.at_ Real.sqrt ⟨⟨⟨0, 0⟩, (1 / 16384)⟩, true⟩ (0 + 1 / 1000) ≥ Arc.at_ Real.sqrt ⟨⟨⟨(1 / 4096), 0⟩, (5 / 16384)⟩, true⟩ (0 + 1 / 1000))
      = true
    rw [decide_eq_true_eq, ge_iff_le]
    rw [EvOrdA_at52, EvOrdA_at54]
    all_goals norm_num
  have EvOrdA_at56 : Arc.at_ Real.sqrt ⟨⟨⟨0, 0⟩, (1 / 16384)⟩, false⟩ (1 / 1000) = 0 :=
    at_out ⟨⟨⟨0, 0⟩, (1 / 16384)⟩, false⟩ (1 / 1000) (lt_abs.2 (Or.inl (by norm_num)))
  have EvOrdA_at57 : Arc.at_ Real.sqrt ⟨⟨⟨0, 0⟩, (1 / 16384)⟩, false⟩ (0 + 1 / 1000) = 0 := by
    have e : (0 + 1 / 1000 : ℝ) = (1 / 1000) := by norm_num
    rw [e, EvOrdA_at56]
  have EvOrdA_f55 : aboveAt Real.sqrt ⟨0, (3 / 16384)⟩ (some ⟨2, ⟨⟨⟨(1 / 4096), 0⟩, (5 / 16384)⟩, true⟩⟩) ⟨5, ⟨⟨⟨0, 0⟩, (1 / 16384)⟩, false⟩⟩ = true := by
    show decide (Arc.at_ Real.sqrt ⟨⟨⟨0, 0⟩, (1 / 16384)⟩, false⟩ (0 + 1 / 1000) ≥ Arc.at_ Real.sqrt ⟨⟨⟨(1 / 4096), 0⟩, (5 / 16384)⟩, true⟩ (0 + 1 / 1000))
      = true
    rw [decide_eq_true_eq, ge_iff_le]
    rw [EvOrdA_at57, EvOrdA_at54]
    all_goals norm_num
  have EvOrdA_at59 : Arc.at_ Real.sqrt ⟨⟨⟨0, 0⟩, (1 / 16384)⟩, false⟩ (-(1 / 16384)) = 0 - 0 :=
    at_lower_val ⟨⟨0, 0⟩, (1 / 16384)⟩ (-(1 / 16384)) 0 (by norm_num)
      (abs_le.2 ⟨by norm_num, by norm_num⟩) (by norm_num)
  have EvOrdA_at60 : Arc.at_ Real.sqrt ⟨⟨⟨(1 / 4096), 0⟩, (5 / 16384)⟩, true⟩ (-(1 / 16384)) = 0 + 0 :=
    at_upper_val ⟨⟨(1 / 4096), 0⟩, (5 / 16384)⟩ (-(1 / 16384)) 0 (by norm_num)
      (abs_le.2 ⟨by norm_num, by norm_num⟩) (by norm_num)
  have EvOrdA_h61 : (|Arc.at_ Real.sqrt ⟨⟨⟨0, 0⟩, (1 / 16384)⟩, false⟩ (-(1 / 16384)) - Arc.at_ Real.sqrt ⟨⟨⟨(1 / 4096), 0⟩, (5 / 16384)⟩, true⟩ (-(1 / 16384))| > 1 / 100000) = False := by
    apply eq_false
    rw [gt_iff_lt, not_lt, abs_le]
    rw [EvOrdA_at59, EvOrdA_at60]; constructor <;> norm_num
  have EvOrdA_f58 : Arc.intersect Real.sqrt ⟨⟨⟨0, 0⟩, (1 / 16384)⟩, false⟩ ⟨⟨⟨(1 / 4096), 0⟩, (5 / 16384)⟩, true⟩ = [⟨(-(1 / 16384)), 0⟩] := by
    unfold Arc.intersect
    simp only
    rw [intersect_eval ⟨⟨0, 0⟩, (1 / 16384)⟩ ⟨⟨(1 / 4096), 0⟩, (5 / 16384)⟩ (1 / 16777216) (-(1 / 4)) 0 (by norm_num) (by norm_num)
      (by norm_num) (by norm_num) (by norm_num) (by norm_num) (by norm_num) (by norm_num)]
    norm_num [Point.add, Point.sub, Point.scale, Point.turn, List.filter, EvOrdA_h61]
  have EvOrdA_at63 : Arc.at_ Real.sqrt ⟨⟨⟨0, 0⟩, (1 / 16384)⟩, true⟩ (1 / 16384) = 0 + 0 :=
    at_upper_val ⟨⟨0, 0⟩, (1 / 16384)⟩ (1 / 16384) 0 (by norm_num)
      (abs_le.2 ⟨by norm_num, by norm_num⟩) (by norm_num)
  have EvOrdA_f62 : aboveAt Real.sqrt ⟨(1 / 16384), 0⟩ none ⟨4, ⟨⟨⟨0, 0⟩, (1 / 16384)⟩, true⟩⟩ = true := by
    show decide (Arc.at_ Real.sqrt ⟨⟨⟨0, 0⟩, (1 / 16384)⟩, true⟩ (1 / 16384) ≥ 0) = true
    rw [decide_eq_true_eq, ge_iff_le]
    rw [EvOrdA_at63]
    all_goals norm_num
  have EvOrdA_at65 : Arc.at_ Real.sqrt ⟨⟨⟨0, 0⟩, (1 / 16384)⟩, false⟩ (1 / 16384) = 0 - 0 :=
    at_lower_val ⟨⟨0, 0⟩, (1 / 16384)⟩ (1 / 16384) 0 (by norm_num)
      (abs_le.2 ⟨by norm_num, by norm_num⟩) (by norm_num)
  have EvOrdA_f64 : aboveAt Real.sqrt ⟨(1 / 16384), 0⟩ none ⟨5, ⟨⟨⟨0, 0⟩, (1 / 16384)⟩, false⟩⟩ = true := by
    show decide (Arc.at_ Real.sqrt ⟨⟨⟨0, 0⟩, (1 / 16384)⟩, false⟩ (1 / 16384) ≥ 0) = true
    rw [decide_eq_true_eq, ge_iff_le]
    rw [EvOrdA_at65]
    all_goals norm_num
  have EvOrdA_at67 : Arc.at_ Real.sqrt ⟨⟨⟨(1 / 4096), 0⟩, (5 / 16384)⟩, true⟩ (1 / 16384) = 0 + (1 / 4096) :=
    at_upper_val ⟨⟨(1 / 4096), 0⟩, (5 / 16384)⟩ (1 / 16384) (1 / 4096) (by norm_num)
      (abs_le.2 ⟨by norm_num, by norm_num⟩) (by norm_num)
  have EvOrdA_f66 : aboveAt Real.sqrt ⟨(1 / 16384), 0⟩ none ⟨2, ⟨⟨⟨(1 / 4096), 0⟩, (5 / 16384)⟩, true⟩⟩ = true := by
    show decide (Arc.at_ Real.sqrt ⟨⟨⟨(1 / 4096), 0⟩, (5 / 16384)⟩, true⟩ (1 / 16384) ≥ 0) = true
    rw [decide_eq_true_eq, ge_iff_le]
    rw [EvOrdA_at67]
    all_goals norm_num
  have EvOrdA_f68 : Arc.contains Real.sqrt ⟨⟨⟨(1 / 4096), 0⟩, (5 / 16384)⟩, true⟩ ⟨(1 / 16384), 0⟩ = false := by
    show decide (|Arc.at_ Real.sqrt ⟨⟨⟨(1 / 4096), 0⟩, (5 / 16384)⟩, true⟩ (1 / 16384) - 0| < 1 / 100000) = false
    rw [decide_eq_false_iff_not, not_lt]
    rw [EvOrdA_at67]
    exact le_abs.2 (Or.inl (by norm_num))
  have EvOrdA_f69 : Arc.contains Real.sqrt ⟨⟨⟨0, 0⟩, (1 / 16384)⟩, false⟩ ⟨(1 / 16384), 0⟩ = true := by
    show decide (|Arc.at_ Real.sqrt ⟨⟨⟨0, 0⟩, (1 / 16384)⟩, false⟩ (1 / 16384) - 0| < 1 / 100000) = true
    rw [decide_eq_true_eq, abs_lt]
    rw [EvOrdA_at65]
    constructor <;> norm_num
  have EvOrdA_f70 : Arc.contains Real.sqrt ⟨⟨⟨0, 0⟩, (1 / 16384)⟩, true⟩ ⟨(1 / 16384), 0⟩ = true := by
    show decide (|Arc.at_ Real.sqrt ⟨⟨⟨0, 0⟩, (1 / 16384)⟩, true⟩ (1 / 16384) - 0| < 1 / 100000) = true
    rw [decide_eq_true_eq, abs_lt]
    rw [EvOrdA_at63]
    constructor <;> norm_num
  have EvOrdA_at72 : Arc.at_ Real.sqrt ⟨⟨⟨(1 / 4096), 0⟩, (5 / 16384)⟩, false⟩ (1 / 16384) = 0 - (1 / 4096) :=
    at_lower_val ⟨⟨(1 / 4096), 0⟩, (5 / 16384)⟩ (1 / 16384) (1 / 4096) (by norm_num)
      (abs_le.2 ⟨by norm_num, by norm_num⟩) (by norm_num)
  have EvOrdA_f71 : Arc.contains Real.sqrt ⟨⟨⟨(1 / 4096), 0⟩, (5 / 16384)⟩, false⟩ ⟨(1 / 16384), 0⟩ = false := by
    show decide (|Arc.at_ Real.sqrt ⟨⟨⟨(1 / 4096), 0⟩, (5 / 16384)⟩, false⟩ (1 / 16384) - 0| < 1 / 100000) = false
    rw [decide_eq_false_iff_not, not_lt]
    rw [EvOrdA_at72]
    exact le_abs.2 (Or.inr (by norm_num))
  have EvOrdA_f73 : aboveAt Real.sqrt ⟨(1 / 16384), 0⟩ none ⟨3, ⟨⟨⟨(1 / 4096), 0⟩, (5 / 16384)⟩, false⟩⟩ = false := by
    show decide (Arc.at_ Real.sqrt ⟨⟨⟨(1 / 4096), 0⟩, (5 / 16384)⟩, false⟩ (1 / 16384) ≥ 0) = false
    rw [decide_eq_false_iff_not, ge_iff_le, not_le]
    rw [EvOrdA_at72]
    all_goals norm_num
  have EvOrdA_at75 : Arc.at_ Real.sqrt ⟨⟨⟨(1 / 4096), 0⟩, (5 / 16384)⟩, false⟩ (9 / 16384) = 0 - 0 :=
    at_lower_val ⟨⟨(1 / 4096), 0⟩, (5 / 16384)⟩ (9 / 16384) 0 (by norm_num)
      (abs_le.2 ⟨by norm_num, by norm_num⟩) (by norm_num)
  have EvOrdA_f74 : aboveAt Real.sqrt ⟨(9 / 16384), 0⟩ none ⟨3, ⟨⟨⟨(1 / 4096), 0⟩, (5 / 16384)⟩, false⟩⟩ = true := by
    show decide (Arc.at_ Real.sqrt ⟨⟨⟨(1 / 4096), 0⟩, (5 / 16384)⟩, false⟩ (9 / 16384) ≥ 0) = true
    rw [decide_eq_true_eq, ge_iff_le]
    rw [EvOrdA_at75]
    all_goals norm_num
  have EvOrdA_at77 : Arc.at_ Real.sqrt ⟨⟨⟨(1 / 4096), 0⟩, (5 / 16384)⟩, true⟩ (9 / 16384) = 0 + 0 :=
    at_upper_val ⟨⟨(1 / 4096), 0⟩, (5 / 16384)⟩ (9 / 16384) 0 (by norm_num)
      (abs_le.2 ⟨by norm_num, by norm_num⟩) (by norm_num)
  have EvOrdA_f76 : aboveAt Real.sqrt ⟨(9 / 16384), 0⟩ none ⟨2, ⟨⟨⟨(1 / 4096), 0⟩, (5 / 16384)⟩, true⟩⟩ = true := by
    show decide (Arc.at_ Real.sqrt ⟨⟨⟨(1 / 4096), 0⟩, (5 / 16384)⟩, true⟩ (9 / 16384) ≥ 0) = true
    rw [decide_eq_true_eq, ge_iff_le]
    rw [EvOrdA_at77]
    all_goals norm_num
  have EvOrdA_f78 : Arc.contains Real.sqrt ⟨⟨⟨(1 / 4096), 0⟩, (5 / 16384)⟩, true⟩ ⟨(9 / 16384), 0⟩ = true := by
    show decide (|Arc.at_ Real.sqrt ⟨⟨⟨(1 / 4096), 0⟩, (5 / 16384)⟩, true⟩ (9 / 16384) - 0| < 1 / 100000) = true
    rw [decide_eq_true_eq, abs_lt]
    rw [EvOrdA_at77]
    constructor <;> norm_num
  have EvOrdA_f79 : Arc.contains Real.sqrt ⟨⟨⟨(1 / 4096), 0⟩, (5 / 16384)⟩, false⟩ ⟨(9 / 16384), 0⟩ = true := by
    show decide (|Arc.at_ Real.sqrt ⟨⟨⟨(1 / 4096), 0⟩, (5 / 16384)⟩, false⟩ (9 / 16384) - 0| < 1 / 100000) = true
    rw [decide_eq_true_eq, abs_lt]
    rw [EvOrdA_at75]
    constructor <;> norm_num
  have EvOrdA_seed :
      seedEvents ([] : Events ℝ) 0 [⟨⟨(-(1 / 16384)), (3 / 16384)⟩, (1 / 16384)⟩, ⟨⟨(1 / 4096), 0⟩, (5 / 16384)⟩, ⟨⟨0, 0⟩, (1 / 16384)⟩]
        = [(⟨(-(1 / 8192)), (3 / 16384)⟩, [⟨0, ⟨⟨⟨(-(1 / 16384)), (3 / 16384)⟩, (1 / 16384)⟩, true⟩⟩, ⟨1, ⟨⟨⟨(-(1 / 16384)), (3 / 16384)⟩, (1 / 16384)⟩, false⟩⟩]), (⟨(-(1 / 16384)), 0⟩, [⟨2, ⟨⟨⟨(1 / 4096), 0⟩, (5 / 16384)⟩, true⟩⟩, ⟨3, ⟨⟨⟨(1 / 4096), 0⟩, (5 / 16384)⟩, false⟩⟩, ⟨4, ⟨⟨⟨0, 0⟩, (1 / 16384)⟩, true⟩⟩, ⟨5, ⟨⟨⟨0, 0⟩, (1 / 16384)⟩, false⟩⟩]), (⟨0, (3 / 16384)⟩, []), (⟨(1 / 16384), 0⟩, []), (⟨(9 / 16384), 0⟩, [])] := by
    norm_num [seedEvents, seedCircle, Events.find, Events.set, Circle.begin, Circle.end_,
      Point.sub, Point.add, Point.lt]
  have EvOrdA_step1 :
      sweepStep Real.sqrt [] ⟨(-(1 / 8192)), (3 / 16384)⟩
        [⟨0, ⟨⟨⟨(-(1 / 16384)), (3 / 16384)⟩, (1 / 16384)⟩, true⟩⟩, ⟨1, ⟨⟨⟨(-(1 / 16384)), (3 / 16384)⟩, (1 / 16384)⟩, false⟩⟩]
        [(⟨(-(1 / 16384)), 0⟩, [⟨2, ⟨⟨⟨(1 / 4096), 0⟩, (5 / 16384)⟩, true⟩⟩, ⟨3, ⟨⟨⟨(1 / 4096), 0⟩, (5 / 16384)⟩, false⟩⟩, ⟨4, ⟨⟨⟨0, 0⟩, (1 / 16384)⟩, true⟩⟩, ⟨5, ⟨⟨⟨0, 0⟩, (1 / 16384)⟩, false⟩⟩]), (⟨0, (3 / 16384)⟩, []), (⟨(1 / 16384), 0⟩, []), (⟨(9 / 16384), 0⟩, [])]
        ⟨.nil⟩
      = some ⟨[], [(⟨(-(1 / 16384)), 0⟩, [⟨2, ⟨⟨⟨(1 / 4096), 0⟩, (5 / 16384)⟩, true⟩⟩, ⟨3, ⟨⟨⟨(1 / 4096), 0⟩, (5 / 16384)⟩, false⟩⟩, ⟨4, ⟨⟨⟨0, 0⟩, (1 / 16384)⟩, true⟩⟩, ⟨5, ⟨⟨⟨0, 0⟩, (1 / 16384)⟩, false⟩⟩]), (⟨0, (3 / 16384)⟩, []), (⟨(1 / 16384), 0⟩, []), (⟨(9 / 16384), 0⟩, [])],
          ⟨(.node ⟨0, ⟨⟨⟨(-(1 / 16384)), (3 / 16384)⟩, (1 / 16384)⟩, true⟩⟩ .BLACK (.node ⟨1, ⟨⟨⟨(-(1 / 16384)), (3 / 16384)⟩, (1 / 16384)⟩, false⟩⟩ .RED .nil .nil) .nil)⟩⟩ := by
    norm_num [sweepStep, RBTree.contains, RBTree.insertPos, insertPosLoop, RBTree.empty,
      containsLoop, Node.size, report, removeAll, reinsert, insertBorn, RBTree.insert, insertFixup,
      blackenRoot, Node.setColor, Path.fill, discover, minArc, maxArc, RBTree.nodeOf, locate, isArc,
      RBTree.lower_bound, RBTree.upper_bound, climbLeft, climbRight, leftmost, rightmost,
      Events.erase, Events.find, Events.set, schedule, RBTree.remove, removeFixup,
      removeFixupLeftRot, removeFixupRightRot, leftRotate, rightRotate, Circle.ne, Point.ne,
      Point.eq, Point.lt, Circle.end_, Point.add, RBTree.lower_bound_at, RBTree.upper_bound_at,
      Node.color, Loc.tree, Loc.key?, spliceMin, Node.minKey, red_ne_black, black_ne_red,
      EvOrdA_f1, EvOrdA_f6, EvOrdA_f7, EvOrdA_f8, EvOrdA_f10, EvOrdA_f12, EvOrdA_f13, EvOrdA_f14, EvOrdA_f19, EvOrdA_f22, EvOrdA_f25, EvOrdA_f26, EvOrdA_f29, EvOrdA_f30, EvOrdA_f31, EvOrdA_f34, EvOrdA_f35, EvOrdA_f36, EvOrdA_f37, EvOrdA_f38, EvOrdA_f39, EvOrdA_f40, EvOrdA_f42, EvOrdA_f44, EvOrdA_f46, EvOrdA_f47, EvOrdA_f48, EvOrdA_f50, EvOrdA_f55, EvOrdA_f58, EvOrdA_f62, EvOrdA_f64, EvOrdA_f66, EvOrdA_f68, EvOrdA_f69, EvOrdA_f70, EvOrdA_f71, EvOrdA_f73, EvOrdA_f74, EvOrdA_f76, EvOrdA_f78, EvOrdA_f79]
  have EvOrdA_step2 :
      sweepStep Real.sqrt [] ⟨(-(1 / 16384)), 0⟩
        [⟨2, ⟨⟨⟨(1 / 4096), 0⟩, (5 / 16384)⟩, true⟩⟩, ⟨3, ⟨⟨⟨(1 / 4096), 0⟩, (5 / 16384)⟩, false⟩⟩, ⟨4, ⟨⟨⟨0, 0⟩, (1 / 16384)⟩, true⟩⟩, ⟨5, ⟨⟨⟨0, 0⟩, (1 / 16384)⟩, false⟩⟩]
        [(⟨0, (3 / 16384)⟩, []), (⟨(1 / 16384), 0⟩, []), (⟨(9 / 16384), 0⟩, [])]
        ⟨(.node ⟨0, ⟨⟨⟨(-(1 / 16384)), (3 / 16384)⟩, (1 / 16384)⟩, true⟩⟩ .BLACK (.node ⟨1, ⟨⟨⟨(-(1 / 16384)), (3 / 16384)⟩, (1 / 16384)⟩, false⟩⟩ .RED .nil .nil) .nil)⟩
      = some ⟨[⟨(-(1 / 16384)), 0⟩], [(⟨0, (3 / 16384)⟩, []), (⟨(1 / 16384), 0⟩, []), (⟨(9 / 16384), 0⟩, [])],
          ⟨(.node ⟨1, ⟨⟨⟨(-(1 / 16384)), (3 / 16384)⟩, (1 / 16384)⟩, false⟩⟩ .BLACK (.node ⟨3, ⟨⟨⟨(1 / 4096), 0⟩, (5 / 16384)⟩, false⟩⟩ .RED (.node ⟨4, ⟨⟨⟨0, 0⟩, (1 / 16384)⟩, true⟩⟩ .BLACK (.node ⟨5, ⟨⟨⟨0, 0⟩, (1 / 16384)⟩, false⟩⟩ .RED .nil .nil) .nil) (.node ⟨2, ⟨⟨⟨(1 / 4096), 0⟩, (5 / 16384)⟩, true⟩⟩ .BLACK .nil .nil)) (.node ⟨0, ⟨⟨⟨(-(1 / 16384)), (3 / 16384)⟩, (1 / 16384)⟩, true⟩⟩ .BLACK .nil .nil))⟩⟩ := by
    norm_num [sweepStep, RBTree.contains, RBTree.insertPos, insertPosLoop, RBTree.empty,
      containsLoop, Node.size, report, removeAll, reinsert, insertBorn, RBTree.insert, insertFixup,
      blackenRoot, Node.setColor, Path.fill, discover, minArc, maxArc, RBTree.nodeOf, locate, isArc,
      RBTree.lower_bound, RBTree.upper_bound, climbLeft, climbRight, leftmost, rightmost,
      Events.erase, Events.find, Events.set, schedule, RBTree.remove, removeFixup,
      removeFixupLeftRot, removeFixupRightRot, leftRotate, rightRotate, Circle.ne, Point.ne,
      Point.eq, Point.lt, Circle.end_, Point.add, RBTree.lower_bound_at, RBTree.upper_bound_at,
      Node.color, Loc.tree, Loc.key?, spliceMin, Node.minKey, red_ne_black, black_ne_red,
      EvOrdA_f1, EvOrdA_f6, EvOrdA_f7, EvOrdA_f8, EvOrdA_f10, EvOrdA_f12, EvOrdA_f13, EvOrdA_f14, EvOrdA_f19, EvOrdA_f22, EvOrdA_f25, EvOrdA_f26, EvOrdA_f29, EvOrdA_f30, EvOrdA_f31, EvOrdA_f34, EvOrdA_f35, EvOrdA_f36, EvOrdA_f37, EvOrdA_f38, EvOrdA_f39, EvOrdA_f40, EvOrdA_f42, EvOrdA_f44, EvOrdA_f46, EvOrdA_f47, EvOrdA_f48, EvOrdA_f50, EvOrdA_f55, EvOrdA_f58, EvOrdA_f62, EvOrdA_f64, EvOrdA_f66, EvOrdA_f68, EvOrdA_f69, EvOrdA_f70, EvOrdA_f71, EvOrdA_f73, EvOrdA_f74, EvOrdA_f76, EvOrdA_f78, EvOrdA_f79]
  have EvOrdA_step3 :
      sweepStep Real.sqrt [⟨(-(1 / 16384)), 0⟩] ⟨0, (3 / 16384)⟩
        []
        [(⟨(1 / 16384), 0⟩, []), (⟨(9 / 16384), 0⟩, [])]
        ⟨(.node ⟨1, ⟨⟨⟨(-(1 / 16384)), (3 / 16384)⟩, (1 / 16384)⟩, false⟩⟩ .BLACK (.node ⟨3, ⟨⟨⟨(1 / 4096), 0⟩, (5 / 16384)⟩, false⟩⟩ .RED (.node ⟨4, ⟨⟨⟨0, 0⟩, (1 / 16384)⟩, true⟩⟩ .BLACK (.node ⟨5, ⟨⟨⟨0, 0⟩, (1 / 16384)⟩, false⟩⟩ .RED .nil .nil) .nil) (.node ⟨2, ⟨⟨⟨(1 / 4096), 0⟩, (5 / 16384)⟩, true⟩⟩ .BLACK .nil .nil)) (.node ⟨0, ⟨⟨⟨(-(1 / 16384)), (3 / 16384)⟩, (1 / 16384)⟩, true⟩⟩ .BLACK .nil .nil))⟩
      = some ⟨[⟨(-(1 / 16384)), 0⟩, ⟨0, (3 / 16384)⟩], [(⟨(1 / 16384), 0⟩, []), (⟨(9 / 16384), 0⟩, [])],
          ⟨(.node ⟨4, ⟨⟨⟨0, 0⟩, (1 / 16384)⟩, true⟩⟩ .BLACK (.node ⟨5, ⟨⟨⟨0, 0⟩, (1 / 16384)⟩, false⟩⟩ .BLACK (.node ⟨2, ⟨⟨⟨(1 / 4096), 0⟩, (5 / 16384)⟩, true⟩⟩ .RED .nil .nil) .nil) (.node ⟨3, ⟨⟨⟨(1 / 4096), 0⟩, (5 / 16384)⟩, false⟩⟩ .BLACK .nil .nil))⟩⟩ := by
    norm_num [sweepStep, RBTree.contains, RBTree.insertPos, insertPosLoop, RBTree.empty,
      containsLoop, Node.size, report, removeAll, reinsert, insertBorn, RBTree.insert, insertFixup,
      blackenRoot, Node.setColor, Path.fill, discover, minArc, maxArc, RBTree.nodeOf, locate, isArc,
      RBTree.lower_bound, RBTree.upper_bound, climbLeft, climbRight, leftmost, rightmost,
      Events.erase, Events.find, Events.set, schedule, RBTree.remove, removeFixup,
      removeFixupLeftRot, removeFixupRightRot, leftRotate, rightRotate, Circle.ne, Point.ne,
      Point.eq, Point.lt, Circle.end_, Point.add, RBTree.lower_bound_at, RBTree.upper_bound_at,
      Node.color, Loc.tree, Loc.key?, spliceMin, Node.minKey, red_ne_black, black_ne_red,
      EvOrdA_f1, EvOrdA_f6, EvOrdA_f7, EvOrdA_f8, EvOrdA_f10, EvOrdA_f12, EvOrdA_f13, EvOrdA_f14, EvOrdA_f19, EvOrdA_f22, EvOrdA_f25, EvOrdA_f26, EvOrdA_f29, EvOrdA_f30, EvOrdA_f31, EvOrdA_f34, EvOrdA_f35, EvOrdA_f36, EvOrdA_f37, EvOrdA_f38, EvOrdA_f39, EvOrdA_f40, EvOrdA_f42, EvOrdA_f44, EvOrdA_f46, EvOrdA_f47, EvOrdA_f48, EvOrdA_f50, EvOrdA_f55, EvOrdA_f58, EvOrdA_f62, EvOrdA_f64, EvOrdA_f66, EvOrdA_f68, EvOrdA_f69, EvOrdA_f70, EvOrdA_f71, EvOrdA_f73, EvOrdA_f74, EvOrdA_f76, EvOrdA_f78, EvOrdA_f79]
  have EvOrdA_step4 :
      sweepStep Real.sqrt [⟨(-(1 / 16384)), 0⟩, ⟨0, (3 / 16384)⟩] ⟨(1 / 16384), 0⟩
        []
        [(⟨(9 / 16384), 0⟩, [])]
        ⟨(.node ⟨4, ⟨⟨⟨0, 0⟩, (1 / 16384)⟩, true⟩⟩ .BLACK (.node ⟨5, ⟨⟨⟨0, 0⟩, (1 / 16384)⟩, false⟩⟩ .BLACK (.node ⟨2, ⟨⟨⟨(1 / 4096), 0⟩, (5 / 16384)⟩, true⟩⟩ .RED .nil .nil) .nil) (.node ⟨3, ⟨⟨⟨(1 / 4096), 0⟩, (5 / 16384)⟩, false⟩⟩ .BLACK .nil .nil))⟩
      = some ⟨[⟨(-(1 / 16384)), 0⟩, ⟨0, (3 / 16384)⟩], [(⟨(9 / 16384), 0⟩, [])],
          ⟨(.node ⟨3, ⟨⟨⟨(1 / 4096), 0⟩, (5 / 16384)⟩, false⟩⟩ .BLACK (.node ⟨2, ⟨⟨⟨(1 / 4096), 0⟩, (5 / 16384)⟩, true⟩⟩ .RED .nil .nil) .nil)⟩⟩ := by
    norm_num [sweepStep, RBTree.contains, RBTree.insertPos, insertPosLoop, RBTree.empty,
      containsLoop, Node.size, report, removeAll, reinsert, insertBorn, RBTree.insert, insertFixup,
      blackenRoot, Node.setColor, Path.fill, discover, minArc, maxArc, RBTree.nodeOf, locate, isArc,
      RBTree.lower_bound, RBTree.upper_bound, climbLeft, climbRight, leftmost, rightmost,
      Events.erase, Events.find, Events.set, schedule, RBTree.remove, removeFixup,
      removeFixupLeftRot, removeFixupRightRot, leftRotate, rightRotate, Circle.ne, Point.ne,
      Point.eq, Point.lt, Circle.end_, Point.add, RBTree.lower_bound_at, RBTree.upper_bound_at,
      Node.color, Loc.tree, Loc.key?, spliceMin, Node.minKey, red_ne_black, black_ne_red,
      EvOrdA_f1, EvOrdA_f6, EvOrdA_f7, EvOrdA_f8, EvOrdA_f10, EvOrdA_f12, EvOrdA_f13, EvOrdA_f14, EvOrdA_f19, EvOrdA_f22, EvOrdA_f25, EvOrdA_f26, EvOrdA_f29, EvOrdA_f30, EvOrdA_f31, EvOrdA_f34, EvOrdA_f35, EvOrdA_f36, EvOrdA_f37, EvOrdA_f38, EvOrdA_f39, EvOrdA_f40, EvOrdA_f42, EvOrdA_f44, EvOrdA_f46, EvOrdA_f47, EvOrdA_f48, EvOrdA_f50, EvOrdA_f55, EvOrdA_f58, EvOrdA_f62, EvOrdA_f64, EvOrdA_f66, EvOrdA_f68, EvOrdA_f69, EvOrdA_f70, EvOrdA_f71, EvOrdA_f73, EvOrdA_f74, EvOrdA_f76, EvOrdA_f78, EvOrdA_f79]
  have EvOrdA_step5 :
      sweepStep Real.sqrt [⟨(-(1 / 16384)), 0⟩, ⟨0, (3 / 16384)⟩] ⟨(9 / 16384), 0⟩
        []
        []
        ⟨(.node ⟨3, ⟨⟨⟨(1 / 4096), 0⟩, (5 / 16384)⟩, false⟩⟩ .BLACK (.node ⟨2, ⟨⟨⟨(1 / 4096), 0⟩, (5 / 16384)⟩, true⟩⟩ .RED .nil .nil) .nil)⟩
      = some ⟨[⟨(-(1 / 16384)), 0⟩, ⟨0, (3 / 16384)⟩], [],
          ⟨.nil⟩⟩ := by
    norm_num [sweepStep, RBTree.contains, RBTree.insertPos, insertPosLoop, RBTree.empty,
      containsLoop, Node.size, report, removeAll, reinsert, insertBorn, RBTree.insert, insertFixup,
      blackenRoot, Node.setColor, Path.fill, discover, minArc, maxArc, RBTree.nodeOf, locate, isArc,
      RBTree.lower_bound, RBTree.upper_bound, climbLeft, climbRight, leftmost, rightmost,
      Events.erase, Events.find, Events.set, schedule, RBTree.remove, removeFixup,
      removeFixupLeftRot, removeFixupRightRot, leftRotate, rightRotate, Circle.ne, Point.ne,
      Point.eq, Point.lt, Circle.end_, Point.add, RBTree.lower_bound_at, RBTree.upper_bound_at,
      Node.color, Loc.tree, Loc.key?, spliceMin, Node.minKey, red_ne_black, black_ne_red,
      EvOrdA_f1, EvOrdA_f6, EvOrdA_f7, EvOrdA_f8, EvOrdA_f10, EvOrdA_f12, EvOrdA_f13, EvOrdA_f14, EvOrdA_f19, EvOrdA_f22, EvOrdA_f25, EvOrdA_f26, EvOrdA_f29, EvOrdA_f30, EvOrdA_f31, EvOrdA_f34, EvOrdA_f35, EvOrdA_f36, EvOrdA_f37, EvOrdA_f38, EvOrdA_f39, EvOrdA_f40, EvOrdA_f42, EvOrdA_f44, EvOrdA_f46, EvOrdA_f47, EvOrdA_f48, EvOrdA_f50, EvOrdA_f55, EvOrdA_f58, EvOrdA_f62, EvOrdA_f64, EvOrdA_f66, EvOrdA_f68, EvOrdA_f69, EvOrdA_f70, EvOrdA_f71, EvOrdA_f73, EvOrdA_f74, EvOrdA_f76, EvOrdA_f78, EvOrdA_f79]
  rw [eventLoop, RBTree.empty, EvOrdA_seed]
  rw [show fuel + 5 = (fuel + 4) + 1 from rfl, sweepLoop, EvOrdA_step1]
  simp only
  rw [show fuel + 4 = (fuel + 3) + 1 from rfl, sweepLoop, EvOrdA_step2]
  simp only
  rw [show fuel + 3 = (fuel + 2) + 1 from rfl, sweepLoop, EvOrdA_step3]
  simp only
  rw [show fuel + 2 = (fuel + 1) + 1 from rfl, sweepLoop, EvOrdA_step4]
  simp only
  rw [show fuel + 1 = (fuel + 0) + 1 from rfl, sweepLoop, EvOrdA_step5]
  simp only
  cases fuel <;> rfl

set_option maxHeartbeats 100000000 in
/-- The run of the event loop of `circleIntersect` for
the circles of centre (-1/16384, 3/16384), radius 1/16384, of centre (0,0), radius 1/16384,
and of centre (1/4096, 0), radius 5/16384, in this order:
the heights of the arcs and the comparisons the run makes, then the passes of the loop
one by one. -/
theorem EvOrdB_run (fuel : Nat) :
    eventLoop Real.sqrt (fuel + 5) [⟨⟨(-(1 / 16384)), (3 / 16384)⟩, (1 / 16384)⟩, ⟨⟨0, 0⟩, (1 / 16384)⟩, ⟨⟨(1 / 4096), 0⟩, (5 / 16384)⟩]
      = some ⟨[⟨(-(1 / 16384)), 0⟩], [],
        ⟨.nil⟩⟩ := by
  have EvOrdB_at2 : Arc.at_ Real.sqrt ⟨⟨⟨(-(1 / 16384)), (3 / 16384)⟩, (1 / 16384)⟩, true⟩ (899 / 1024000) = (3 / 16384) :=
    at_out ⟨⟨⟨(-(1 / 16384)), (3 / 16384)⟩, (1 / 16384)⟩, true⟩ (899 / 1024000) (lt_abs.2 (Or.inl (by norm_num)))
  have EvOrdB_at3 : Arc.at_ Real.sqrt ⟨⟨⟨(-(1 / 16384)), (3 / 16384)⟩, (1 / 16384)⟩, true⟩ ((-(1 / 8192)) + 1 / 1000) = (3 / 16384) := by
    have e : ((-(1 / 8192)) + 1 / 1000 : ℝ) = (899 / 1024000) := by norm_num
    rw [e, EvOrdB_at2]
  have EvOrdB_at4 : Arc.at_ Real.sqrt ⟨⟨⟨(-(1 / 16384)), (3 / 16384)⟩, (1 / 16384)⟩, false⟩ (899 / 1024000) = (3 / 16384) :=
    at_out ⟨⟨⟨(-(1 / 16384)), (3 / 16384)⟩, (1 / 16384)⟩, false⟩ (899 / 1024000) (lt_abs.2 (Or.inl (by norm_num)))
  have EvOrdB_at5 : Arc.at_ Real.sqrt ⟨⟨⟨(-(1 / 16384)), (3 / 16384)⟩, (1 / 16384)⟩, false⟩ ((-(1 / 8192)) + 1 / 1000) = (3 / 16384) := by
    have e : ((-(1 / 8192)) + 1 / 1000 : ℝ) = (899 / 1024000) := by norm_num
    rw [e, EvOrdB_at4]
  have EvOrdB_f1 : aboveAt Real.sqrt ⟨(-(1 / 8192)), (3 / 16384)⟩ (some ⟨1, ⟨⟨⟨(-(1 / 16384)), (3 / 16384)⟩, (1 / 16384)⟩, false⟩⟩) ⟨0, ⟨⟨⟨(-(1 / 16384)), (3 / 16384)⟩, (1 / 16384)⟩, true⟩⟩ = true := by
    show decide (Arc.at_ Real.sqrt ⟨⟨⟨(-(1 / 16384)), (3 / 16384)⟩, (1 / 16384)⟩, true⟩ ((-(1 / 8192)) + 1 / 1000) ≥ Arc.at_ Real.sqrt ⟨⟨⟨(-(1 / 16384)), (3 / 16384)⟩, (1 / 16384)⟩, false⟩ ((-(1 / 8192)) + 1 / 1000))
      = true
    rw [decide_eq_true_eq, ge_iff_le]
    rw [EvOrdB_at3, EvOrdB_at5]
    all_goals norm_num
  have EvOrdB_f6 : aboveAt Real.sqrt ⟨(-(1 / 8192)), (3 / 16384)⟩ (some ⟨0, ⟨⟨⟨(-(1 / 16384)), (3 / 16384)⟩, (1 / 16384)⟩, true⟩⟩) ⟨1, ⟨⟨⟨(-(1 / 16384)), (3 / 16384)⟩, (1 / 16384)⟩, false⟩⟩ = true := by
    show decide (Arc.at_ Real.sqrt ⟨⟨⟨(-(1 / 16384)), (3 / 16384)⟩, (1 / 16384)⟩, false⟩ ((-(1 / 8192)) + 1 / 1000) ≥ Arc.at_ Real.sqrt ⟨⟨⟨(-(1 / 16384)), (3 / 16384)⟩, (1 / 16384)⟩, true⟩ ((-(1 / 8192)) + 1 / 1000))
      = true
    rw [decide_eq_true_eq, ge_iff_le]
    rw [EvOrdB_at5, EvOrdB_at3]
    all_goals norm_num
  have EvOrdB_f7 : Arc.intersect Real.sqrt ⟨⟨⟨(-(1 / 16384)), (3 / 16384)⟩, (1 / 16384)⟩, true⟩ ⟨⟨⟨(-(1 / 16384)), (3 / 16384)⟩, (1 / 16384)⟩, false⟩ = [] := by
    unfold Arc.intersect
    simp only
    rw [intersect_same_center ⟨⟨(-(1 / 16384)), (3 / 16384)⟩, (1 / 16384)⟩ ⟨⟨(-(1 / 16384)), (3 / 16384)⟩, (1 / 16384)⟩ rfl]
    rfl
  have EvOrdB_at9 : Arc.at_ Real.sqrt ⟨⟨⟨(-(1 / 16384)), (3 / 16384)⟩, (1 / 16384)⟩, true⟩ (-(1 / 16384)) = (3 / 16384) + (1 / 16384) :=
    at_upper_val ⟨⟨(-(1 / 16384)), (3 / 16384)⟩, (1 / 16384)⟩ (-(1 / 16384)) (1 / 16384) (by norm_num)
      (abs_le.2 ⟨by norm_num, by norm_num⟩) (by norm_num)
  have EvOrdB_f8 : aboveAt Real.sqrt ⟨(-(1 / 16384)), 0⟩ none ⟨0, ⟨⟨⟨(-(1 / 16384)), (3 / 16384)⟩, (1 / 16384)⟩, true⟩⟩ = true := by
    show decide (Arc.at_ Real.sqrt ⟨⟨⟨(-(1 / 16384)), (3 / 16384)⟩, (1 / 16384)⟩, true⟩ (-(1 / 16384)) ≥ 0) = true
    rw [decide_eq_true_eq, ge_iff_le]
    rw [EvOrdB_at9]
    all_goals norm_num
  have EvOrdB_at11 : Arc.at_ Real.sqrt ⟨⟨⟨(-(1 / 16384)), (3 / 16384)⟩, (1 / 16384)⟩, false⟩ (-(1 / 16384)) = (3 / 16384) - (1 / 16384) :=
    at_lower_val ⟨⟨(-(1 / 16384)), (3 / 16384)⟩, (1 / 16384)⟩ (-(1 / 16384)) (1 / 16384) (by norm_num)
      (abs_le.2 ⟨by norm_num, by norm_num⟩) (by norm_num)
  have EvOrdB_f10 : aboveAt Real.sqrt ⟨(-(1 / 16384)), 0⟩ none ⟨1, ⟨⟨⟨(-(1 / 16384)), (3 / 16384)⟩, (1 / 16384)⟩, false⟩⟩ = true := by
    show decide (Arc.at_ Real.sqrt ⟨⟨⟨(-(1 / 16384)), (3 / 16384)⟩, (1 / 16384)⟩, false⟩ (-(1 / 16384)) ≥ 0) = true
    rw [decide_eq_true_eq, ge_iff_le]
    rw [EvOrdB_at11]
    all_goals norm_num
  have EvOrdB_f12 : Arc.contains Real.sqrt ⟨⟨⟨(-(1 / 16384)), (3 / 16384)⟩, (1 / 16384)⟩, false⟩ ⟨(-(1 / 16384)), 0⟩ = false := by
    show decide (|Arc.at_ Real.sqrt ⟨⟨⟨(-(1 / 16384)), (3 / 16384)⟩, (1 / 16384)⟩, false⟩ (-(1 / 16384)) - 0| < 1 / 100000) = false
    rw [decide_eq_false_iff_not, not_lt]
    rw [EvOrdB_at11]
    exact le_abs.2 (Or.inl (by norm_num))
  have EvOrdB_f13 : Arc.contains Real.sqrt ⟨⟨⟨(-(1 / 16384)), (3 / 16384)⟩, (1 / 16384)⟩, true⟩ ⟨(-(1 / 16384)), 0⟩ = false := by
    show decide (|Arc.at_ Real.sqrt ⟨⟨⟨(-(1 / 16384)), (3 / 16384)⟩, (1 / 16384)⟩, true⟩ (-(1 / 16384)) - 0| < 1 / 100000) = false
    rw [decide_eq_false_iff_not, not_lt]
    rw [EvOrdB_at9]
    exact le_abs.2 (Or.inl (by norm_num))
  have EvOrdB_at15 : Arc.at_ Real.sqrt ⟨⟨⟨(-(1 / 16384)), (3 / 16384)⟩, (1 / 16384)⟩, true⟩ (1923 / 2048000) = (3 / 16384) :=
    at_out ⟨⟨⟨(-(1 / 16384)), (3 / 16384)⟩, (1 / 16384)⟩, true⟩ (1923 / 2048000) (lt_abs.2 (Or.inl (by norm_num)))
  have EvOrdB_at16 : Arc.at_ Real.sqrt ⟨⟨⟨(-(1 / 16384)), (3 / 16384)⟩, (1 / 16384)⟩, true⟩ ((-(1 / 16384)) + 1 / 1000) = (3 / 16384) := by
    have e : ((-(1 / 16384)) + 1 / 1000 : ℝ) = (1923 / 2048000) := by norm_num
    rw [e, EvOrdB_at15]
  have EvOrdB_at17 : Arc.at_ Real.sqrt ⟨⟨⟨0, 0⟩, (1 / 16384)⟩, true⟩ (1923 / 2048000) = 0 :=
    at_out ⟨⟨⟨0, 0⟩, (1 / 16384)⟩, true⟩ (1923 / 2048000) (lt_abs.2 (Or.inl (by norm_num)))
  have EvOrdB_at18 : Arc.at_ Real.sqrt ⟨⟨⟨0, 0⟩, (1 / 16384)⟩, true⟩ ((-(1 / 16384)) + 1 / 1000) = 0 := by
    have e : ((-(1 / 16384)) + 1 / 1000 : ℝ) = (1923 / 2048000) := by norm_num
    rw [e, EvOrdB_at17]
  have EvOrdB_f14 : aboveAt Real.sqrt ⟨(-(1 / 16384)), 0⟩ (some ⟨2, ⟨⟨⟨0, 0⟩, (1 / 16384)⟩, true⟩⟩) ⟨0, ⟨⟨⟨(-(1 / 16384)), (3 / 16384)⟩, (1 / 16384)⟩, true⟩⟩ = true := by
    show decide (Arc.at_ Real.sqrt ⟨⟨⟨(-(1 / 16384)), (3 / 16384)⟩, (1 / 16384)⟩, true⟩ ((-(1 / 16384)) + 1 / 1000) ≥ Arc.at_ Real.sqrt ⟨⟨⟨0, 0⟩, (1 / 16384)⟩, true⟩ ((-(1 / 16384)) + 1 / 1000))
      = true
    rw [decide_eq_true_eq, ge_iff_le]
    rw [EvOrdB_at16, EvOrdB_at18]
    all_goals norm_num
  have EvOrdB_at20 : Arc.at_ Real.sqrt ⟨⟨⟨(-(1 / 16384)), (3 / 16384)⟩, (1 / 16384)⟩, false⟩ (1923 / 2048000) = (3 / 16384) :=
    at_out ⟨⟨⟨(-(1 / 16384)), (3 / 16384)⟩, (1 / 16384)⟩, false⟩ (1923 / 2048000) (lt_abs.2 (Or.inl (by norm_num)))
  have EvOrdB_at21 : Arc.at_ Real.sqrt ⟨⟨⟨(-(1 / 16384)), (3 / 16384)⟩, (1 / 16384)⟩, false⟩ ((-(1 / 16384)) + 1 / 1000) = (3 / 16384) := by
    have e : ((-(1 / 16384)) + 1 / 1000 : ℝ) = (1923 / 2048000) := by norm_num
    rw [e, EvOrdB_at20]
  have EvOrdB_f19 : aboveAt Real.sqrt ⟨(-(1 / 16384)), 0⟩ (some ⟨2, ⟨⟨⟨0, 0⟩, (1 / 16384)⟩, true⟩⟩) ⟨1, ⟨⟨⟨(-(1 / 16384)), (3 / 16384)⟩, (1 / 16384)⟩, false⟩⟩ = true := by
    show decide (Arc.at_ Real.sqrt ⟨⟨⟨(-(1 / 16384)), (3 / 16384)⟩, (1 / 16384)⟩, false⟩ ((-(1 / 16384)) + 1 / 1000) ≥ Arc.at_ Real.sqrt ⟨⟨⟨0, 0⟩, (1 / 16384)⟩, true⟩ ((-(1 / 16384)) + 1 / 1000))
      = true
    rw [decide_eq_true_eq, ge_iff_le]
    rw [EvOrdB_at21, EvOrdB_at18]
    all_goals norm_num
  have EvOrdB_at23 : Arc.at_ Real.sqrt ⟨⟨⟨0, 0⟩, (1 / 16384)⟩, false⟩ (1923 / 2048000) = 0 :=
    at_out ⟨⟨⟨0, 0⟩, (1 / 16384)⟩, false⟩ (1923 / 2048000) (lt_abs.2 (Or.inl (by norm_num)))
  have EvOrdB_at24 : Arc.at_ Real.sqrt ⟨⟨⟨0, 0⟩, (1 / 16384)⟩, false⟩ ((-(1 / 16384)) + 1 / 1000) = 0 := by
    have e : ((-(1 / 16384)) + 1 / 1000 : ℝ) = (1923 / 2048000) := by norm_num
    rw [e, EvOrdB_at23]
  have EvOrdB_f22 : aboveAt Real.sqrt ⟨(-(1 / 16384)), 0⟩ (some ⟨3, ⟨⟨⟨0, 0⟩, (1 / 16384)⟩, false⟩⟩) ⟨1, ⟨⟨⟨(-(1 / 16384)), (3 / 16384)⟩, (1 / 16384)⟩, false⟩⟩ = true := by
    show decide (Arc.at_ Real.sqrt ⟨⟨⟨(-(1 / 16384)), (3 / 16384)⟩, (1 / 16384)⟩, false⟩ ((-(1 / 16384)) + 1 / 1000) ≥ Arc.at_ Real.sqrt ⟨⟨⟨0, 0⟩, (1 / 16384)⟩, false⟩ ((-(1 / 16384)) + 1 / 1000))
      = true
    rw [decide_eq_true_eq, ge_iff_le]
    rw [EvOrdB_at21, EvOrdB_at24]
    all_goals norm_num
  have EvOrdB_f25 : aboveAt Real.sqrt ⟨(-(1 / 16384)), 0⟩ (some ⟨3, ⟨⟨⟨0, 0⟩, (1 / 16384)⟩, false⟩⟩) ⟨2, ⟨⟨⟨0, 0⟩, (1 / 16384)⟩, true⟩⟩ = true := by
    show decide (Arc.at_ Real.sqrt ⟨⟨⟨0, 0⟩, (1 / 16384)⟩, true⟩ ((-(1 / 16384)) + 1 / 1000) ≥ Arc.at_ Real.sqrt ⟨⟨⟨0, 0⟩, (1 / 16384)⟩, false⟩ ((-(1 / 16384)) + 1 / 1000))
      = true
    rw [decide_eq_true_eq, ge_iff_le]
    rw [EvOrdB_at18, EvOrdB_at24]
    all_goals norm_num
  have EvOrdB_at27 : Arc.at_ Real.sqrt ⟨⟨⟨(1 / 4096), 0⟩, (5 / 16384)⟩, true⟩ (1923 / 2048000) = 0 :=
    at_out ⟨⟨⟨(1 / 4096), 0⟩, (5 / 16384)⟩, true⟩ (1923 / 2048000) (lt_abs.2 (Or.inl (by norm_num)))
  have EvOrdB_at28 : Arc.at_ Real.sqrt ⟨⟨⟨(1 / 4096), 0⟩, (5 / 16384)⟩, true⟩ ((-(1 / 16384)) + 1 / 1000) = 0 := by
    have e : ((-(1 / 16384)) + 1 / 1000 : ℝ) = (1923 / 2048000) := by norm_num
    rw [e, EvOrdB_at27]
  have EvOrdB_f26 : aboveAt Real.sqrt ⟨(-(1 / 16384)), 0⟩ (some ⟨4, ⟨⟨⟨(1 / 4096), 0⟩, (5 / 16384)⟩, true⟩⟩) ⟨1, ⟨⟨⟨(-(1 / 16384)), (3 / 16384)⟩, (1 / 16384)⟩, false⟩⟩ = true := by
    show decide (Arc.at_ Real.sqrt ⟨⟨⟨(-(1 / 16384)), (3 / 16384)⟩, (1 / 16384)⟩, false⟩ ((-(1 / 16384)) + 1 / 1000) ≥ Arc.at_ Real.sqrt ⟨⟨⟨(1 / 4096), 0⟩, (5 / 16384)⟩, true⟩ ((-(1 / 16384)) + 1 / 1000))
      = true
    rw [decide_eq_true_eq, ge_iff_le]
    rw [EvOrdB_at21, EvOrdB_at28]
    all_goals norm_num
  have EvOrdB_f29 : aboveAt Real.sqrt ⟨(-(1 / 16384)), 0⟩ (some ⟨4, ⟨⟨⟨(1 / 4096), 0⟩, (5 / 16384)⟩, true⟩⟩) ⟨2, ⟨⟨⟨0, 0⟩, (1 / 16384)⟩, true⟩⟩ = true := by
    show decide (Arc.at_ Real.sqrt ⟨⟨⟨0, 0⟩, (1 / 16384)⟩, true⟩ ((-(1 / 16384)) + 1 / 1000) ≥ Arc.at_ Real.sqrt ⟨⟨⟨(1 / 4096), 0⟩, (5 / 16384)⟩, true⟩ ((-(1 / 16384)) + 1 / 1000))
      = true
    rw [decide_eq_true_eq, ge_iff_le]
    rw [EvOrdB_at18, EvOrdB_at28]
    all_goals norm_num
  have EvOrdB_f30 : aboveAt Real.sqrt ⟨(-(1 / 16384)), 0⟩ (some ⟨4, ⟨⟨⟨(1 / 4096), 0⟩, (5 / 16384)⟩, true⟩⟩) ⟨3, ⟨⟨⟨0, 0⟩, (1 / 16384)⟩, false⟩⟩ = true := by
    show decide (Arc.at_ Real.sqrt ⟨⟨⟨0, 0⟩, (1 / 16384)⟩, false⟩ ((-(1 / 16384)) + 1 / 1000) ≥ Arc.at_ Real.sqrt ⟨⟨⟨(1 / 4096), 0⟩, (5 / 16384)⟩, true⟩ ((-(1 / 16384)) + 1 / 1000))
      = true
    rw [decide_eq_true_eq, ge_iff_le]
    rw [EvOrdB_at24, EvOrdB_at28]
    all_goals norm_num
  have EvOrdB_at32 : Arc.at_ Real.sqrt ⟨⟨⟨(1 / 4096), 0⟩, (5 / 16384)⟩, false⟩ (1923 / 2048000) = 0 :=
    at_out ⟨⟨⟨(1 / 4096), 0⟩, (5 / 16384)⟩, false⟩ (1923 / 2048000) (lt_abs.2 (Or.inl (by norm_num)))
  have EvOrdB_at33 : Arc.at_ Real.sqrt ⟨⟨⟨(1 / 4096), 0⟩, (5 / 16384)⟩, false⟩ ((-(1 / 16384)) + 1 / 1000) = 0 := by
    have e : ((-(1 / 16384)) + 1 / 1000 : ℝ) = (1923 / 2048000) := by norm_num
    rw [e, EvOrdB_at32]
  have EvOrdB_f31 : aboveAt Real.sqrt ⟨(-(1 / 16384)), 0⟩ (some ⟨5, ⟨⟨⟨(1 / 4096), 0⟩, (5 / 16384)⟩, false⟩⟩) ⟨1, ⟨⟨⟨(-(1 / 16384)), (3 / 16384)⟩, (1 / 16384)⟩, false⟩⟩ = true := by
    show decide (Arc.at_ Real.sqrt ⟨⟨⟨(-(1 / 16384)), (3 / 16384)⟩, (1 / 16384)⟩, false⟩ ((-(1 / 16384)) + 1 / 1000) ≥ Arc.at_ Real.sqrt ⟨⟨⟨(1 / 4096), 0⟩, (5 / 16384)⟩, false⟩ ((-(1 / 16384)) + 1 / 1000))
      = true
    rw [decide_eq_true_eq, ge_iff_le]
    rw [EvOrdB_at21, EvOrdB_at33]
    all_goals norm_num
  have EvOrdB_f34 : aboveAt Real.sqrt ⟨(-(1 / 16384)), 0⟩ (some ⟨5, ⟨⟨⟨(1 / 4096), 0⟩, (5 / 16384)⟩, false⟩⟩) ⟨3, ⟨⟨⟨0, 0⟩, (1 / 16384)⟩, false⟩⟩ = true := by
    show decide (Arc.at_ Real.sqrt ⟨⟨⟨0, 0⟩, (1 / 16384)⟩, false⟩ ((-(1 / 16384)) + 1 / 1000) ≥ Arc.at_ Real.sqrt ⟨⟨⟨(1 / 4096), 0⟩, (5 / 16384)⟩, false⟩ ((-(1 / 16384)) + 1 / 1000))
      = true
    rw [decide_eq_true_eq, ge_iff_le]
    rw [EvOrdB_at24, EvOrdB_at33]
    all_goals norm_num
  have EvOrdB_f35 : aboveAt Real.sqrt ⟨(-(1 / 16384)), 0⟩ (some ⟨5, ⟨⟨⟨(1 / 4096), 0⟩, (5 / 16384)⟩, false⟩⟩) ⟨4, ⟨⟨⟨(1 / 4096), 0⟩, (5 / 16384)⟩, true⟩⟩ = true := by
    show decide (Arc.at_ Real.sqrt ⟨⟨⟨(1 / 4096), 0⟩, (5 / 16384)⟩, true⟩ ((-(1 / 16384)) + 1 / 1000) ≥ Arc.at_ Real.sqrt ⟨⟨⟨(1 / 4096), 0⟩, (5 / 16384)⟩, false⟩ ((-(1 / 16384)) + 1 / 1000))
      = true
    rw [decide_eq_true_eq, ge_iff_le]
    rw [EvOrdB_at28, EvOrdB_at33]
    all_goals norm_num
  have EvOrdB_f36 : aboveAt Real.sqrt ⟨(-(1 / 16384)), 0⟩ (some ⟨2, ⟨⟨⟨0, 0⟩, (1 / 16384)⟩, true⟩⟩) ⟨3, ⟨⟨⟨0, 0⟩, (1 / 16384)⟩, false⟩⟩ = true := by
    show decide (Arc.at_ Real.sqrt ⟨⟨⟨0, 0⟩, (1 / 16384)⟩, false⟩ ((-(1 / 16384)) + 1 / 1000) ≥ Arc.at_ Real.sqrt ⟨⟨⟨0, 0⟩, (1 / 16384)⟩, true⟩ ((-(1 / 16384)) + 1 / 1000))
      = true
    rw [decide_eq_true_eq, ge_iff_le]
    rw [EvOrdB_at24, EvOrdB_at18]
    all_goals norm_num
  have EvOrdB_f37 : aboveAt Real.sqrt ⟨(-(1 / 16384)), 0⟩ (some ⟨3, ⟨⟨⟨0, 0⟩, (1 / 16384)⟩, false⟩⟩) ⟨4, ⟨⟨⟨(1 / 4096), 0⟩, (5 / 16384)⟩, true⟩⟩ = true := by
    show decide (Arc.at_ Real.sqrt ⟨⟨⟨(1 / 4096), 0⟩, (5 / 16384)⟩, true⟩ ((-(1 / 16384)) + 1 / 1000) ≥ Arc.at_ Real.sqrt ⟨⟨⟨0, 0⟩, (1 / 16384)⟩, false⟩ ((-(1 / 16384)) + 1 / 1000))
      = true
    rw [decide_eq_true_eq, ge_iff_le]
    rw [EvOrdB_at28, EvOrdB_at24]
    all_goals norm_num
  have EvOrdB_f38 : aboveAt Real.sqrt ⟨(-(1 / 16384)), 0⟩ (some ⟨4, ⟨⟨⟨(1 / 4096), 0⟩, (5 / 16384)⟩, true⟩⟩) ⟨5, ⟨⟨⟨(1 / 4096), 0⟩, (5 / 16384)⟩, false⟩⟩ = true := by
    show decide (Arc.at_ Real.sqrt ⟨⟨⟨(1 / 4096), 0⟩, (5 / 16384)⟩, false⟩ ((-(1 / 16384)) + 1 / 1000) ≥ Arc.at_ Real.sqrt ⟨⟨⟨(1 / 4096), 0⟩, (5 / 16384)⟩, true⟩ ((-(1 / 16384)) + 1 / 1000))
      = true
    rw [decide_eq_true_eq, ge_iff_le]
    rw [EvOrdB_at33, EvOrdB_at28]
    all_goals norm_num
  have EvOrdB_f39 : Arc.intersect Real.sqrt ⟨⟨⟨(1 / 4096), 0⟩, (5 / 16384)⟩, true⟩ ⟨⟨⟨(1 / 4096), 0⟩, (5 / 16384)⟩, false⟩ = [] := by
    unfold Arc.intersect
    simp only
    rw [intersect_same_center ⟨⟨(1 / 4096), 0⟩, (5 / 16384)⟩ ⟨⟨(1 / 4096), 0⟩, (5 / 16384)⟩ rfl]
    rfl
  have EvOrdB_at41 : Arc.at_ Real.sqrt ⟨⟨⟨(-(1 / 16384)), (3 / 16384)⟩, (1 / 16384)⟩, false⟩ 0 = (3 / 16384) - 0 :=
    at_lower_val ⟨⟨(-(1 / 16384)), (3 / 16384)⟩, (1 / 16384)⟩ 0 0 (by norm_num)
      (abs_le.2 ⟨by norm_num, by norm_num⟩) (by norm_num)
  have EvOrdB_f40 : aboveAt Real.sqrt ⟨0, (3 / 16384)⟩ none ⟨1, ⟨⟨⟨(-(1 / 16384)), (3 / 16384)⟩, (1 / 16384)⟩, false⟩⟩ = true := by
    show decide (Arc.at_ Real.sqrt ⟨⟨⟨(-(1 / 16384)), (3 / 16384)⟩, (1 / 16384)⟩, false⟩ 0 ≥ (3 / 16384)) = true
    rw [decide_eq_true_eq, ge_iff_le]
    rw [EvOrdB_at41]
    all_goals norm_num
  have EvOrdB_at43 : Arc.at_ Real.sqrt ⟨⟨⟨0, 0⟩, (1 / 16384)⟩, false⟩ 0 = 0 - (1 / 16384) :=
    at_lower_val ⟨⟨0, 0⟩, (1 / 16384)⟩ 0 (1 / 16384) (by norm_num)
      (abs_le.2 ⟨by norm_num, by norm_num⟩) (by norm_num)
  have EvOrdB_f42 : aboveAt Real.sqrt ⟨0, (3 / 16384)⟩ none ⟨3, ⟨⟨⟨0, 0⟩, (1 / 16384)⟩, false⟩⟩ = false := by
    show decide (Arc.at_ Real.sqrt ⟨⟨⟨0, 0⟩, (1 / 16384)⟩, false⟩ 0 ≥ (3 / 16384)) = false
    rw [decide_eq_false_iff_not, ge_iff_le, not_le]
    rw [EvOrdB_at43]
    all_goals norm_num
  have EvOrdB_at45 : Arc.at_ Real.sqrt ⟨⟨⟨0, 0⟩, (1 / 16384)⟩, true⟩ 0 = 0 + (1 / 16384) :=
    at_upper_val ⟨⟨0, 0⟩, (1 / 16384)⟩ 0 (1 / 16384) (by norm_num)
      (abs_le.2 ⟨by norm_num, by norm_num⟩) (by norm_num)
  have EvOrdB_f44 : aboveAt Real.sqrt ⟨0, (3 / 16384)⟩ none ⟨2, ⟨⟨⟨0, 0⟩, (1 / 16384)⟩, true⟩⟩ = false := by
    show decide (Arc.at_ Real.sqrt ⟨⟨⟨0, 0⟩, (1 / 16384)⟩, true⟩ 0 ≥ (3 / 16384)) = false
    rw [decide_eq_false_iff_not, ge_iff_le, not_le]
    rw [EvOrdB_at45]
    all_goals norm_num
  have EvOrdB_f46 : Arc.contains Real.sqrt ⟨⟨⟨0, 0⟩, (1 / 16384)⟩, true⟩ ⟨0, (3 / 16384)⟩ = false := by
    show decide (|Arc.at_ Real.sqrt ⟨⟨⟨0, 0⟩, (1 / 16384)⟩, true⟩ 0 - (3 / 16384)| < 1 / 100000) = false
    rw [decide_eq_false_iff_not, not_lt]
    rw [EvOrdB_at45]
    exact le_abs.2 (Or.inr (by norm_num))
  have EvOrdB_f47 : Arc.contains Real.sqrt ⟨⟨⟨(-(1 / 16384)), (3 / 16384)⟩, (1 / 16384)⟩, false⟩ ⟨0, (3 / 16384)⟩ = true := by
    show decide (|Arc.at_ Real.sqrt ⟨⟨⟨(-(1 / 16384)), (3 / 16384)⟩, (1 / 16384)⟩, false⟩ 0 - (3 / 16384)| < 1 / 100000) = true
    rw [decide_eq_true_eq, abs_lt]
    rw [EvOrdB_at41]
    constructor <;> norm_num
  have EvOrdB_at49 : Arc.at_ Real.sqrt ⟨⟨⟨(-(1 / 16384)), (3 / 16384)⟩, (1 / 16384)⟩, true⟩ 0 = (3 / 16384) + 0 :=
    at_upper_val ⟨⟨(-(1 / 16384)), (3 / 16384)⟩, (1 / 16384)⟩ 0 0 (by norm_num)
      (abs_le.2 ⟨by norm_num, by norm_num⟩) (by norm_num)
  have EvOrdB_f48 : Arc.contains Real.sqrt ⟨⟨⟨(-(1 / 16384)), (3 / 16384)⟩, (1 / 16384)⟩, true⟩ ⟨0, (3 / 16384)⟩ = true := by
    show decide (|Arc.at_ Real.sqrt ⟨⟨⟨(-(1 / 16384)), (3 / 16384)⟩, (1 / 16384)⟩, true⟩ 0 - (3 / 16384)| < 1 / 100000) = true
    rw [decide_eq_true_eq, abs_lt]
    rw [EvOrdB_at49]
    constructor <;> norm_num
  have EvOrdB_at51 : Arc.at_ Real.sqrt ⟨⟨⟨0, 0⟩, (1 / 16384)⟩, false⟩ (1 / 16384) = 0 - 0 :=
    at_lower_val ⟨⟨0, 0⟩, (1 / 16384)⟩ (1 / 16384) 0 (by norm_num)
      (abs_le.2 ⟨by norm_num, by norm_num⟩) (by norm_num)
  have EvOrdB_f50 : aboveAt Real.sqrt ⟨(1 / 16384), 0⟩ none ⟨3, ⟨⟨⟨0, 0⟩, (1 / 16384)⟩, false⟩⟩ = true := by
    show decide (Arc.at_ Real.sqrt ⟨⟨⟨0, 0⟩, (1 / 16384)⟩, false⟩ (1 / 16384) ≥ 0) = true
    rw [decide_eq_true_eq, ge_iff_le]
    rw [EvOrdB_at51]
    all_goals norm_num
  have EvOrdB_at53 : Arc.at_ Real.sqrt ⟨⟨⟨(1 / 4096), 0⟩, (5 / 16384)⟩, true⟩ (1 / 16384) = 0 + (1 / 4096) :=
    at_upper_val ⟨⟨(1 / 4096), 0⟩, (5 / 16384)⟩ (1 / 16384) (1 / 4096) (by norm_num)
      (abs_le.2 ⟨by norm_num, by norm_num⟩) (by norm_num)
  have EvOrdB_f52 : aboveAt Real.sqrt ⟨(1 / 16384), 0⟩ none ⟨4, ⟨⟨⟨(1 / 4096), 0⟩, (5 / 16384)⟩, true⟩⟩ = true := by
    show decide (Arc.at_ Real.sqrt ⟨⟨⟨(1 / 4096), 0⟩, (5 / 16384)⟩, true⟩ (1 / 16384) ≥ 0) = true
    rw [decide_eq_true_eq, ge_iff_le]
    rw [EvOrdB_at53]
    all_goals norm_num
  have EvOrdB_at55 : Arc.at_ Real.sqrt ⟨⟨⟨(1 / 4096), 0⟩, (5 / 16384)⟩, false⟩ (1 / 16384) = 0 - (1 / 4096) :=
    at_lower_val ⟨⟨(1 / 4096), 0⟩, (5 / 16384)⟩ (1 / 16384) (1 / 4096) (by norm_num)
      (abs_le.2 ⟨by norm_num, by norm_num⟩) (by norm_num)
  have EvOrdB_f54 : aboveAt Real.sqrt ⟨(1 / 16384), 0⟩ none ⟨5, ⟨⟨⟨(1 / 4096), 0⟩, (5 / 16384)⟩, false⟩⟩ = false := by
    show decide (Arc.at_ Real.sqrt ⟨⟨⟨(1 / 4096), 0⟩, (5 / 16384)⟩, false⟩ (1 / 16384) ≥ 0) = false
    rw [decide_eq_false_iff_not, ge_iff_le, not_le]
    rw [EvOrdB_at55]
    all_goals norm_num
  have EvOrdB_f56 : Arc.contains Real.sqrt ⟨⟨⟨(1 / 4096), 0⟩, (5 / 16384)⟩, false⟩ ⟨(1 / 16384), 0⟩ = false := by
    show decide (|Arc.at_ Real.sqrt ⟨⟨⟨(1 / 4096), 0⟩, (5 / 16384)⟩, false⟩ (1 / 16384) - 0| < 1 / 100000) = false
    rw [decide_eq_false_iff_not, not_lt]
    rw [EvOrdB_at55]
    exact le_abs.2 (Or.inr (by norm_num))
  have EvOrdB_f57 : Arc.contains Real.sqrt ⟨⟨⟨(1 / 4096), 0⟩, (5 / 16384)⟩, true⟩ ⟨(1 / 16384), 0⟩ = false := by
    show decide (|Arc.at_ Real.sqrt ⟨⟨⟨(1 / 4096), 0⟩, (5 / 16384)⟩, true⟩ (1 / 16384) - 0| < 1 / 100000) = false
    rw [decide_eq_false_iff_not, not_lt]
    rw [EvOrdB_at53]
    exact le_abs.2 (Or.inl (by norm_num))
  have EvOrdB_f58 : Arc.contains Real.sqrt ⟨⟨⟨0, 0⟩, (1 / 16384)⟩, false⟩ ⟨(1 / 16384), 0⟩ = true := by
    show decide (|Arc.at_ Real.sqrt ⟨⟨⟨0, 0⟩, (1 / 16384)⟩, false⟩ (1 / 16384) - 0| < 1 / 100000) = true
    rw [decide_eq_true_eq, abs_lt]
    rw [EvOrdB_at51]
    constructor <;> norm_num
  have EvOrdB_at60 : Arc.at_ Real.sqrt ⟨⟨⟨0, 0⟩, (1 / 16384)⟩, true⟩ (1 / 16384) = 0 + 0 :=
    at_upper_val ⟨⟨0, 0⟩, (1 / 16384)⟩ (1 / 16384) 0 (by norm_num)
      (abs_le.2 ⟨by norm_num, by norm_num⟩) (by norm_num)
  have EvOrdB_f59 : Arc.contains Real.sqrt ⟨⟨⟨0, 0⟩, (1 / 16384)⟩, true⟩ ⟨(1 / 16384), 0⟩ = true := by
    show decide (|Arc.at_ Real.sqrt ⟨⟨⟨0, 0⟩, (1 / 16384)⟩, true⟩ (1 / 16384) - 0| < 1 / 100000) = true
    rw [decide_eq_true_eq, abs_lt]
    rw [EvOrdB_at60]
    constructor <;> norm_num
  have EvOrdB_at62 : Arc.at_ Real.sqrt ⟨⟨⟨(1 / 4096), 0⟩, (5 / 16384)⟩, true⟩ (9 / 16384) = 0 + 0 :=
    at_upper_val ⟨⟨(1 / 4096), 0⟩, (5 / 16384)⟩ (9 / 16384) 0 (by norm_num)
      (abs_le.2 ⟨by norm_num, by norm_num⟩) (by norm_num)
  have EvOrdB_f61 : aboveAt Real.sqrt ⟨(9 / 16384), 0⟩ none ⟨4, ⟨⟨⟨(1 / 4096), 0⟩, (5 / 16384)⟩, true⟩⟩ = true := by
    show decide (Arc.at_ Real.sqrt ⟨⟨⟨(1 / 4096), 0⟩, (5 / 16384)⟩, true⟩ (9 / 16384) ≥ 0) = true
    rw [decide_eq_true_eq, ge_iff_le]
    rw [EvOrdB_at62]
    all_goals norm_num
  have EvOrdB_at64 : Arc.at_ Real.sqrt ⟨⟨⟨(1 / 4096), 0⟩, (5 / 16384)⟩, false⟩ (9 / 16384) = 0 - 0 :=
    at_lower_val ⟨⟨(1 / 4096), 0⟩, (5 / 16384)⟩ (9 / 16384) 0 (by norm_num)
      (abs_le.2 ⟨by norm_num, by norm_num⟩) (by norm_num)
  have EvOrdB_f63 : aboveAt Real.sqrt ⟨(9 / 16384), 0⟩ none ⟨5, ⟨⟨⟨(1 / 4096), 0⟩, (5 / 16384)⟩, false⟩⟩ = true := by
    show decide (Arc.at_ Real.sqrt ⟨⟨⟨(1 / 4096), 0⟩, (5 / 16384)⟩, false⟩ (9 / 16384) ≥ 0) = true
    rw [decide_eq_true_eq, ge_iff_le]
    rw [EvOrdB_at64]
    all_goals norm_num
  have EvOrdB_f65 : Arc.contains Real.sqrt ⟨⟨⟨(1 / 4096), 0⟩, (5 / 16384)⟩, false⟩ ⟨(9 / 16384), 0⟩ = true := by
    show decide (|Arc.at_ Real.sqrt ⟨⟨⟨(1 / 4096), 0⟩, (5 / 16384)⟩, false⟩ (9 / 16384) - 0| < 1 / 100000) = true
    rw [decide_eq_true_eq, abs_lt]
    rw [EvOrdB_at64]
    constructor <;> norm_num
  have EvOrdB_f66 : Arc.contains Real.sqrt ⟨⟨⟨(1 / 4096), 0⟩, (5 / 16384)⟩, true⟩ ⟨(9 / 16384), 0⟩ = true := by
    show decide (|Arc.at_ Real.sqrt ⟨⟨⟨(1 / 4096), 0⟩, (5 / 16384)⟩, true⟩ (9 / 16384) - 0| < 1 / 100000) = true
    rw [decide_eq_true_eq, abs_lt]
    rw [EvOrdB_at62]
    constructor <;> norm_num
  have EvOrdB_seed :
      seedEvents ([] : Events ℝ) 0 [⟨⟨(-(1 / 16384)), (3 / 16384)⟩, (1 / 16384)⟩, ⟨⟨0, 0⟩, (1 / 16384)⟩, ⟨⟨(1 / 4096), 0⟩, (5 / 16384)⟩]
        = [(⟨(-(1 / 8192)), (3 / 16384)⟩, [⟨0, ⟨⟨⟨(-(1 / 16384)), (3 / 16384)⟩, (1 / 16384)⟩, true⟩⟩, ⟨1, ⟨⟨⟨(-(1 / 16384)), (3 / 16384)⟩, (1 / 16384)⟩, false⟩⟩]), (⟨(-(1 / 16384)), 0⟩, [⟨2, ⟨⟨⟨0, 0⟩, (1 / 16384)⟩, true⟩⟩, ⟨3, ⟨⟨⟨0, 0⟩, (1 / 16384)⟩, false⟩⟩, ⟨4, ⟨⟨⟨(1 / 4096), 0⟩, (5 / 16384)⟩, true⟩⟩, ⟨5, ⟨⟨⟨(1 / 4096), 0⟩, (5 / 16384)⟩, false⟩⟩]), (⟨0, (3 / 16384)⟩, []), (⟨(1 / 16384), 0⟩, []), (⟨(9 / 16384), 0⟩, [])] := by
    norm_num [seedEvents, seedCircle, Events.find, Events.set, Circle.begin, Circle.end_,
      Point.sub, Point.add, Point.lt]
  have EvOrdB_step1 :
      sweepStep Real.sqrt [] ⟨(-(1 / 8192)), (3 / 16384)⟩
        [⟨0, ⟨⟨⟨(-(1 / 16384)), (3 / 16384)⟩, (1 / 16384)⟩, true⟩⟩, ⟨1, ⟨⟨⟨(-(1 / 16384)), (3 / 16384)⟩, (1 / 16384)⟩, false⟩⟩]
        [(⟨(-(1 / 16384)), 0⟩, [⟨2, ⟨⟨⟨0, 0⟩, (1 / 16384)⟩, true⟩⟩, ⟨3, ⟨⟨⟨0, 0⟩, (1 / 16384)⟩, false⟩⟩, ⟨4, ⟨⟨⟨(1 / 4096), 0⟩, (5 / 16384)⟩, true⟩⟩, ⟨5, ⟨⟨⟨(1 / 4096), 0⟩, (5 / 16384)⟩, false⟩⟩]), (⟨0, (3 / 16384)⟩, []), (⟨(1 / 16384), 0⟩, []), (⟨(9 / 16384), 0⟩, [])]
        ⟨.nil⟩
      = some ⟨[], [(⟨(-(1 / 16384)), 0⟩, [⟨2, ⟨⟨⟨0, 0⟩, (1 / 16384)⟩, true⟩⟩, ⟨3, ⟨⟨⟨0, 0⟩, (1 / 16384)⟩, false⟩⟩, ⟨4, ⟨⟨⟨(1 / 4096), 0⟩, (5 / 16384)⟩, true⟩⟩, ⟨5, ⟨⟨⟨(1 / 4096), 0⟩, (5 / 16384)⟩, false⟩⟩]), (⟨0, (3 / 16384)⟩, []), (⟨(1 / 16384), 0⟩, []), (⟨(9 / 16384), 0⟩, [])],
          ⟨(.node ⟨0, ⟨⟨⟨(-(1 / 16384)), (3 / 16384)⟩, (1 / 16384)⟩, true⟩⟩ .BLACK (.node ⟨1, ⟨⟨⟨(-(1 / 16384)), (3 / 16384)⟩, (1 / 16384)⟩, false⟩⟩ .RED .nil .nil) .nil)⟩⟩ := by
    norm_num [sweepStep, RBTree.contains, RBTree.insertPos, insertPosLoop, RBTree.empty,
      containsLoop, Node.size, report, removeAll, reinsert, insertBorn, RBTree.insert, insertFixup,
      blackenRoot, Node.setColor, Path.fill, discover, minArc, maxArc, RBTree.nodeOf, locate, isArc,
      RBTree.lower_bound, RBTree.upper_bound, climbLeft, climbRight, leftmost, rightmost,
      Events.erase, Events.find, Events.set, schedule, RBTree.remove, removeFixup,
      removeFixupLeftRot, removeFixupRightRot, leftRotate, rightRotate, Circle.ne, Point.ne,
      Point.eq, Point.lt, Circle.end_, Point.add, RBTree.lower_bound_at, RBTree.upper_bound_at,
      Node.color, Loc.tree, Loc.key?, spliceMin, Node.minKey, red_ne_black, black_ne_red,
      EvOrdB_f1, EvOrdB_f6, EvOrdB_f7, EvOrdB_f8, EvOrdB_f10, EvOrdB_f12, EvOrdB_f13, EvOrdB_f14, EvOrdB_f19, EvOrdB_f22, EvOrdB_f25, EvOrdB_f26, EvOrdB_f29, EvOrdB_f30, EvOrdB_f31, EvOrdB_f34, EvOrdB_f35, EvOrdB_f36, EvOrdB_f37, EvOrdB_f38, EvOrdB_f39, EvOrdB_f40, EvOrdB_f42, EvOrdB_f44, EvOrdB_f46, EvOrdB_f47, EvOrdB_f48, EvOrdB_f50, EvOrdB_f52, EvOrdB_f54, EvOrdB_f56, EvOrdB_f57, EvOrdB_f58, EvOrdB_f59, EvOrdB_f61, EvOrdB_f63, EvOrdB_f65, EvOrdB_f66]
  have EvOrdB_step2 :
      sweepStep Real.sqrt [] ⟨(-(1 / 16384)), 0⟩
        [⟨2, ⟨⟨⟨0, 0⟩, (1 / 16384)⟩, true⟩⟩, ⟨3, ⟨⟨⟨0, 0⟩, (1 / 16384)⟩, false⟩⟩, ⟨4, ⟨⟨⟨(1 / 4096), 0⟩, (5 / 16384)⟩, true⟩⟩, ⟨5, ⟨⟨⟨(1 / 4096), 0⟩, (5 / 16384)⟩, false⟩⟩]
        [(⟨0, (3 / 16384)⟩, []), (⟨(1 / 16384), 0⟩, []), (⟨(9 / 16384), 0⟩, [])]
        ⟨(.node ⟨0, ⟨⟨⟨(-(1 / 16384)), (3 / 16384)⟩, (1 / 16384)⟩, true⟩⟩ .BLACK (.node ⟨1, ⟨⟨⟨(-(1 / 16384)), (3 / 16384)⟩, (1 / 16384)⟩, false⟩⟩ .RED .nil .nil) .nil)⟩
      = some ⟨[⟨(-(1 / 16384)), 0⟩], [(⟨0, (3 / 16384)⟩, []), (⟨(1 / 16384), 0⟩, []), (⟨(9 / 16384), 0⟩, [])],
          ⟨(.node ⟨1, ⟨⟨⟨(-(1 / 16384)), (3 / 16384)⟩, (1 / 16384)⟩, false⟩⟩ .BLACK (.node ⟨3, ⟨⟨⟨0, 0⟩, (1 / 16384)⟩, false⟩⟩ .RED (.node ⟨4, ⟨⟨⟨(1 / 4096), 0⟩, (5 / 16384)⟩, true⟩⟩ .BLACK (.node ⟨5, ⟨⟨⟨(1 / 4096), 0⟩, (5 / 16384)⟩, false⟩⟩ .RED .nil .nil) .nil) (.node ⟨2, ⟨⟨⟨0, 0⟩, (1 / 16384)⟩, true⟩⟩ .BLACK .nil .nil)) (.node ⟨0, ⟨⟨⟨(-(1 / 16384)), (3 / 16384)⟩, (1 / 16384)⟩, true⟩⟩ .BLACK .nil .nil))⟩⟩ := by
    norm_num [sweepStep, RBTree.contains, RBTree.insertPos, insertPosLoop, RBTree.empty,
      containsLoop, Node.size, report, removeAll, reinsert, insertBorn, RBTree.insert, insertFixup,
      blackenRoot, Node.setColor, Path.fill, discover, minArc, maxArc, RBTree.nodeOf, locate, isArc,
      RBTree.lower_bound, RBTree.upper_bound, climbLeft, climbRight, leftmost, rightmost,
      Events.erase, Events.find, Events.set, schedule, RBTree.remove, removeFixup,
      removeFixupLeftRot, removeFixupRightRot, leftRotate, rightRotate, Circle.ne, Point.ne,
      Point.eq, Point.lt, Circle.end_, Point.add, RBTree.lower_bound_at, RBTree.upper_bound_at,
      Node.color, Loc.tree, Loc.key?, spliceMin, Node.minKey, red_ne_black, black_ne_red,
      EvOrdB_f1, EvOrdB_f6, EvOrdB_f7, EvOrdB_f8, EvOrdB_f10, EvOrdB_f12, EvOrdB_f13, EvOrdB_f14, EvOrdB_f19, EvOrdB_f22, EvOrdB_f25, EvOrdB_f26, EvOrdB_f29, EvOrdB_f30, EvOrdB_f31, EvOrdB_f34, EvOrdB_f35, EvOrdB_f36, EvOrdB_f37, EvOrdB_f38, EvOrdB_f39, EvOrdB_f40, EvOrdB_f42, EvOrdB_f44, EvOrdB_f46, EvOrdB_f47, EvOrdB_f48, EvOrdB_f50, EvOrdB_f52, EvOrdB_f54, EvOrdB_f56, EvOrdB_f57, EvOrdB_f58, EvOrdB_f59, EvOrdB_f61, EvOrdB_f63, EvOrdB_f65, EvOrdB_f66]
  have EvOrdB_step3 :
      sweepStep Real.sqrt [⟨(-(1 / 16384)), 0⟩] ⟨0, (3 / 16384)⟩
        []
        [(⟨(1 / 16384), 0⟩, []), (⟨(9 / 16384), 0⟩, [])]
        ⟨(.node ⟨1, ⟨⟨⟨(-(1 / 16384)), (3 / 16384)⟩, (1 / 16384)⟩, false⟩⟩ .BLACK (.node ⟨3, ⟨⟨⟨0, 0⟩, (1 / 16384)⟩, false⟩⟩ .RED (.node ⟨4, ⟨⟨⟨(1 / 4096), 0⟩, (5 / 16384)⟩, true⟩⟩ .BLACK (.node ⟨5, ⟨⟨⟨(1 / 4096), 0⟩, (5 / 16384)⟩, false⟩⟩ .RED .nil .nil) .nil) (.node ⟨2, ⟨⟨⟨0, 0⟩, (1 / 16384)⟩, true⟩⟩ .BLACK .nil .nil)) (.node ⟨0, ⟨⟨⟨(-(1 / 16384)), (3 / 16384)⟩, (1 / 16384)⟩, true⟩⟩ .BLACK .nil .nil))⟩
      = some ⟨[⟨(-(1 / 16384)), 0⟩], [(⟨(1 / 16384), 0⟩, []), (⟨(9 / 16384), 0⟩, [])],
          ⟨(.node ⟨3, ⟨⟨⟨0, 0⟩, (1 / 16384)⟩, false⟩⟩ .BLACK (.node ⟨4, ⟨⟨⟨(1 / 4096), 0⟩, (5 / 16384)⟩, true⟩⟩ .BLACK (.node ⟨5, ⟨⟨⟨(1 / 4096), 0⟩, (5 / 16384)⟩, false⟩⟩ .RED .nil .nil) .nil) (.node ⟨2, ⟨⟨⟨0, 0⟩, (1 / 16384)⟩, true⟩⟩ .BLACK .nil .nil))⟩⟩ := by
    norm_num [sweepStep, RBTree.contains, RBTree.insertPos, insertPosLoop, RBTree.empty,
      containsLoop, Node.size, report, removeAll, reinsert, insertBorn, RBTree.insert, insertFixup,
      blackenRoot, Node.setColor, Path.fill, discover, minArc, maxArc, RBTree.nodeOf, locate, isArc,
      RBTree.lower_bound, RBTree.upper_bound, climbLeft, climbRight, leftmost, rightmost,
      Events.erase, Events.find, Events.set, schedule, RBTree.remove, removeFixup,
      removeFixupLeftRot, removeFixupRightRot, leftRotate, rightRotate, Circle.ne, Point.ne,
      Point.eq, Point.lt, Circle.end_, Point.add, RBTree.lower_bound_at, RBTree.upper_bound_at,
      Node.color, Loc.tree, Loc.key?, spliceMin, Node.minKey, red_ne_black, black_ne_red,
      EvOrdB_f1, EvOrdB_f6, EvOrdB_f7, EvOrdB_f8, EvOrdB_f10, EvOrdB_f12, EvOrdB_f13, EvOrdB_f14, EvOrdB_f19, EvOrdB_f22, EvOrdB_f25, EvOrdB_f26, EvOrdB_f29, EvOrdB_f30, EvOrdB_f31, EvOrdB_f34, EvOrdB_f35, EvOrdB_f36, EvOrdB_f37, EvOrdB_f38, EvOrdB_f39, EvOrdB_f40, EvOrdB_f42, EvOrdB_f44, EvOrdB_f46, EvOrdB_f47, EvOrdB_f48, EvOrdB_f50, EvOrdB_f52, EvOrdB_f54, EvOrdB_f56, EvOrdB_f57, EvOrdB_f58, EvOrdB_f59, EvOrdB_f61, EvOrdB_f63, EvOrdB_f65, EvOrdB_f66]
  have EvOrdB_step4 :
      sweepStep Real.sqrt [⟨(-(1 / 16384)), 0⟩] ⟨(1 / 16384), 0⟩
        []
        [(⟨(9 / 16384), 0⟩, [])]
        ⟨(.node ⟨3, ⟨⟨⟨0, 0⟩, (1 / 16384)⟩, false⟩⟩ .BLACK (.node ⟨4, ⟨⟨⟨(1 / 4096), 0⟩, (5 / 16384)⟩, true⟩⟩ .BLACK (.node ⟨5, ⟨⟨⟨(1 / 4096), 0⟩, (5 / 16384)⟩, false⟩⟩ .RED .nil .nil) .nil) (.node ⟨2, ⟨⟨⟨0, 0⟩, (1 / 16384)⟩, true⟩⟩ .BLACK .nil .nil))⟩
      = some ⟨[⟨(-(1 / 16384)), 0⟩], [(⟨(9 / 16384), 0⟩, [])],
          ⟨(.node ⟨4, ⟨⟨⟨(1 / 4096), 0⟩, (5 / 16384)⟩, true⟩⟩ .BLACK (.node ⟨5, ⟨⟨⟨(1 / 4096), 0⟩, (5 / 16384)⟩, false⟩⟩ .RED .nil .nil) .nil)⟩⟩ := by
    norm_num [sweepStep, RBTree.contains, RBTree.insertPos, insertPosLoop, RBTree.empty,
      containsLoop, Node.size, report, removeAll, reinsert, insertBorn, RBTree.insert, insertFixup,
      blackenRoot, Node.setColor, Path.fill, discover, minArc, maxArc, RBTree.nodeOf, locate, isArc,
      RBTree.lower_bound, RBTree.upper_bound, climbLeft, climbRight, leftmost, rightmost,
      Events.erase, Events.find, Events.set, schedule, RBTree.remove, removeFixup,
      removeFixupLeftRot, removeFixupRightRot, leftRotate, rightRotate, Circle.ne, Point.ne,
      Point.eq, Point.lt, Circle.end_, Point.add, RBTree.lower_bound_at, RBTree.upper_bound_at,
      Node.color, Loc.tree, Loc.key?, spliceMin, Node.minKey, red_ne_black, black_ne_red,
      EvOrdB_f1, EvOrdB_f6, EvOrdB_f7, EvOrdB_f8, EvOrdB_f10, EvOrdB_f12, EvOrdB_f13, EvOrdB_f14, EvOrdB_f19, EvOrdB_f22, EvOrdB_f25, EvOrdB_f26, EvOrdB_f29, EvOrdB_f30, EvOrdB_f31, EvOrdB_f34, EvOrdB_f35, EvOrdB_f36, EvOrdB_f37, EvOrdB_f38, EvOrdB_f39, EvOrdB_f40, EvOrdB_f42, EvOrdB_f44, EvOrdB_f46, EvOrdB_f47, EvOrdB_f48, EvOrdB_f50, EvOrdB_f52, EvOrdB_f54, EvOrdB_f56, EvOrdB_f57, EvOrdB_f58, EvOrdB_f59, EvOrdB_f61, EvOrdB_f63, EvOrdB_f65, EvOrdB_f66]
  have EvOrdB_step5 :
      sweepStep Real.sqrt [⟨(-(1 / 16384)), 0⟩] ⟨(9 / 16384), 0⟩
        []
        []
        ⟨(.node ⟨4, ⟨⟨⟨(1 / 4096), 0⟩, (5 / 16384)⟩, true⟩⟩ .BLACK (.node ⟨5, ⟨⟨⟨(1 / 4096), 0⟩, (5 / 16384)⟩, false⟩⟩ .RED .nil .nil) .nil)⟩
      = some ⟨[⟨(-(1 / 16384)), 0⟩], [],
          ⟨.nil⟩⟩ := by
    norm_num [sweepStep, RBTree.contains, RBTree.insertPos, insertPosLoop, RBTree.empty,
      containsLoop, Node.size, report, removeAll, reinsert, insertBorn, RBTree.insert, insertFixup,
      blackenRoot, Node.setColor, Path.fill, discover, minArc, maxArc, RBTree.nodeOf, locate, isArc,
      RBTree.lower_bound, RBTree.upper_bound, climbLeft, climbRight, leftmost, rightmost,
      Events.erase, Events.find, Events.set, schedule, RBTree.remove, removeFixup,
      removeFixupLeftRot, removeFixupRightRot, leftRotate, rightRotate, Circle.ne, Point.ne,
      Point.eq, Point.lt, Circle.end_, Point.add, RBTree.lower_bound_at, RBTree.upper_bound_at,
      Node.color, Loc.tree, Loc.key?, spliceMin, Node.minKey, red_ne_black, black_ne_red,
      EvOrdB_f1, EvOrdB_f6, EvOrdB_f7, EvOrdB_f8, EvOrdB_f10, EvOrdB_f12, EvOrdB_f13, EvOrdB_f14, EvOrdB_f19, EvOrdB_f22, EvOrdB_f25, EvOrdB_f26, EvOrdB_f29, EvOrdB_f30, EvOrdB_f31, EvOrdB_f34, EvOrdB_f35, EvOrdB_f36, EvOrdB_f37, EvOrdB_f38, EvOrdB_f39, EvOrdB_f40, EvOrdB_f42, EvOrdB_f44, EvOrdB_f46, EvOrdB_f47, EvOrdB_f48, EvOrdB_f50, EvOrdB_f52, EvOrdB_f54, EvOrdB_f56, EvOrdB_f57, EvOrdB_f58, EvOrdB_f59, EvOrdB_f61, EvOrdB_f63, EvOrdB_f65, EvOrdB_f66]
  rw [eventLoop, RBTree.empty, EvOrdB_seed]
  rw [show fuel + 5 = (fuel + 4) + 1 from rfl, sweepLoop, EvOrdB_step1]
  simp only
  rw [show fuel + 4 = (fuel + 3) + 1 from rfl, sweepLoop, EvOrdB_step2]
  simp only
  rw [show fuel + 3 = (fuel + 2) + 1 from rfl, sweepLoop, EvOrdB_step3]
  simp only
  rw [show fuel + 2 = (fuel + 1) + 1 from rfl, sweepLoop, EvOrdB_step4]
  simp only
  rw [show fuel + 1 = (fuel + 0) + 1 from rfl, sweepLoop, EvOrdB_step5]
  simp only
  cases fuel <;> rfl

set_option maxHeartbeats 100000000 in
/-- The run of the event loop of `circleIntersect` for
the four circles of radius 1 with the centres (0,0), (1,1), (1,-1), (2,0):
the heights of the arcs and the comparisons the run makes, then the passes of the loop
one by one. -/
theorem EvFour_run (fuel : Nat) :
    eventLoop Real.sqrt (fuel + 7) [⟨⟨0, 0⟩, 1⟩, ⟨⟨1, 1⟩, 1⟩, ⟨⟨1, (-1)⟩, 1⟩, ⟨⟨2, 0⟩, 1⟩]
      = some ⟨[⟨0, (-1)⟩, ⟨0, 1⟩, ⟨1, 0⟩, ⟨2, (-1)⟩, ⟨2, 1⟩], [],
        ⟨.nil⟩⟩ := by
  have EvFour_at2 : 0 + (44710177 / 1000000000) < Arc.at_ Real.sqrt ⟨⟨⟨0, 0⟩, 1⟩, true⟩ (-(999 / 1000)) ∧
      Arc.at_ Real.sqrt ⟨⟨⟨0, 0⟩, 1⟩, true⟩ (-(999 / 1000)) < 0 + (22355089 / 500000000) :=
    at_upper_bounds ⟨⟨0, 0⟩, 1⟩ (-(999 / 1000)) (44710177 / 1000000000) (22355089 / 500000000) (by norm_num) (by norm_num)
      (abs_le.2 ⟨by norm_num, by norm_num⟩) (by norm_num) (by norm_num)
  have EvFour_at3 : (44710177 / 1000000000) < Arc.at_ Real.sqrt ⟨⟨⟨0, 0⟩, 1⟩, true⟩ ((-1) + 1 / 1000) ∧ Arc.at_ Real.sqrt ⟨⟨⟨0, 0⟩, 1⟩, true⟩ ((-1) + 1 / 1000) < (22355089 / 500000000) := by
    have e : ((-1) + 1 / 1000 : ℝ) = (-(999 / 1000)) := by norm_num
    rw [e]
    have h := EvFour_at2
    constructor <;> linarith only [h.1, h.2]
  have EvFour_at4 : 0 - (22355089 / 500000000) < Arc.at_ Real.sqrt ⟨⟨⟨0, 0⟩, 1⟩, false⟩ (-(999 / 1000)) ∧
      Arc.at_ Real.sqrt ⟨⟨⟨0, 0⟩, 1⟩, false⟩ (-(999 / 1000)) < 0 - (44710177 / 1000000000) :=
    at_lower_bounds ⟨⟨0, 0⟩, 1⟩ (-(999 / 1000)) (44710177 / 1000000000) (22355089 / 500000000) (by norm_num) (by norm_num)
      (abs_le.2 ⟨by norm_num, by norm_num⟩) (by norm_num) (by norm_num)
  have EvFour_at5 : (-(22355089 / 500000000)) < Arc.at_ Real.sqrt ⟨⟨⟨0, 0⟩, 1⟩, false⟩ ((-1) + 1 / 1000) ∧ Arc.at_ Real.sqrt ⟨⟨⟨0, 0⟩, 1⟩, false⟩ ((-1) + 1 / 1000) < (-(44710177 / 1000000000)) := by
    have e : ((-1) + 1 / 1000 : ℝ) = (-(999 / 1000)) := by norm_num
    rw [e]
    have h := EvFour_at4
    constructor <;> linarith only [h.1, h.2]
  have EvFour_f1 : aboveAt Real.sqrt ⟨(-1), 0⟩ (some ⟨1, ⟨⟨⟨0, 0⟩, 1⟩, false⟩⟩) ⟨0, ⟨⟨⟨0, 0⟩, 1⟩, true⟩⟩ = true := by
    show decide (Arc.at_ Real.sqrt ⟨⟨⟨0, 0⟩, 1⟩, true⟩ ((-1) + 1 / 1000) ≥ Arc.at_ Real.sqrt ⟨⟨⟨0, 0⟩, 1⟩, false⟩ ((-1) + 1 / 1000))
      = true
    rw [decide_eq_true_eq, ge_iff_le]
    all_goals linarith only [EvFour_at3.1, EvFour_at3.2, EvFour_at5.1, EvFour_at5.2]
  have EvFour_f6 : aboveAt Real.sqrt ⟨(-1), 0⟩ (some ⟨0, ⟨⟨⟨0, 0⟩, 1⟩, true⟩⟩) ⟨1, ⟨⟨⟨0, 0⟩, 1⟩, false⟩⟩ = false := by
    show decide (Arc.at_ Real.sqrt ⟨⟨⟨0, 0⟩, 1⟩, false⟩ ((-1) + 1 / 1000) ≥ Arc.at_ Real.sqrt ⟨⟨⟨0, 0⟩, 1⟩, true⟩ ((-1) + 1 / 1000))
      = false
    rw [decide_eq_false_iff_not, ge_iff_le, not_le]
    all_goals linarith only [EvFour_at5.1, EvFour_at5.2, EvFour_at3.1, EvFour_at3.2]
  have EvFour_at8 : Arc.at_ Real.sqrt ⟨⟨⟨0, 0⟩, 1⟩, true⟩ 0 = 0 + 1 :=
    at_upper_val ⟨⟨0, 0⟩, 1⟩ 0 1 (by norm_num)
      (abs_le.2 ⟨by norm_num, by norm_num⟩) (by norm_num)
  have EvFour_f7 : aboveAt Real.sqrt ⟨0, (-1)⟩ none ⟨0, ⟨⟨⟨0, 0⟩, 1⟩, true⟩⟩ = true := by
    show decide (Arc.at_ Real.sqrt ⟨⟨⟨0, 0⟩, 1⟩, true⟩ 0 ≥ (-1)) = true
    rw [decide_eq_true_eq, ge_iff_le]
    rw [EvFour_at8]
    all_goals norm_num
  have EvFour_at10 : Arc.at_ Real.sqrt ⟨⟨⟨0, 0⟩, 1⟩, false⟩ 0 = 0 - 1 :=
    at_lower_val ⟨⟨0, 0⟩, 1⟩ 0 1 (by norm_num)
      (abs_le.2 ⟨by norm_num, by norm_num⟩) (by norm_num)
  have EvFour_f9 : aboveAt Real.sqrt ⟨0, (-1)⟩ none ⟨1, ⟨⟨⟨0, 0⟩, 1⟩, false⟩⟩ = true := by
    show decide (Arc.at_ Real.sqrt ⟨⟨⟨0, 0⟩, 1⟩, false⟩ 0 ≥ (-1)) = true
    rw [decide_eq_true_eq, ge_iff_le]
    rw [EvFour_at10]
    all_goals norm_num
  have EvFour_f11 : Arc.contains Real.sqrt ⟨⟨⟨0, 0⟩, 1⟩, false⟩ ⟨0, (-1)⟩ = true := by
    show decide (|Arc.at_ Real.sqrt ⟨⟨⟨0, 0⟩, 1⟩, false⟩ 0 - (-1)| < 1 / 100000) = true
    rw [decide_eq_true_eq, abs_lt]
    rw [EvFour_at10]
    constructor <;> norm_num
  have EvFour_f12 : Arc.contains Real.sqrt ⟨⟨⟨0, 0⟩, 1⟩, true⟩ ⟨0, (-1)⟩ = false := by
    show decide (|Arc.at_ Real.sqrt ⟨⟨⟨0, 0⟩, 1⟩, true⟩ 0 - (-1)| < 1 / 100000) = false
    rw [decide_eq_false_iff_not, not_lt]
    rw [EvFour_at8]
    exact le_abs.2 (Or.inl (by norm_num))
  have EvFour_at14 : 0 + (999999499 / 1000000000) < Arc.at_ Real.sqrt ⟨⟨⟨0, 0⟩, 1⟩, true⟩ (1 / 1000) ∧
      Arc.at_ Real.sqrt ⟨⟨⟨0, 0⟩, 1⟩, true⟩ (1 / 1000) < 0 + (1999999 / 2000000) :=
    at_upper_bounds ⟨⟨0, 0⟩, 1⟩ (1 / 1000) (999999499 / 1000000000) (1999999 / 2000000) (by norm_num) (by norm_num)
      (abs_le.2 ⟨by norm_num, by norm_num⟩) (by norm_num) (by norm_num)
  have EvFour_at15 : (999999499 / 1000000000) < Arc.at_ Real.sqrt ⟨⟨⟨0, 0⟩, 1⟩, true⟩ (0 + 1 / 1000) ∧ Arc.at_ Real.sqrt ⟨⟨⟨0, 0⟩, 1⟩, true⟩ (0 + 1 / 1000) < (1999999 / 2000000) := by
    have e : (0 + 1 / 1000 : ℝ) = (1 / 1000) := by norm_num
    rw [e]
    have h := EvFour_at14
    constructor <;> linarith only [h.1, h.2]
  have EvFour_at16 : 0 - (1999999 / 2000000) < Arc.at_ Real.sqrt ⟨⟨⟨0, 0⟩, 1⟩, false⟩ (1 / 1000) ∧
      Arc.at_ Real.sqrt ⟨⟨⟨0, 0⟩, 1⟩, false⟩ (1 / 1000) < 0 - (999999499 / 1000000000) :=
    at_lower_bounds ⟨⟨0, 0⟩, 1⟩ (1 / 1000) (999999499 / 1000000000) (1999999 / 2000000) (by norm_num) (by norm_num)
      (abs_le.2 ⟨by norm_num, by norm_num⟩) (by norm_num) (by norm_num)
  have EvFour_at17 : (-(1999999 / 2000000)) < Arc.at_ Real.sqrt ⟨⟨⟨0, 0⟩, 1⟩, false⟩ (0 + 1 / 1000) ∧ Arc.at_ Real.sqrt ⟨⟨⟨0, 0⟩, 1⟩, false⟩ (0 + 1 / 1000) < (-(999999499 / 1000000000)) := by
    have e : (0 + 1 / 1000 : ℝ) = (1 / 1000) := by norm_num
    rw [e]
    have h := EvFour_at16
    constructor <;> linarith only [h.1, h.2]
  have EvFour_f13 : aboveAt Real.sqrt ⟨0, (-1)⟩ (some ⟨1, ⟨⟨⟨0, 0⟩, 1⟩, false⟩⟩) ⟨0, ⟨⟨⟨0, 0⟩, 1⟩, true⟩⟩ = true := by
    show decide (Arc.at_ Real.sqrt ⟨⟨⟨0, 0⟩, 1⟩, true⟩ (0 + 1 / 1000) ≥ Arc.at_ Real.sqrt ⟨⟨⟨0, 0⟩, 1⟩, false⟩ (0 + 1 / 1000))
      = true
    rw [decide_eq_true_eq, ge_iff_le]
    all_goals linarith only [EvFour_at15.1, EvFour_at15.2, EvFour_at17.1, EvFour_at17.2]
  have EvFour_at19 : (-1) + (44710177 / 1000000000) < Arc.at_ Real.sqrt ⟨⟨⟨1, (-1)⟩, 1⟩, true⟩ (1 / 1000) ∧
      Arc.at_ Real.sqrt ⟨⟨⟨1, (-1)⟩, 1⟩, true⟩ (1 / 1000) < (-1) + (22355089 / 500000000) :=
    at_upper_bounds ⟨⟨1, (-1)⟩, 1⟩ (1 / 1000) (44710177 / 1000000000) (22355089 / 500000000) (by norm_num) (by norm_num)
      (abs_le.2 ⟨by norm_num, by norm_num⟩) (by norm_num) (by norm_num)
  have EvFour_at20 : (-(955289823 / 1000000000)) < Arc.at_ Real.sqrt ⟨⟨⟨1, (-1)⟩, 1⟩, true⟩ (0 + 1 / 1000) ∧ Arc.at_ Real.sqrt ⟨⟨⟨1, (-1)⟩, 1⟩, true⟩ (0 + 1 / 1000) < (-(477644911 / 500000000)) := by
    have e : (0 + 1 / 1000 : ℝ) = (1 / 1000) := by norm_num
    rw [e]
    have h := EvFour_at19
    constructor <;> linarith only [h.1, h.2]
  have EvFour_f18 : aboveAt Real.sqrt ⟨0, (-1)⟩ (some ⟨4, ⟨⟨⟨1, (-1)⟩, 1⟩, true⟩⟩) ⟨0, ⟨⟨⟨0, 0⟩, 1⟩, true⟩⟩ = true := by
    show decide (Arc.at_ Real.sqrt ⟨⟨⟨0, 0⟩, 1⟩, true⟩ (0 + 1 / 1000) ≥ Arc.at_ Real.sqrt ⟨⟨⟨1, (-1)⟩, 1⟩, true⟩ (0 + 1 / 1000))
      = true
    rw [decide_eq_true_eq, ge_iff_le]
    all_goals linarith only [EvFour_at15.1, EvFour_at15.2, EvFour_at20.1, EvFour_at20.2]
  have EvFour_f21 : aboveAt Real.sqrt ⟨0, (-1)⟩ (some ⟨4, ⟨⟨⟨1, (-1)⟩, 1⟩, true⟩⟩) ⟨1, ⟨⟨⟨0, 0⟩, 1⟩, false⟩⟩ = false := by
    show decide (Arc.at_ Real.sqrt ⟨⟨⟨0, 0⟩, 1⟩, false⟩ (0 + 1 / 1000) ≥ Arc.at_ Real.sqrt ⟨⟨⟨1, (-1)⟩, 1⟩, true⟩ (0 + 1 / 1000))
      = false
    rw [decide_eq_false_iff_not, ge_iff_le, not_le]
    all_goals linarith only [EvFour_at17.1, EvFour_at17.2, EvFour_at20.1, EvFour_at20.2]
  have EvFour_at23 : (-1) - (22355089 / 500000000) < Arc.at_ Real.sqrt ⟨⟨⟨1, (-1)⟩, 1⟩, false⟩ (1 / 1000) ∧
      Arc.at_ Real.sqrt ⟨⟨⟨1, (-1)⟩, 1⟩, false⟩ (1 / 1000) < (-1) - (44710177 / 1000000000) :=
    at_lower_bounds ⟨⟨1, (-1)⟩, 1⟩ (1 / 1000) (44710177 / 1000000000) (22355089 / 500000000) (by norm_num) (by norm_num)
      (abs_le.2 ⟨by norm_num, by norm_num⟩) (by norm_num) (by norm_num)
  have EvFour_at24 : (-(522355089 / 500000000)) < Arc.at_ Real.sqrt ⟨⟨⟨1, (-1)⟩, 1⟩, false⟩ (0 + 1 / 1000) ∧ Arc.at_ Real.sqrt ⟨⟨⟨1, (-1)⟩, 1⟩, false⟩ (0 + 1 / 1000) < (-(1044710177 / 1000000000)) := by
    have e : (0 + 1 / 1000 : ℝ) = (1 / 1000) := by norm_num
    rw [e]
    have h := EvFour_at23
    constructor <;> linarith only [h.1, h.2]
  have EvFour_f22 : aboveAt Real.sqrt ⟨0, (-1)⟩ (some ⟨5, ⟨⟨⟨1, (-1)⟩, 1⟩, false⟩⟩) ⟨4, ⟨⟨⟨1, (-1)⟩, 1⟩, true⟩⟩ = true := by
    show decide (Arc.at_ Real.sqrt ⟨⟨⟨1, (-1)⟩, 1⟩, true⟩ (0 + 1 / 1000) ≥ Arc.at_ Real.sqrt ⟨⟨⟨1, (-1)⟩, 1⟩, false⟩ (0 + 1 / 1000))
      = true
    rw [decide_eq_true_eq, ge_iff_le]
    all_goals linarith only [EvFour_at20.1, EvFour_at20.2, EvFour_at24.1, EvFour_at24.2]
  have EvFour_f25 : aboveAt Real.sqrt ⟨0, (-1)⟩ (some ⟨5, ⟨⟨⟨1, (-1)⟩, 1⟩, false⟩⟩) ⟨1, ⟨⟨⟨0, 0⟩, 1⟩, false⟩⟩ = true := by
    show decide (Arc.at_ Real.sqrt ⟨⟨⟨0, 0⟩, 1⟩, false⟩ (0 + 1 / 1000) ≥ Arc.at_ Real.sqrt ⟨⟨⟨1, (-1)⟩, 1⟩, false⟩ (0 + 1 / 1000))
      = true
    rw [decide_eq_true_eq, ge_iff_le]
    all_goals linarith only [EvFour_at17.1, EvFour_at17.2, EvFour_at24.1, EvFour_at24.2]
  have EvFour_f26 : aboveAt Real.sqrt ⟨0, (-1)⟩ (some ⟨1, ⟨⟨⟨0, 0⟩, 1⟩, false⟩⟩) ⟨4, ⟨⟨⟨1, (-1)⟩, 1⟩, true⟩⟩ = true := by
    show decide (Arc.at_ Real.sqrt ⟨⟨⟨1, (-1)⟩, 1⟩, true⟩ (0 + 1 / 1000) ≥ Arc.at_ Real.sqrt ⟨⟨⟨0, 0⟩, 1⟩, false⟩ (0 + 1 / 1000))
      = true
    rw [decide_eq_true_eq, ge_iff_le]
    all_goals linarith only [EvFour_at20.1, EvFour_at20.2, EvFour_at17.1, EvFour_at17.2]
  have EvFour_f27 : aboveAt Real.sqrt ⟨0, (-1)⟩ (some ⟨4, ⟨⟨⟨1, (-1)⟩, 1⟩, true⟩⟩) ⟨5, ⟨⟨⟨1, (-1)⟩, 1⟩, false⟩⟩ = false := by
    show decide (Arc.at_ Real.sqrt ⟨⟨⟨1, (-1)⟩, 1⟩, false⟩ (0 + 1 / 1000) ≥ Arc.at_ Real.sqrt ⟨⟨⟨1, (-1)⟩, 1⟩, true⟩ (0 + 1 / 1000))
      = false
    rw [decide_eq_false_iff_not, ge_iff_le, not_le]
    all_goals linarith only [EvFour_at24.1, EvFour_at24.2, EvFour_at20.1, EvFour_at20.2]
  have EvFour_at29 : Arc.at_ Real.sqrt ⟨⟨⟨0, 0⟩, 1⟩, true⟩ 1 = 0 + 0 :=
    at_upper_val ⟨⟨0, 0⟩, 1⟩ 1 0 (by norm_num)
      (abs_le.2 ⟨by norm_num, by norm_num⟩) (by norm_num)
  have EvFour_at30 : Arc.at_ Real.sqrt ⟨⟨⟨1, (-1)⟩, 1⟩, true⟩ 1 = (-1) + 1 :=
    at_upper_val ⟨⟨1, (-1)⟩, 1⟩ 1 1 (by norm_num)
      (abs_le.2 ⟨by norm_num, by norm_num⟩) (by norm_num)
  have EvFour_h31 : (|Arc.at_ Real.sqrt ⟨⟨⟨0, 0⟩, 1⟩, true⟩ 1 - Arc.at_ Real.sqrt ⟨⟨⟨1, (-1)⟩, 1⟩, true⟩ 1| > 1 / 100000) = False := by
    apply eq_false
    rw [gt_iff_lt, not_lt, abs_le]
    rw [EvFour_at29, EvFour_at30]; constructor <;> norm_num
  have EvFour_at32 : Arc.at_ Real.sqrt ⟨⟨⟨1, (-1)⟩, 1⟩, true⟩ 0 = (-1) + 0 :=
    at_upper_val ⟨⟨1, (-1)⟩, 1⟩ 0 0 (by norm_num)
      (abs_le.2 ⟨by norm_num, by norm_num⟩) (by norm_num)
  have EvFour_h33 : (|Arc.at_ Real.sqrt ⟨⟨⟨0, 0⟩, 1⟩, true⟩ 0 - Arc.at_ Real.sqrt ⟨⟨⟨1, (-1)⟩, 1⟩, true⟩ 0| > 1 / 100000) = True := by
    apply eq_true
    rw [gt_iff_lt, lt_abs]
    left
    rw [EvFour_at8, EvFour_at32]; norm_num
  have EvFour_f28 : Arc.intersect Real.sqrt ⟨⟨⟨0, 0⟩, 1⟩, true⟩ ⟨⟨⟨1, (-1)⟩, 1⟩, true⟩ = [⟨1, 0⟩] := by
    unfold Arc.intersect
    simp only
    rw [intersect_eval ⟨⟨0, 0⟩, 1⟩ ⟨⟨1, (-1)⟩, 1⟩ 2 (1 / 2) (1 / 2) (by norm_num) (by norm_num)
      (by norm_num) (by norm_num) (by norm_num) (by norm_num) (by norm_num) (by norm_num)]
    norm_num [Point.add, Point.sub, Point.scale, Point.turn, List.filter, EvFour_h31, EvFour_h33]
  have EvFour_f34 : aboveAt Real.sqrt ⟨0, 1⟩ none ⟨4, ⟨⟨⟨1, (-1)⟩, 1⟩, true⟩⟩ = false := by
    show decide (Arc.at_ Real.sqrt ⟨⟨⟨1, (-1)⟩, 1⟩, true⟩ 0 ≥ 1) = false
    rw [decide_eq_false_iff_not, ge_iff_le, not_le]
    rw [EvFour_at32]
    all_goals norm_num
  have EvFour_f35 : aboveAt Real.sqrt ⟨0, 1⟩ none ⟨0, ⟨⟨⟨0, 0⟩, 1⟩, true⟩⟩ = true := by
    show decide (Arc.at_ Real.sqrt ⟨⟨⟨0, 0⟩, 1⟩, true⟩ 0 ≥ 1) = true
    rw [decide_eq_true_eq, ge_iff_le]
    rw [EvFour_at8]
    all_goals norm_num
  have EvFour_f36 : Arc.contains Real.sqrt ⟨⟨⟨0, 0⟩, 1⟩, true⟩ ⟨0, 1⟩ = true := by
    show decide (|Arc.at_ Real.sqrt ⟨⟨⟨0, 0⟩, 1⟩, true⟩ 0 - 1| < 1 / 100000) = true
    rw [decide_eq_true_eq, abs_lt]
    rw [EvFour_at8]
    constructor <;> norm_num
  have EvFour_f37 : aboveAt Real.sqrt ⟨0, 1⟩ (some ⟨0, ⟨⟨⟨0, 0⟩, 1⟩, true⟩⟩) ⟨1, ⟨⟨⟨0, 0⟩, 1⟩, false⟩⟩ = false := by
    show decide (Arc.at_ Real.sqrt ⟨⟨⟨0, 0⟩, 1⟩, false⟩ (0 + 1 / 1000) ≥ Arc.at_ Real.sqrt ⟨⟨⟨0, 0⟩, 1⟩, true⟩ (0 + 1 / 1000))
      = false
    rw [decide_eq_false_iff_not, ge_iff_le, not_le]
    all_goals linarith only [EvFour_at17.1, EvFour_at17.2, EvFour_at15.1, EvFour_at15.2]
  have EvFour_f38 : aboveAt Real.sqrt ⟨0, 1⟩ (some ⟨0, ⟨⟨⟨0, 0⟩, 1⟩, true⟩⟩) ⟨4, ⟨⟨⟨1, (-1)⟩, 1⟩, true⟩⟩ = false := by
    show decide (Arc.at_ Real.sqrt ⟨⟨⟨1, (-1)⟩, 1⟩, true⟩ (0 + 1 / 1000) ≥ Arc.at_ Real.sqrt ⟨⟨⟨0, 0⟩, 1⟩, true⟩ (0 + 1 / 1000))
      = false
    rw [decide_eq_false_iff_not, ge_iff_le, not_le]
    all_goals linarith only [EvFour_at20.1, EvFour_at20.2, EvFour_at15.1, EvFour_at15.2]
  have EvFour_at40 : 1 + (44710177 / 1000000000) < Arc.at_ Real.sqrt ⟨⟨⟨1, 1⟩, 1⟩, true⟩ (1 / 1000) ∧
      Arc.at_ Real.sqrt ⟨⟨⟨1, 1⟩, 1⟩, true⟩ (1 / 1000) < 1 + (22355089 / 500000000) :=
    at_upper_bounds ⟨⟨1, 1⟩, 1⟩ (1 / 1000) (44710177 / 1000000000) (22355089 / 500000000) (by norm_num) (by norm_num)
      (abs_le.2 ⟨by norm_num, by norm_num⟩) (by norm_num) (by norm_num)
  have EvFour_at41 : (1044710177 / 1000000000) < Arc.at_ Real.sqrt ⟨⟨⟨1, 1⟩, 1⟩, true⟩ (0 + 1 / 1000) ∧ Arc.at_ Real.sqrt ⟨⟨⟨1, 1⟩, 1⟩, true⟩ (0 + 1 / 1000) < (522355089 / 500000000) := by
    have e : (0 + 1 / 1000 : ℝ) = (1 / 1000) := by norm_num
    rw [e]
    have h := EvFour_at40
    constructor <;> linarith only [h.1, h.2]
  have EvFour_f39 : aboveAt Real.sqrt ⟨0, 1⟩ (some ⟨2, ⟨⟨⟨1, 1⟩, 1⟩, true⟩⟩) ⟨1, ⟨⟨⟨0, 0⟩, 1⟩, false⟩⟩ = false := by
    show decide (Arc.at_ Real.sqrt ⟨⟨⟨0, 0⟩, 1⟩, false⟩ (0 + 1 / 1000) ≥ Arc.at_ Real.sqrt ⟨⟨⟨1, 1⟩, 1⟩, true⟩ (0 + 1 / 1000))
      = false
    rw [decide_eq_false_iff_not, ge_iff_le, not_le]
    all_goals linarith only [EvFour_at17.1, EvFour_at17.2, EvFour_at41.1, EvFour_at41.2]
  have EvFour_f42 : aboveAt Real.sqrt ⟨0, 1⟩ (some ⟨2, ⟨⟨⟨1, 1⟩, 1⟩, true⟩⟩) ⟨4, ⟨⟨⟨1, (-1)⟩, 1⟩, true⟩⟩ = false := by
    show decide (Arc.at_ Real.sqrt ⟨⟨⟨1, (-1)⟩, 1⟩, true⟩ (0 + 1 / 1000) ≥ Arc.at_ Real.sqrt ⟨⟨⟨1, 1⟩, 1⟩, true⟩ (0 + 1 / 1000))
      = false
    rw [decide_eq_false_iff_not, ge_iff_le, not_le]
    all_goals linarith only [EvFour_at20.1, EvFour_at20.2, EvFour_at41.1, EvFour_at41.2]
  have EvFour_f43 : aboveAt Real.sqrt ⟨0, 1⟩ (some ⟨2, ⟨⟨⟨1, 1⟩, 1⟩, true⟩⟩) ⟨0, ⟨⟨⟨0, 0⟩, 1⟩, true⟩⟩ = false := by
    show decide (Arc.at_ Real.sqrt ⟨⟨⟨0, 0⟩, 1⟩, true⟩ (0 + 1 / 1000) ≥ Arc.at_ Real.sqrt ⟨⟨⟨1, 1⟩, 1⟩, true⟩ (0 + 1 / 1000))
      = false
    rw [decide_eq_false_iff_not, ge_iff_le, not_le]
    all_goals linarith only [EvFour_at15.1, EvFour_at15.2, EvFour_at41.1, EvFour_at41.2]
  have EvFour_at45 : 1 - (22355089 / 500000000) < Arc.at_ Real.sqrt ⟨⟨⟨1, 1⟩, 1⟩, false⟩ (1 / 1000) ∧
      Arc.at_ Real.sqrt ⟨⟨⟨1, 1⟩, 1⟩, false⟩ (1 / 1000) < 1 - (44710177 / 1000000000) :=
    at_lower_bounds ⟨⟨1, 1⟩, 1⟩ (1 / 1000) (44710177 / 1000000000) (22355089 / 500000000) (by norm_num) (by norm_num)
      (abs_le.2 ⟨by norm_num, by norm_num⟩) (by norm_num) (by norm_num)
  have EvFour_at46 : (477644911 / 500000000) < Arc.at_ Real.sqrt ⟨⟨⟨1, 1⟩, 1⟩, false⟩ (0 + 1 / 1000) ∧ Arc.at_ Real.sqrt ⟨⟨⟨1, 1⟩, 1⟩, false⟩ (0 + 1 / 1000) < (955289823 / 1000000000) := by
    have e : (0 + 1 / 1000 : ℝ) = (1 / 1000) := by norm_num
    rw [e]
    have h := EvFour_at45
    constructor <;> linarith only [h.1, h.2]
  have EvFour_f44 : aboveAt Real.sqrt ⟨0, 1⟩ (some ⟨3, ⟨⟨⟨1, 1⟩, 1⟩, false⟩⟩) ⟨1, ⟨⟨⟨0, 0⟩, 1⟩, false⟩⟩ = false := by
    show decide (Arc.at_ Real.sqrt ⟨⟨⟨0, 0⟩, 1⟩, false⟩ (0 + 1 / 1000) ≥ Arc.at_ Real.sqrt ⟨⟨⟨1, 1⟩, 1⟩, false⟩ (0 + 1 / 1000))
      = false
    rw [decide_eq_false_iff_not, ge_iff_le, not_le]
    all_goals linarith only [EvFour_at17.1, EvFour_at17.2, EvFour_at46.1, EvFour_at46.2]
  have EvFour_f47 : aboveAt Real.sqrt ⟨0, 1⟩ (some ⟨3, ⟨⟨⟨1, 1⟩, 1⟩, false⟩⟩) ⟨0, ⟨⟨⟨0, 0⟩, 1⟩, true⟩⟩ = true := by
    show decide (Arc.at_ Real.sqrt ⟨⟨⟨0, 0⟩, 1⟩, true⟩ (0 + 1 / 1000) ≥ Arc.at_ Real.sqrt ⟨⟨⟨1, 1⟩, 1⟩, false⟩ (0 + 1 / 1000))
      = true
    rw [decide_eq_true_eq, ge_iff_le]
    all_goals linarith only [EvFour_at15.1, EvFour_at15.2, EvFour_at46.1, EvFour_at46.2]
  have EvFour_f48 : aboveAt Real.sqrt ⟨0, 1⟩ (some ⟨3, ⟨⟨⟨1, 1⟩, 1⟩, false⟩⟩) ⟨4, ⟨⟨⟨1, (-1)⟩, 1⟩, true⟩⟩ = false := by
    show decide (Arc.at_ Real.sqrt ⟨⟨⟨1, (-1)⟩, 1⟩, true⟩ (0 + 1 / 1000) ≥ Arc.at_ Real.sqrt ⟨⟨⟨1, 1⟩, 1⟩, false⟩ (0 + 1 / 1000))
      = false
    rw [decide_eq_false_iff_not, ge_iff_le, not_le]
    all_goals linarith only [EvFour_at20.1, EvFour_at20.2, EvFour_at46.1, EvFour_at46.2]
  have EvFour_f49 : aboveAt Real.sqrt ⟨0, 1⟩ (some ⟨0, ⟨⟨⟨0, 0⟩, 1⟩, true⟩⟩) ⟨2, ⟨⟨⟨1, 1⟩, 1⟩, true⟩⟩ = true := by
    show decide (Arc.at_ Real.sqrt ⟨⟨⟨1, 1⟩, 1⟩, true⟩ (0 + 1 / 1000) ≥ Arc.at_ Real.sqrt ⟨⟨⟨0, 0⟩, 1⟩, true⟩ (0 + 1 / 1000))
      = true
    rw [decide_eq_true_eq, ge_iff_le]
    all_goals linarith only [EvFour_at41.1, EvFour_at41.2, EvFour_at15.1, EvFour_at15.2]
  have EvFour_f50 : aboveAt Real.sqrt ⟨0, 1⟩ (some ⟨2, ⟨⟨⟨1, 1⟩, 1⟩, true⟩⟩) ⟨3, ⟨⟨⟨1, 1⟩, 1⟩, false⟩⟩ = false := by
    show decide (Arc.at_ Real.sqrt ⟨⟨⟨1, 1⟩, 1⟩, false⟩ (0 + 1 / 1000) ≥ Arc.at_ Real.sqrt ⟨⟨⟨1, 1⟩, 1⟩, true⟩ (0 + 1 / 1000))
      = false
    rw [decide_eq_false_iff_not, ge_iff_le, not_le]
    all_goals linarith only [EvFour_at46.1, EvFour_at46.2, EvFour_at41.1, EvFour_at41.2]
  have EvFour_at52 : Arc.at_ Real.sqrt ⟨⟨⟨1, 1⟩, 1⟩, false⟩ 1 = 1 - 1 :=
    at_lower_val ⟨⟨1, 1⟩, 1⟩ 1 1 (by norm_num)
      (abs_le.2 ⟨by norm_num, by norm_num⟩) (by norm_num)
  have EvFour_h53 : (|Arc.at_ Real.sqrt ⟨⟨⟨1, (-1)⟩, 1⟩, true⟩ 1 - Arc.at_ Real.sqrt ⟨⟨⟨1, 1⟩, 1⟩, false⟩ 1| > 1 / 100000) = False := by
    apply eq_false
    rw [gt_iff_lt, not_lt, abs_le]
    rw [EvFour_at30, EvFour_at52]; constructor <;> norm_num
  have EvFour_f51 : Arc.intersect Real.sqrt ⟨⟨⟨1, (-1)⟩, 1⟩, true⟩ ⟨⟨⟨1, 1⟩, 1⟩, false⟩ = [⟨1, 0⟩] := by
    unfold Arc.intersect
    simp only
    rw [intersect_eval ⟨⟨1, (-1)⟩, 1⟩ ⟨⟨1, 1⟩, 1⟩ 4 (1 / 2) 0 (by norm_num) (by norm_num)
      (by norm_num) (by norm_num) (by norm_num) (by norm_num) (by norm_num) (by norm_num)]
    norm_num [Point.add, Point.sub, Point.scale, Point.turn, List.filter, EvFour_h53]
  have EvFour_at55 : Arc.at_ Real.sqrt ⟨⟨⟨0, 0⟩, 1⟩, false⟩ 1 = 0 - 0 :=
    at_lower_val ⟨⟨0, 0⟩, 1⟩ 1 0 (by norm_num)
      (abs_le.2 ⟨by norm_num, by norm_num⟩) (by norm_num)
  have EvFour_f54 : aboveAt Real.sqrt ⟨1, 0⟩ none ⟨1, ⟨⟨⟨0, 0⟩, 1⟩, false⟩⟩ = true := by
    show decide (Arc.at_ Real.sqrt ⟨⟨⟨0, 0⟩, 1⟩, false⟩ 1 ≥ 0) = true
    rw [decide_eq_true_eq, ge_iff_le]
    rw [EvFour_at55]
    all_goals norm_num
  have EvFour_at57 : Arc.at_ Real.sqrt ⟨⟨⟨1, (-1)⟩, 1⟩, false⟩ 1 = (-1) - 1 :=
    at_lower_val ⟨⟨1, (-1)⟩, 1⟩ 1 1 (by norm_num)
      (abs_le.2 ⟨by norm_num, by norm_num⟩) (by norm_num)
  have EvFour_f56 : aboveAt Real.sqrt ⟨1, 0⟩ none ⟨5, ⟨⟨⟨1, (-1)⟩, 1⟩, false⟩⟩ = false := by
    show decide (Arc.at_ Real.sqrt ⟨⟨⟨1, (-1)⟩, 1⟩, false⟩ 1 ≥ 0) = false
    rw [decide_eq_false_iff_not, ge_iff_le, not_le]
    rw [EvFour_at57]
    all_goals norm_num
  have EvFour_f58 : Arc.contains Real.sqrt ⟨⟨⟨1, (-1)⟩, 1⟩, false⟩ ⟨1, 0⟩ = false := by
    show decide (|Arc.at_ Real.sqrt ⟨⟨⟨1, (-1)⟩, 1⟩, false⟩ 1 - 0| < 1 / 100000) = false
    rw [decide_eq_false_iff_not, not_lt]
    rw [EvFour_at57]
    exact le_abs.2 (Or.inr (by norm_num))
  have EvFour_f59 : Arc.contains Real.sqrt ⟨⟨⟨0, 0⟩, 1⟩, false⟩ ⟨1, 0⟩ = true := by
    show decide (|Arc.at_ Real.sqrt ⟨⟨⟨0, 0⟩, 1⟩, false⟩ 1 - 0| < 1 / 100000) = true
    rw [decide_eq_true_eq, abs_lt]
    rw [EvFour_at55]
    constructor <;> norm_num
  have EvFour_f60 : Arc.contains Real.sqrt ⟨⟨⟨1, (-1)⟩, 1⟩, true⟩ ⟨1, 0⟩ = true := by
    show decide (|Arc.at_ Real.sqrt ⟨⟨⟨1, (-1)⟩, 1⟩, true⟩ 1 - 0| < 1 / 100000) = true
    rw [decide_eq_true_eq, abs_lt]
    rw [EvFour_at30]
    constructor <;> norm_num
  have EvFour_f61 : Arc.contains Real.sqrt ⟨⟨⟨1, 1⟩, 1⟩, false⟩ ⟨1, 0⟩ = true := by
    show decide (|Arc.at_ Real.sqrt ⟨⟨⟨1, 1⟩, 1⟩, false⟩ 1 - 0| < 1 / 100000) = true
    rw [decide_eq_true_eq, abs_lt]
    rw [EvFour_at52]
    constructor <;> norm_num
  have EvFour_f62 : Arc.contains Real.sqrt ⟨⟨⟨0, 0⟩, 1⟩, true⟩ ⟨1, 0⟩ = true := by
    show decide (|Arc.at_ Real.sqrt ⟨⟨⟨0, 0⟩, 1⟩, true⟩ 1 - 0| < 1 / 100000) = true
    rw [decide_eq_true_eq, abs_lt]
    rw [EvFour_at29]
    constructor <;> norm_num
  have EvFour_at64 : Arc.at_ Real.sqrt ⟨⟨⟨1, 1⟩, 1⟩, true⟩ 1 = 1 + 1 :=
    at_upper_val ⟨⟨1, 1⟩, 1⟩ 1 1 (by norm_num)
      (abs_le.2 ⟨by norm_num, by norm_num⟩) (by norm_num)
  have EvFour_f63 : Arc.contains Real.sqrt ⟨⟨⟨1, 1⟩, 1⟩, true⟩ ⟨1, 0⟩ = false := by
    show decide (|Arc.at_ Real.sqrt ⟨⟨⟨1, 1⟩, 1⟩, true⟩ 1 - 0| < 1 / 100000) = false
    rw [decide_eq_false_iff_not, not_lt]
    rw [EvFour_at64]
    exact le_abs.2 (Or.inl (by norm_num))
  have EvFour_at66 : 1 + (999999499 / 1000000000) < Arc.at_ Real.sqrt ⟨⟨⟨1, 1⟩, 1⟩, true⟩ (1001 / 1000) ∧
      Arc.at_ Real.sqrt ⟨⟨⟨1, 1⟩, 1⟩, true⟩ (1001 / 1000) < 1 + (1999999 / 2000000) :=
    at_upper_bounds ⟨⟨1, 1⟩, 1⟩ (1001 / 1000) (999999499 / 1000000000) (1999999 / 2000000) (by norm_num) (by norm_num)
      (abs_le.2 ⟨by norm_num, by norm_num⟩) (by norm_num) (by norm_num)
  have EvFour_at67 : (1999999499 / 1000000000) < Arc.at_ Real.sqrt ⟨⟨⟨1, 1⟩, 1⟩, true⟩ (1 + 1 / 1000) ∧ Arc.at_ Real.sqrt ⟨⟨⟨1, 1⟩, 1⟩, true⟩ (1 + 1 / 1000) < (3999999 / 2000000) := by
    have e : (1 + 1 / 1000 : ℝ) = (1001 / 1000) := by norm_num
    rw [e]
    have h := EvFour_at66
    constructor <;> linarith only [h.1, h.2]
  have EvFour_at68 : (-1) + (999999499 / 1000000000) < Arc.at_ Real.sqrt ⟨⟨⟨1, (-1)⟩, 1⟩, true⟩ (1001 / 1000) ∧
      Arc.at_ Real.sqrt ⟨⟨⟨1, (-1)⟩, 1⟩, true⟩ (1001 / 1000) < (-1) + (1999999 / 2000000) :=
    at_upper_bounds ⟨⟨1, (-1)⟩, 1⟩ (1001 / 1000) (999999499 / 1000000000) (1999999 / 2000000) (by norm_num) (by norm_num)
      (abs_le.2 ⟨by norm_num, by norm_num⟩) (by norm_num) (by norm_num)
  have EvFour_at69 : (-(501 / 1000000000)) < Arc.at_ Real.sqrt ⟨⟨⟨1, (-1)⟩, 1⟩, true⟩ (1 + 1 / 1000) ∧ Arc.at_ Real.sqrt ⟨⟨⟨1, (-1)⟩, 1⟩, true⟩ (1 + 1 / 1000) < (-(1 / 2000000)) := by
    have e : (1 + 1 / 1000 : ℝ) = (1001 / 1000) := by norm_num
    rw [e]
    have h := EvFour_at68
    constructor <;> linarith only [h.1, h.2]
  have EvFour_f65 : aboveAt Real.sqrt ⟨1, 0⟩ (some ⟨4, ⟨⟨⟨1, (-1)⟩, 1⟩, true⟩⟩) ⟨2, ⟨⟨⟨1, 1⟩, 1⟩, true⟩⟩ = true := by
    show decide (Arc.at_ Real.sqrt ⟨⟨⟨1, 1⟩, 1⟩, true⟩ (1 + 1 / 1000) ≥ Arc.at_ Real.sqrt ⟨⟨⟨1, (-1)⟩, 1⟩, true⟩ (1 + 1 / 1000))
      = true
    rw [decide_eq_true_eq, ge_iff_le]
    all_goals linarith only [EvFour_at67.1, EvFour_at67.2, EvFour_at69.1, EvFour_at69.2]
  have EvFour_at71 : (-1) - (1999999 / 2000000) < Arc.at_ Real.sqrt ⟨⟨⟨1, (-1)⟩, 1⟩, false⟩ (1001 / 1000) ∧
      Arc.at_ Real.sqrt ⟨⟨⟨1, (-1)⟩, 1⟩, false⟩ (1001 / 1000) < (-1) - (999999499 / 1000000000) :=
    at_lower_bounds ⟨⟨1, (-1)⟩, 1⟩ (1001 / 1000) (999999499 / 1000000000) (1999999 / 2000000) (by norm_num) (by norm_num)
      (abs_le.2 ⟨by norm_num, by norm_num⟩) (by norm_num) (by norm_num)
  have EvFour_at72 : (-(3999999 / 2000000)) < Arc.at_ Real.sqrt ⟨⟨⟨1, (-1)⟩, 1⟩, false⟩ (1 + 1 / 1000) ∧ Arc.at_ Real.sqrt ⟨⟨⟨1, (-1)⟩, 1⟩, false⟩ (1 + 1 / 1000) < (-(1999999499 / 1000000000)) := by
    have e : (1 + 1 / 1000 : ℝ) = (1001 / 1000) := by norm_num
    rw [e]
    have h := EvFour_at71
    constructor <;> linarith only [h.1, h.2]
  have EvFour_f70 : aboveAt Real.sqrt ⟨1, 0⟩ (some ⟨4, ⟨⟨⟨1, (-1)⟩, 1⟩, true⟩⟩) ⟨5, ⟨⟨⟨1, (-1)⟩, 1⟩, false⟩⟩ = false := by
    show decide (Arc.at_ Real.sqrt ⟨⟨⟨1, (-1)⟩, 1⟩, false⟩ (1 + 1 / 1000) ≥ Arc.at_ Real.sqrt ⟨⟨⟨1, (-1)⟩, 1⟩, true⟩ (1 + 1 / 1000))
      = false
    rw [decide_eq_false_iff_not, ge_iff_le, not_le]
    all_goals linarith only [EvFour_at72.1, EvFour_at72.2, EvFour_at69.1, EvFour_at69.2]
  have EvFour_at74 : 1 - (1999999 / 2000000) < Arc.at_ Real.sqrt ⟨⟨⟨1, 1⟩, 1⟩, false⟩ (1001 / 1000) ∧
      Arc.at_ Real.sqrt ⟨⟨⟨1, 1⟩, 1⟩, false⟩ (1001 / 1000) < 1 - (999999499 / 1000000000) :=
    at_lower_bounds ⟨⟨1, 1⟩, 1⟩ (1001 / 1000) (999999499 / 1000000000) (1999999 / 2000000) (by norm_num) (by norm_num)
      (abs_le.2 ⟨by norm_num, by norm_num⟩) (by norm_num) (by norm_num)
  have EvFour_at75 : (1 / 2000000) < Arc.at_ Real.sqrt ⟨⟨⟨1, 1⟩, 1⟩, false⟩ (1 + 1 / 1000) ∧ Arc.at_ Real.sqrt ⟨⟨⟨1, 1⟩, 1⟩, false⟩ (1 + 1 / 1000) < (501 / 1000000000) := by
    have e : (1 + 1 / 1000 : ℝ) = (1001 / 1000) := by norm_num
    rw [e]
    have h := EvFour_at74
    constructor <;> linarith only [h.1, h.2]
  have EvFour_f73 : aboveAt Real.sqrt ⟨1, 0⟩ (some ⟨3, ⟨⟨⟨1, 1⟩, 1⟩, false⟩⟩) ⟨4, ⟨⟨⟨1, (-1)⟩, 1⟩, true⟩⟩ = false := by
    show decide (Arc.at_ Real.sqrt ⟨⟨⟨1, (-1)⟩, 1⟩, true⟩ (1 + 1 / 1000) ≥ Arc.at_ Real.sqrt ⟨⟨⟨1, 1⟩, 1⟩, false⟩ (1 + 1 / 1000))
      = false
    rw [decide_eq_false_iff_not, ge_iff_le, not_le]
    all_goals linarith only [EvFour_at69.1, EvFour_at69.2, EvFour_at75.1, EvFour_at75.2]
  have EvFour_f76 : aboveAt Real.sqrt ⟨1, 0⟩ (some ⟨3, ⟨⟨⟨1, 1⟩, 1⟩, false⟩⟩) ⟨2, ⟨⟨⟨1, 1⟩, 1⟩, true⟩⟩ = true := by
    show decide (Arc.at_ Real.sqrt ⟨⟨⟨1, 1⟩, 1⟩, true⟩ (1 + 1 / 1000) ≥ Arc.at_ Real.sqrt ⟨⟨⟨1, 1⟩, 1⟩, false⟩ (1 + 1 / 1000))
      = true
    rw [decide_eq_true_eq, ge_iff_le]
    all_goals linarith only [EvFour_at67.1, EvFour_at67.2, EvFour_at75.1, EvFour_at75.2]
  have EvFour_at78 : 0 + (44710177 / 1000000000) < Arc.at_ Real.sqrt ⟨⟨⟨2, 0⟩, 1⟩, true⟩ (1001 / 1000) ∧
      Arc.at_ Real.sqrt ⟨⟨⟨2, 0⟩, 1⟩, true⟩ (1001 / 1000) < 0 + (22355089 / 500000000) :=
    at_upper_bounds ⟨⟨2, 0⟩, 1⟩ (1001 / 1000) (44710177 / 1000000000) (22355089 / 500000000) (by norm_num) (by norm_num)
      (abs_le.2 ⟨by norm_num, by norm_num⟩) (by norm_num) (by norm_num)
  have EvFour_at79 : (44710177 / 1000000000) < Arc.at_ Real.sqrt ⟨⟨⟨2, 0⟩, 1⟩, true⟩ (1 + 1 / 1000) ∧ Arc.at_ Real.sqrt ⟨⟨⟨2, 0⟩, 1⟩, true⟩ (1 + 1 / 1000) < (22355089 / 500000000) := by
    have e : (1 + 1 / 1000 : ℝ) = (1001 / 1000) := by norm_num
    rw [e]
    have h := EvFour_at78
    constructor <;> linarith only [h.1, h.2]
  have EvFour_f77 : aboveAt Real.sqrt ⟨1, 0⟩ (some ⟨6, ⟨⟨⟨2, 0⟩, 1⟩, true⟩⟩) ⟨4, ⟨⟨⟨1, (-1)⟩, 1⟩, true⟩⟩ = false := by
    show decide (Arc.at_ Real.sqrt ⟨⟨⟨1, (-1)⟩, 1⟩, true⟩ (1 + 1 / 1000) ≥ Arc.at_ Real.sqrt ⟨⟨⟨2, 0⟩, 1⟩, true⟩ (1 + 1 / 1000))
      = false
    rw [decide_eq_false_iff_not, ge_iff_le, not_le]
    all_goals linarith only [EvFour_at69.1, EvFour_at69.2, EvFour_at79.1, EvFour_at79.2]
  have EvFour_f80 : aboveAt Real.sqrt ⟨1, 0⟩ (some ⟨6, ⟨⟨⟨2, 0⟩, 1⟩, true⟩⟩) ⟨2, ⟨⟨⟨1, 1⟩, 1⟩, true⟩⟩ = true := by
    show decide (Arc.at_ Real.sqrt ⟨⟨⟨1, 1⟩, 1⟩, true⟩ (1 + 1 / 1000) ≥ Arc.at_ Real.sqrt ⟨⟨⟨2, 0⟩, 1⟩, true⟩ (1 + 1 / 1000))
      = true
    rw [decide_eq_true_eq, ge_iff_le]
    all_goals linarith only [EvFour_at67.1, EvFour_at67.2, EvFour_at79.1, EvFour_at79.2]
  have EvFour_f81 : aboveAt Real.sqrt ⟨1, 0⟩ (some ⟨6, ⟨⟨⟨2, 0⟩, 1⟩, true⟩⟩) ⟨3, ⟨⟨⟨1, 1⟩, 1⟩, false⟩⟩ = false := by
    show decide (Arc.at_ Real.sqrt ⟨⟨⟨1, 1⟩, 1⟩, false⟩ (1 + 1 / 1000) ≥ Arc.at_ Real.sqrt ⟨⟨⟨2, 0⟩, 1⟩, true⟩ (1 + 1 / 1000))
      = false
    rw [decide_eq_false_iff_not, ge_iff_le, not_le]
    all_goals linarith only [EvFour_at75.1, EvFour_at75.2, EvFour_at79.1, EvFour_at79.2]
  have EvFour_at83 : 0 - (22355089 / 500000000) < Arc.at_ Real.sqrt ⟨⟨⟨2, 0⟩, 1⟩, false⟩ (1001 / 1000) ∧
      Arc.at_ Real.sqrt ⟨⟨⟨2, 0⟩, 1⟩, false⟩ (1001 / 1000) < 0 - (44710177 / 1000000000) :=
    at_lower_bounds ⟨⟨2, 0⟩, 1⟩ (1001 / 1000) (44710177 / 1000000000) (22355089 / 500000000) (by norm_num) (by norm_num)
      (abs_le.2 ⟨by norm_num, by norm_num⟩) (by norm_num) (by norm_num)
  have EvFour_at84 : (-(22355089 / 500000000)) < Arc.at_ Real.sqrt ⟨⟨⟨2, 0⟩, 1⟩, false⟩ (1 + 1 / 1000) ∧ Arc.at_ Real.sqrt ⟨⟨⟨2, 0⟩, 1⟩, false⟩ (1 + 1 / 1000) < (-(44710177 / 1000000000)) := by
    have e : (1 + 1 / 1000 : ℝ) = (1001 / 1000) := by norm_num
    rw [e]
    have h := EvFour_at83
    constructor <;> linarith only [h.1, h.2]
  have EvFour_f82 : aboveAt Real.sqrt ⟨1, 0⟩ (some ⟨7, ⟨⟨⟨2, 0⟩, 1⟩, false⟩⟩) ⟨4, ⟨⟨⟨1, (-1)⟩, 1⟩, true⟩⟩ = true := by
    show decide (Arc.at_ Real.sqrt ⟨⟨⟨1, (-1)⟩, 1⟩, true⟩ (1 + 1 / 1000) ≥ Arc.at_ Real.sqrt ⟨⟨⟨2, 0⟩, 1⟩, false⟩ (1 + 1 / 1000))
      = true
    rw [decide_eq_true_eq, ge_iff_le]
    all_goals linarith only [EvFour_at69.1, EvFour_at69.2, EvFour_at84.1, EvFour_at84.2]
  have EvFour_f85 : aboveAt Real.sqrt ⟨1, 0⟩ (some ⟨7, ⟨⟨⟨2, 0⟩, 1⟩, false⟩⟩) ⟨5, ⟨⟨⟨1, (-1)⟩, 1⟩, false⟩⟩ = false := by
    show decide (Arc.at_ Real.sqrt ⟨⟨⟨1, (-1)⟩, 1⟩, false⟩ (1 + 1 / 1000) ≥ Arc.at_ Real.sqrt ⟨⟨⟨2, 0⟩, 1⟩, false⟩ (1 + 1 / 1000))
      = false
    rw [decide_eq_false_iff_not, ge_iff_le, not_le]
    all_goals linarith only [EvFour_at72.1, EvFour_at72.2, EvFour_at84.1, EvFour_at84.2]
  have EvFour_f86 : aboveAt Real.sqrt ⟨1, 0⟩ (some ⟨4, ⟨⟨⟨1, (-1)⟩, 1⟩, true⟩⟩) ⟨3, ⟨⟨⟨1, 1⟩, 1⟩, false⟩⟩ = true := by
    show decide (Arc.at_ Real.sqrt ⟨⟨⟨1, 1⟩, 1⟩, false⟩ (1 + 1 / 1000) ≥ Arc.at_ Real.sqrt ⟨⟨⟨1, (-1)⟩, 1⟩, true⟩ (1 + 1 / 1000))
      = true
    rw [decide_eq_true_eq, ge_iff_le]
    all_goals linarith only [EvFour_at75.1, EvFour_at75.2, EvFour_at69.1, EvFour_at69.2]
  have EvFour_f87 : aboveAt Real.sqrt ⟨1, 0⟩ (some ⟨3, ⟨⟨⟨1, 1⟩, 1⟩, false⟩⟩) ⟨6, ⟨⟨⟨2, 0⟩, 1⟩, true⟩⟩ = true := by
    show decide (Arc.at_ Real.sqrt ⟨⟨⟨2, 0⟩, 1⟩, true⟩ (1 + 1 / 1000) ≥ Arc.at_ Real.sqrt ⟨⟨⟨1, 1⟩, 1⟩, false⟩ (1 + 1 / 1000))
      = true
    rw [decide_eq_true_eq, ge_iff_le]
    all_goals linarith only [EvFour_at79.1, EvFour_at79.2, EvFour_at75.1, EvFour_at75.2]
  have EvFour_f88 : aboveAt Real.sqrt ⟨1, 0⟩ (some ⟨6, ⟨⟨⟨2, 0⟩, 1⟩, true⟩⟩) ⟨7, ⟨⟨⟨2, 0⟩, 1⟩, false⟩⟩ = false := by
    show decide (Arc.at_ Real.sqrt ⟨⟨⟨2, 0⟩, 1⟩, false⟩ (1 + 1 / 1000) ≥ Arc.at_ Real.sqrt ⟨⟨⟨2, 0⟩, 1⟩, true⟩ (1 + 1 / 1000))
      = false
    rw [decide_eq_false_iff_not, ge_iff_le, not_le]
    all_goals linarith only [EvFour_at84.1, EvFour_at84.2, EvFour_at79.1, EvFour_at79.2]
  have EvFour_at90 : Arc.at_ Real.sqrt ⟨⟨⟨2, 0⟩, 1⟩, false⟩ 1 = 0 - 0 :=
    at_lower_val ⟨⟨2, 0⟩, 1⟩ 1 0 (by norm_num)
      (abs_le.2 ⟨by norm_num, by norm_num⟩) (by norm_num)
  have EvFour_h91 : (|Arc.at_ Real.sqrt ⟨⟨⟨1, (-1)⟩, 1⟩, false⟩ 1 - Arc.at_ Real.sqrt ⟨⟨⟨2, 0⟩, 1⟩, false⟩ 1| > 1 / 100000) = True := by
    apply eq_true
    rw [gt_iff_lt, lt_abs]
    right
    rw [EvFour_at57, EvFour_at90]; norm_num
  have EvFour_at92 : Arc.at_ Real.sqrt ⟨⟨⟨1, (-1)⟩, 1⟩, false⟩ 2 = (-1) - 0 :=
    at_lower_val ⟨⟨1, (-1)⟩, 1⟩ 2 0 (by norm_num)
      (abs_le.2 ⟨by norm_num, by norm_num⟩) (by norm_num)
  have EvFour_at93 : Arc.at_ Real.sqrt ⟨⟨⟨2, 0⟩, 1⟩, false⟩ 2 = 0 - 1 :=
    at_lower_val ⟨⟨2, 0⟩, 1⟩ 2 1 (by norm_num)
      (abs_le.2 ⟨by norm_num, by norm_num⟩) (by norm_num)
  have EvFour_h94 : (|Arc.at_ Real.sqrt ⟨⟨⟨1, (-1)⟩, 1⟩, false⟩ 2 - Arc.at_ Real.sqrt ⟨⟨⟨2, 0⟩, 1⟩, false⟩ 2| > 1 / 100000) = False := by
    apply eq_false
    rw [gt_iff_lt, not_lt, abs_le]
    rw [EvFour_at92, EvFour_at93]; constructor <;> norm_num
  have EvFour_f89 : Arc.intersect Real.sqrt ⟨⟨⟨1, (-1)⟩, 1⟩, false⟩ ⟨⟨⟨2, 0⟩, 1⟩, false⟩ = [⟨2, (-1)⟩] := by
    unfold Arc.intersect
    simp only
    rw [intersect_eval ⟨⟨1, (-1)⟩, 1⟩ ⟨⟨2, 0⟩, 1⟩ 2 (1 / 2) (1 / 2) (by norm_num) (by norm_num)
      (by norm_num) (by norm_num) (by norm_num) (by norm_num) (by norm_num) (by norm_num)]
    norm_num [Point.add, Point.sub, Point.scale, Point.turn, List.filter, EvFour_h91, EvFour_h94]
  have EvFour_at96 : Arc.at_ Real.sqrt ⟨⟨⟨1, 1⟩, 1⟩, true⟩ 2 = 1 + 0 :=
    at_upper_val ⟨⟨1, 1⟩, 1⟩ 2 0 (by norm_num)
      (abs_le.2 ⟨by norm_num, by norm_num⟩) (by norm_num)
  have EvFour_at97 : Arc.at_ Real.sqrt ⟨⟨⟨2, 0⟩, 1⟩, true⟩ 2 = 0 + 1 :=
    at_upper_val ⟨⟨2, 0⟩, 1⟩ 2 1 (by norm_num)
      (abs_le.2 ⟨by norm_num, by norm_num⟩) (by norm_num)
  have EvFour_h98 : (|Arc.at_ Real.sqrt ⟨⟨⟨1, 1⟩, 1⟩, true⟩ 2 - Arc.at_ Real.sqrt ⟨⟨⟨2, 0⟩, 1⟩, true⟩ 2| > 1 / 100000) = False := by
    apply eq_false
    rw [gt_iff_lt, not_lt, abs_le]
    rw [EvFour_at96, EvFour_at97]; constructor <;> norm_num
  have EvFour_at99 : Arc.at_ Real.sqrt ⟨⟨⟨2, 0⟩, 1⟩, true⟩ 1 = 0 + 0 :=
    at_upper_val ⟨⟨2, 0⟩, 1⟩ 1 0 (by norm_num)
      (abs_le.2 ⟨by norm_num, by norm_num⟩) (by norm_num)
  have EvFour_h100 : (|Arc.at_ Real.sqrt ⟨⟨⟨1, 1⟩, 1⟩, true⟩ 1 - Arc.at_ Real.sqrt ⟨⟨⟨2, 0⟩, 1⟩, true⟩ 1| > 1 / 100000) = True := by
    apply eq_true
    rw [gt_iff_lt, lt_abs]
    left
    rw [EvFour_at64, EvFour_at99]; norm_num
  have EvFour_f95 : Arc.intersect Real.sqrt ⟨⟨⟨1, 1⟩, 1⟩, true⟩ ⟨⟨⟨2, 0⟩, 1⟩, true⟩ = [⟨2, 1⟩] := by
    unfold Arc.intersect
    simp only
    rw [intersect_eval ⟨⟨1, 1⟩, 1⟩ ⟨⟨2, 0⟩, 1⟩ 2 (1 / 2) (1 / 2) (by norm_num) (by norm_num)
      (by norm_num) (by norm_num) (by norm_num) (by norm_num) (by norm_num) (by norm_num)]
    norm_num [Point.add, Point.sub, Point.scale, Point.turn, List.filter, EvFour_h98, EvFour_h100]
  have EvFour_at102 : Arc.at_ Real.sqrt ⟨⟨⟨1, (-1)⟩, 1⟩, true⟩ 2 = (-1) + 0 :=
    at_upper_val ⟨⟨1, (-1)⟩, 1⟩ 2 0 (by norm_num)
      (abs_le.2 ⟨by norm_num, by norm_num⟩) (by norm_num)
  have EvFour_f101 : aboveAt Real.sqrt ⟨2, (-1)⟩ none ⟨4, ⟨⟨⟨1, (-1)⟩, 1⟩, true⟩⟩ = true := by
    show decide (Arc.at_ Real.sqrt ⟨⟨⟨1, (-1)⟩, 1⟩, true⟩ 2 ≥ (-1)) = true
    rw [decide_eq_true_eq, ge_iff_le]
    rw [EvFour_at102]
    all_goals norm_num
  have EvFour_f103 : aboveAt Real.sqrt ⟨2, (-1)⟩ none ⟨5, ⟨⟨⟨1, (-1)⟩, 1⟩, false⟩⟩ = true := by
    show decide (Arc.at_ Real.sqrt ⟨⟨⟨1, (-1)⟩, 1⟩, false⟩ 2 ≥ (-1)) = true
    rw [decide_eq_true_eq, ge_iff_le]
    rw [EvFour_at92]
    all_goals norm_num
  have EvFour_f104 : Arc.contains Real.sqrt ⟨⟨⟨1, (-1)⟩, 1⟩, false⟩ ⟨2, (-1)⟩ = true := by
    show decide (|Arc.at_ Real.sqrt ⟨⟨⟨1, (-1)⟩, 1⟩, false⟩ 2 - (-1)| < 1 / 100000) = true
    rw [decide_eq_true_eq, abs_lt]
    rw [EvFour_at92]
    constructor <;> norm_num
  have EvFour_f105 : Arc.contains Real.sqrt ⟨⟨⟨2, 0⟩, 1⟩, false⟩ ⟨2, (-1)⟩ = true := by
    show decide (|Arc.at_ Real.sqrt ⟨⟨⟨2, 0⟩, 1⟩, false⟩ 2 - (-1)| < 1 / 100000) = true
    rw [decide_eq_true_eq, abs_lt]
    rw [EvFour_at93]
    constructor <;> norm_num
  have EvFour_f106 : Arc.contains Real.sqrt ⟨⟨⟨1, (-1)⟩, 1⟩, true⟩ ⟨2, (-1)⟩ = true := by
    show decide (|Arc.at_ Real.sqrt ⟨⟨⟨1, (-1)⟩, 1⟩, true⟩ 2 - (-1)| < 1 / 100000) = true
    rw [decide_eq_true_eq, abs_lt]
    rw [EvFour_at102]
    constructor <;> norm_num
  have EvFour_at108 : Arc.at_ Real.sqrt ⟨⟨⟨1, 1⟩, 1⟩, false⟩ 2 = 1 - 0 :=
    at_lower_val ⟨⟨1, 1⟩, 1⟩ 2 0 (by norm_num)
      (abs_le.2 ⟨by norm_num, by norm_num⟩) (by norm_num)
  have EvFour_f107 : Arc.contains Real.sqrt ⟨⟨⟨1, 1⟩, 1⟩, false⟩ ⟨2, (-1)⟩ = false := by
    show decide (|Arc.at_ Real.sqrt ⟨⟨⟨1, 1⟩, 1⟩, false⟩ 2 - (-1)| < 1 / 100000) = false
    rw [decide_eq_false_iff_not, not_lt]
    rw [EvFour_at108]
    exact le_abs.2 (Or.inl (by norm_num))
  have EvFour_at110 : 0 + (999999499 / 1000000000) < Arc.at_ Real.sqrt ⟨⟨⟨2, 0⟩, 1⟩, true⟩ (2001 / 1000) ∧
      Arc.at_ Real.sqrt ⟨⟨⟨2, 0⟩, 1⟩, true⟩ (2001 / 1000) < 0 + (1999999 / 2000000) :=
    at_upper_bounds ⟨⟨2, 0⟩, 1⟩ (2001 / 1000) (999999499 / 1000000000) (1999999 / 2000000) (by norm_num) (by norm_num)
      (abs_le.2 ⟨by norm_num, by norm_num⟩) (by norm_num) (by norm_num)
  have EvFour_at111 : (999999499 / 1000000000) < Arc.at_ Real.sqrt ⟨⟨⟨2, 0⟩, 1⟩, true⟩ (2 + 1 / 1000) ∧ Arc.at_ Real.sqrt ⟨⟨⟨2, 0⟩, 1⟩, true⟩ (2 + 1 / 1000) < (1999999 / 2000000) := by
    have e : (2 + 1 / 1000 : ℝ) = (2001 / 1000) := by norm_num
    rw [e]
    have h := EvFour_at110
    constructor <;> linarith only [h.1, h.2]
  have EvFour_at112 : 0 - (1999999 / 2000000) < Arc.at_ Real.sqrt ⟨⟨⟨2, 0⟩, 1⟩, false⟩ (2001 / 1000) ∧
      Arc.at_ Real.sqrt ⟨⟨⟨2, 0⟩, 1⟩, false⟩ (2001 / 1000) < 0 - (999999499 / 1000000000) :=
    at_lower_bounds ⟨⟨2, 0⟩, 1⟩ (2001 / 1000) (999999499 / 1000000000) (1999999 / 2000000) (by norm_num) (by norm_num)
      (abs_le.2 ⟨by norm_num, by norm_num⟩) (by norm_num) (by norm_num)
  have EvFour_at113 : (-(1999999 / 2000000)) < Arc.at_ Real.sqrt ⟨⟨⟨2, 0⟩, 1⟩, false⟩ (2 + 1 / 1000) ∧ Arc.at_ Real.sqrt ⟨⟨⟨2, 0⟩, 1⟩, false⟩ (2 + 1 / 1000) < (-(999999499 / 1000000000)) := by
    have e : (2 + 1 / 1000 : ℝ) = (2001 / 1000) := by norm_num
    rw [e]
    have h := EvFour_at112
    constructor <;> linarith only [h.1, h.2]
  have EvFour_f109 : aboveAt Real.sqrt ⟨2, (-1)⟩ (some ⟨7, ⟨⟨⟨2, 0⟩, 1⟩, false⟩⟩) ⟨6, ⟨⟨⟨2, 0⟩, 1⟩, true⟩⟩ = true := by
    show decide (Arc.at_ Real.sqrt ⟨⟨⟨2, 0⟩, 1⟩, true⟩ (2 + 1 / 1000) ≥ Arc.at_ Real.sqrt ⟨⟨⟨2, 0⟩, 1⟩, false⟩ (2 + 1 / 1000))
      = true
    rw [decide_eq_true_eq, ge_iff_le]
    all_goals linarith only [EvFour_at111.1, EvFour_at111.2, EvFour_at113.1, EvFour_at113.2]
  have EvFour_at115 : Arc.at_ Real.sqrt ⟨⟨⟨1, 1⟩, 1⟩, false⟩ (2001 / 1000) = 1 :=
    at_out ⟨⟨⟨1, 1⟩, 1⟩, false⟩ (2001 / 1000) (lt_abs.2 (Or.inl (by norm_num)))
  have EvFour_at116 : Arc.at_ Real.sqrt ⟨⟨⟨1, 1⟩, 1⟩, false⟩ (2 + 1 / 1000) = 1 := by
    have e : (2 + 1 / 1000 : ℝ) = (2001 / 1000) := by norm_num
    rw [e, EvFour_at115]
  have EvFour_f114 : aboveAt Real.sqrt ⟨2, (-1)⟩ (some ⟨7, ⟨⟨⟨2, 0⟩, 1⟩, false⟩⟩) ⟨3, ⟨⟨⟨1, 1⟩, 1⟩, false⟩⟩ = true := by
    show decide (Arc.at_ Real.sqrt ⟨⟨⟨1, 1⟩, 1⟩, false⟩ (2 + 1 / 1000) ≥ Arc.at_ Real.sqrt ⟨⟨⟨2, 0⟩, 1⟩, false⟩ (2 + 1 / 1000))
      = true
    rw [decide_eq_true_eq, ge_iff_le]
    rw [EvFour_at116]
    all_goals linarith only [EvFour_at113.1, EvFour_at113.2]
  have EvFour_h118 : (|Arc.at_ Real.sqrt ⟨⟨⟨1, 1⟩, 1⟩, false⟩ 2 - Arc.at_ Real.sqrt ⟨⟨⟨2, 0⟩, 1⟩, false⟩ 2| > 1 / 100000) = True := by
    apply eq_true
    rw [gt_iff_lt, lt_abs]
    left
    rw [EvFour_at108, EvFour_at93]; norm_num
  have EvFour_h119 : (|Arc.at_ Real.sqrt ⟨⟨⟨1, 1⟩, 1⟩, false⟩ 1 - Arc.at_ Real.sqrt ⟨⟨⟨2, 0⟩, 1⟩, false⟩ 1| > 1 / 100000) = False := by
    apply eq_false
    rw [gt_iff_lt, not_lt, abs_le]
    rw [EvFour_at52, EvFour_at90]; constructor <;> norm_num
  have EvFour_f117 : Arc.intersect Real.sqrt ⟨⟨⟨1, 1⟩, 1⟩, false⟩ ⟨⟨⟨2, 0⟩, 1⟩, false⟩ = [⟨1, 0⟩] := by
    unfold Arc.intersect
    simp only
    rw [intersect_eval ⟨⟨1, 1⟩, 1⟩ ⟨⟨2, 0⟩, 1⟩ 2 (1 / 2) (1 / 2) (by norm_num) (by norm_num)
      (by norm_num) (by norm_num) (by norm_num) (by norm_num) (by norm_num) (by norm_num)]
    norm_num [Point.add, Point.sub, Point.scale, Point.turn, List.filter, EvFour_h118, EvFour_h119]
  have EvFour_f120 : aboveAt Real.sqrt ⟨2, 1⟩ none ⟨6, ⟨⟨⟨2, 0⟩, 1⟩, true⟩⟩ = true := by
    show decide (Arc.at_ Real.sqrt ⟨⟨⟨2, 0⟩, 1⟩, true⟩ 2 ≥ 1) = true
    rw [decide_eq_true_eq, ge_iff_le]
    rw [EvFour_at97]
    all_goals norm_num
  have EvFour_f121 : aboveAt Real.sqrt ⟨2, 1⟩ none ⟨3, ⟨⟨⟨1, 1⟩, 1⟩, false⟩⟩ = true := by
    show decide (Arc.at_ Real.sqrt ⟨⟨⟨1, 1⟩, 1⟩, false⟩ 2 ≥ 1) = true
    rw [decide_eq_true_eq, ge_iff_le]
    rw [EvFour_at108]
    all_goals norm_num
  have EvFour_f122 : aboveAt Real.sqrt ⟨2, 1⟩ none ⟨7, ⟨⟨⟨2, 0⟩, 1⟩, false⟩⟩ = false := by
    show decide (Arc.at_ Real.sqrt ⟨⟨⟨2, 0⟩, 1⟩, false⟩ 2 ≥ 1) = false
    rw [decide_eq_false_iff_not, ge_iff_le, not_le]
    rw [EvFour_at93]
    all_goals norm_num
  have EvFour_f123 : Arc.contains Real.sqrt ⟨⟨⟨2, 0⟩, 1⟩, false⟩ ⟨2, 1⟩ = false := by
    show decide (|Arc.at_ Real.sqrt ⟨⟨⟨2, 0⟩, 1⟩, false⟩ 2 - 1| < 1 / 100000) = false
    rw [decide_eq_false_iff_not, not_lt]
    rw [EvFour_at93]
    exact le_abs.2 (Or.inr (by norm_num))
  have EvFour_f124 : Arc.contains Real.sqrt ⟨⟨⟨1, 1⟩, 1⟩, false⟩ ⟨2, 1⟩ = true := by
    show decide (|Arc.at_ Real.sqrt ⟨⟨⟨1, 1⟩, 1⟩, false⟩ 2 - 1| < 1 / 100000) = true
    rw [decide_eq_true_eq, abs_lt]
    rw [EvFour_at108]
    constructor <;> norm_num
  have EvFour_f125 : Arc.contains Real.sqrt ⟨⟨⟨2, 0⟩, 1⟩, true⟩ ⟨2, 1⟩ = true := by
    show decide (|Arc.at_ Real.sqrt ⟨⟨⟨2, 0⟩, 1⟩, true⟩ 2 - 1| < 1 / 100000) = true
    rw [decide_eq_true_eq, abs_lt]
    rw [EvFour_at97]
    constructor <;> norm_num
  have EvFour_f126 : Arc.contains Real.sqrt ⟨⟨⟨1, 1⟩, 1⟩, true⟩ ⟨2, 1⟩ = true := by
    show decide (|Arc.at_ Real.sqrt ⟨⟨⟨1, 1⟩, 1⟩, true⟩ 2 - 1| < 1 / 100000) = true
    rw [decide_eq_true_eq, abs_lt]
    rw [EvFour_at96]
    constructor <;> norm_num
  have EvFour_f127 : aboveAt Real.sqrt ⟨2, 1⟩ (some ⟨6, ⟨⟨⟨2, 0⟩, 1⟩, true⟩⟩) ⟨7, ⟨⟨⟨2, 0⟩, 1⟩, false⟩⟩ = false := by
    show decide (Arc.at_ Real.sqrt ⟨⟨⟨2, 0⟩, 1⟩, false⟩ (2 + 1 / 1000) ≥ Arc.at_ Real.sqrt ⟨⟨⟨2, 0⟩, 1⟩, true⟩ (2 + 1 / 1000))
      = false
    rw [decide_eq_false_iff_not, ge_iff_le, not_le]
    all_goals linarith only [EvFour_at113.1, EvFour_at113.2, EvFour_at111.1, EvFour_at111.2]
  have EvFour_f128 : Arc.intersect Real.sqrt ⟨⟨⟨2, 0⟩, 1⟩, false⟩ ⟨⟨⟨2, 0⟩, 1⟩, true⟩ = [] := by
    unfold Arc.intersect
    simp only
    rw [intersect_same_center ⟨⟨2, 0⟩, 1⟩ ⟨⟨2, 0⟩, 1⟩ rfl]
    rfl
  have EvFour_at130 : Arc.at_ Real.sqrt ⟨⟨⟨2, 0⟩, 1⟩, false⟩ 3 = 0 - 0 :=
    at_lower_val ⟨⟨2, 0⟩, 1⟩ 3 0 (by norm_num)
      (abs_le.2 ⟨by norm_num, by norm_num⟩) (by norm_num)
  have EvFour_f129 : aboveAt Real.sqrt ⟨3, 0⟩ none ⟨7, ⟨⟨⟨2, 0⟩, 1⟩, false⟩⟩ = true := by
    show decide (Arc.at_ Real.sqrt ⟨⟨⟨2, 0⟩, 1⟩, false⟩ 3 ≥ 0) = true
    rw [decide_eq_true_eq, ge_iff_le]
    rw [EvFour_at130]
    all_goals norm_num
  have EvFour_f131 : Arc.contains Real.sqrt ⟨⟨⟨2, 0⟩, 1⟩, false⟩ ⟨3, 0⟩ = true := by
    show decide (|Arc.at_ Real.sqrt ⟨⟨⟨2, 0⟩, 1⟩, false⟩ 3 - 0| < 1 / 100000) = true
    rw [decide_eq_true_eq, abs_lt]
    rw [EvFour_at130]
    constructor <;> norm_num
  have EvFour_at133 : Arc.at_ Real.sqrt ⟨⟨⟨2, 0⟩, 1⟩, true⟩ 3 = 0 + 0 :=
    at_upper_val ⟨⟨2, 0⟩, 1⟩ 3 0 (by norm_num)
      (abs_le.2 ⟨by norm_num, by norm_num⟩) (by norm_num)
  have EvFour_f132 : Arc.contains Real.sqrt ⟨⟨⟨2, 0⟩, 1⟩, true⟩ ⟨3, 0⟩ = true := by
    show decide (|Arc.at_ Real.sqrt ⟨⟨⟨2, 0⟩, 1⟩, true⟩ 3 - 0| < 1 / 100000) = true
    rw [decide_eq_true_eq, abs_lt]
    rw [EvFour_at133]
    constructor <;> norm_num
  have EvFour_seed :
      seedEvents ([] : Events ℝ) 0 [⟨⟨0, 0⟩, 1⟩, ⟨⟨1, 1⟩, 1⟩, ⟨⟨1, (-1)⟩, 1⟩, ⟨⟨2, 0⟩, 1⟩]
        = [(⟨(-1), 0⟩, [⟨0, ⟨⟨⟨0, 0⟩, 1⟩, true⟩⟩, ⟨1, ⟨⟨⟨0, 0⟩, 1⟩, false⟩⟩]), (⟨0, (-1)⟩, [⟨4, ⟨⟨⟨1, (-1)⟩, 1⟩, true⟩⟩, ⟨5, ⟨⟨⟨1, (-1)⟩, 1⟩, false⟩⟩]), (⟨0, 1⟩, [⟨2, ⟨⟨⟨1, 1⟩, 1⟩, true⟩⟩, ⟨3, ⟨⟨⟨1, 1⟩, 1⟩, false⟩⟩]), (⟨1, 0⟩, [⟨6, ⟨⟨⟨2, 0⟩, 1⟩, true⟩⟩, ⟨7, ⟨⟨⟨2, 0⟩, 1⟩, false⟩⟩]), (⟨2, (-1)⟩, []), (⟨2, 1⟩, []), (⟨3, 0⟩, [])] := by
    norm_num [seedEvents, seedCircle, Events.find, Events.set, Circle.begin, Circle.end_,
      Point.sub, Point.add, Point.lt]
  have EvFour_step1 :
      sweepStep Real.sqrt [] ⟨(-1), 0⟩
        [⟨0, ⟨⟨⟨0, 0⟩, 1⟩, true⟩⟩, ⟨1, ⟨⟨⟨0, 0⟩, 1⟩, false⟩⟩]
        [(⟨0, (-1)⟩, [⟨4, ⟨⟨⟨1, (-1)⟩, 1⟩, true⟩⟩, ⟨5, ⟨⟨⟨1, (-1)⟩, 1⟩, false⟩⟩]), (⟨0, 1⟩, [⟨2, ⟨⟨⟨1, 1⟩, 1⟩, true⟩⟩, ⟨3, ⟨⟨⟨1, 1⟩, 1⟩, false⟩⟩]), (⟨1, 0⟩, [⟨6, ⟨⟨⟨2, 0⟩, 1⟩, true⟩⟩, ⟨7, ⟨⟨⟨2, 0⟩, 1⟩, false⟩⟩]), (⟨2, (-1)⟩, []), (⟨2, 1⟩, []), (⟨3, 0⟩, [])]
        ⟨.nil⟩
      = some ⟨[], [(⟨0, (-1)⟩, [⟨4, ⟨⟨⟨1, (-1)⟩, 1⟩, true⟩⟩, ⟨5, ⟨⟨⟨1, (-1)⟩, 1⟩, false⟩⟩]), (⟨0, 1⟩, [⟨2, ⟨⟨⟨1, 1⟩, 1⟩, true⟩⟩, ⟨3, ⟨⟨⟨1, 1⟩, 1⟩, false⟩⟩]), (⟨1, 0⟩, [⟨6, ⟨⟨⟨2, 0⟩, 1⟩, true⟩⟩, ⟨7, ⟨⟨⟨2, 0⟩, 1⟩, false⟩⟩]), (⟨2, (-1)⟩, []), (⟨2, 1⟩, []), (⟨3, 0⟩, [])],
          ⟨(.node ⟨0, ⟨⟨⟨0, 0⟩, 1⟩, true⟩⟩ .BLACK (.node ⟨1, ⟨⟨⟨0, 0⟩, 1⟩, false⟩⟩ .RED .nil .nil) .nil)⟩⟩ := by
    norm_num [sweepStep, RBTree.contains, RBTree.insertPos, insertPosLoop, RBTree.empty,
      containsLoop, Node.size, report, removeAll, reinsert, insertBorn, RBTree.insert, insertFixup,
      blackenRoot, Node.setColor, Path.fill, discover, minArc, maxArc, RBTree.nodeOf, locate, isArc,
      RBTree.lower_bound, RBTree.upper_bound, climbLeft, climbRight, leftmost, rightmost,
      Events.erase, Events.find, Events.set, schedule, RBTree.remove, removeFixup,
      removeFixupLeftRot, removeFixupRightRot, leftRotate, rightRotate, Circle.ne, Point.ne,
      Point.eq, Point.lt, Circle.end_, Point.add, RBTree.lower_bound_at, RBTree.upper_bound_at,
      Node.color, Loc.tree, Loc.key?, spliceMin, Node.minKey, red_ne_black, black_ne_red,
      EvFour_f1, EvFour_f6, EvFour_f7, EvFour_f9, EvFour_f11, EvFour_f12, EvFour_f13, EvFour_f18, EvFour_f21, EvFour_f22, EvFour_f25, EvFour_f26, EvFour_f27, EvFour_f28, EvFour_f34, EvFour_f35, EvFour_f36, EvFour_f37, EvFour_f38, EvFour_f39, EvFour_f42, EvFour_f43, EvFour_f44, EvFour_f47, EvFour_f48, EvFour_f49, EvFour_f50, EvFour_f51, EvFour_f54, EvFour_f56, EvFour_f58, EvFour_f59, EvFour_f60, EvFour_f61, EvFour_f62, EvFour_f63, EvFour_f65, EvFour_f70, EvFour_f73, EvFour_f76, EvFour_f77, EvFour_f80, EvFour_f81, EvFour_f82, EvFour_f85, EvFour_f86, EvFour_f87, EvFour_f88, EvFour_f89, EvFour_f95, EvFour_f101, EvFour_f103, EvFour_f104, EvFour_f105, EvFour_f106, EvFour_f107, EvFour_f109, EvFour_f114, EvFour_f117, EvFour_f120, EvFour_f121, EvFour_f122, EvFour_f123, EvFour_f124, EvFour_f125, EvFour_f126, EvFour_f127, EvFour_f128, EvFour_f129, EvFour_f131, EvFour_f132]
  have EvFour_step2 :
      sweepStep Real.sqrt [] ⟨0, (-1)⟩
        [⟨4, ⟨⟨⟨1, (-1)⟩, 1⟩, true⟩⟩, ⟨5, ⟨⟨⟨1, (-1)⟩, 1⟩, false⟩⟩]
        [(⟨0, 1⟩, [⟨2, ⟨⟨⟨1, 1⟩, 1⟩, true⟩⟩, ⟨3, ⟨⟨⟨1, 1⟩, 1⟩, false⟩⟩]), (⟨1, 0⟩, [⟨6, ⟨⟨⟨2, 0⟩, 1⟩, true⟩⟩, ⟨7, ⟨⟨⟨2, 0⟩, 1⟩, false⟩⟩]), (⟨2, (-1)⟩, []), (⟨2, 1⟩, []), (⟨3, 0⟩, [])]
        ⟨(.node ⟨0, ⟨⟨⟨0, 0⟩, 1⟩, true⟩⟩ .BLACK (.node ⟨1, ⟨⟨⟨0, 0⟩, 1⟩, false⟩⟩ .RED .nil .nil) .nil)⟩
      = some ⟨[⟨0, (-1)⟩], [(⟨0, 1⟩, [⟨2, ⟨⟨⟨1, 1⟩, 1⟩, true⟩⟩, ⟨3, ⟨⟨⟨1, 1⟩, 1⟩, false⟩⟩]), (⟨1, 0⟩, [⟨6, ⟨⟨⟨2, 0⟩, 1⟩, true⟩⟩, ⟨7, ⟨⟨⟨2, 0⟩, 1⟩, false⟩⟩]), (⟨2, (-1)⟩, []), (⟨2, 1⟩, []), (⟨3, 0⟩, [])],
          ⟨(.node ⟨4, ⟨⟨⟨1, (-1)⟩, 1⟩, true⟩⟩ .BLACK (.node ⟨1, ⟨⟨⟨0, 0⟩, 1⟩, false⟩⟩ .BLACK (.node ⟨5, ⟨⟨⟨1, (-1)⟩, 1⟩, false⟩⟩ .RED .nil .nil) .nil) (.node ⟨0, ⟨⟨⟨0, 0⟩, 1⟩, true⟩⟩ .BLACK .nil .nil))⟩⟩ := by
    norm_num [sweepStep, RBTree.contains, RBTree.insertPos, insertPosLoop, RBTree.empty,
      containsLoop, Node.size, report, removeAll, reinsert, insertBorn, RBTree.insert, insertFixup,
      blackenRoot, Node.setColor, Path.fill, discover, minArc, maxArc, RBTree.nodeOf, locate, isArc,
      RBTree.lower_bound, RBTree.upper_bound, climbLeft, climbRight, leftmost, rightmost,
      Events.erase, Events.find, Events.set, schedule, RBTree.remove, removeFixup,
      removeFixupLeftRot, removeFixupRightRot, leftRotate, rightRotate, Circle.ne, Point.ne,
      Point.eq, Point.lt, Circle.end_, Point.add, RBTree.lower_bound_at, RBTree.upper_bound_at,
      Node.color, Loc.tree, Loc.key?, spliceMin, Node.minKey, red_ne_black, black_ne_red,
      EvFour_f1, EvFour_f6, EvFour_f7, EvFour_f9, EvFour_f11, EvFour_f12, EvFour_f13, EvFour_f18, EvFour_f21, EvFour_f22, EvFour_f25, EvFour_f26, EvFour_f27, EvFour_f28, EvFour_f34, EvFour_f35, EvFour_f36, EvFour_f37, EvFour_f38, EvFour_f39, EvFour_f42, EvFour_f43, EvFour_f44, EvFour_f47, EvFour_f48, EvFour_f49, EvFour_f50, EvFour_f51, EvFour_f54, EvFour_f56, EvFour_f58, EvFour_f59, EvFour_f60, EvFour_f61, EvFour_f62, EvFour_f63, EvFour_f65, EvFour_f70, EvFour_f73, EvFour_f76, EvFour_f77, EvFour_f80, EvFour_f81, EvFour_f82, EvFour_f85, EvFour_f86, EvFour_f87, EvFour_f88, EvFour_f89, EvFour_f95, EvFour_f101, EvFour_f103, EvFour_f104, EvFour_f105, EvFour_f106, EvFour_f107, EvFour_f109, EvFour_f114, EvFour_f117, EvFour_f120, EvFour_f121, EvFour_f122, EvFour_f123, EvFour_f124, EvFour_f125, EvFour_f126, EvFour_f127, EvFour_f128, EvFour_f129, EvFour_f131, EvFour_f132]
  have EvFour_step3 :
      sweepStep Real.sqrt [⟨0, (-1)⟩] ⟨0, 1⟩
        [⟨2, ⟨⟨⟨1, 1⟩, 1⟩, true⟩⟩, ⟨3, ⟨⟨⟨1, 1⟩, 1⟩, false⟩⟩]
        [(⟨1, 0⟩, [⟨6, ⟨⟨⟨2, 0⟩, 1⟩, true⟩⟩, ⟨7, ⟨⟨⟨2, 0⟩, 1⟩, false⟩⟩]), (⟨2, (-1)⟩, []), (⟨2, 1⟩, []), (⟨3, 0⟩, [])]
        ⟨(.node ⟨4, ⟨⟨⟨1, (-1)⟩, 1⟩, true⟩⟩ .BLACK (.node ⟨1, ⟨⟨⟨0, 0⟩, 1⟩, false⟩⟩ .BLACK (.node ⟨5, ⟨⟨⟨1, (-1)⟩, 1⟩, false⟩⟩ .RED .nil .nil) .nil) (.node ⟨0, ⟨⟨⟨0, 0⟩, 1⟩, true⟩⟩ .BLACK .nil .nil))⟩
      = some ⟨[⟨0, (-1)⟩, ⟨0, 1⟩], [(⟨1, 0⟩, [⟨6, ⟨⟨⟨2, 0⟩, 1⟩, true⟩⟩, ⟨7, ⟨⟨⟨2, 0⟩, 1⟩, false⟩⟩]), (⟨2, (-1)⟩, []), (⟨2, 1⟩, []), (⟨3, 0⟩, [])],
          ⟨(.node ⟨1, ⟨⟨⟨0, 0⟩, 1⟩, false⟩⟩ .BLACK (.node ⟨5, ⟨⟨⟨1, (-1)⟩, 1⟩, false⟩⟩ .BLACK .nil .nil) (.node ⟨0, ⟨⟨⟨0, 0⟩, 1⟩, true⟩⟩ .RED (.node ⟨4, ⟨⟨⟨1, (-1)⟩, 1⟩, true⟩⟩ .BLACK .nil (.node ⟨3, ⟨⟨⟨1, 1⟩, 1⟩, false⟩⟩ .RED .nil .nil)) (.node ⟨2, ⟨⟨⟨1, 1⟩, 1⟩, true⟩⟩ .BLACK .nil .nil)))⟩⟩ := by
    norm_num [sweepStep, RBTree.contains, RBTree.insertPos, insertPosLoop, RBTree.empty,
      containsLoop, Node.size, report, removeAll, reinsert, insertBorn, RBTree.insert, insertFixup,
      blackenRoot, Node.setColor, Path.fill, discover, minArc, maxArc, RBTree.nodeOf, locate, isArc,
      RBTree.lower_bound, RBTree.upper_bound, climbLeft, climbRight, leftmost, rightmost,
      Events.erase, Events.find, Events.set, schedule, RBTree.remove, removeFixup,
      removeFixupLeftRot, removeFixupRightRot, leftRotate, rightRotate, Circle.ne, Point.ne,
      Point.eq, Point.lt, Circle.end_, Point.add, RBTree.lower_bound_at, RBTree.upper_bound_at,
      Node.color, Loc.tree, Loc.key?, spliceMin, Node.minKey, red_ne_black, black_ne_red,
      EvFour_f1, EvFour_f6, EvFour_f7, EvFour_f9, EvFour_f11, EvFour_f12, EvFour_f13, EvFour_f18, EvFour_f21, EvFour_f22, EvFour_f25, EvFour_f26, EvFour_f27, EvFour_f28, EvFour_f34, EvFour_f35, EvFour_f36, EvFour_f37, EvFour_f38, EvFour_f39, EvFour_f42, EvFour_f43, EvFour_f44, EvFour_f47, EvFour_f48, EvFour_f49, EvFour_f50, EvFour_f51, EvFour_f54, EvFour_f56, EvFour_f58, EvFour_f59, EvFour_f60, EvFour_f61, EvFour_f62, EvFour_f63, EvFour_f65, EvFour_f70, EvFour_f73, EvFour_f76, EvFour_f77, EvFour_f80, EvFour_f81, EvFour_f82, EvFour_f85, EvFour_f86, EvFour_f87, EvFour_f88, EvFour_f89, EvFour_f95, EvFour_f101, EvFour_f103, EvFour_f104, EvFour_f105, EvFour_f106, EvFour_f107, EvFour_f109, EvFour_f114, EvFour_f117, EvFour_f120, EvFour_f121, EvFour_f122, EvFour_f123, EvFour_f124, EvFour_f125, EvFour_f126, EvFour_f127, EvFour_f128, EvFour_f129, EvFour_f131, EvFour_f132]
  have EvFour_step4 :
      sweepStep Real.sqrt [⟨0, (-1)⟩, ⟨0, 1⟩] ⟨1, 0⟩
        [⟨6, ⟨⟨⟨2, 0⟩, 1⟩, true⟩⟩, ⟨7, ⟨⟨⟨2, 0⟩, 1⟩, false⟩⟩]
        [(⟨2, (-1)⟩, []), (⟨2, 1⟩, []), (⟨3, 0⟩, [])]
        ⟨(.node ⟨1, ⟨⟨⟨0, 0⟩, 1⟩, false⟩⟩ .BLACK (.node ⟨5, ⟨⟨⟨1, (-1)⟩, 1⟩, false⟩⟩ .BLACK .nil .nil) (.node ⟨0, ⟨⟨⟨0, 0⟩, 1⟩, true⟩⟩ .RED (.node ⟨4, ⟨⟨⟨1, (-1)⟩, 1⟩, true⟩⟩ .BLACK .nil (.node ⟨3, ⟨⟨⟨1, 1⟩, 1⟩, false⟩⟩ .RED .nil .nil)) (.node ⟨2, ⟨⟨⟨1, 1⟩, 1⟩, true⟩⟩ .BLACK .nil .nil)))⟩
      = some ⟨[⟨0, (-1)⟩, ⟨0, 1⟩, ⟨1, 0⟩], [(⟨2, (-1)⟩, []), (⟨2, 1⟩, []), (⟨3, 0⟩, [])],
          ⟨(.node ⟨4, ⟨⟨⟨1, (-1)⟩, 1⟩, true⟩⟩ .BLACK (.node ⟨5, ⟨⟨⟨1, (-1)⟩, 1⟩, false⟩⟩ .BLACK .nil (.node ⟨7, ⟨⟨⟨2, 0⟩, 1⟩, false⟩⟩ .RED .nil .nil)) (.node ⟨6, ⟨⟨⟨2, 0⟩, 1⟩, true⟩⟩ .BLACK (.node ⟨3, ⟨⟨⟨1, 1⟩, 1⟩, false⟩⟩ .RED .nil .nil) (.node ⟨2, ⟨⟨⟨1, 1⟩, 1⟩, true⟩⟩ .RED .nil .nil)))⟩⟩ := by
    norm_num [sweepStep, RBTree.contains, RBTree.insertPos, insertPosLoop, RBTree.empty,
      containsLoop, Node.size, report, removeAll, reinsert, insertBorn, RBTree.insert, insertFixup,
      blackenRoot, Node.setColor, Path.fill, discover, minArc, maxArc, RBTree.nodeOf, locate, isArc,
      RBTree.lower_bound, RBTree.upper_bound, climbLeft, climbRight, leftmost, rightmost,
      Events.erase, Events.find, Events.set, schedule, RBTree.remove, removeFixup,
      removeFixupLeftRot, removeFixupRightRot, leftRotate, rightRotate, Circle.ne, Point.ne,
      Point.eq, Point.lt, Circle.end_, Point.add, RBTree.lower_bound_at, RBTree.upper_bound_at,
      Node.color, Loc.tree, Loc.key?, spliceMin, Node.minKey, red_ne_black, black_ne_red,
      EvFour_f1, EvFour_f6, EvFour_f7, EvFour_f9, EvFour_f11, EvFour_f12, EvFour_f13, EvFour_f18, EvFour_f21, EvFour_f22, EvFour_f25, EvFour_f26, EvFour_f27, EvFour_f28, EvFour_f34, EvFour_f35, EvFour_f36, EvFour_f37, EvFour_f38, EvFour_f39, EvFour_f42, EvFour_f43, EvFour_f44, EvFour_f47, EvFour_f48, EvFour_f49, EvFour_f50, EvFour_f51, EvFour_f54, EvFour_f56, EvFour_f58, EvFour_f59, EvFour_f60, EvFour_f61, EvFour_f62, EvFour_f63, EvFour_f65, EvFour_f70, EvFour_f73, EvFour_f76, EvFour_f77, EvFour_f80, EvFour_f81, EvFour_f82, EvFour_f85, EvFour_f86, EvFour_f87, EvFour_f88, EvFour_f89, EvFour_f95, EvFour_f101, EvFour_f103, EvFour_f104, EvFour_f105, EvFour_f106, EvFour_f107, EvFour_f109, EvFour_f114, EvFour_f117, EvFour_f120, EvFour_f121, EvFour_f122, EvFour_f123, EvFour_f124, EvFour_f125, EvFour_f126, EvFour_f127, EvFour_f128, EvFour_f129, EvFour_f131, EvFour_f132]
  have EvFour_step5 :
      sweepStep Real.sqrt [⟨0, (-1)⟩, ⟨0, 1⟩, ⟨1, 0⟩] ⟨2, (-1)⟩
        []
        [(⟨2, 1⟩, []), (⟨3, 0⟩, [])]
        ⟨(.node ⟨4, ⟨⟨⟨1, (-1)⟩, 1⟩, true⟩⟩ .BLACK (.node ⟨5, ⟨⟨⟨1, (-1)⟩, 1⟩, false⟩⟩ .BLACK .nil (.node ⟨7, ⟨⟨⟨2, 0⟩, 1⟩, false⟩⟩ .RED .nil .nil)) (.node ⟨6, ⟨⟨⟨2, 0⟩, 1⟩, true⟩⟩ .BLACK (.node ⟨3, ⟨⟨⟨1, 1⟩, 1⟩, false⟩⟩ .RED .nil .nil) (.node ⟨2, ⟨⟨⟨1, 1⟩, 1⟩, true⟩⟩ .RED .nil .nil)))⟩
      = some ⟨[⟨0, (-1)⟩, ⟨0, 1⟩, ⟨1, 0⟩, ⟨2, (-1)⟩], [(⟨2, 1⟩, []), (⟨3, 0⟩, [])],
          ⟨(.node ⟨6, ⟨⟨⟨2, 0⟩, 1⟩, true⟩⟩ .BLACK (.node ⟨3, ⟨⟨⟨1, 1⟩, 1⟩, false⟩⟩ .BLACK (.node ⟨7, ⟨⟨⟨2, 0⟩, 1⟩, false⟩⟩ .RED .nil .nil) .nil) (.node ⟨2, ⟨⟨⟨1, 1⟩, 1⟩, true⟩⟩ .BLACK .nil .nil))⟩⟩ := by
    norm_num [sweepStep, RBTree.contains, RBTree.insertPos, insertPosLoop, RBTree.empty,
      containsLoop, Node.size, report, removeAll, reinsert, insertBorn, RBTree.insert, insertFixup,
      blackenRoot, Node.setColor, Path.fill, discover, minArc, maxArc, RBTree.nodeOf, locate, isArc,
      RBTree.lower_bound, RBTree.upper_bound, climbLeft, climbRight, leftmost, rightmost,
      Events.erase, Events.find, Events.set, schedule, RBTree.remove, removeFixup,
      removeFixupLeftRot, removeFixupRightRot, leftRotate, rightRotate, Circle.ne, Point.ne,
      Point.eq, Point.lt, Circle.end_, Point.add, RBTree.lower_bound_at, RBTree.upper_bound_at,
      Node.color, Loc.tree, Loc.key?, spliceMin, Node.minKey, red_ne_black, black_ne_red,
      EvFour_f1, EvFour_f6, EvFour_f7, EvFour_f9, EvFour_f11, EvFour_f12, EvFour_f13, EvFour_f18, EvFour_f21, EvFour_f22, EvFour_f25, EvFour_f26, EvFour_f27, EvFour_f28, EvFour_f34, EvFour_f35, EvFour_f36, EvFour_f37, EvFour_f38, EvFour_f39, EvFour_f42, EvFour_f43, EvFour_f44, EvFour_f47, EvFour_f48, EvFour_f49, EvFour_f50, EvFour_f51, EvFour_f54, EvFour_f56, EvFour_f58, EvFour_f59, EvFour_f60, EvFour_f61, EvFour_f62, EvFour_f63, EvFour_f65, EvFour_f70, EvFour_f73, EvFour_f76, EvFour_f77, EvFour_f80, EvFour_f81, EvFour_f82, EvFour_f85, EvFour_f86, EvFour_f87, EvFour_f88, EvFour_f89, EvFour_f95, EvFour_f101, EvFour_f103, EvFour_f104, EvFour_f105, EvFour_f106, EvFour_f107, EvFour_f109, EvFour_f114, EvFour_f117, EvFour_f120, EvFour_f121, EvFour_f122, EvFour_f123, EvFour_f124, EvFour_f125, EvFour_f126, EvFour_f127, EvFour_f128, EvFour_f129, EvFour_f131, EvFour_f132]
  have EvFour_step6 :
      sweepStep Real.sqrt [⟨0, (-1)⟩, ⟨0, 1⟩, ⟨1, 0⟩, ⟨2, (-1)⟩] ⟨2, 1⟩
        []
        [(⟨3, 0⟩, [])]
        ⟨(.node ⟨6, ⟨⟨⟨2, 0⟩, 1⟩, true⟩⟩ .BLACK (.node ⟨3, ⟨⟨⟨1, 1⟩, 1⟩, false⟩⟩ .BLACK (.node ⟨7, ⟨⟨⟨2, 0⟩, 1⟩, false⟩⟩ .RED .nil .nil) .nil) (.node ⟨2, ⟨⟨⟨1, 1⟩, 1⟩, true⟩⟩ .BLACK .nil .nil))⟩
      = some ⟨[⟨0, (-1)⟩, ⟨0, 1⟩, ⟨1, 0⟩, ⟨2, (-1)⟩, ⟨2, 1⟩], [(⟨3, 0⟩, [])],
          ⟨(.node ⟨7, ⟨⟨⟨2, 0⟩, 1⟩, false⟩⟩ .BLACK .nil (.node ⟨6, ⟨⟨⟨2, 0⟩, 1⟩, true⟩⟩ .RED .nil .nil))⟩⟩ := by
    norm_num [sweepStep, RBTree.contains, RBTree.insertPos, insertPosLoop, RBTree.empty,
      containsLoop, Node.size, report, removeAll, reinsert, insertBorn, RBTree.insert, insertFixup,
      blackenRoot, Node.setColor, Path.fill, discover, minArc, maxArc, RBTree.nodeOf, locate, isArc,
      RBTree.lower_bound, RBTree.upper_bound, climbLeft, climbRight, leftmost, rightmost,
      Events.erase, Events.find, Events.set, schedule, RBTree.remove, removeFixup,
      removeFixupLeftRot, removeFixupRightRot, leftRotate, rightRotate, Circle.ne, Point.ne,
      Point.eq, Point.lt, Circle.end_, Point.add, RBTree.lower_bound_at, RBTree.upper_bound_at,
      Node.color, Loc.tree, Loc.key?, spliceMin, Node.minKey, red_ne_black, black_ne_red,
      EvFour_f1, EvFour_f6, EvFour_f7, EvFour_f9, EvFour_f11, EvFour_f12, EvFour_f13, EvFour_f18, EvFour_f21, EvFour_f22, EvFour_f25, EvFour_f26, EvFour_f27, EvFour_f28, EvFour_f34, EvFour_f35, EvFour_f36, EvFour_f37, EvFour_f38, EvFour_f39, EvFour_f42, EvFour_f43, EvFour_f44, EvFour_f47, EvFour_f48, EvFour_f49, EvFour_f50, EvFour_f51, EvFour_f54, EvFour_f56, EvFour_f58, EvFour_f59, EvFour_f60, EvFour_f61, EvFour_f62, EvFour_f63, EvFour_f65, EvFour_f70, EvFour_f73, EvFour_f76, EvFour_f77, EvFour_f80, EvFour_f81, EvFour_f82, EvFour_f85, EvFour_f86, EvFour_f87, EvFour_f88, EvFour_f89, EvFour_f95, EvFour_f101, EvFour_f103, EvFour_f104, EvFour_f105, EvFour_f106, EvFour_f107, EvFour_f109, EvFour_f114, EvFour_f117, EvFour_f120, EvFour_f121, EvFour_f122, EvFour_f123, EvFour_f124, EvFour_f125, EvFour_f126, EvFour_f127, EvFour_f128, EvFour_f129, EvFour_f131, EvFour_f132]
  have EvFour_step7 :
      sweepStep Real.sqrt [⟨0, (-1)⟩, ⟨0, 1⟩, ⟨1, 0⟩, ⟨2, (-1)⟩, ⟨2, 1⟩] ⟨3, 0⟩
        []
        []
        ⟨(.node ⟨7, ⟨⟨⟨2, 0⟩, 1⟩, false⟩⟩ .BLACK .nil (.node ⟨6, ⟨⟨⟨2, 0⟩, 1⟩, true⟩⟩ .RED .nil .nil))⟩
      = some ⟨[⟨0, (-1)⟩, ⟨0, 1⟩, ⟨1, 0⟩, ⟨2, (-1)⟩, ⟨2, 1⟩], [],
          ⟨.nil⟩⟩ := by
    norm_num [sweepStep, RBTree.contains, RBTree.insertPos, insertPosLoop, RBTree.empty,
      containsLoop, Node.size, report, removeAll, reinsert, insertBorn, RBTree.insert, insertFixup,
      blackenRoot, Node.setColor, Path.fill, discover, minArc, maxArc, RBTree.nodeOf, locate, isArc,
      RBTree.lower_bound, RBTree.upper_bound, climbLeft, climbRight, leftmost, rightmost,
      Events.erase, Events.find, Events.set, schedule, RBTree.remove, removeFixup,
      removeFixupLeftRot, removeFixupRightRot, leftRotate, rightRotate, Circle.ne, Point.ne,
      Point.eq, Point.lt, Circle.end_, Point.add, RBTree.lower_bound_at, RBTree.upper_bound_at,
      Node.color, Loc.tree, Loc.key?, spliceMin, Node.minKey, red_ne_black, black_ne_red,
      EvFour_f1, EvFour_f6, EvFour_f7, EvFour_f9, EvFour_f11, EvFour_f12, EvFour_f13, EvFour_f18, EvFour_f21, EvFour_f22, EvFour_f25, EvFour_f26, EvFour_f27, EvFour_f28, EvFour_f34, EvFour_f35, EvFour_f36, EvFour_f37, EvFour_f38, EvFour_f39, EvFour_f42, EvFour_f43, EvFour_f44, EvFour_f47, EvFour_f48, EvFour_f49, EvFour_f50, EvFour_f51, EvFour_f54, EvFour_f56, EvFour_f58, EvFour_f59, EvFour_f60, EvFour_f61, EvFour_f62, EvFour_f63, EvFour_f65, EvFour_f70, EvFour_f73, EvFour_f76, EvFour_f77, EvFour_f80, EvFour_f81, EvFour_f82, EvFour_f85, EvFour_f86, EvFour_f87, EvFour_f88, EvFour_f89, EvFour_f95, EvFour_f101, EvFour_f103, EvFour_f104, EvFour_f105, EvFour_f106, EvFour_f107, EvFour_f109, EvFour_f114, EvFour_f117, EvFour_f120, EvFour_f121, EvFour_f122, EvFour_f123, EvFour_f124, EvFour_f125, EvFour_f126, EvFour_f127, EvFour_f128, EvFour_f129, EvFour_f131, EvFour_f132]
  rw [eventLoop, RBTree.empty, EvFour_seed]
  rw [show fuel + 7 = (fuel + 6) + 1 from rfl, sweepLoop, EvFour_step1]
  simp only
  rw [show fuel + 6 = (fuel + 5) + 1 from rfl, sweepLoop, EvFour_step2]
  simp only
  rw [show fuel + 5 = (fuel + 4) + 1 from rfl, sweepLoop, EvFour_step3]
  simp only
  rw [show fuel + 4 = (fuel + 3) + 1 from rfl, sweepLoop, EvFour_step4]
  simp only
  rw [show fuel + 3 = (fuel + 2) + 1 from rfl, sweepLoop, EvFour_step5]
  simp only
  rw [show fuel + 2 = (fuel + 1) + 1 from rfl, sweepLoop, EvFour_step6]
  simp only
  rw [show fuel + 1 = (fuel + 0) + 1 from rfl, sweepLoop, EvFour_step7]
  simp only
  cases fuel <;> rfl

set_option maxHeartbeats 100000000 in
/-- The run of the event loop of `circleIntersect` for
the circles of centre (-1, 1/2), radius 1/2, of centre (-3/2, -1), radius 3/2,
and of centre (2, 1/2), radius 2:
the heights of the arcs and the comparisons the run makes, then the passes of the loop
one by one. -/
theorem EvFar_run (fuel : Nat) :
    eventLoop Real.sqrt (fuel + 6) [⟨⟨(-1), (1 / 2)⟩, (1 / 2)⟩, ⟨⟨(-(3 / 2)), (-1)⟩, (3 / 2)⟩, ⟨⟨2, (1 / 2)⟩, 2⟩]
      = some ⟨[⟨(-(3 / 2)), (1 / 2)⟩, ⟨0, (1 / 2)⟩, ⟨4, (1 / 2)⟩], [],
        ⟨(.node ⟨2, ⟨⟨⟨(-(3 / 2)), (-1)⟩, (3 / 2)⟩, true⟩⟩ .BLACK .nil (.node ⟨1, ⟨⟨⟨(-1), (1 / 2)⟩, (1 / 2)⟩, false⟩⟩ .RED .nil .nil))⟩⟩ := by
  have EvFar_at2 : (-1) + (27381563 / 500000000) < Arc.at_ Real.sqrt ⟨⟨⟨(-(3 / 2)), (-1)⟩, (3 / 2)⟩, true⟩ (-(2999 / 1000)) ∧
      Arc.at_ Real.sqrt ⟨⟨⟨(-(3 / 2)), (-1)⟩, (3 / 2)⟩, true⟩ (-(2999 / 1000)) < (-1) + (54763127 / 1000000000) :=
    at_upper_bounds ⟨⟨(-(3 / 2)), (-1)⟩, (3 / 2)⟩ (-(2999 / 1000)) (27381563 / 500000000) (54763127 / 1000000000) (by norm_num) (by norm_num)
      (abs_le.2 ⟨by norm_num, by norm_num⟩) (by norm_num) (by norm_num)
  have EvFar_at3 : (-(472618437 / 500000000)) < Arc.at_ Real.sqrt ⟨⟨⟨(-(3 / 2)), (-1)⟩, (3 / 2)⟩, true⟩ ((-3) + 1 / 1000) ∧ Arc.at_ Real.sqrt ⟨⟨⟨(-(3 / 2)), (-1)⟩, (3 / 2)⟩, true⟩ ((-3) + 1 / 1000) < (-(945236873 / 1000000000)) := by
    have e : ((-3) + 1 / 1000 : ℝ) = (-(2999 / 1000)) := by norm_num
    rw [e]
    have h := EvFar_at2
    constructor <;> linarith only [h.1, h.2]
  have EvFar_at4 : (-1) - (54763127 / 1000000000) < Arc.at_ Real.sqrt ⟨⟨⟨(-(3 / 2)), (-1)⟩, (3 / 2)⟩, false⟩ (-(2999 / 1000)) ∧
      Arc.at_ Real.sqrt ⟨⟨⟨(-(3 / 2)), (-1)⟩, (3 / 2)⟩, false⟩ (-(2999 / 1000)) < (-1) - (27381563 / 500000000) :=
    at_lower_bounds ⟨⟨(-(3 / 2)), (-1)⟩, (3 / 2)⟩ (-(2999 / 1000)) (27381563 / 500000000) (54763127 / 1000000000) (by norm_num) (by norm_num)
      (abs_le.2 ⟨by norm_num, by norm_num⟩) (by norm_num) (by norm_num)
  have EvFar_at5 : (-(1054763127 / 1000000000)) < Arc.at_ Real.sqrt ⟨⟨⟨(-(3 / 2)), (-1)⟩, (3 / 2)⟩, false⟩ ((-3) + 1 / 1000) ∧ Arc.at_ Real.sqrt ⟨⟨⟨(-(3 / 2)), (-1)⟩, (3 / 2)⟩, false⟩ ((-3) + 1 / 1000) < (-(527381563 / 500000000)) := by
    have e : ((-3) + 1 / 1000 : ℝ) = (-(2999 / 1000)) := by norm_num
    rw [e]
    have h := EvFar_at4
    constructor <;> linarith only [h.1, h.2]
  have EvFar_f1 : aboveAt Real.sqrt ⟨(-3), (-1)⟩ (some ⟨3, ⟨⟨⟨(-(3 / 2)), (-1)⟩, (3 / 2)⟩, false⟩⟩) ⟨2, ⟨⟨⟨(-(3 / 2)), (-1)⟩, (3 / 2)⟩, true⟩⟩ = true := by
    show decide (Arc.at_ Real.sqrt ⟨⟨⟨(-(3 / 2)), (-1)⟩, (3 / 2)⟩, true⟩ ((-3) + 1 / 1000) ≥ Arc.at_ Real.sqrt ⟨⟨⟨(-(3 / 2)), (-1)⟩, (3 / 2)⟩, false⟩ ((-3) + 1 / 1000))
      = true
    rw [decide_eq_true_eq, ge_iff_le]
    all_goals linarith only [EvFar_at3.1, EvFar_at3.2, EvFar_at5.1, EvFar_at5.2]
  have EvFar_f6 : aboveAt Real.sqrt ⟨(-3), (-1)⟩ (some ⟨2, ⟨⟨⟨(-(3 / 2)), (-1)⟩, (3 / 2)⟩, true⟩⟩) ⟨3, ⟨⟨⟨(-(3 / 2)), (-1)⟩, (3 / 2)⟩, false⟩⟩ = false := by
    show decide (Arc.at_ Real.sqrt ⟨⟨⟨(-(3 / 2)), (-1)⟩, (3 / 2)⟩, false⟩ ((-3) + 1 / 1000) ≥ Arc.at_ Real.sqrt ⟨⟨⟨(-(3 / 2)), (-1)⟩, (3 / 2)⟩, true⟩ ((-3) + 1 / 1000))
      = false
    rw [decide_eq_false_iff_not, ge_iff_le, not_le]
    all_goals linarith only [EvFar_at5.1, EvFar_at5.2, EvFar_at3.1, EvFar_at3.2]
  have EvFar_at8 : Arc.at_ Real.sqrt ⟨⟨⟨(-(3 / 2)), (-1)⟩, (3 / 2)⟩, true⟩ (-(3 / 2)) = (-1) + (3 / 2) :=
    at_upper_val ⟨⟨(-(3 / 2)), (-1)⟩, (3 / 2)⟩ (-(3 / 2)) (3 / 2) (by norm_num)
      (abs_le.2 ⟨by norm_num, by norm_num⟩) (by norm_num)
  have EvFar_f7 : aboveAt Real.sqrt ⟨(-(3 / 2)), (1 / 2)⟩ none ⟨2, ⟨⟨⟨(-(3 / 2)), (-1)⟩, (3 / 2)⟩, true⟩⟩ = true := by
    show decide (Arc.at_ Real.sqrt ⟨⟨⟨(-(3 / 2)), (-1)⟩, (3 / 2)⟩, true⟩ (-(3 / 2)) ≥ (1 / 2)) = true
    rw [decide_eq_true_eq, ge_iff_le]
    rw [EvFar_at8]
    all_goals norm_num
  have EvFar_at10 : Arc.at_ Real.sqrt ⟨⟨⟨(-(3 / 2)), (-1)⟩, (3 / 2)⟩, false⟩ (-(3 / 2)) = (-1) - (3 / 2) :=
    at_lower_val ⟨⟨(-(3 / 2)), (-1)⟩, (3 / 2)⟩ (-(3 / 2)) (3 / 2) (by norm_num)
      (abs_le.2 ⟨by norm_num, by norm_num⟩) (by norm_num)
  have EvFar_f9 : aboveAt Real.sqrt ⟨(-(3 / 2)), (1 / 2)⟩ none ⟨3, ⟨⟨⟨(-(3 / 2)), (-1)⟩, (3 / 2)⟩, false⟩⟩ = false := by
    show decide (Arc.at_ Real.sqrt ⟨⟨⟨(-(3 / 2)), (-1)⟩, (3 / 2)⟩, false⟩ (-(3 / 2)) ≥ (1 / 2)) = false
    rw [decide_eq_false_iff_not, ge_iff_le, not_le]
    rw [EvFar_at10]
    all_goals norm_num
  have EvFar_f11 : Arc.contains Real.sqrt ⟨⟨⟨(-(3 / 2)), (-1)⟩, (3 / 2)⟩, false⟩ ⟨(-(3 / 2)), (1 / 2)⟩ = false := by
    show decide (|Arc.at_ Real.sqrt ⟨⟨⟨(-(3 / 2)), (-1)⟩, (3 / 2)⟩, false⟩ (-(3 / 2)) - (1 / 2)| < 1 / 100000) = false
    rw [decide_eq_false_iff_not, not_lt]
    rw [EvFar_at10]
    exact le_abs.2 (Or.inr (by norm_num))
  have EvFar_f12 : Arc.contains Real.sqrt ⟨⟨⟨(-(3 / 2)), (-1)⟩, (3 / 2)⟩, true⟩ ⟨(-(3 / 2)), (1 / 2)⟩ = true := by
    show decide (|Arc.at_ Real.sqrt ⟨⟨⟨(-(3 / 2)), (-1)⟩, (3 / 2)⟩, true⟩ (-(3 / 2)) - (1 / 2)| < 1 / 100000) = true
    rw [decide_eq_true_eq, abs_lt]
    rw [EvFar_at8]
    constructor <;> norm_num
  have EvFar_at14 : (-1) - (1499999667 / 1000000000) < Arc.at_ Real.sqrt ⟨⟨⟨(-(3 / 2)), (-1)⟩, (3 / 2)⟩, false⟩ (-(1499 / 1000)) ∧
      Arc.at_ Real.sqrt ⟨⟨⟨(-(3 / 2)), (-1)⟩, (3 / 2)⟩, false⟩ (-(1499 / 1000)) < (-1) - (749999833 / 500000000) :=
    at_lower_bounds ⟨⟨(-(3 / 2)), (-1)⟩, (3 / 2)⟩ (-(1499 / 1000)) (749999833 / 500000000) (1499999667 / 1000000000) (by norm_num) (by norm_num)
      (abs_le.2 ⟨by norm_num, by norm_num⟩) (by norm_num) (by norm_num)
  have EvFar_at15 : (-(2499999667 / 1000000000)) < Arc.at_ Real.sqrt ⟨⟨⟨(-(3 / 2)), (-1)⟩, (3 / 2)⟩, false⟩ ((-(3 / 2)) + 1 / 1000) ∧ Arc.at_ Real.sqrt ⟨⟨⟨(-(3 / 2)), (-1)⟩, (3 / 2)⟩, false⟩ ((-(3 / 2)) + 1 / 1000) < (-(1249999833 / 500000000)) := by
    have e : ((-(3 / 2)) + 1 / 1000 : ℝ) = (-(1499 / 1000)) := by norm_num
    rw [e]
    have h := EvFar_at14
    constructor <;> linarith only [h.1, h.2]
  have EvFar_at16 : (-1) + (749999833 / 500000000) < Arc.at_ Real.sqrt ⟨⟨⟨(-(3 / 2)), (-1)⟩, (3 / 2)⟩, true⟩ (-(1499 / 1000)) ∧
      Arc.at_ Real.sqrt ⟨⟨⟨(-(3 / 2)), (-1)⟩, (3 / 2)⟩, true⟩ (-(1499 / 1000)) < (-1) + (1499999667 / 1000000000) :=
    at_upper_bounds ⟨⟨(-(3 / 2)), (-1)⟩, (3 / 2)⟩ (-(1499 / 1000)) (749999833 / 500000000) (1499999667 / 1000000000) (by norm_num) (by norm_num)
      (abs_le.2 ⟨by norm_num, by norm_num⟩) (by norm_num) (by norm_num)
  have EvFar_at17 : (249999833 / 500000000) < Arc.at_ Real.sqrt ⟨⟨⟨(-(3 / 2)), (-1)⟩, (3 / 2)⟩, true⟩ ((-(3 / 2)) + 1 / 1000) ∧ Arc.at_ Real.sqrt ⟨⟨⟨(-(3 / 2)), (-1)⟩, (3 / 2)⟩, true⟩ ((-(3 / 2)) + 1 / 1000) < (499999667 / 1000000000) := by
    have e : ((-(3 / 2)) + 1 / 1000 : ℝ) = (-(1499 / 1000)) := by norm_num
    rw [e]
    have h := EvFar_at16
    constructor <;> linarith only [h.1, h.2]
  have EvFar_f13 : aboveAt Real.sqrt ⟨(-(3 / 2)), (1 / 2)⟩ (some ⟨2, ⟨⟨⟨(-(3 / 2)), (-1)⟩, (3 / 2)⟩, true⟩⟩) ⟨3, ⟨⟨⟨(-(3 / 2)), (-1)⟩, (3 / 2)⟩, false⟩⟩ = false := by
    show decide (Arc.at_ Real.sqrt ⟨⟨⟨(-(3 / 2)), (-1)⟩, (3 / 2)⟩, false⟩ ((-(3 / 2)) + 1 / 1000) ≥ Arc.at_ Real.sqrt ⟨⟨⟨(-(3 / 2)), (-1)⟩, (3 / 2)⟩, true⟩ ((-(3 / 2)) + 1 / 1000))
      = false
    rw [decide_eq_false_iff_not, ge_iff_le, not_le]
    all_goals linarith only [EvFar_at15.1, EvFar_at15.2, EvFar_at17.1, EvFar_at17.2]
  have EvFar_at19 : (1 / 2) + (31606961 / 1000000000) < Arc.at_ Real.sqrt ⟨⟨⟨(-1), (1 / 2)⟩, (1 / 2)⟩, true⟩ (-(1499 / 1000)) ∧
      Arc.at_ Real.sqrt ⟨⟨⟨(-1), (1 / 2)⟩, (1 / 2)⟩, true⟩ (-(1499 / 1000)) < (1 / 2) + (15803481 / 500000000) :=
    at_upper_bounds ⟨⟨(-1), (1 / 2)⟩, (1 / 2)⟩ (-(1499 / 1000)) (31606961 / 1000000000) (15803481 / 500000000) (by norm_num) (by norm_num)
      (abs_le.2 ⟨by norm_num, by norm_num⟩) (by norm_num) (by norm_num)
  have EvFar_at20 : (531606961 / 1000000000) < Arc.at_ Real.sqrt ⟨⟨⟨(-1), (1 / 2)⟩, (1 / 2)⟩, true⟩ ((-(3 / 2)) + 1 / 1000) ∧ Arc.at_ Real.sqrt ⟨⟨⟨(-1), (1 / 2)⟩, (1 / 2)⟩, true⟩ ((-(3 / 2)) + 1 / 1000) < (265803481 / 500000000) := by
    have e : ((-(3 / 2)) + 1 / 1000 : ℝ) = (-(1499 / 1000)) := by norm_num
    rw [e]
    have h := EvFar_at19
    constructor <;> linarith only [h.1, h.2]
  have EvFar_f18 : aboveAt Real.sqrt ⟨(-(3 / 2)), (1 / 2)⟩ (some ⟨0, ⟨⟨⟨(-1), (1 / 2)⟩, (1 / 2)⟩, true⟩⟩) ⟨3, ⟨⟨⟨(-(3 / 2)), (-1)⟩, (3 / 2)⟩, false⟩⟩ = false := by
    show decide (Arc.at_ Real.sqrt ⟨⟨⟨(-(3 / 2)), (-1)⟩, (3 / 2)⟩, false⟩ ((-(3 / 2)) + 1 / 1000) ≥ Arc.at_ Real.sqrt ⟨⟨⟨(-1), (1 / 2)⟩, (1 / 2)⟩, true⟩ ((-(3 / 2)) + 1 / 1000))
      = false
    rw [decide_eq_false_iff_not, ge_iff_le, not_le]
    all_goals linarith only [EvFar_at15.1, EvFar_at15.2, EvFar_at20.1, EvFar_at20.2]
  have EvFar_f21 : aboveAt Real.sqrt ⟨(-(3 / 2)), (1 / 2)⟩ (some ⟨0, ⟨⟨⟨(-1), (1 / 2)⟩, (1 / 2)⟩, true⟩⟩) ⟨2, ⟨⟨⟨(-(3 / 2)), (-1)⟩, (3 / 2)⟩, true⟩⟩ = false := by
    show decide (Arc.at_ Real.sqrt ⟨⟨⟨(-(3 / 2)), (-1)⟩, (3 / 2)⟩, true⟩ ((-(3 / 2)) + 1 / 1000) ≥ Arc.at_ Real.sqrt ⟨⟨⟨(-1), (1 / 2)⟩, (1 / 2)⟩, true⟩ ((-(3 / 2)) + 1 / 1000))
      = false
    rw [decide_eq_false_iff_not, ge_iff_le, not_le]
    all_goals linarith only [EvFar_at17.1, EvFar_at17.2, EvFar_at20.1, EvFar_at20.2]
  have EvFar_at23 : (1 / 2) - (15803481 / 500000000) < Arc.at_ Real.sqrt ⟨⟨⟨(-1), (1 / 2)⟩, (1 / 2)⟩, false⟩ (-(1499 / 1000)) ∧
      Arc.at_ Real.sqrt ⟨⟨⟨(-1), (1 / 2)⟩, (1 / 2)⟩, false⟩ (-(1499 / 1000)) < (1 / 2) - (31606961 / 1000000000) :=
    at_lower_bounds ⟨⟨(-1), (1 / 2)⟩, (1 / 2)⟩ (-(1499 / 1000)) (31606961 / 1000000000) (15803481 / 500000000) (by norm_num) (by norm_num)
      (abs_le.2 ⟨by norm_num, by norm_num⟩) (by norm_num) (by norm_num)
  have EvFar_at24 : (234196519 / 500000000) < Arc.at_ Real.sqrt ⟨⟨⟨(-1), (1 / 2)⟩, (1 / 2)⟩, false⟩ ((-(3 / 2)) + 1 / 1000) ∧ Arc.at_ Real.sqrt ⟨⟨⟨(-1), (1 / 2)⟩, (1 / 2)⟩, false⟩ ((-(3 / 2)) + 1 / 1000) < (468393039 / 1000000000) := by
    have e : ((-(3 / 2)) + 1 / 1000 : ℝ) = (-(1499 / 1000)) := by norm_num
    rw [e]
    have h := EvFar_at23
    constructor <;> linarith only [h.1, h.2]
  have EvFar_f22 : aboveAt Real.sqrt ⟨(-(3 / 2)), (1 / 2)⟩ (some ⟨1, ⟨⟨⟨(-1), (1 / 2)⟩, (1 / 2)⟩, false⟩⟩) ⟨2, ⟨⟨⟨(-(3 / 2)), (-1)⟩, (3 / 2)⟩, true⟩⟩ = true := by
    show decide (Arc.at_ Real.sqrt ⟨⟨⟨(-(3 / 2)), (-1)⟩, (3 / 2)⟩, true⟩ ((-(3 / 2)) + 1 / 1000) ≥ Arc.at_ Real.sqrt ⟨⟨⟨(-1), (1 / 2)⟩, (1 / 2)⟩, false⟩ ((-(3 / 2)) + 1 / 1000))
      = true
    rw [decide_eq_true_eq, ge_iff_le]
    all_goals linarith only [EvFar_at17.1, EvFar_at17.2, EvFar_at24.1, EvFar_at24.2]
  have EvFar_f25 : aboveAt Real.sqrt ⟨(-(3 / 2)), (1 / 2)⟩ (some ⟨1, ⟨⟨⟨(-1), (1 / 2)⟩, (1 / 2)⟩, false⟩⟩) ⟨3, ⟨⟨⟨(-(3 / 2)), (-1)⟩, (3 / 2)⟩, false⟩⟩ = false := by
    show decide (Arc.at_ Real.sqrt ⟨⟨⟨(-(3 / 2)), (-1)⟩, (3 / 2)⟩, false⟩ ((-(3 / 2)) + 1 / 1000) ≥ Arc.at_ Real.sqrt ⟨⟨⟨(-1), (1 / 2)⟩, (1 / 2)⟩, false⟩ ((-(3 / 2)) + 1 / 1000))
      = false
    rw [decide_eq_false_iff_not, ge_iff_le, not_le]
    all_goals linarith only [EvFar_at15.1, EvFar_at15.2, EvFar_at24.1, EvFar_at24.2]
  have EvFar_f26 : aboveAt Real.sqrt ⟨(-(3 / 2)), (1 / 2)⟩ (some ⟨2, ⟨⟨⟨(-(3 / 2)), (-1)⟩, (3 / 2)⟩, true⟩⟩) ⟨0, ⟨⟨⟨(-1), (1 / 2)⟩, (1 / 2)⟩, true⟩⟩ = true := by
    show decide (Arc.at_ Real.sqrt ⟨⟨⟨(-1), (1 / 2)⟩, (1 / 2)⟩, true⟩ ((-(3 / 2)) + 1 / 1000) ≥ Arc.at_ Real.sqrt ⟨⟨⟨(-(3 / 2)), (-1)⟩, (3 / 2)⟩, true⟩ ((-(3 / 2)) + 1 / 1000))
      = true
    rw [decide_eq_true_eq, ge_iff_le]
    all_goals linarith only [EvFar_at20.1, EvFar_at20.2, EvFar_at17.1, EvFar_at17.2]
  have EvFar_f27 : aboveAt Real.sqrt ⟨(-(3 / 2)), (1 / 2)⟩ (some ⟨0, ⟨⟨⟨(-1), (1 / 2)⟩, (1 / 2)⟩, true⟩⟩) ⟨1, ⟨⟨⟨(-1), (1 / 2)⟩, (1 / 2)⟩, false⟩⟩ = false := by
    show decide (Arc.at_ Real.sqrt ⟨⟨⟨(-1), (1 / 2)⟩, (1 / 2)⟩, false⟩ ((-(3 / 2)) + 1 / 1000) ≥ Arc.at_ Real.sqrt ⟨⟨⟨(-1), (1 / 2)⟩, (1 / 2)⟩, true⟩ ((-(3 / 2)) + 1 / 1000))
      = false
    rw [decide_eq_false_iff_not, ge_iff_le, not_le]
    all_goals linarith only [EvFar_at24.1, EvFar_at24.2, EvFar_at20.1, EvFar_at20.2]
  have EvFar_at29 : Arc.at_ Real.sqrt ⟨⟨⟨(-1), (1 / 2)⟩, (1 / 2)⟩, false⟩ (-(3 / 2)) = (1 / 2) - 0 :=
    at_lower_val ⟨⟨(-1), (1 / 2)⟩, (1 / 2)⟩ (-(3 / 2)) 0 (by norm_num)
      (abs_le.2 ⟨by norm_num, by norm_num⟩) (by norm_num)
  have EvFar_h30 : (|Arc.at_ Real.sqrt ⟨⟨⟨(-(3 / 2)), (-1)⟩, (3 / 2)⟩, false⟩ (-(3 / 2)) - Arc.at_ Real.sqrt ⟨⟨⟨(-1), (1 / 2)⟩, (1 / 2)⟩, false⟩ (-(3 / 2))| > 1 / 100000) = True := by
    apply eq_true
    rw [gt_iff_lt, lt_abs]
    right
    rw [EvFar_at10, EvFar_at29]; norm_num
  have EvFar_at31 : Arc.at_ Real.sqrt ⟨⟨⟨(-(3 / 2)), (-1)⟩, (3 / 2)⟩, false⟩ (-(3 / 5)) = (-1) - (6 / 5) :=
    at_lower_val ⟨⟨(-(3 / 2)), (-1)⟩, (3 / 2)⟩ (-(3 / 5)) (6 / 5) (by norm_num)
      (abs_le.2 ⟨by norm_num, by norm_num⟩) (by norm_num)
  have EvFar_at32 : Arc.at_ Real.sqrt ⟨⟨⟨(-1), (1 / 2)⟩, (1 / 2)⟩, false⟩ (-(3 / 5)) = (1 / 2) - (3 / 10) :=
    at_lower_val ⟨⟨(-1), (1 / 2)⟩, (1 / 2)⟩ (-(3 / 5)) (3 / 10) (by norm_num)
      (abs_le.2 ⟨by norm_num, by norm_num⟩) (by norm_num)
  have EvFar_h33 : (|Arc.at_ Real.sqrt ⟨⟨⟨(-(3 / 2)), (-1)⟩, (3 / 2)⟩, false⟩ (-(3 / 5)) - Arc.at_ Real.sqrt ⟨⟨⟨(-1), (1 / 2)⟩, (1 / 2)⟩, false⟩ (-(3 / 5))| > 1 / 100000) = True := by
    apply eq_true
    rw [gt_iff_lt, lt_abs]
    right
    rw [EvFar_at31, EvFar_at32]; norm_num
  have EvFar_f28 : Arc.intersect Real.sqrt ⟨⟨⟨(-(3 / 2)), (-1)⟩, (3 / 2)⟩, false⟩ ⟨⟨⟨(-1), (1 / 2)⟩, (1 / 2)⟩, false⟩ = [] := by
    unfold Arc.intersect
    simp only
    rw [intersect_eval ⟨⟨(-(3 / 2)), (-1)⟩, (3 / 2)⟩ ⟨⟨(-1), (1 / 2)⟩, (1 / 2)⟩ (5 / 2) (9 / 10) (3 / 10) (by norm_num) (by norm_num)
      (by norm_num) (by norm_num) (by norm_num) (by norm_num) (by norm_num) (by norm_num)]
    norm_num [Point.add, Point.sub, Point.scale, Point.turn, List.filter, EvFar_h30, EvFar_h33]
  have EvFar_at35 : (-1) + (279508497 / 250000000) < Arc.at_ Real.sqrt ⟨⟨⟨(-(3 / 2)), (-1)⟩, (3 / 2)⟩, true⟩ (-(1 / 2)) ∧
      Arc.at_ Real.sqrt ⟨⟨⟨(-(3 / 2)), (-1)⟩, (3 / 2)⟩, true⟩ (-(1 / 2)) < (-1) + (1118033989 / 1000000000) :=
    at_upper_bounds ⟨⟨(-(3 / 2)), (-1)⟩, (3 / 2)⟩ (-(1 / 2)) (279508497 / 250000000) (1118033989 / 1000000000) (by norm_num) (by norm_num)
      (abs_le.2 ⟨by norm_num, by norm_num⟩) (by norm_num) (by norm_num)
  have EvFar_f34 : aboveAt Real.sqrt ⟨(-(1 / 2)), (1 / 2)⟩ none ⟨2, ⟨⟨⟨(-(3 / 2)), (-1)⟩, (3 / 2)⟩, true⟩⟩ = false := by
    show decide (Arc.at_ Real.sqrt ⟨⟨⟨(-(3 / 2)), (-1)⟩, (3 / 2)⟩, true⟩ (-(1 / 2)) ≥ (1 / 2)) = false
    rw [decide_eq_false_iff_not, ge_iff_le, not_le]
    all_goals linarith only [EvFar_at35.1, EvFar_at35.2]
  have EvFar_at37 : Arc.at_ Real.sqrt ⟨⟨⟨(-1), (1 / 2)⟩, (1 / 2)⟩, true⟩ (-(1 / 2)) = (1 / 2) + 0 :=
    at_upper_val ⟨⟨(-1), (1 / 2)⟩, (1 / 2)⟩ (-(1 / 2)) 0 (by norm_num)
      (abs_le.2 ⟨by norm_num, by norm_num⟩) (by norm_num)
  have EvFar_f36 : aboveAt Real.sqrt ⟨(-(1 / 2)), (1 / 2)⟩ none ⟨0, ⟨⟨⟨(-1), (1 / 2)⟩, (1 / 2)⟩, true⟩⟩ = true := by
    show decide (Arc.at_ Real.sqrt ⟨⟨⟨(-1), (1 / 2)⟩, (1 / 2)⟩, true⟩ (-(1 / 2)) ≥ (1 / 2)) = true
    rw [decide_eq_true_eq, ge_iff_le]
    rw [EvFar_at37]
    all_goals norm_num
  have EvFar_f38 : Arc.contains Real.sqrt ⟨⟨⟨(-1), (1 / 2)⟩, (1 / 2)⟩, true⟩ ⟨(-(1 / 2)), (1 / 2)⟩ = true := by
    show decide (|Arc.at_ Real.sqrt ⟨⟨⟨(-1), (1 / 2)⟩, (1 / 2)⟩, true⟩ (-(1 / 2)) - (1 / 2)| < 1 / 100000) = true
    rw [decide_eq_true_eq, abs_lt]
    rw [EvFar_at37]
    constructor <;> norm_num
  have EvFar_at40 : Arc.at_ Real.sqrt ⟨⟨⟨(-1), (1 / 2)⟩, (1 / 2)⟩, false⟩ (-(1 / 2)) = (1 / 2) - 0 :=
    at_lower_val ⟨⟨(-1), (1 / 2)⟩, (1 / 2)⟩ (-(1 / 2)) 0 (by norm_num)
      (abs_le.2 ⟨by norm_num, by norm_num⟩) (by norm_num)
  have EvFar_f39 : aboveAt Real.sqrt ⟨(-(1 / 2)), (1 / 2)⟩ none ⟨1, ⟨⟨⟨(-1), (1 / 2)⟩, (1 / 2)⟩, false⟩⟩ = true := by
    show decide (Arc.at_ Real.sqrt ⟨⟨⟨(-1), (1 / 2)⟩, (1 / 2)⟩, false⟩ (-(1 / 2)) ≥ (1 / 2)) = true
    rw [decide_eq_true_eq, ge_iff_le]
    rw [EvFar_at40]
    all_goals norm_num
  have EvFar_at42 : (-1) - (1118033989 / 1000000000) < Arc.at_ Real.sqrt ⟨⟨⟨(-(3 / 2)), (-1)⟩, (3 / 2)⟩, false⟩ (-(1 / 2)) ∧
      Arc.at_ Real.sqrt ⟨⟨⟨(-(3 / 2)), (-1)⟩, (3 / 2)⟩, false⟩ (-(1 / 2)) < (-1) - (279508497 / 250000000) :=
    at_lower_bounds ⟨⟨(-(3 / 2)), (-1)⟩, (3 / 2)⟩ (-(1 / 2)) (279508497 / 250000000) (1118033989 / 1000000000) (by norm_num) (by norm_num)
      (abs_le.2 ⟨by norm_num, by norm_num⟩) (by norm_num) (by norm_num)
  have EvFar_f41 : aboveAt Real.sqrt ⟨(-(1 / 2)), (1 / 2)⟩ none ⟨3, ⟨⟨⟨(-(3 / 2)), (-1)⟩, (3 / 2)⟩, false⟩⟩ = false := by
    show decide (Arc.at_ Real.sqrt ⟨⟨⟨(-(3 / 2)), (-1)⟩, (3 / 2)⟩, false⟩ (-(1 / 2)) ≥ (1 / 2)) = false
    rw [decide_eq_false_iff_not, ge_iff_le, not_le]
    all_goals linarith only [EvFar_at42.1, EvFar_at42.2]
  have EvFar_at44 : Arc.at_ Real.sqrt ⟨⟨⟨(-1), (1 / 2)⟩, (1 / 2)⟩, false⟩ 0 = (1 / 2) :=
    at_out ⟨⟨⟨(-1), (1 / 2)⟩, (1 / 2)⟩, false⟩ 0 (lt_abs.2 (Or.inl (by norm_num)))
  have EvFar_f43 : aboveAt Real.sqrt ⟨0, (-1)⟩ none ⟨1, ⟨⟨⟨(-1), (1 / 2)⟩, (1 / 2)⟩, false⟩⟩ = true := by
    show decide (Arc.at_ Real.sqrt ⟨⟨⟨(-1), (1 / 2)⟩, (1 / 2)⟩, false⟩ 0 ≥ (-1)) = true
    rw [decide_eq_true_eq, ge_iff_le]
    rw [EvFar_at44]
    all_goals norm_num
  have EvFar_at46 : Arc.at_ Real.sqrt ⟨⟨⟨(-(3 / 2)), (-1)⟩, (3 / 2)⟩, false⟩ 0 = (-1) - 0 :=
    at_lower_val ⟨⟨(-(3 / 2)), (-1)⟩, (3 / 2)⟩ 0 0 (by norm_num)
      (abs_le.2 ⟨by norm_num, by norm_num⟩) (by norm_num)
  have EvFar_f45 : aboveAt Real.sqrt ⟨0, (-1)⟩ none ⟨3, ⟨⟨⟨(-(3 / 2)), (-1)⟩, (3 / 2)⟩, false⟩⟩ = true := by
    show decide (Arc.at_ Real.sqrt ⟨⟨⟨(-(3 / 2)), (-1)⟩, (3 / 2)⟩, false⟩ 0 ≥ (-1)) = true
    rw [decide_eq_true_eq, ge_iff_le]
    rw [EvFar_at46]
    all_goals norm_num
  have EvFar_f47 : Arc.contains Real.sqrt ⟨⟨⟨(-(3 / 2)), (-1)⟩, (3 / 2)⟩, false⟩ ⟨0, (-1)⟩ = true := by
    show decide (|Arc.at_ Real.sqrt ⟨⟨⟨(-(3 / 2)), (-1)⟩, (3 / 2)⟩, false⟩ 0 - (-1)| < 1 / 100000) = true
    rw [decide_eq_true_eq, abs_lt]
    rw [EvFar_at46]
    constructor <;> norm_num
  have EvFar_f48 : Arc.contains Real.sqrt ⟨⟨⟨(-1), (1 / 2)⟩, (1 / 2)⟩, false⟩ ⟨0, (-1)⟩ = false := by
    show decide (|Arc.at_ Real.sqrt ⟨⟨⟨(-1), (1 / 2)⟩, (1 / 2)⟩, false⟩ 0 - (-1)| < 1 / 100000) = false
    rw [decide_eq_false_iff_not, not_lt]
    rw [EvFar_at44]
    exact le_abs.2 (Or.inl (by norm_num))
  have EvFar_f49 : aboveAt Real.sqrt ⟨0, (1 / 2)⟩ none ⟨1, ⟨⟨⟨(-1), (1 / 2)⟩, (1 / 2)⟩, false⟩⟩ = true := by
    show decide (Arc.at_ Real.sqrt ⟨⟨⟨(-1), (1 / 2)⟩, (1 / 2)⟩, false⟩ 0 ≥ (1 / 2)) = true
    rw [decide_eq_true_eq, ge_iff_le]
    rw [EvFar_at44]
    all_goals norm_num
  have EvFar_f50 : Arc.contains Real.sqrt ⟨⟨⟨(-1), (1 / 2)⟩, (1 / 2)⟩, false⟩ ⟨0, (1 / 2)⟩ = true := by
    show decide (|Arc.at_ Real.sqrt ⟨⟨⟨(-1), (1 / 2)⟩, (1 / 2)⟩, false⟩ 0 - (1 / 2)| < 1 / 100000) = true
    rw [decide_eq_true_eq, abs_lt]
    rw [EvFar_at44]
    constructor <;> norm_num
  have EvFar_at52 : Arc.at_ Real.sqrt ⟨⟨⟨(-(3 / 2)), (-1)⟩, (3 / 2)⟩, true⟩ 0 = (-1) + 0 :=
    at_upper_val ⟨⟨(-(3 / 2)), (-1)⟩, (3 / 2)⟩ 0 0 (by norm_num)
      (abs_le.2 ⟨by norm_num, by norm_num⟩) (by norm_num)
  have EvFar_f51 : Arc.contains Real.sqrt ⟨⟨⟨(-(3 / 2)), (-1)⟩, (3 / 2)⟩, true⟩ ⟨0, (1 / 2)⟩ = false := by
    show decide (|Arc.at_ Real.sqrt ⟨⟨⟨(-(3 / 2)), (-1)⟩, (3 / 2)⟩, true⟩ 0 - (1 / 2)| < 1 / 100000) = false
    rw [decide_eq_false_iff_not, not_lt]
    rw [EvFar_at52]
    exact le_abs.2 (Or.inr (by norm_num))
  have EvFar_at54 : Arc.at_ Real.sqrt ⟨⟨⟨(-(3 / 2)), (-1)⟩, (3 / 2)⟩, true⟩ (1 / 1000) = (-1) :=
    at_out ⟨⟨⟨(-(3 / 2)), (-1)⟩, (3 / 2)⟩, true⟩ (1 / 1000) (lt_abs.2 (Or.inl (by norm_num)))
  have EvFar_at55 : Arc.at_ Real.sqrt ⟨⟨⟨(-(3 / 2)), (-1)⟩, (3 / 2)⟩, true⟩ (0 + 1 / 1000) = (-1) := by
    have e : (0 + 1 / 1000 : ℝ) = (1 / 1000) := by norm_num
    rw [e, EvFar_at54]
  have EvFar_at56 : Arc.at_ Real.sqrt ⟨⟨⟨(-1), (1 / 2)⟩, (1 / 2)⟩, false⟩ (1 / 1000) = (1 / 2) :=
    at_out ⟨⟨⟨(-1), (1 / 2)⟩, (1 / 2)⟩, false⟩ (1 / 1000) (lt_abs.2 (Or.inl (by norm_num)))
  have EvFar_at57 : Arc.at_ Real.sqrt ⟨⟨⟨(-1), (1 / 2)⟩, (1 / 2)⟩, false⟩ (0 + 1 / 1000) = (1 / 2) := by
    have e : (0 + 1 / 1000 : ℝ) = (1 / 1000) := by norm_num
    rw [e, EvFar_at56]
  have EvFar_f53 : aboveAt Real.sqrt ⟨0, (1 / 2)⟩ (some ⟨1, ⟨⟨⟨(-1), (1 / 2)⟩, (1 / 2)⟩, false⟩⟩) ⟨2, ⟨⟨⟨(-(3 / 2)), (-1)⟩, (3 / 2)⟩, true⟩⟩ = false := by
    show decide (Arc.at_ Real.sqrt ⟨⟨⟨(-(3 / 2)), (-1)⟩, (3 / 2)⟩, true⟩ (0 + 1 / 1000) ≥ Arc.at_ Real.sqrt ⟨⟨⟨(-1), (1 / 2)⟩, (1 / 2)⟩, false⟩ (0 + 1 / 1000))
      = false
    rw [decide_eq_false_iff_not, ge_iff_le, not_le]
    rw [EvFar_at55, EvFar_at57]
    all_goals norm_num
  have EvFar_at59 : (1 / 2) + (63237647 / 1000000000) < Arc.at_ Real.sqrt ⟨⟨⟨2, (1 / 2)⟩, 2⟩, true⟩ (1 / 1000) ∧
      Arc.at_ Real.sqrt ⟨⟨⟨2, (1 / 2)⟩, 2⟩, true⟩ (1 / 1000) < (1 / 2) + (3952353 / 62500000) :=
    at_upper_bounds ⟨⟨2, (1 / 2)⟩, 2⟩ (1 / 1000) (63237647 / 1000000000) (3952353 / 62500000) (by norm_num) (by norm_num)
      (abs_le.2 ⟨by norm_num, by norm_num⟩) (by norm_num) (by norm_num)
  have EvFar_at60 : (563237647 / 1000000000) < Arc.at_ Real.sqrt ⟨⟨⟨2, (1 / 2)⟩, 2⟩, true⟩ (0 + 1 / 1000) ∧ Arc.at_ Real.sqrt ⟨⟨⟨2, (1 / 2)⟩, 2⟩, true⟩ (0 + 1 / 1000) < (35202353 / 62500000) := by
    have e : (0 + 1 / 1000 : ℝ) = (1 / 1000) := by norm_num
    rw [e]
    have h := EvFar_at59
    constructor <;> linarith only [h.1, h.2]
  have EvFar_f58 : aboveAt Real.sqrt ⟨0, (1 / 2)⟩ (some ⟨4, ⟨⟨⟨2, (1 / 2)⟩, 2⟩, true⟩⟩) ⟨2, ⟨⟨⟨(-(3 / 2)), (-1)⟩, (3 / 2)⟩, true⟩⟩ = false := by
    show decide (Arc.at_ Real.sqrt ⟨⟨⟨(-(3 / 2)), (-1)⟩, (3 / 2)⟩, true⟩ (0 + 1 / 1000) ≥ Arc.at_ Real.sqrt ⟨⟨⟨2, (1 / 2)⟩, 2⟩, true⟩ (0 + 1 / 1000))
      = false
    rw [decide_eq_false_iff_not, ge_iff_le, not_le]
    rw [EvFar_at55]
    all_goals linarith only [EvFar_at60.1, EvFar_at60.2]
  have EvFar_f61 : aboveAt Real.sqrt ⟨0, (1 / 2)⟩ (some ⟨4, ⟨⟨⟨2, (1 / 2)⟩, 2⟩, true⟩⟩) ⟨1, ⟨⟨⟨(-1), (1 / 2)⟩, (1 / 2)⟩, false⟩⟩ = false := by
    show decide (Arc.at_ Real.sqrt ⟨⟨⟨(-1), (1 / 2)⟩, (1 / 2)⟩, false⟩ (0 + 1 / 1000) ≥ Arc.at_ Real.sqrt ⟨⟨⟨2, (1 / 2)⟩, 2⟩, true⟩ (0 + 1 / 1000))
      = false
    rw [decide_eq_false_iff_not, ge_iff_le, not_le]
    rw [EvFar_at57]
    all_goals linarith only [EvFar_at60.1, EvFar_at60.2]
  have EvFar_at63 : (1 / 2) - (3952353 / 62500000) < Arc.at_ Real.sqrt ⟨⟨⟨2, (1 / 2)⟩, 2⟩, false⟩ (1 / 1000) ∧
      Arc.at_ Real.sqrt ⟨⟨⟨2, (1 / 2)⟩, 2⟩, false⟩ (1 / 1000) < (1 / 2) - (63237647 / 1000000000) :=
    at_lower_bounds ⟨⟨2, (1 / 2)⟩, 2⟩ (1 / 1000) (63237647 / 1000000000) (3952353 / 62500000) (by norm_num) (by norm_num)
      (abs_le.2 ⟨by norm_num, by norm_num⟩) (by norm_num) (by norm_num)
  have EvFar_at64 : (27297647 / 62500000) < Arc.at_ Real.sqrt ⟨⟨⟨2, (1 / 2)⟩, 2⟩, false⟩ (0 + 1 / 1000) ∧ Arc.at_ Real.sqrt ⟨⟨⟨2, (1 / 2)⟩, 2⟩, false⟩ (0 + 1 / 1000) < (436762353 / 1000000000) := by
    have e : (0 + 1 / 1000 : ℝ) = (1 / 1000) := by norm_num
    rw [e]
    have h := EvFar_at63
    constructor <;> linarith only [h.1, h.2]
  have EvFar_f62 : aboveAt Real.sqrt ⟨0, (1 / 2)⟩ (some ⟨5, ⟨⟨⟨2, (1 / 2)⟩, 2⟩, false⟩⟩) ⟨1, ⟨⟨⟨(-1), (1 / 2)⟩, (1 / 2)⟩, false⟩⟩ = true := by
    show decide (Arc.at_ Real.sqrt ⟨⟨⟨(-1), (1 / 2)⟩, (1 / 2)⟩, false⟩ (0 + 1 / 1000) ≥ Arc.at_ Real.sqrt ⟨⟨⟨2, (1 / 2)⟩, 2⟩, false⟩ (0 + 1 / 1000))
      = true
    rw [decide_eq_true_eq, ge_iff_le]
    rw [EvFar_at57]
    all_goals linarith only [EvFar_at64.1, EvFar_at64.2]
  have EvFar_f65 : aboveAt Real.sqrt ⟨0, (1 / 2)⟩ (some ⟨5, ⟨⟨⟨2, (1 / 2)⟩, 2⟩, false⟩⟩) ⟨2, ⟨⟨⟨(-(3 / 2)), (-1)⟩, (3 / 2)⟩, true⟩⟩ = false := by
    show decide (Arc.at_ Real.sqrt ⟨⟨⟨(-(3 / 2)), (-1)⟩, (3 / 2)⟩, true⟩ (0 + 1 / 1000) ≥ Arc.at_ Real.sqrt ⟨⟨⟨2, (1 / 2)⟩, 2⟩, false⟩ (0 + 1 / 1000))
      = false
    rw [decide_eq_false_iff_not, ge_iff_le, not_le]
    rw [EvFar_at55]
    all_goals linarith only [EvFar_at64.1, EvFar_at64.2]
  have EvFar_f66 : aboveAt Real.sqrt ⟨0, (1 / 2)⟩ (some ⟨1, ⟨⟨⟨(-1), (1 / 2)⟩, (1 / 2)⟩, false⟩⟩) ⟨4, ⟨⟨⟨2, (1 / 2)⟩, 2⟩, true⟩⟩ = true := by
    show decide (Arc.at_ Real.sqrt ⟨⟨⟨2, (1 / 2)⟩, 2⟩, true⟩ (0 + 1 / 1000) ≥ Arc.at_ Real.sqrt ⟨⟨⟨(-1), (1 / 2)⟩, (1 / 2)⟩, false⟩ (0 + 1 / 1000))
      = true
    rw [decide_eq_true_eq, ge_iff_le]
    rw [EvFar_at57]
    all_goals linarith only [EvFar_at60.1, EvFar_at60.2]
  have EvFar_f67 : aboveAt Real.sqrt ⟨0, (1 / 2)⟩ (some ⟨4, ⟨⟨⟨2, (1 / 2)⟩, 2⟩, true⟩⟩) ⟨5, ⟨⟨⟨2, (1 / 2)⟩, 2⟩, false⟩⟩ = false := by
    show decide (Arc.at_ Real.sqrt ⟨⟨⟨2, (1 / 2)⟩, 2⟩, false⟩ (0 + 1 / 1000) ≥ Arc.at_ Real.sqrt ⟨⟨⟨2, (1 / 2)⟩, 2⟩, true⟩ (0 + 1 / 1000))
      = false
    rw [decide_eq_false_iff_not, ge_iff_le, not_le]
    all_goals linarith only [EvFar_at64.1, EvFar_at64.2, EvFar_at60.1, EvFar_at60.2]
  have EvFar_f68 : Arc.intersect Real.sqrt ⟨⟨⟨(-(3 / 2)), (-1)⟩, (3 / 2)⟩, true⟩ ⟨⟨⟨2, (1 / 2)⟩, 2⟩, false⟩ = [] := by
    unfold Arc.intersect
    simp only
    rw [intersect_far ⟨⟨(-(3 / 2)), (-1)⟩, (3 / 2)⟩ ⟨⟨2, (1 / 2)⟩, 2⟩ (29 / 2) (by norm_num) (by norm_num) (by norm_num)]
    rfl
  have EvFar_at70 : Arc.at_ Real.sqrt ⟨⟨⟨(-1), (1 / 2)⟩, (1 / 2)⟩, false⟩ 4 = (1 / 2) :=
    at_out ⟨⟨⟨(-1), (1 / 2)⟩, (1 / 2)⟩, false⟩ 4 (lt_abs.2 (Or.inl (by norm_num)))
  have EvFar_f69 : aboveAt Real.sqrt ⟨4, (1 / 2)⟩ none ⟨1, ⟨⟨⟨(-1), (1 / 2)⟩, (1 / 2)⟩, false⟩⟩ = true := by
    show decide (Arc.at_ Real.sqrt ⟨⟨⟨(-1), (1 / 2)⟩, (1 / 2)⟩, false⟩ 4 ≥ (1 / 2)) = true
    rw [decide_eq_true_eq, ge_iff_le]
    rw [EvFar_at70]
    all_goals norm_num
  have EvFar_at72 : Arc.at_ Real.sqrt ⟨⟨⟨(-(3 / 2)), (-1)⟩, (3 / 2)⟩, true⟩ 4 = (-1) :=
    at_out ⟨⟨⟨(-(3 / 2)), (-1)⟩, (3 / 2)⟩, true⟩ 4 (lt_abs.2 (Or.inl (by norm_num)))
  have EvFar_f71 : aboveAt Real.sqrt ⟨4, (1 / 2)⟩ none ⟨2, ⟨⟨⟨(-(3 / 2)), (-1)⟩, (3 / 2)⟩, true⟩⟩ = false := by
    show decide (Arc.at_ Real.sqrt ⟨⟨⟨(-(3 / 2)), (-1)⟩, (3 / 2)⟩, true⟩ 4 ≥ (1 / 2)) = false
    rw [decide_eq_false_iff_not, ge_iff_le, not_le]
    rw [EvFar_at72]
    all_goals norm_num
  have EvFar_at74 : Arc.at_ Real.sqrt ⟨⟨⟨2, (1 / 2)⟩, 2⟩, false⟩ 4 = (1 / 2) - 0 :=
    at_lower_val ⟨⟨2, (1 / 2)⟩, 2⟩ 4 0 (by norm_num)
      (abs_le.2 ⟨by norm_num, by norm_num⟩) (by norm_num)
  have EvFar_f73 : aboveAt Real.sqrt ⟨4, (1 / 2)⟩ none ⟨5, ⟨⟨⟨2, (1 / 2)⟩, 2⟩, false⟩⟩ = true := by
    show decide (Arc.at_ Real.sqrt ⟨⟨⟨2, (1 / 2)⟩, 2⟩, false⟩ 4 ≥ (1 / 2)) = true
    rw [decide_eq_true_eq, ge_iff_le]
    rw [EvFar_at74]
    all_goals norm_num
  have EvFar_f75 : Arc.contains Real.sqrt ⟨⟨⟨2, (1 / 2)⟩, 2⟩, false⟩ ⟨4, (1 / 2)⟩ = true := by
    show decide (|Arc.at_ Real.sqrt ⟨⟨⟨2, (1 / 2)⟩, 2⟩, false⟩ 4 - (1 / 2)| < 1 / 100000) = true
    rw [decide_eq_true_eq, abs_lt]
    rw [EvFar_at74]
    constructor <;> norm_num
  have EvFar_f76 : Arc.contains Real.sqrt ⟨⟨⟨(-1), (1 / 2)⟩, (1 / 2)⟩, false⟩ ⟨4, (1 / 2)⟩ = true := by
    show decide (|Arc.at_ Real.sqrt ⟨⟨⟨(-1), (1 / 2)⟩, (1 / 2)⟩, false⟩ 4 - (1 / 2)| < 1 / 100000) = true
    rw [decide_eq_true_eq, abs_lt]
    rw [EvFar_at70]
    constructor <;> norm_num
  have EvFar_at78 : Arc.at_ Real.sqrt ⟨⟨⟨2, (1 / 2)⟩, 2⟩, true⟩ 4 = (1 / 2) + 0 :=
    at_upper_val ⟨⟨2, (1 / 2)⟩, 2⟩ 4 0 (by norm_num)
      (abs_le.2 ⟨by norm_num, by norm_num⟩) (by norm_num)
  have EvFar_f77 : Arc.contains Real.sqrt ⟨⟨⟨2, (1 / 2)⟩, 2⟩, true⟩ ⟨4, (1 / 2)⟩ = true := by
    show decide (|Arc.at_ Real.sqrt ⟨⟨⟨2, (1 / 2)⟩, 2⟩, true⟩ 4 - (1 / 2)| < 1 / 100000) = true
    rw [decide_eq_true_eq, abs_lt]
    rw [EvFar_at78]
    constructor <;> norm_num
  have EvFar_at80 : Arc.at_ Real.sqrt ⟨⟨⟨(-(3 / 2)), (-1)⟩, (3 / 2)⟩, true⟩ (4001 / 1000) = (-1) :=
    at_out ⟨⟨⟨(-(3 / 2)), (-1)⟩, (3 / 2)⟩, true⟩ (4001 / 1000) (lt_abs.2 (Or.inl (by norm_num)))
  have EvFar_at81 : Arc.at_ Real.sqrt ⟨⟨⟨(-(3 / 2)), (-1)⟩, (3 / 2)⟩, true⟩ (4 + 1 / 1000) = (-1) := by
    have e : (4 + 1 / 1000 : ℝ) = (4001 / 1000) := by norm_num
    rw [e, EvFar_at80]
  have EvFar_at82 : Arc.at_ Real.sqrt ⟨⟨⟨(-1), (1 / 2)⟩, (1 / 2)⟩, false⟩ (4001 / 1000) = (1 / 2) :=
    at_out ⟨⟨⟨(-1), (1 / 2)⟩, (1 / 2)⟩, false⟩ (4001 / 1000) (lt_abs.2 (Or.inl (by norm_num)))
  have EvFar_at83 : Arc.at_ Real.sqrt ⟨⟨⟨(-1), (1 / 2)⟩, (1 / 2)⟩, false⟩ (4 + 1 / 1000) = (1 / 2) := by
    have e : (4 + 1 / 1000 : ℝ) = (4001 / 1000) := by norm_num
    rw [e, EvFar_at82]
  have EvFar_f79 : aboveAt Real.sqrt ⟨4, (1 / 2)⟩ (some ⟨1, ⟨⟨⟨(-1), (1 / 2)⟩, (1 / 2)⟩, false⟩⟩) ⟨2, ⟨⟨⟨(-(3 / 2)), (-1)⟩, (3 / 2)⟩, true⟩⟩ = false := by
    show decide (Arc.at_ Real.sqrt ⟨⟨⟨(-(3 / 2)), (-1)⟩, (3 / 2)⟩, true⟩ (4 + 1 / 1000) ≥ Arc.at_ Real.sqrt ⟨⟨⟨(-1), (1 / 2)⟩, (1 / 2)⟩, false⟩ (4 + 1 / 1000))
      = false
    rw [decide_eq_false_iff_not, ge_iff_le, not_le]
    rw [EvFar_at81, EvFar_at83]
    all_goals norm_num
  have EvFar_h85 : (|Arc.at_ Real.sqrt ⟨⟨⟨(-(3 / 2)), (-1)⟩, (3 / 2)⟩, true⟩ (-(3 / 2)) - Arc.at_ Real.sqrt ⟨⟨⟨(-1), (1 / 2)⟩, (1 / 2)⟩, false⟩ (-(3 / 2))| > 1 / 100000) = False := by
    apply eq_false
    rw [gt_iff_lt, not_lt, abs_le]
    rw [EvFar_at8, EvFar_at29]; constructor <;> norm_num
  have EvFar_at86 : Arc.at_ Real.sqrt ⟨⟨⟨(-(3 / 2)), (-1)⟩, (3 / 2)⟩, true⟩ (-(3 / 5)) = (-1) + (6 / 5) :=
    at_upper_val ⟨⟨(-(3 / 2)), (-1)⟩, (3 / 2)⟩ (-(3 / 5)) (6 / 5) (by norm_num)
      (abs_le.2 ⟨by norm_num, by norm_num⟩) (by norm_num)
  have EvFar_h87 : (|Arc.at_ Real.sqrt ⟨⟨⟨(-(3 / 2)), (-1)⟩, (3 / 2)⟩, true⟩ (-(3 / 5)) - Arc.at_ Real.sqrt ⟨⟨⟨(-1), (1 / 2)⟩, (1 / 2)⟩, false⟩ (-(3 / 5))| > 1 / 100000) = False := by
    apply eq_false
    rw [gt_iff_lt, not_lt, abs_le]
    rw [EvFar_at86, EvFar_at32]; constructor <;> norm_num
  have EvFar_f84 : Arc.intersect Real.sqrt ⟨⟨⟨(-(3 / 2)), (-1)⟩, (3 / 2)⟩, true⟩ ⟨⟨⟨(-1), (1 / 2)⟩, (1 / 2)⟩, false⟩ = [⟨(-(3 / 2)), (1 / 2)⟩, ⟨(-(3 / 5)), (1 / 5)⟩] := by
    unfold Arc.intersect
    simp only
    rw [intersect_eval ⟨⟨(-(3 / 2)), (-1)⟩, (3 / 2)⟩ ⟨⟨(-1), (1 / 2)⟩, (1 / 2)⟩ (5 / 2) (9 / 10) (3 / 10) (by norm_num) (by norm_num)
      (by norm_num) (by norm_num) (by norm_num) (by norm_num) (by norm_num) (by norm_num)]
    norm_num [Point.add, Point.sub, Point.scale, Point.turn, List.filter, EvFar_h85, EvFar_h87]
  have EvFar_seed :
      seedEvents ([] : Events ℝ) 0 [⟨⟨(-1), (1 / 2)⟩, (1 / 2)⟩, ⟨⟨(-(3 / 2)), (-1)⟩, (3 / 2)⟩, ⟨⟨2, (1 / 2)⟩, 2⟩]
        = [(⟨(-3), (-1)⟩, [⟨2, ⟨⟨⟨(-(3 / 2)), (-1)⟩, (3 / 2)⟩, true⟩⟩, ⟨3, ⟨⟨⟨(-(3 / 2)), (-1)⟩, (3 / 2)⟩, false⟩⟩]), (⟨(-(3 / 2)), (1 / 2)⟩, [⟨0, ⟨⟨⟨(-1), (1 / 2)⟩, (1 / 2)⟩, true⟩⟩, ⟨1, ⟨⟨⟨(-1), (1 / 2)⟩, (1 / 2)⟩, false⟩⟩]), (⟨(-(1 / 2)), (1 / 2)⟩, []), (⟨0, (-1)⟩, []), (⟨0, (1 / 2)⟩, [⟨4, ⟨⟨⟨2, (1 / 2)⟩, 2⟩, true⟩⟩, ⟨5, ⟨⟨⟨2, (1 / 2)⟩, 2⟩, false⟩⟩]), (⟨4, (1 / 2)⟩, [])] := by
    norm_num [seedEvents, seedCircle, Events.find, Events.set, Circle.begin, Circle.end_,
      Point.sub, Point.add, Point.lt]
  have EvFar_step1 :
      sweepStep Real.sqrt [] ⟨(-3), (-1)⟩
        [⟨2, ⟨⟨⟨(-(3 / 2)), (-1)⟩, (3 / 2)⟩, true⟩⟩, ⟨3, ⟨⟨⟨(-(3 / 2)), (-1)⟩, (3 / 2)⟩, false⟩⟩]
        [(⟨(-(3 / 2)), (1 / 2)⟩, [⟨0, ⟨⟨⟨(-1), (1 / 2)⟩, (1 / 2)⟩, true⟩⟩, ⟨1, ⟨⟨⟨(-1), (1 / 2)⟩, (1 / 2)⟩, false⟩⟩]), (⟨(-(1 / 2)), (1 / 2)⟩, []), (⟨0, (-1)⟩, []), (⟨0, (1 / 2)⟩, [⟨4, ⟨⟨⟨2, (1 / 2)⟩, 2⟩, true⟩⟩, ⟨5, ⟨⟨⟨2, (1 / 2)⟩, 2⟩, false⟩⟩]), (⟨4, (1 / 2)⟩, [])]
        ⟨.nil⟩
      = some ⟨[], [(⟨(-(3 / 2)), (1 / 2)⟩, [⟨0, ⟨⟨⟨(-1), (1 / 2)⟩, (1 / 2)⟩, true⟩⟩, ⟨1, ⟨⟨⟨(-1), (1 / 2)⟩, (1 / 2)⟩, false⟩⟩]), (⟨(-(1 / 2)), (1 / 2)⟩, []), (⟨0, (-1)⟩, []), (⟨0, (1 / 2)⟩, [⟨4, ⟨⟨⟨2, (1 / 2)⟩, 2⟩, true⟩⟩, ⟨5, ⟨⟨⟨2, (1 / 2)⟩, 2⟩, false⟩⟩]), (⟨4, (1 / 2)⟩, [])],
          ⟨(.node ⟨2, ⟨⟨⟨(-(3 / 2)), (-1)⟩, (3 / 2)⟩, true⟩⟩ .BLACK (.node ⟨3, ⟨⟨⟨(-(3 / 2)), (-1)⟩, (3 / 2)⟩, false⟩⟩ .RED .nil .nil) .nil)⟩⟩ := by
    norm_num [sweepStep, RBTree.contains, RBTree.insertPos, insertPosLoop, RBTree.empty,
      containsLoop, Node.size, report, removeAll, reinsert, insertBorn, RBTree.insert, insertFixup,
      blackenRoot, Node.setColor, Path.fill, discover, minArc, maxArc, RBTree.nodeOf, locate, isArc,
      RBTree.lower_bound, RBTree.upper_bound, climbLeft, climbRight, leftmost, rightmost,
      Events.erase, Events.find, Events.set, schedule, RBTree.remove, removeFixup,
      removeFixupLeftRot, removeFixupRightRot, leftRotate, rightRotate, Circle.ne, Point.ne,
      Point.eq, Point.lt, Circle.end_, Point.add, RBTree.lower_bound_at, RBTree.upper_bound_at,
      Node.color, Loc.tree, Loc.key?, spliceMin, Node.minKey, red_ne_black, black_ne_red,
      EvFar_f1, EvFar_f6, EvFar_f7, EvFar_f9, EvFar_f11, EvFar_f12, EvFar_f13, EvFar_f18, EvFar_f21, EvFar_f22, EvFar_f25, EvFar_f26, EvFar_f27, EvFar_f28, EvFar_f34, EvFar_f36, EvFar_f38, EvFar_f39, EvFar_f41, EvFar_f43, EvFar_f45, EvFar_f47, EvFar_f48, EvFar_f49, EvFar_f50, EvFar_f51, EvFar_f53, EvFar_f58, EvFar_f61, EvFar_f62, EvFar_f65, EvFar_f66, EvFar_f67, EvFar_f68, EvFar_f69, EvFar_f71, EvFar_f73, EvFar_f75, EvFar_f76, EvFar_f77, EvFar_f79, EvFar_f84]
  have EvFar_step2 :
      sweepStep Real.sqrt [] ⟨(-(3 / 2)), (1 / 2)⟩
        [⟨0, ⟨⟨⟨(-1), (1 / 2)⟩, (1 / 2)⟩, true⟩⟩, ⟨1, ⟨⟨⟨(-1), (1 / 2)⟩, (1 / 2)⟩, false⟩⟩]
        [(⟨(-(1 / 2)), (1 / 2)⟩, []), (⟨0, (-1)⟩, []), (⟨0, (1 / 2)⟩, [⟨4, ⟨⟨⟨2, (1 / 2)⟩, 2⟩, true⟩⟩, ⟨5, ⟨⟨⟨2, (1 / 2)⟩, 2⟩, false⟩⟩]), (⟨4, (1 / 2)⟩, [])]
        ⟨(.node ⟨2, ⟨⟨⟨(-(3 / 2)), (-1)⟩, (3 / 2)⟩, true⟩⟩ .BLACK (.node ⟨3, ⟨⟨⟨(-(3 / 2)), (-1)⟩, (3 / 2)⟩, false⟩⟩ .RED .nil .nil) .nil)⟩
      = some ⟨[⟨(-(3 / 2)), (1 / 2)⟩], [(⟨(-(1 / 2)), (1 / 2)⟩, []), (⟨0, (-1)⟩, []), (⟨0, (1 / 2)⟩, [⟨4, ⟨⟨⟨2, (1 / 2)⟩, 2⟩, true⟩⟩, ⟨5, ⟨⟨⟨2, (1 / 2)⟩, 2⟩, false⟩⟩]), (⟨4, (1 / 2)⟩, [])],
          ⟨(.node ⟨2, ⟨⟨⟨(-(3 / 2)), (-1)⟩, (3 / 2)⟩, true⟩⟩ .BLACK (.node ⟨3, ⟨⟨⟨(-(3 / 2)), (-1)⟩, (3 / 2)⟩, false⟩⟩ .BLACK .nil (.node ⟨1, ⟨⟨⟨(-1), (1 / 2)⟩, (1 / 2)⟩, false⟩⟩ .RED .nil .nil)) (.node ⟨0, ⟨⟨⟨(-1), (1 / 2)⟩, (1 / 2)⟩, true⟩⟩ .BLACK .nil .nil))⟩⟩ := by
    norm_num [sweepStep, RBTree.contains, RBTree.insertPos, insertPosLoop, RBTree.empty,
      containsLoop, Node.size, report, removeAll, reinsert, insertBorn, RBTree.insert, insertFixup,
      blackenRoot, Node.setColor, Path.fill, discover, minArc, maxArc, RBTree.nodeOf, locate, isArc,
      RBTree.lower_bound, RBTree.upper_bound, climbLeft, climbRight, leftmost, rightmost,
      Events.erase, Events.find, Events.set, schedule, RBTree.remove, removeFixup,
      removeFixupLeftRot, removeFixupRightRot, leftRotate, rightRotate, Circle.ne, Point.ne,
      Point.eq, Point.lt, Circle.end_, Point.add, RBTree.lower_bound_at, RBTree.upper_bound_at,
      Node.color, Loc.tree, Loc.key?, spliceMin, Node.minKey, red_ne_black, black_ne_red,
      EvFar_f1, EvFar_f6, EvFar_f7, EvFar_f9, EvFar_f11, EvFar_f12, EvFar_f13, EvFar_f18, EvFar_f21, EvFar_f22, EvFar_f25, EvFar_f26, EvFar_f27, EvFar_f28, EvFar_f34, EvFar_f36, EvFar_f38, EvFar_f39, EvFar_f41, EvFar_f43, EvFar_f45, EvFar_f47, EvFar_f48, EvFar_f49, EvFar_f50, EvFar_f51, EvFar_f53, EvFar_f58, EvFar_f61, EvFar_f62, EvFar_f65, EvFar_f66, EvFar_f67, EvFar_f68, EvFar_f69, EvFar_f71, EvFar_f73, EvFar_f75, EvFar_f76, EvFar_f77, EvFar_f79, EvFar_f84]
  have EvFar_step3 :
      sweepStep Real.sqrt [⟨(-(3 / 2)), (1 / 2)⟩] ⟨(-(1 / 2)), (1 / 2)⟩
        []
        [(⟨0, (-1)⟩, []), (⟨0, (1 / 2)⟩, [⟨4, ⟨⟨⟨2, (1 / 2)⟩, 2⟩, true⟩⟩, ⟨5, ⟨⟨⟨2, (1 / 2)⟩, 2⟩, false⟩⟩]), (⟨4, (1 / 2)⟩, [])]
        ⟨(.node ⟨2, ⟨⟨⟨(-(3 / 2)), (-1)⟩, (3 / 2)⟩, true⟩⟩ .BLACK (.node ⟨3, ⟨⟨⟨(-(3 / 2)), (-1)⟩, (3 / 2)⟩, false⟩⟩ .BLACK .nil (.node ⟨1, ⟨⟨⟨(-1), (1 / 2)⟩, (1 / 2)⟩, false⟩⟩ .RED .nil .nil)) (.node ⟨0, ⟨⟨⟨(-1), (1 / 2)⟩, (1 / 2)⟩, true⟩⟩ .BLACK .nil .nil))⟩
      = some ⟨[⟨(-(3 / 2)), (1 / 2)⟩], [(⟨0, (-1)⟩, []), (⟨0, (1 / 2)⟩, [⟨4, ⟨⟨⟨2, (1 / 2)⟩, 2⟩, true⟩⟩, ⟨5, ⟨⟨⟨2, (1 / 2)⟩, 2⟩, false⟩⟩]), (⟨4, (1 / 2)⟩, [])],
          ⟨(.node ⟨1, ⟨⟨⟨(-1), (1 / 2)⟩, (1 / 2)⟩, false⟩⟩ .BLACK (.node ⟨3, ⟨⟨⟨(-(3 / 2)), (-1)⟩, (3 / 2)⟩, false⟩⟩ .BLACK .nil .nil) (.node ⟨2, ⟨⟨⟨(-(3 / 2)), (-1)⟩, (3 / 2)⟩, true⟩⟩ .BLACK .nil .nil))⟩⟩ := by
    norm_num [sweepStep, RBTree.contains, RBTree.insertPos, insertPosLoop, RBTree.empty,
      containsLoop, Node.size, report, removeAll, reinsert, insertBorn, RBTree.insert, insertFixup,
      blackenRoot, Node.setColor, Path.fill, discover, minArc, maxArc, RBTree.nodeOf, locate, isArc,
      RBTree.lower_bound, RBTree.upper_bound, climbLeft, climbRight, leftmost, rightmost,
      Events.erase, Events.find, Events.set, schedule, RBTree.remove, removeFixup,
      removeFixupLeftRot, removeFixupRightRot, leftRotate, rightRotate, Circle.ne, Point.ne,
      Point.eq, Point.lt, Circle.end_, Point.add, RBTree.lower_bound_at, RBTree.upper_bound_at,
      Node.color, Loc.tree, Loc.key?, spliceMin, Node.minKey, red_ne_black, black_ne_red,
      EvFar_f1, EvFar_f6, EvFar_f7, EvFar_f9, EvFar_f11, EvFar_f12, EvFar_f13, EvFar_f18, EvFar_f21, EvFar_f22, EvFar_f25, EvFar_f26, EvFar_f27, EvFar_f28, EvFar_f34, EvFar_f36, EvFar_f38, EvFar_f39, EvFar_f41, EvFar_f43, EvFar_f45, EvFar_f47, EvFar_f48, EvFar_f49, EvFar_f50, EvFar_f51, EvFar_f53, EvFar_f58, EvFar_f61, EvFar_f62, EvFar_f65, EvFar_f66, EvFar_f67, EvFar_f68, EvFar_f69, EvFar_f71, EvFar_f73, EvFar_f75, EvFar_f76, EvFar_f77, EvFar_f79, EvFar_f84]
  have EvFar_step4 :
      sweepStep Real.sqrt [⟨(-(3 / 2)), (1 / 2)⟩] ⟨0, (-1)⟩
        []
        [(⟨0, (1 / 2)⟩, [⟨4, ⟨⟨⟨2, (1 / 2)⟩, 2⟩, true⟩⟩, ⟨5, ⟨⟨⟨2, (1 / 2)⟩, 2⟩, false⟩⟩]), (⟨4, (1 / 2)⟩, [])]
        ⟨(.node ⟨1, ⟨⟨⟨(-1), (1 / 2)⟩, (1 / 2)⟩, false⟩⟩ .BLACK (.node ⟨3, ⟨⟨⟨(-(3 / 2)), (-1)⟩, (3 / 2)⟩, false⟩⟩ .BLACK .nil .nil) (.node ⟨2, ⟨⟨⟨(-(3 / 2)), (-1)⟩, (3 / 2)⟩, true⟩⟩ .BLACK .nil .nil))⟩
      = some ⟨[⟨(-(3 / 2)), (1 / 2)⟩], [(⟨0, (1 / 2)⟩, [⟨4, ⟨⟨⟨2, (1 / 2)⟩, 2⟩, true⟩⟩, ⟨5, ⟨⟨⟨2, (1 / 2)⟩, 2⟩, false⟩⟩]), (⟨4, (1 / 2)⟩, [])],
          ⟨(.node ⟨1, ⟨⟨⟨(-1), (1 / 2)⟩, (1 / 2)⟩, false⟩⟩ .BLACK .nil (.node ⟨2, ⟨⟨⟨(-(3 / 2)), (-1)⟩, (3 / 2)⟩, true⟩⟩ .RED .nil .nil))⟩⟩ := by
    norm_num [sweepStep, RBTree.contains, RBTree.insertPos, insertPosLoop, RBTree.empty,
      containsLoop, Node.size, report, removeAll, reinsert, insertBorn, RBTree.insert, insertFixup,
      blackenRoot, Node.setColor, Path.fill, discover, minArc, maxArc, RBTree.nodeOf, locate, isArc,
      RBTree.lower_bound, RBTree.upper_bound, climbLeft, climbRight, leftmost, rightmost,
      Events.erase, Events.find, Events.set, schedule, RBTree.remove, removeFixup,
      removeFixupLeftRot, removeFixupRightRot, leftRotate, rightRotate, Circle.ne, Point.ne,
      Point.eq, Point.lt, Circle.end_, Point.add, RBTree.lower_bound_at, RBTree.upper_bound_at,
      Node.color, Loc.tree, Loc.key?, spliceMin, Node.minKey, red_ne_black, black_ne_red,
      EvFar_f1, EvFar_f6, EvFar_f7, EvFar_f9, EvFar_f11, EvFar_f12, EvFar_f13, EvFar_f18, EvFar_f21, EvFar_f22, EvFar_f25, EvFar_f26, EvFar_f27, EvFar_f28, EvFar_f34, EvFar_f36, EvFar_f38, EvFar_f39, EvFar_f41, EvFar_f43, EvFar_f45, EvFar_f47, EvFar_f48, EvFar_f49, EvFar_f50, EvFar_f51, EvFar_f53, EvFar_f58, EvFar_f61, EvFar_f62, EvFar_f65, EvFar_f66, EvFar_f67, EvFar_f68, EvFar_f69, EvFar_f71, EvFar_f73, EvFar_f75, EvFar_f76, EvFar_f77, EvFar_f79, EvFar_f84]
  have EvFar_step5 :
      sweepStep Real.sqrt [⟨(-(3 / 2)), (1 / 2)⟩] ⟨0, (1 / 2)⟩
        [⟨4, ⟨⟨⟨2, (1 / 2)⟩, 2⟩, true⟩⟩, ⟨5, ⟨⟨⟨2, (1 / 2)⟩, 2⟩, false⟩⟩]
        [(⟨4, (1 / 2)⟩, [])]
        ⟨(.node ⟨1, ⟨⟨⟨(-1), (1 / 2)⟩, (1 / 2)⟩, false⟩⟩ .BLACK .nil (.node ⟨2, ⟨⟨⟨(-(3 / 2)), (-1)⟩, (3 / 2)⟩, true⟩⟩ .RED .nil .nil))⟩
      = some ⟨[⟨(-(3 / 2)), (1 / 2)⟩, ⟨0, (1 / 2)⟩], [(⟨4, (1 / 2)⟩, [])],
          ⟨(.node ⟨1, ⟨⟨⟨(-1), (1 / 2)⟩, (1 / 2)⟩, false⟩⟩ .BLACK (.node ⟨2, ⟨⟨⟨(-(3 / 2)), (-1)⟩, (3 / 2)⟩, true⟩⟩ .BLACK .nil (.node ⟨5, ⟨⟨⟨2, (1 / 2)⟩, 2⟩, false⟩⟩ .RED .nil .nil)) (.node ⟨4, ⟨⟨⟨2, (1 / 2)⟩, 2⟩, true⟩⟩ .BLACK .nil .nil))⟩⟩ := by
    norm_num [sweepStep, RBTree.contains, RBTree.insertPos, insertPosLoop, RBTree.empty,
      containsLoop, Node.size, report, removeAll, reinsert, insertBorn, RBTree.insert, insertFixup,
      blackenRoot, Node.setColor, Path.fill, discover, minArc, maxArc, RBTree.nodeOf, locate, isArc,
      RBTree.lower_bound, RBTree.upper_bound, climbLeft, climbRight, leftmost, rightmost,
      Events.erase, Events.find, Events.set, schedule, RBTree.remove, removeFixup,
      removeFixupLeftRot, removeFixupRightRot, leftRotate, rightRotate, Circle.ne, Point.ne,
      Point.eq, Point.lt, Circle.end_, Point.add, RBTree.lower_bound_at, RBTree.upper_bound_at,
      Node.color, Loc.tree, Loc.key?, spliceMin, Node.minKey, red_ne_black, black_ne_red,
      EvFar_f1, EvFar_f6, EvFar_f7, EvFar_f9, EvFar_f11, EvFar_f12, EvFar_f13, EvFar_f18, EvFar_f21, EvFar_f22, EvFar_f25, EvFar_f26, EvFar_f27, EvFar_f28, EvFar_f34, EvFar_f36, EvFar_f38, EvFar_f39, EvFar_f41, EvFar_f43, EvFar_f45, EvFar_f47, EvFar_f48, EvFar_f49, EvFar_f50, EvFar_f51, EvFar_f53, EvFar_f58, EvFar_f61, EvFar_f62, EvFar_f65, EvFar_f66, EvFar_f67, EvFar_f68, EvFar_f69, EvFar_f71, EvFar_f73, EvFar_f75, EvFar_f76, EvFar_f77, EvFar_f79, EvFar_f84]
  have EvFar_step6 :
      sweepStep Real.sqrt [⟨(-(3 / 2)), (1 / 2)⟩, ⟨0, (1 / 2)⟩] ⟨4, (1 / 2)⟩
        []
        []
        ⟨(.node ⟨1, ⟨⟨⟨(-1), (1 / 2)⟩, (1 / 2)⟩, false⟩⟩ .BLACK (.node ⟨2, ⟨⟨⟨(-(3 / 2)), (-1)⟩, (3 / 2)⟩, true⟩⟩ .BLACK .nil (.node ⟨5, ⟨⟨⟨2, (1 / 2)⟩, 2⟩, false⟩⟩ .RED .nil .nil)) (.node ⟨4, ⟨⟨⟨2, (1 / 2)⟩, 2⟩, true⟩⟩ .BLACK .nil .nil))⟩
      = some ⟨[⟨(-(3 / 2)), (1 / 2)⟩, ⟨0, (1 / 2)⟩, ⟨4, (1 / 2)⟩], [],
          ⟨(.node ⟨2, ⟨⟨⟨(-(3 / 2)), (-1)⟩, (3 / 2)⟩, true⟩⟩ .BLACK .nil (.node ⟨1, ⟨⟨⟨(-1), (1 / 2)⟩, (1 / 2)⟩, false⟩⟩ .RED .nil .nil))⟩⟩ := by
    norm_num [sweepStep, RBTree.contains, RBTree.insertPos, insertPosLoop, RBTree.empty,
      containsLoop, Node.size, report, removeAll, reinsert, insertBorn, RBTree.insert, insertFixup,
      blackenRoot, Node.setColor, Path.fill, discover, minArc, maxArc, RBTree.nodeOf, locate, isArc,
      RBTree.lower_bound, RBTree.upper_bound, climbLeft, climbRight, leftmost, rightmost,
      Events.erase, Events.find, Events.set, schedule, RBTree.remove, removeFixup,
      removeFixupLeftRot, removeFixupRightRot, leftRotate, rightRotate, Circle.ne, Point.ne,
      Point.eq, Point.lt, Circle.end_, Point.add, RBTree.lower_bound_at, RBTree.upper_bound_at,
      Node.color, Loc.tree, Loc.key?, spliceMin, Node.minKey, red_ne_black, black_ne_red,
      EvFar_f1, EvFar_f6, EvFar_f7, EvFar_f9, EvFar_f11, EvFar_f12, EvFar_f13, EvFar_f18, EvFar_f21, EvFar_f22, EvFar_f25, EvFar_f26, EvFar_f27, EvFar_f28, EvFar_f34, EvFar_f36, EvFar_f38, EvFar_f39, EvFar_f41, EvFar_f43, EvFar_f45, EvFar_f47, EvFar_f48, EvFar_f49, EvFar_f50, EvFar_f51, EvFar_f53, EvFar_f58, EvFar_f61, EvFar_f62, EvFar_f65, EvFar_f66, EvFar_f67, EvFar_f68, EvFar_f69, EvFar_f71, EvFar_f73, EvFar_f75, EvFar_f76, EvFar_f77, EvFar_f79, EvFar_f84]
  rw [eventLoop, RBTree.empty, EvFar_seed]
  rw [show fuel + 6 = (fuel + 5) + 1 from rfl, sweepLoop, EvFar_step1]
  simp only
  rw [show fuel + 5 = (fuel + 4) + 1 from rfl, sweepLoop, EvFar_step2]
  simp only
  rw [show fuel + 4 = (fuel + 3) + 1 from rfl, sweepLoop, EvFar_step3]
  simp only
  rw [show fuel + 3 = (fuel + 2) + 1 from rfl, sweepLoop, EvFar_step4]
  simp only
  rw [show fuel + 2 = (fuel + 1) + 1 from rfl, sweepLoop, EvFar_step5]
  simp only
  rw [show fuel + 1 = (fuel + 0) + 1 from rfl, sweepLoop, EvFar_step6]
  simp only
  cases fuel <;> rfl

/-! ## The keys one pass of the loop adds to the queue -/

set_option maxHeartbeats 100000000 in
/-- C21 fails at the third pass of the run for the circles of centre (0,0), radius 4, of centre
(0,10), radius 4, and of centre (0,5), radius 3 (the queue at the start and the first two passes
are given first).  The pass processes the event (-3,5), where the third circle begins; the
queue holds the keys (-3,5), (3,5), (4,0), (4,10).  The lower outer neighbour, the upper arc of
the first circle, meets the lower arc of the third circle in the two points (-12/5, 16/5) and
(12/5, 16/5), and the upper outer neighbour gives (12/5, 34/5) and (-12/5, 34/5): after the pass
the queue holds four keys more, none of which was a key before. -/
theorem scheduling_adds_four_keys :
    (seedEvents ([] : Events ℝ) 0 [⟨⟨0, 0⟩, 4⟩, ⟨⟨0, 10⟩, 4⟩, ⟨⟨0, 5⟩, 3⟩]
      = [(⟨(-4), 0⟩, [⟨0, ⟨⟨⟨0, 0⟩, 4⟩, true⟩⟩, ⟨1, ⟨⟨⟨0, 0⟩, 4⟩, false⟩⟩]), (⟨(-4), 10⟩, [⟨2, ⟨⟨⟨0, 10⟩, 4⟩, true⟩⟩, ⟨3, ⟨⟨⟨0, 10⟩, 4⟩, false⟩⟩]), (⟨(-3), 5⟩, [⟨4, ⟨⟨⟨0, 5⟩, 3⟩, true⟩⟩, ⟨5, ⟨⟨⟨0, 5⟩, 3⟩, false⟩⟩]), (⟨3, 5⟩, []), (⟨4, 0⟩, []), (⟨4, 10⟩, [])]) ∧
    (sweepStep Real.sqrt [] ⟨(-4), 0⟩
      [⟨0, ⟨⟨⟨0, 0⟩, 4⟩, true⟩⟩, ⟨1, ⟨⟨⟨0, 0⟩, 4⟩, false⟩⟩]
      [(⟨(-4), 10⟩, [⟨2, ⟨⟨⟨0, 10⟩, 4⟩, true⟩⟩, ⟨3, ⟨⟨⟨0, 10⟩, 4⟩, false⟩⟩]), (⟨(-3), 5⟩, [⟨4, ⟨⟨⟨0, 5⟩, 3⟩, true⟩⟩, ⟨5, ⟨⟨⟨0, 5⟩, 3⟩, false⟩⟩]), (⟨3, 5⟩, []), (⟨4, 0⟩, []), (⟨4, 10⟩, [])]
      ⟨.nil⟩
    = some ⟨[], [(⟨(-4), 10⟩, [⟨2, ⟨⟨⟨0, 10⟩, 4⟩, true⟩⟩, ⟨3, ⟨⟨⟨0, 10⟩, 4⟩, false⟩⟩]), (⟨(-3), 5⟩, [⟨4, ⟨⟨⟨0, 5⟩, 3⟩, true⟩⟩, ⟨5, ⟨⟨⟨0, 5⟩, 3⟩, false⟩⟩]), (⟨3, 5⟩, []), (⟨4, 0⟩, []), (⟨4, 10⟩, [])],
        ⟨(.node ⟨0, ⟨⟨⟨0, 0⟩, 4⟩, true⟩⟩ .BLACK (.node ⟨1, ⟨⟨⟨0, 0⟩, 4⟩, false⟩⟩ .RED .nil .nil) .nil)⟩⟩) ∧
    (sweepStep Real.sqrt [] ⟨(-4), 10⟩
      [⟨2, ⟨⟨⟨0, 10⟩, 4⟩, true⟩⟩, ⟨3, ⟨⟨⟨0, 10⟩, 4⟩, false⟩⟩]
      [(⟨(-3), 5⟩, [⟨4, ⟨⟨⟨0, 5⟩, 3⟩, true⟩⟩, ⟨5, ⟨⟨⟨0, 5⟩, 3⟩, false⟩⟩]), (⟨3, 5⟩, []), (⟨4, 0⟩, []), (⟨4, 10⟩, [])]
      ⟨(.node ⟨0, ⟨⟨⟨0, 0⟩, 4⟩, true⟩⟩ .BLACK (.node ⟨1, ⟨⟨⟨0, 0⟩, 4⟩, false⟩⟩ .RED .nil .nil) .nil)⟩
    = some ⟨[], [(⟨(-3), 5⟩, [⟨4, ⟨⟨⟨0, 5⟩, 3⟩, true⟩⟩, ⟨5, ⟨⟨⟨0, 5⟩, 3⟩, false⟩⟩]), (⟨3, 5⟩, []), (⟨4, 0⟩, []), (⟨4, 10⟩, [])],
        ⟨(.node ⟨0, ⟨⟨⟨0, 0⟩, 4⟩, true⟩⟩ .BLACK (.node ⟨1, ⟨⟨⟨0, 0⟩, 4⟩, false⟩⟩ .BLACK .nil .nil) (.node ⟨2, ⟨⟨⟨0, 10⟩, 4⟩, true⟩⟩ .BLACK (.node ⟨3, ⟨⟨⟨0, 10⟩, 4⟩, false⟩⟩ .RED .nil .nil) .nil))⟩⟩) ∧
    (sweepStep Real.sqrt [] ⟨(-3), 5⟩
      [⟨4, ⟨⟨⟨0, 5⟩, 3⟩, true⟩⟩, ⟨5, ⟨⟨⟨0, 5⟩, 3⟩, false⟩⟩]
      [(⟨3, 5⟩, []), (⟨4, 0⟩, []), (⟨4, 10⟩, [])]
      ⟨(.node ⟨0, ⟨⟨⟨0, 0⟩, 4⟩, true⟩⟩ .BLACK (.node ⟨1, ⟨⟨⟨0, 0⟩, 4⟩, false⟩⟩ .BLACK .nil .nil) (.node ⟨2, ⟨⟨⟨0, 10⟩, 4⟩, true⟩⟩ .BLACK (.node ⟨3, ⟨⟨⟨0, 10⟩, 4⟩, false⟩⟩ .RED .nil .nil) .nil))⟩
    = some ⟨[⟨(-(12 / 5)), (16 / 5)⟩, ⟨(12 / 5), (16 / 5)⟩, ⟨(12 / 5), (34 / 5)⟩, ⟨(-(12 / 5)), (34 / 5)⟩], [(⟨(-(12 / 5)), (16 / 5)⟩, []), (⟨(-(12 / 5)), (34 / 5)⟩, []), (⟨(12 / 5), (16 / 5)⟩, []), (⟨(12 / 5), (34 / 5)⟩, []), (⟨3, 5⟩, []), (⟨4, 0⟩, []), (⟨4, 10⟩, [])],
        ⟨(.node ⟨0, ⟨⟨⟨0, 0⟩, 4⟩, true⟩⟩ .BLACK (.node ⟨1, ⟨⟨⟨0, 0⟩, 4⟩, false⟩⟩ .BLACK .nil .nil) (.node ⟨3, ⟨⟨⟨0, 10⟩, 4⟩, false⟩⟩ .RED (.node ⟨4, ⟨⟨⟨0, 5⟩, 3⟩, true⟩⟩ .BLACK (.node ⟨5, ⟨⟨⟨0, 5⟩, 3⟩, false⟩⟩ .RED .nil .nil) .nil) (.node ⟨2, ⟨⟨⟨0, 10⟩, 4⟩, true⟩⟩ .BLACK .nil .nil)))⟩⟩) ∧
    (Arc.intersect Real.sqrt ⟨⟨⟨0, 0⟩, 4⟩, true⟩ ⟨⟨⟨0, 5⟩, 3⟩, false⟩ = [⟨(-(12 / 5)), (16 / 5)⟩, ⟨(12 / 5), (16 / 5)⟩]) ∧
    (Events.find ([(⟨(-3), 5⟩, [⟨4, ⟨⟨⟨0, 5⟩, 3⟩, true⟩⟩, ⟨5, ⟨⟨⟨0, 5⟩, 3⟩, false⟩⟩]), (⟨3, 5⟩, []), (⟨4, 0⟩, []), (⟨4, 10⟩, [])] : Events ℝ) ⟨(-(12 / 5)), (16 / 5)⟩ = none) ∧
    (Events.find ([(⟨(-3), 5⟩, [⟨4, ⟨⟨⟨0, 5⟩, 3⟩, true⟩⟩, ⟨5, ⟨⟨⟨0, 5⟩, 3⟩, false⟩⟩]), (⟨3, 5⟩, []), (⟨4, 0⟩, []), (⟨4, 10⟩, [])] : Events ℝ) ⟨(12 / 5), (16 / 5)⟩ = none) ∧
    (Events.find ([(⟨(-3), 5⟩, [⟨4, ⟨⟨⟨0, 5⟩, 3⟩, true⟩⟩, ⟨5, ⟨⟨⟨0, 5⟩, 3⟩, false⟩⟩]), (⟨3, 5⟩, []), (⟨4, 0⟩, []), (⟨4, 10⟩, [])] : Events ℝ) ⟨(-(12 / 5)), (34 / 5)⟩ = none) ∧
    (Events.find ([(⟨(-3), 5⟩, [⟨4, ⟨⟨⟨0, 5⟩, 3⟩, true⟩⟩, ⟨5, ⟨⟨⟨0, 5⟩, 3⟩, false⟩⟩]), (⟨3, 5⟩, []), (⟨4, 0⟩, []), (⟨4, 10⟩, [])] : Events ℝ) ⟨(12 / 5), (34 / 5)⟩ = none) ∧
    (([⟨(-(12 / 5)), (16 / 5)⟩, ⟨(12 / 5), (16 / 5)⟩, ⟨(-(12 / 5)), (34 / 5)⟩, ⟨(12 / 5), (34 / 5)⟩] : List (Point ℝ)).Nodup) := by
  have EvSched_at2 : 0 + (11179641 / 125000000) < Arc.at_ Real.sqrt ⟨⟨⟨0, 0⟩, 4⟩, true⟩ (-(3999 / 1000)) ∧
      Arc.at_ Real.sqrt ⟨⟨⟨0, 0⟩, 4⟩, true⟩ (-(3999 / 1000)) < 0 + (89437129 / 1000000000) :=
    at_upper_bounds ⟨⟨0, 0⟩, 4⟩ (-(3999 / 1000)) (11179641 / 125000000) (89437129 / 1000000000) (by norm_num) (by norm_num)
      (abs_le.2 ⟨by norm_num, by norm_num⟩) (by norm_num) (by norm_num)
  have EvSched_at3 : (11179641 / 125000000) < Arc.at_ Real.sqrt ⟨⟨⟨0, 0⟩, 4⟩, true⟩ ((-4) + 1 / 1000) ∧ Arc.at_ Real.sqrt ⟨⟨⟨0, 0⟩, 4⟩, true⟩ ((-4) + 1 / 1000) < (89437129 / 1000000000) := by
    have e : ((-4) + 1 / 1000 : ℝ) = (-(3999 / 1000)) := by norm_num
    rw [e]
    have h := EvSched_at2
    constructor <;> linarith only [h.1, h.2]
  have EvSched_at4 : 0 - (89437129 / 1000000000) < Arc.at_ Real.sqrt ⟨⟨⟨0, 0⟩, 4⟩, false⟩ (-(3999 / 1000)) ∧
      Arc.at_ Real.sqrt ⟨⟨⟨0, 0⟩, 4⟩, false⟩ (-(3999 / 1000)) < 0 - (11179641 / 125000000) :=
    at_lower_bounds ⟨⟨0, 0⟩, 4⟩ (-(3999 / 1000)) (11179641 / 125000000) (89437129 / 1000000000) (by norm_num) (by norm_num)
      (abs_le.2 ⟨by norm_num, by norm_num⟩) (by norm_num) (by norm_num)
  have EvSched_at5 : (-(89437129 / 1000000000)) < Arc.at_ Real.sqrt ⟨⟨⟨0, 0⟩, 4⟩, false⟩ ((-4) + 1 / 1000) ∧ Arc.at_ Real.sqrt ⟨⟨⟨0, 0⟩, 4⟩, false⟩ ((-4) + 1 / 1000) < (-(11179641 / 125000000)) := by
    have e : ((-4) + 1 / 1000 : ℝ) = (-(3999 / 1000)) := by norm_num
    rw [e]
    have h := EvSched_at4
    constructor <;> linarith only [h.1, h.2]
  have EvSched_f1 : aboveAt Real.sqrt ⟨(-4), 0⟩ (some ⟨1, ⟨⟨⟨0, 0⟩, 4⟩, false⟩⟩) ⟨0, ⟨⟨⟨0, 0⟩, 4⟩, true⟩⟩ = true := by
    show decide (Arc.at_ Real.sqrt ⟨⟨⟨0, 0⟩, 4⟩, true⟩ ((-4) + 1 / 1000) ≥ Arc.at_ Real.sqrt ⟨⟨⟨0, 0⟩, 4⟩, false⟩ ((-4) + 1 / 1000))
      = true
    rw [decide_eq_true_eq, ge_iff_le]
    all_goals linarith only [EvSched_at3.1, EvSched_at3.2, EvSched_at5.1, EvSched_at5.2]
  have EvSched_f6 : aboveAt Real.sqrt ⟨(-4), 0⟩ (some ⟨0, ⟨⟨⟨0, 0⟩, 4⟩, true⟩⟩) ⟨1, ⟨⟨⟨0, 0⟩, 4⟩, false⟩⟩ = false := by
    show decide (Arc.at_ Real.sqrt ⟨⟨⟨0, 0⟩, 4⟩, false⟩ ((-4) + 1 / 1000) ≥ Arc.at_ Real.sqrt ⟨⟨⟨0, 0⟩, 4⟩, true⟩ ((-4) + 1 / 1000))
      = false
    rw [decide_eq_false_iff_not, ge_iff_le, not_le]
    all_goals linarith only [EvSched_at5.1, EvSched_at5.2, EvSched_at3.1, EvSched_at3.2]
  have EvSched_at8 : Arc.at_ Real.sqrt ⟨⟨⟨0, 0⟩, 4⟩, true⟩ (-4) = 0 + 0 :=
    at_upper_val ⟨⟨0, 0⟩, 4⟩ (-4) 0 (by norm_num)
      (abs_le.2 ⟨by norm_num, by norm_num⟩) (by norm_num)
  have EvSched_f7 : aboveAt Real.sqrt ⟨(-4), 10⟩ none ⟨0, ⟨⟨⟨0, 0⟩, 4⟩, true⟩⟩ = false := by
    show decide (Arc.at_ Real.sqrt ⟨⟨⟨0, 0⟩, 4⟩, true⟩ (-4) ≥ 10) = false
    rw [decide_eq_false_iff_not, ge_iff_le, not_le]
    rw [EvSched_at8]
    all_goals norm_num
  have EvSched_f9 : Arc.contains Real.sqrt ⟨⟨⟨0, 0⟩, 4⟩, true⟩ ⟨(-4), 10⟩ = false := by
    show decide (|Arc.at_ Real.sqrt ⟨⟨⟨0, 0⟩, 4⟩, true⟩ (-4) - 10| < 1 / 100000) = false
    rw [decide_eq_false_iff_not, not_lt]
    rw [EvSched_at8]
    exact le_abs.2 (Or.inr (by norm_num))
  have EvSched_at11 : 10 + (11179641 / 125000000) < Arc.at_ Real.sqrt ⟨⟨⟨0, 10⟩, 4⟩, true⟩ (-(3999 / 1000)) ∧
      Arc.at_ Real.sqrt ⟨⟨⟨0, 10⟩, 4⟩, true⟩ (-(3999 / 1000)) < 10 + (89437129 / 1000000000) :=
    at_upper_bounds ⟨⟨0, 10⟩, 4⟩ (-(3999 / 1000)) (11179641 / 125000000) (89437129 / 1000000000) (by norm_num) (by norm_num)
      (abs_le.2 ⟨by norm_num, by norm_num⟩) (by norm_num) (by norm_num)
  have EvSched_at12 : (1261179641 / 125000000) < Arc.at_ Real.sqrt ⟨⟨⟨0, 10⟩, 4⟩, true⟩ ((-4) + 1 / 1000) ∧ Arc.at_ Real.sqrt ⟨⟨⟨0, 10⟩, 4⟩, true⟩ ((-4) + 1 / 1000) < (10089437129 / 1000000000) := by
    have e : ((-4) + 1 / 1000 : ℝ) = (-(3999 / 1000)) := by norm_num
    rw [e]
    have h := EvSched_at11
    constructor <;> linarith only [h.1, h.2]
  have EvSched_f10 : aboveAt Real.sqrt ⟨(-4), 10⟩ (some ⟨2, ⟨⟨⟨0, 10⟩, 4⟩, true⟩⟩) ⟨0, ⟨⟨⟨0, 0⟩, 4⟩, true⟩⟩ = false := by
    show decide (Arc.at_ Real.sqrt ⟨⟨⟨0, 0⟩, 4⟩, true⟩ ((-4) + 1 / 1000) ≥ Arc.at_ Real.sqrt ⟨⟨⟨0, 10⟩, 4⟩, true⟩ ((-4) + 1 / 1000))
      = false
    rw [decide_eq_false_iff_not, ge_iff_le, not_le]
    all_goals linarith only [EvSched_at3.1, EvSched_at3.2, EvSched_at12.1, EvSched_at12.2]
  have EvSched_at14 : 10 - (89437129 / 1000000000) < Arc.at_ Real.sqrt ⟨⟨⟨0, 10⟩, 4⟩, false⟩ (-(3999 / 1000)) ∧
      Arc.at_ Real.sqrt ⟨⟨⟨0, 10⟩, 4⟩, false⟩ (-(3999 / 1000)) < 10 - (11179641 / 125000000) :=
    at_lower_bounds ⟨⟨0, 10⟩, 4⟩ (-(3999 / 1000)) (11179641 / 125000000) (89437129 / 1000000000) (by norm_num) (by norm_num)
      (abs_le.2 ⟨by norm_num, by norm_num⟩) (by norm_num) (by norm_num)
  have EvSched_at15 : (9910562871 / 1000000000) < Arc.at_ Real.sqrt ⟨⟨⟨0, 10⟩, 4⟩, false⟩ ((-4) + 1 / 1000) ∧ Arc.at_ Real.sqrt ⟨⟨⟨0, 10⟩, 4⟩, false⟩ ((-4) + 1 / 1000) < (1238820359 / 125000000) := by
    have e : ((-4) + 1 / 1000 : ℝ) = (-(3999 / 1000)) := by norm_num
    rw [e]
    have h := EvSched_at14
    constructor <;> linarith only [h.1, h.2]
  have EvSched_f13 : aboveAt Real.sqrt ⟨(-4), 10⟩ (some ⟨3, ⟨⟨⟨0, 10⟩, 4⟩, false⟩⟩) ⟨0, ⟨⟨⟨0, 0⟩, 4⟩, true⟩⟩ = false := by
    show decide (Arc.at_ Real.sqrt ⟨⟨⟨0, 0⟩, 4⟩, true⟩ ((-4) + 1 / 1000) ≥ Arc.at_ Real.sqrt ⟨⟨⟨0, 10⟩, 4⟩, false⟩ ((-4) + 1 / 1000))
      = false
    rw [decide_eq_false_iff_not, ge_iff_le, not_le]
    all_goals linarith only [EvSched_at3.1, EvSched_at3.2, EvSched_at15.1, EvSched_at15.2]
  have EvSched_f16 : aboveAt Real.sqrt ⟨(-4), 10⟩ (some ⟨3, ⟨⟨⟨0, 10⟩, 4⟩, false⟩⟩) ⟨2, ⟨⟨⟨0, 10⟩, 4⟩, true⟩⟩ = true := by
    show decide (Arc.at_ Real.sqrt ⟨⟨⟨0, 10⟩, 4⟩, true⟩ ((-4) + 1 / 1000) ≥ Arc.at_ Real.sqrt ⟨⟨⟨0, 10⟩, 4⟩, false⟩ ((-4) + 1 / 1000))
      = true
    rw [decide_eq_true_eq, ge_iff_le]
    all_goals linarith only [EvSched_at12.1, EvSched_at12.2, EvSched_at15.1, EvSched_at15.2]
  have EvSched_f17 : aboveAt Real.sqrt ⟨(-4), 10⟩ (some ⟨2, ⟨⟨⟨0, 10⟩, 4⟩, true⟩⟩) ⟨3, ⟨⟨⟨0, 10⟩, 4⟩, false⟩⟩ = false := by
    show decide (Arc.at_ Real.sqrt ⟨⟨⟨0, 10⟩, 4⟩, false⟩ ((-4) + 1 / 1000) ≥ Arc.at_ Real.sqrt ⟨⟨⟨0, 10⟩, 4⟩, true⟩ ((-4) + 1 / 1000))
      = false
    rw [decide_eq_false_iff_not, ge_iff_le, not_le]
    all_goals linarith only [EvSched_at15.1, EvSched_at15.2, EvSched_at12.1, EvSched_at12.2]
  have EvSched_f18 : Arc.intersect Real.sqrt ⟨⟨⟨0, 0⟩, 4⟩, true⟩ ⟨⟨⟨0, 10⟩, 4⟩, false⟩ = [] := by
    unfold Arc.intersect
    simp only
    rw [intersect_far ⟨⟨0, 0⟩, 4⟩ ⟨⟨0, 10⟩, 4⟩ 100 (by norm_num) (by norm_num) (by norm_num)]
    rfl
  have EvSched_at20 : 0 + (2645751311 / 1000000000) < Arc.at_ Real.sqrt ⟨⟨⟨0, 0⟩, 4⟩, true⟩ (-3) ∧
      Arc.at_ Real.sqrt ⟨⟨⟨0, 0⟩, 4⟩, true⟩ (-3) < 0 + (165359457 / 62500000) :=
    at_upper_bounds ⟨⟨0, 0⟩, 4⟩ (-3) (2645751311 / 1000000000) (165359457 / 62500000) (by norm_num) (by norm_num)
      (abs_le.2 ⟨by norm_num, by norm_num⟩) (by norm_num) (by norm_num)
  have EvSched_f19 : aboveAt Real.sqrt ⟨(-3), 5⟩ none ⟨0, ⟨⟨⟨0, 0⟩, 4⟩, true⟩⟩ = false := by
    show decide (Arc.at_ Real.sqrt ⟨⟨⟨0, 0⟩, 4⟩, true⟩ (-3) ≥ 5) = false
    rw [decide_eq_false_iff_not, ge_iff_le, not_le]
    all_goals linarith only [EvSched_at20.1, EvSched_at20.2]
  have EvSched_at22 : 10 + (2645751311 / 1000000000) < Arc.at_ Real.sqrt ⟨⟨⟨0, 10⟩, 4⟩, true⟩ (-3) ∧
      Arc.at_ Real.sqrt ⟨⟨⟨0, 10⟩, 4⟩, true⟩ (-3) < 10 + (165359457 / 62500000) :=
    at_upper_bounds ⟨⟨0, 10⟩, 4⟩ (-3) (2645751311 / 1000000000) (165359457 / 62500000) (by norm_num) (by norm_num)
      (abs_le.2 ⟨by norm_num, by norm_num⟩) (by norm_num) (by norm_num)
  have EvSched_f21 : aboveAt Real.sqrt ⟨(-3), 5⟩ none ⟨2, ⟨⟨⟨0, 10⟩, 4⟩, true⟩⟩ = true := by
    show decide (Arc.at_ Real.sqrt ⟨⟨⟨0, 10⟩, 4⟩, true⟩ (-3) ≥ 5) = true
    rw [decide_eq_true_eq, ge_iff_le]
    all_goals linarith only [EvSched_at22.1, EvSched_at22.2]
  have EvSched_at24 : 10 - (165359457 / 62500000) < Arc.at_ Real.sqrt ⟨⟨⟨0, 10⟩, 4⟩, false⟩ (-3) ∧
      Arc.at_ Real.sqrt ⟨⟨⟨0, 10⟩, 4⟩, false⟩ (-3) < 10 - (2645751311 / 1000000000) :=
    at_lower_bounds ⟨⟨0, 10⟩, 4⟩ (-3) (2645751311 / 1000000000) (165359457 / 62500000) (by norm_num) (by norm_num)
      (abs_le.2 ⟨by norm_num, by norm_num⟩) (by norm_num) (by norm_num)
  have EvSched_f23 : aboveAt Real.sqrt ⟨(-3), 5⟩ none ⟨3, ⟨⟨⟨0, 10⟩, 4⟩, false⟩⟩ = true := by
    show decide (Arc.at_ Real.sqrt ⟨⟨⟨0, 10⟩, 4⟩, false⟩ (-3) ≥ 5) = true
    rw [decide_eq_true_eq, ge_iff_le]
    all_goals linarith only [EvSched_at24.1, EvSched_at24.2]
  have EvSched_f25 : Arc.contains Real.sqrt ⟨⟨⟨0, 10⟩, 4⟩, false⟩ ⟨(-3), 5⟩ = false := by
    show decide (|Arc.at_ Real.sqrt ⟨⟨⟨0, 10⟩, 4⟩, false⟩ (-3) - 5| < 1 / 100000) = false
    rw [decide_eq_false_iff_not, not_lt]
    exact le_abs.2 (Or.inl (by linarith only [EvSched_at24.1, EvSched_at24.2]))
  have EvSched_f26 : Arc.contains Real.sqrt ⟨⟨⟨0, 10⟩, 4⟩, true⟩ ⟨(-3), 5⟩ = false := by
    show decide (|Arc.at_ Real.sqrt ⟨⟨⟨0, 10⟩, 4⟩, true⟩ (-3) - 5| < 1 / 100000) = false
    rw [decide_eq_false_iff_not, not_lt]
    exact le_abs.2 (Or.inl (by linarith only [EvSched_at22.1, EvSched_at22.2]))
  have EvSched_at28 : 0 + (661721193 / 250000000) < Arc.at_ Real.sqrt ⟨⟨⟨0, 0⟩, 4⟩, true⟩ (-(2999 / 1000)) ∧
      Arc.at_ Real.sqrt ⟨⟨⟨0, 0⟩, 4⟩, true⟩ (-(2999 / 1000)) < 0 + (2646884773 / 1000000000) :=
    at_upper_bounds ⟨⟨0, 0⟩, 4⟩ (-(2999 / 1000)) (661721193 / 250000000) (2646884773 / 1000000000) (by norm_num) (by norm_num)
      (abs_le.2 ⟨by norm_num, by norm_num⟩) (by norm_num) (by norm_num)
  have EvSched_at29 : (661721193 / 250000000) < Arc.at_ Real.sqrt ⟨⟨⟨0, 0⟩, 4⟩, true⟩ ((-3) + 1 / 1000) ∧ Arc.at_ Real.sqrt ⟨⟨⟨0, 0⟩, 4⟩, true⟩ ((-3) + 1 / 1000) < (2646884773 / 1000000000) := by
    have e : ((-3) + 1 / 1000 : ℝ) = (-(2999 / 1000)) := by norm_num
    rw [e]
    have h := EvSched_at28
    constructor <;> linarith only [h.1, h.2]
  have EvSched_at30 : 5 + (77453211 / 1000000000) < Arc.at_ Real.sqrt ⟨⟨⟨0, 5⟩, 3⟩, true⟩ (-(2999 / 1000)) ∧
      Arc.at_ Real.sqrt ⟨⟨⟨0, 5⟩, 3⟩, true⟩ (-(2999 / 1000)) < 5 + (19363303 / 250000000) :=
    at_upper_bounds ⟨⟨0, 5⟩, 3⟩ (-(2999 / 1000)) (77453211 / 1000000000) (19363303 / 250000000) (by norm_num) (by norm_num)
      (abs_le.2 ⟨by norm_num, by norm_num⟩) (by norm_num) (by norm_num)
  have EvSched_at31 : (5077453211 / 1000000000) < Arc.at_ Real.sqrt ⟨⟨⟨0, 5⟩, 3⟩, true⟩ ((-3) + 1 / 1000) ∧ Arc.at_ Real.sqrt ⟨⟨⟨0, 5⟩, 3⟩, true⟩ ((-3) + 1 / 1000) < (1269363303 / 250000000) := by
    have e : ((-3) + 1 / 1000 : ℝ) = (-(2999 / 1000)) := by norm_num
    rw [e]
    have h := EvSched_at30
    constructor <;> linarith only [h.1, h.2]
  have EvSched_f27 : aboveAt Real.sqrt ⟨(-3), 5⟩ (some ⟨4, ⟨⟨⟨0, 5⟩, 3⟩, true⟩⟩) ⟨0, ⟨⟨⟨0, 0⟩, 4⟩, true⟩⟩ = false := by
    show decide (Arc.at_ Real.sqrt ⟨⟨⟨0, 0⟩, 4⟩, true⟩ ((-3) + 1 / 1000) ≥ Arc.at_ Real.sqrt ⟨⟨⟨0, 5⟩, 3⟩, true⟩ ((-3) + 1 / 1000))
      = false
    rw [decide_eq_false_iff_not, ge_iff_le, not_le]
    all_goals linarith only [EvSched_at29.1, EvSched_at29.2, EvSched_at31.1, EvSched_at31.2]
  have EvSched_at33 : 10 + (661721193 / 250000000) < Arc.at_ Real.sqrt ⟨⟨⟨0, 10⟩, 4⟩, true⟩ (-(2999 / 1000)) ∧
      Arc.at_ Real.sqrt ⟨⟨⟨0, 10⟩, 4⟩, true⟩ (-(2999 / 1000)) < 10 + (2646884773 / 1000000000) :=
    at_upper_bounds ⟨⟨0, 10⟩, 4⟩ (-(2999 / 1000)) (661721193 / 250000000) (2646884773 / 1000000000) (by norm_num) (by norm_num)
      (abs_le.2 ⟨by norm_num, by norm_num⟩) (by norm_num) (by norm_num)
  have EvSched_at34 : (3161721193 / 250000000) < Arc.at_ Real.sqrt ⟨⟨⟨0, 10⟩, 4⟩, true⟩ ((-3) + 1 / 1000) ∧ Arc.at_ Real.sqrt ⟨⟨⟨0, 10⟩, 4⟩, true⟩ ((-3) + 1 / 1000) < (12646884773 / 1000000000) := by
    have e : ((-3) + 1 / 1000 : ℝ) = (-(2999 / 1000)) := by norm_num
    rw [e]
    have h := EvSched_at33
    constructor <;> linarith only [h.1, h.2]
  have EvSched_f32 : aboveAt Real.sqrt ⟨(-3), 5⟩ (some ⟨4, ⟨⟨⟨0, 5⟩, 3⟩, true⟩⟩) ⟨2, ⟨⟨⟨0, 10⟩, 4⟩, true⟩⟩ = true := by
    show decide (Arc.at_ Real.sqrt ⟨⟨⟨0, 10⟩, 4⟩, true⟩ ((-3) + 1 / 1000) ≥ Arc.at_ Real.sqrt ⟨⟨⟨0, 5⟩, 3⟩, true⟩ ((-3) + 1 / 1000))
      = true
    rw [decide_eq_true_eq, ge_iff_le]
    all_goals linarith only [EvSched_at34.1, EvSched_at34.2, EvSched_at31.1, EvSched_at31.2]
  have EvSched_at36 : 10 - (2646884773 / 1000000000) < Arc.at_ Real.sqrt ⟨⟨⟨0, 10⟩, 4⟩, false⟩ (-(2999 / 1000)) ∧
      Arc.at_ Real.sqrt ⟨⟨⟨0, 10⟩, 4⟩, false⟩ (-(2999 / 1000)) < 10 - (661721193 / 250000000) :=
    at_lower_bounds ⟨⟨0, 10⟩, 4⟩ (-(2999 / 1000)) (661721193 / 250000000) (2646884773 / 1000000000) (by norm_num) (by norm_num)
      (abs_le.2 ⟨by norm_num, by norm_num⟩) (by norm_num) (by norm_num)
  have EvSched_at37 : (7353115227 / 1000000000) < Arc.at_ Real.sqrt ⟨⟨⟨0, 10⟩, 4⟩, false⟩ ((-3) + 1 / 1000) ∧ Arc.at_ Real.sqrt ⟨⟨⟨0, 10⟩, 4⟩, false⟩ ((-3) + 1 / 1000) < (1838278807 / 250000000) := by
    have e : ((-3) + 1 / 1000 : ℝ) = (-(2999 / 1000)) := by norm_num
    rw [e]
    have h := EvSched_at36
    constructor <;> linarith only [h.1, h.2]
  have EvSched_f35 : aboveAt Real.sqrt ⟨(-3), 5⟩ (some ⟨4, ⟨⟨⟨0, 5⟩, 3⟩, true⟩⟩) ⟨3, ⟨⟨⟨0, 10⟩, 4⟩, false⟩⟩ = true := by
    show decide (Arc.at_ Real.sqrt ⟨⟨⟨0, 10⟩, 4⟩, false⟩ ((-3) + 1 / 1000) ≥ Arc.at_ Real.sqrt ⟨⟨⟨0, 5⟩, 3⟩, true⟩ ((-3) + 1 / 1000))
      = true
    rw [decide_eq_true_eq, ge_iff_le]
    all_goals linarith only [EvSched_at37.1, EvSched_at37.2, EvSched_at31.1, EvSched_at31.2]
  have EvSched_at39 : 5 - (19363303 / 250000000) < Arc.at_ Real.sqrt ⟨⟨⟨0, 5⟩, 3⟩, false⟩ (-(2999 / 1000)) ∧
      Arc.at_ Real.sqrt ⟨⟨⟨0, 5⟩, 3⟩, false⟩ (-(2999 / 1000)) < 5 - (77453211 / 1000000000) :=
    at_lower_bounds ⟨⟨0, 5⟩, 3⟩ (-(2999 / 1000)) (77453211 / 1000000000) (19363303 / 250000000) (by norm_num) (by norm_num)
      (abs_le.2 ⟨by norm_num, by norm_num⟩) (by norm_num) (by norm_num)
  have EvSched_at40 : (1230636697 / 250000000) < Arc.at_ Real.sqrt ⟨⟨⟨0, 5⟩, 3⟩, false⟩ ((-3) + 1 / 1000) ∧ Arc.at_ Real.sqrt ⟨⟨⟨0, 5⟩, 3⟩, false⟩ ((-3) + 1 / 1000) < (4922546789 / 1000000000) := by
    have e : ((-3) + 1 / 1000 : ℝ) = (-(2999 / 1000)) := by norm_num
    rw [e]
    have h := EvSched_at39
    constructor <;> linarith only [h.1, h.2]
  have EvSched_f38 : aboveAt Real.sqrt ⟨(-3), 5⟩ (some ⟨5, ⟨⟨⟨0, 5⟩, 3⟩, false⟩⟩) ⟨0, ⟨⟨⟨0, 0⟩, 4⟩, true⟩⟩ = false := by
    show decide (Arc.at_ Real.sqrt ⟨⟨⟨0, 0⟩, 4⟩, true⟩ ((-3) + 1 / 1000) ≥ Arc.at_ Real.sqrt ⟨⟨⟨0, 5⟩, 3⟩, false⟩ ((-3) + 1 / 1000))
      = false
    rw [decide_eq_false_iff_not, ge_iff_le, not_le]
    all_goals linarith only [EvSched_at29.1, EvSched_at29.2, EvSched_at40.1, EvSched_at40.2]
  have EvSched_f41 : aboveAt Real.sqrt ⟨(-3), 5⟩ (some ⟨5, ⟨⟨⟨0, 5⟩, 3⟩, false⟩⟩) ⟨3, ⟨⟨⟨0, 10⟩, 4⟩, false⟩⟩ = true := by
    show decide (Arc.at_ Real.sqrt ⟨⟨⟨0, 10⟩, 4⟩, false⟩ ((-3) + 1 / 1000) ≥ Arc.at_ Real.sqrt ⟨⟨⟨0, 5⟩, 3⟩, false⟩ ((-3) + 1 / 1000))
      = true
    rw [decide_eq_true_eq, ge_iff_le]
    all_goals linarith only [EvSched_at37.1, EvSched_at37.2, EvSched_at40.1, EvSched_at40.2]
  have EvSched_f42 : aboveAt Real.sqrt ⟨(-3), 5⟩ (some ⟨5, ⟨⟨⟨0, 5⟩, 3⟩, false⟩⟩) ⟨4, ⟨⟨⟨0, 5⟩, 3⟩, true⟩⟩ = true := by
    show decide (Arc.at_ Real.sqrt ⟨⟨⟨0, 5⟩, 3⟩, true⟩ ((-3) + 1 / 1000) ≥ Arc.at_ Real.sqrt ⟨⟨⟨0, 5⟩, 3⟩, false⟩ ((-3) + 1 / 1000))
      = true
    rw [decide_eq_true_eq, ge_iff_le]
    all_goals linarith only [EvSched_at31.1, EvSched_at31.2, EvSched_at40.1, EvSched_at40.2]
  have EvSched_f43 : aboveAt Real.sqrt ⟨(-3), 5⟩ (some ⟨4, ⟨⟨⟨0, 5⟩, 3⟩, true⟩⟩) ⟨5, ⟨⟨⟨0, 5⟩, 3⟩, false⟩⟩ = false := by
    show decide (Arc.at_ Real.sqrt ⟨⟨⟨0, 5⟩, 3⟩, false⟩ ((-3) + 1 / 1000) ≥ Arc.at_ Real.sqrt ⟨⟨⟨0, 5⟩, 3⟩, true⟩ ((-3) + 1 / 1000))
      = false
    rw [decide_eq_false_iff_not, ge_iff_le, not_le]
    all_goals linarith only [EvSched_at40.1, EvSched_at40.2, EvSched_at31.1, EvSched_at31.2]
  have EvSched_at45 : Arc.at_ Real.sqrt ⟨⟨⟨0, 0⟩, 4⟩, true⟩ (-(12 / 5)) = 0 + (16 / 5) :=
    at_upper_val ⟨⟨0, 0⟩, 4⟩ (-(12 / 5)) (16 / 5) (by norm_num)
      (abs_le.2 ⟨by norm_num, by norm_num⟩) (by norm_num)
  have EvSched_at46 : Arc.at_ Real.sqrt ⟨⟨⟨0, 5⟩, 3⟩, false⟩ (-(12 / 5)) = 5 - (9 / 5) :=
    at_lower_val ⟨⟨0, 5⟩, 3⟩ (-(12 / 5)) (9 / 5) (by norm_num)
      (abs_le.2 ⟨by norm_num, by norm_num⟩) (by norm_num)
  have EvSched_h47 : (|Arc.at_ Real.sqrt ⟨⟨⟨0, 0⟩, 4⟩, true⟩ (-(12 / 5)) - Arc.at_ Real.sqrt ⟨⟨⟨0, 5⟩, 3⟩, false⟩ (-(12 / 5))| > 1 / 100000) = False := by
    apply eq_false
    rw [gt_iff_lt, not_lt, abs_le]
    rw [EvSched_at45, EvSched_at46]; constructor <;> norm_num
  have EvSched_at48 : Arc.at_ Real.sqrt ⟨⟨⟨0, 0⟩, 4⟩, true⟩ (12 / 5) = 0 + (16 / 5) :=
    at_upper_val ⟨⟨0, 0⟩, 4⟩ (12 / 5) (16 / 5) (by norm_num)
      (abs_le.2 ⟨by norm_num, by norm_num⟩) (by norm_num)
  have EvSched_at49 : Arc.at_ Real.sqrt ⟨⟨⟨0, 5⟩, 3⟩, false⟩ (12 / 5) = 5 - (9 / 5) :=
    at_lower_val ⟨⟨0, 5⟩, 3⟩ (12 / 5) (9 / 5) (by norm_num)
      (abs_le.2 ⟨by norm_num, by norm_num⟩) (by norm_num)
  have EvSched_h50 : (|Arc.at_ Real.sqrt ⟨⟨⟨0, 0⟩, 4⟩, true⟩ (12 / 5) - Arc.at_ Real.sqrt ⟨⟨⟨0, 5⟩, 3⟩, false⟩ (12 / 5)| > 1 / 100000) = False := by
    apply eq_false
    rw [gt_iff_lt, not_lt, abs_le]
    rw [EvSched_at48, EvSched_at49]; constructor <;> norm_num
  have EvSched_f44 : Arc.intersect Real.sqrt ⟨⟨⟨0, 0⟩, 4⟩, true⟩ ⟨⟨⟨0, 5⟩, 3⟩, false⟩ = [⟨(-(12 / 5)), (16 / 5)⟩, ⟨(12 / 5), (16 / 5)⟩] := by
    unfold Arc.intersect
    simp only
    rw [intersect_eval ⟨⟨0, 0⟩, 4⟩ ⟨⟨0, 5⟩, 3⟩ 25 (16 / 25) (12 / 25) (by norm_num) (by norm_num)
      (by norm_num) (by norm_num) (by norm_num) (by norm_num) (by norm_num) (by norm_num)]
    norm_num [Point.add, Point.sub, Point.scale, Point.turn, List.filter, EvSched_h47, EvSched_h50]
  have EvSched_at52 : Arc.at_ Real.sqrt ⟨⟨⟨0, 10⟩, 4⟩, false⟩ (12 / 5) = 10 - (16 / 5) :=
    at_lower_val ⟨⟨0, 10⟩, 4⟩ (12 / 5) (16 / 5) (by norm_num)
      (abs_le.2 ⟨by norm_num, by norm_num⟩) (by norm_num)
  have EvSched_at53 : Arc.at_ Real.sqrt ⟨⟨⟨0, 5⟩, 3⟩, true⟩ (12 / 5) = 5 + (9 / 5) :=
    at_upper_val ⟨⟨0, 5⟩, 3⟩ (12 / 5) (9 / 5) (by norm_num)
      (abs_le.2 ⟨by norm_num, by norm_num⟩) (by norm_num)
  have EvSched_h54 : (|Arc.at_ Real.sqrt ⟨⟨⟨0, 10⟩, 4⟩, false⟩ (12 / 5) - Arc.at_ Real.sqrt ⟨⟨⟨0, 5⟩, 3⟩, true⟩ (12 / 5)| > 1 / 100000) = False := by
    apply eq_false
    rw [gt_iff_lt, not_lt, abs_le]
    rw [EvSched_at52, EvSched_at53]; constructor <;> norm_num
  have EvSched_at55 : Arc.at_ Real.sqrt ⟨⟨⟨0, 10⟩, 4⟩, false⟩ (-(12 / 5)) = 10 - (16 / 5) :=
    at_lower_val ⟨⟨0, 10⟩, 4⟩ (-(12 / 5)) (16 / 5) (by norm_num)
      (abs_le.2 ⟨by norm_num, by norm_num⟩) (by norm_num)
  have EvSched_at56 : Arc.at_ Real.sqrt ⟨⟨⟨0, 5⟩, 3⟩, true⟩ (-(12 / 5)) = 5 + (9 / 5) :=
    at_upper_val ⟨⟨0, 5⟩, 3⟩ (-(12 / 5)) (9 / 5) (by norm_num)
      (abs_le.2 ⟨by norm_num, by norm_num⟩) (by norm_num)
  have EvSched_h57 : (|Arc.at_ Real.sqrt ⟨⟨⟨0, 10⟩, 4⟩, false⟩ (-(12 / 5)) - Arc.at_ Real.sqrt ⟨⟨⟨0, 5⟩, 3⟩, true⟩ (-(12 / 5))| > 1 / 100000) = False := by
    apply eq_false
    rw [gt_iff_lt, not_lt, abs_le]
    rw [EvSched_at55, EvSched_at56]; constructor <;> norm_num
  have EvSched_f51 : Arc.intersect Real.sqrt ⟨⟨⟨0, 10⟩, 4⟩, false⟩ ⟨⟨⟨0, 5⟩, 3⟩, true⟩ = [⟨(12 / 5), (34 / 5)⟩, ⟨(-(12 / 5)), (34 / 5)⟩] := by
    unfold Arc.intersect
    simp only
    rw [intersect_eval ⟨⟨0, 10⟩, 4⟩ ⟨⟨0, 5⟩, 3⟩ 25 (16 / 25) (12 / 25) (by norm_num) (by norm_num)
      (by norm_num) (by norm_num) (by norm_num) (by norm_num) (by norm_num) (by norm_num)]
    norm_num [Point.add, Point.sub, Point.scale, Point.turn, List.filter, EvSched_h54, EvSched_h57]
  have EvSched_seed :
      seedEvents ([] : Events ℝ) 0 [⟨⟨0, 0⟩, 4⟩, ⟨⟨0, 10⟩, 4⟩, ⟨⟨0, 5⟩, 3⟩]
        = [(⟨(-4), 0⟩, [⟨0, ⟨⟨⟨0, 0⟩, 4⟩, true⟩⟩, ⟨1, ⟨⟨⟨0, 0⟩, 4⟩, false⟩⟩]), (⟨(-4), 10⟩, [⟨2, ⟨⟨⟨0, 10⟩, 4⟩, true⟩⟩, ⟨3, ⟨⟨⟨0, 10⟩, 4⟩, false⟩⟩]), (⟨(-3), 5⟩, [⟨4, ⟨⟨⟨0, 5⟩, 3⟩, true⟩⟩, ⟨5, ⟨⟨⟨0, 5⟩, 3⟩, false⟩⟩]), (⟨3, 5⟩, []), (⟨4, 0⟩, []), (⟨4, 10⟩, [])] := by
    norm_num [seedEvents, seedCircle, Events.find, Events.set, Circle.begin, Circle.end_,
      Point.sub, Point.add, Point.lt]
  have EvSched_step1 :
      sweepStep Real.sqrt [] ⟨(-4), 0⟩
        [⟨0, ⟨⟨⟨0, 0⟩, 4⟩, true⟩⟩, ⟨1, ⟨⟨⟨0, 0⟩, 4⟩, false⟩⟩]
        [(⟨(-4), 10⟩, [⟨2, ⟨⟨⟨0, 10⟩, 4⟩, true⟩⟩, ⟨3, ⟨⟨⟨0, 10⟩, 4⟩, false⟩⟩]), (⟨(-3), 5⟩, [⟨4, ⟨⟨⟨0, 5⟩, 3⟩, true⟩⟩, ⟨5, ⟨⟨⟨0, 5⟩, 3⟩, false⟩⟩]), (⟨3, 5⟩, []), (⟨4, 0⟩, []), (⟨4, 10⟩, [])]
        ⟨.nil⟩
      = some ⟨[], [(⟨(-4), 10⟩, [⟨2, ⟨⟨⟨0, 10⟩, 4⟩, true⟩⟩, ⟨3, ⟨⟨⟨0, 10⟩, 4⟩, false⟩⟩]), (⟨(-3), 5⟩, [⟨4, ⟨⟨⟨0, 5⟩, 3⟩, true⟩⟩, ⟨5, ⟨⟨⟨0, 5⟩, 3⟩, false⟩⟩]), (⟨3, 5⟩, []), (⟨4, 0⟩, []), (⟨4, 10⟩, [])],
          ⟨(.node ⟨0, ⟨⟨⟨0, 0⟩, 4⟩, true⟩⟩ .BLACK (.node ⟨1, ⟨⟨⟨0, 0⟩, 4⟩, false⟩⟩ .RED .nil .nil) .nil)⟩⟩ := by
    norm_num [sweepStep, RBTree.contains, RBTree.insertPos, insertPosLoop, RBTree.empty,
      containsLoop, Node.size, report, removeAll, reinsert, insertBorn, RBTree.insert, insertFixup,
      blackenRoot, Node.setColor, Path.fill, discover, minArc, maxArc, RBTree.nodeOf, locate, isArc,
      RBTree.lower_bound, RBTree.upper_bound, climbLeft, climbRight, leftmost, rightmost,
      Events.erase, Events.find, Events.set, schedule, RBTree.remove, removeFixup,
      removeFixupLeftRot, removeFixupRightRot, leftRotate, rightRotate, Circle.ne, Point.ne,
      Point.eq, Point.lt, Circle.end_, Point.add, RBTree.lower_bound_at, RBTree.upper_bound_at,
      Node.color, Loc.tree, Loc.key?, spliceMin, Node.minKey, red_ne_black, black_ne_red,
      EvSched_f1, EvSched_f6, EvSched_f7, EvSched_f9, EvSched_f10, EvSched_f13, EvSched_f16, EvSched_f17, EvSched_f18, EvSched_f19, EvSched_f21, EvSched_f23, EvSched_f25, EvSched_f26, EvSched_f27, EvSched_f32, EvSched_f35, EvSched_f38, EvSched_f41, EvSched_f42, EvSched_f43, EvSched_f44, EvSched_f51]
  have EvSched_step2 :
      sweepStep Real.sqrt [] ⟨(-4), 10⟩
        [⟨2, ⟨⟨⟨0, 10⟩, 4⟩, true⟩⟩, ⟨3, ⟨⟨⟨0, 10⟩, 4⟩, false⟩⟩]
        [(⟨(-3), 5⟩, [⟨4, ⟨⟨⟨0, 5⟩, 3⟩, true⟩⟩, ⟨5, ⟨⟨⟨0, 5⟩, 3⟩, false⟩⟩]), (⟨3, 5⟩, []), (⟨4, 0⟩, []), (⟨4, 10⟩, [])]
        ⟨(.node ⟨0, ⟨⟨⟨0, 0⟩, 4⟩, true⟩⟩ .BLACK (.node ⟨1, ⟨⟨⟨0, 0⟩, 4⟩, false⟩⟩ .RED .nil .nil) .nil)⟩
      = some ⟨[], [(⟨(-3), 5⟩, [⟨4, ⟨⟨⟨0, 5⟩, 3⟩, true⟩⟩, ⟨5, ⟨⟨⟨0, 5⟩, 3⟩, false⟩⟩]), (⟨3, 5⟩, []), (⟨4, 0⟩, []), (⟨4, 10⟩, [])],
          ⟨(.node ⟨0, ⟨⟨⟨0, 0⟩, 4⟩, true⟩⟩ .BLACK (.node ⟨1, ⟨⟨⟨0, 0⟩, 4⟩, false⟩⟩ .BLACK .nil .nil) (.node ⟨2, ⟨⟨⟨0, 10⟩, 4⟩, true⟩⟩ .BLACK (.node ⟨3, ⟨⟨⟨0, 10⟩, 4⟩, false⟩⟩ .RED .nil .nil) .nil))⟩⟩ := by
    norm_num [sweepStep, RBTree.contains, RBTree.insertPos, insertPosLoop, RBTree.empty,
      containsLoop, Node.size, report, removeAll, reinsert, insertBorn, RBTree.insert, insertFixup,
      blackenRoot, Node.setColor, Path.fill, discover, minArc, maxArc, RBTree.nodeOf, locate, isArc,
      RBTree.lower_bound, RBTree.upper_bound, climbLeft, climbRight, leftmost, rightmost,
      Events.erase, Events.find, Events.set, schedule, RBTree.remove, removeFixup,
      removeFixupLeftRot, removeFixupRightRot, leftRotate, rightRotate, Circle.ne, Point.ne,
      Point.eq, Point.lt, Circle.end_, Point.add, RBTree.lower_bound_at, RBTree.upper_bound_at,
      Node.color, Loc.tree, Loc.key?, spliceMin, Node.minKey, red_ne_black, black_ne_red,
      EvSched_f1, EvSched_f6, EvSched_f7, EvSched_f9, EvSched_f10, EvSched_f13, EvSched_f16, EvSched_f17, EvSched_f18, EvSched_f19, EvSched_f21, EvSched_f23, EvSched_f25, EvSched_f26, EvSched_f27, EvSched_f32, EvSched_f35, EvSched_f38, EvSched_f41, EvSched_f42, EvSched_f43, EvSched_f44, EvSched_f51]
  have EvSched_step3 :
      sweepStep Real.sqrt [] ⟨(-3), 5⟩
        [⟨4, ⟨⟨⟨0, 5⟩, 3⟩, true⟩⟩, ⟨5, ⟨⟨⟨0, 5⟩, 3⟩, false⟩⟩]
        [(⟨3, 5⟩, []), (⟨4, 0⟩, []), (⟨4, 10⟩, [])]
        ⟨(.node ⟨0, ⟨⟨⟨0, 0⟩, 4⟩, true⟩⟩ .BLACK (.node ⟨1, ⟨⟨⟨0, 0⟩, 4⟩, false⟩⟩ .BLACK .nil .nil) (.node ⟨2, ⟨⟨⟨0, 10⟩, 4⟩, true⟩⟩ .BLACK (.node ⟨3, ⟨⟨⟨0, 10⟩, 4⟩, false⟩⟩ .RED .nil .nil) .nil))⟩
      = some ⟨[⟨(-(12 / 5)), (16 / 5)⟩, ⟨(12 / 5), (16 / 5)⟩, ⟨(12 / 5), (34 / 5)⟩, ⟨(-(12 / 5)), (34 / 5)⟩], [(⟨(-(12 / 5)), (16 / 5)⟩, []), (⟨(-(12 / 5)), (34 / 5)⟩, []), (⟨(12 / 5), (16 / 5)⟩, []), (⟨(12 / 5), (34 / 5)⟩, []), (⟨3, 5⟩, []), (⟨4, 0⟩, []), (⟨4, 10⟩, [])],
          ⟨(.node ⟨0, ⟨⟨⟨0, 0⟩, 4⟩, true⟩⟩ .BLACK (.node ⟨1, ⟨⟨⟨0, 0⟩, 4⟩, false⟩⟩ .BLACK .nil .nil) (.node ⟨3, ⟨⟨⟨0, 10⟩, 4⟩, false⟩⟩ .RED (.node ⟨4, ⟨⟨⟨0, 5⟩, 3⟩, true⟩⟩ .BLACK (.node ⟨5, ⟨⟨⟨0, 5⟩, 3⟩, false⟩⟩ .RED .nil .nil) .nil) (.node ⟨2, ⟨⟨⟨0, 10⟩, 4⟩, true⟩⟩ .BLACK .nil .nil)))⟩⟩ := by
    norm_num [sweepStep, RBTree.contains, RBTree.insertPos, insertPosLoop, RBTree.empty,
      containsLoop, Node.size, report, removeAll, reinsert, insertBorn, RBTree.insert, insertFixup,
      blackenRoot, Node.setColor, Path.fill, discover, minArc, maxArc, RBTree.nodeOf, locate, isArc,
      RBTree.lower_bound, RBTree.upper_bound, climbLeft, climbRight, leftmost, rightmost,
      Events.erase, Events.find, Events.set, schedule, RBTree.remove, removeFixup,
      removeFixupLeftRot, removeFixupRightRot, leftRotate, rightRotate, Circle.ne, Point.ne,
      Point.eq, Point.lt, Circle.end_, Point.add, RBTree.lower_bound_at, RBTree.upper_bound_at,
      Node.color, Loc.tree, Loc.key?, spliceMin, Node.minKey, red_ne_black, black_ne_red,
      EvSched_f1, EvSched_f6, EvSched_f7, EvSched_f9, EvSched_f10, EvSched_f13, EvSched_f16, EvSched_f17, EvSched_f18, EvSched_f19, EvSched_f21, EvSched_f23, EvSched_f25, EvSched_f26, EvSched_f27, EvSched_f32, EvSched_f35, EvSched_f38, EvSched_f41, EvSched_f42, EvSched_f43, EvSched_f44, EvSched_f51]
  refine ⟨EvSched_seed, EvSched_step1, EvSched_step2, EvSched_step3, EvSched_f44, ?_, ?_, ?_, ?_, ?_⟩
  · norm_num [Events.find, Point.mk.injEq]
  · norm_num [Events.find, Point.mk.injEq]
  · norm_num [Events.find, Point.mk.injEq]
  · norm_num [Events.find, Point.mk.injEq]
  · norm_num [Point.mk.injEq]

/-! ## The event queue -/

theorem Point.lt_asymm (a b : Point F) (h : Point.lt a b = true) : Point.lt b a = false := by
  simp only [Point.lt, Bool.or_eq_true, Bool.and_eq_true, decide_eq_true_eq] at h
  simp only [Point.lt, Bool.or_eq_false_iff, Bool.and_eq_false_iff, decide_eq_false_iff_not]
  rcases h with h | ⟨h1, h2⟩
  · exact ⟨not_lt.2 h.le, Or.inl (ne_of_gt h)⟩
  · exact ⟨not_lt.2 h1.le, Or.inr (not_lt.2 h2.le)⟩

theorem Events.find_mem (ev : Events F) (p : Point F) (v : List (ArcPtr F))
    (h : Events.find ev p = some v) : (p, v) ∈ ev := by
  induction ev with
  | nil => simp [Events.find] at h
  | cons e rest ih =>
    obtain ⟨q, w⟩ := e
    simp only [Events.find] at h
    split at h
    · rename_i hq
      simp only [Option.some.injEq] at h
      subst hq; subst h
      exact List.mem_cons_self _ _
    · exact List.mem_cons_of_mem _ (ih h)

theorem Events.mem_set (ev : Events F) (p : Point F) (v : List (ArcPtr F))
    (e : Point F × List (ArcPtr F)) (h : e ∈ Events.set ev p v) : e ∈ ev ∨ e = (p, v) := by
  induction ev with
  | nil => simp only [Events.set, List.mem_singleton] at h; exact Or.inr h
  | cons e' rest ih =>
    obtain ⟨q, w⟩ := e'
    simp only [Events.set] at h
    split at h
    · rename_i hq
      rcases List.mem_cons.1 h with h | h
      · right; rw [h, hq]
      · left; exact List.mem_cons_of_mem _ h
    · split at h
      · rcases List.mem_cons.1 h with h | h
        · exact Or.inr h
        · exact Or.inl h
      · rcases List.mem_cons.1 h with h | h
        · left; rw [h]; exact List.mem_cons_self _ _
        · rcases ih h with h | h
          · left; exact List.mem_cons_of_mem _ h
          · exact Or.inr h

theorem Events.mem_erase (ev : Events F) (p : Point F) (e : Point F × List (ArcPtr F))
    (h : e ∈ Events.erase ev p) : e ∈ ev := by
  induction ev with
  | nil => simp [Events.erase] at h
  | cons e' rest ih =>
    obtain ⟨q, w⟩ := e'
    simp only [Events.erase] at h
    split at h
    · exact List.mem_cons_of_mem _ h
    · rcases List.mem_cons.1 h with h | h
      · rw [h]; exact List.mem_cons_self _ _
      · exact List.mem_cons_of_mem _ (ih h)

theorem Events.arcs_set_none (ev : Events F) (p : Point F) (v : List (ArcPtr F))
    (h : Events.find ev p = none) : List.Perm (Events.arcs (Events.set ev p v)) (v ++ ev.arcs) := by
  induction ev with
  | nil => simp [Events.set, Events.arcs]
  | cons e' rest ih =>
    obtain ⟨q, w⟩ := e'
    simp only [Events.find] at h
    split at h
    · simp at h
    · rename_i hq
      simp only [Events.set, if_neg hq]
      split
      · simp [Events.arcs]
      · simp only [Events.arcs]
        refine (List.Perm.append_left w (ih h)).trans ?_
        rw [← List.append_assoc, ← List.append_assoc]
        exact List.Perm.append_right _ List.perm_append_comm

theorem Point.lt_trans (a b c : Point F) (h1 : Point.lt a b = true) (h2 : Point.lt b c = true) :
    Point.lt a c = true := by
  simp only [Point.lt, Bool.or_eq_true, Bool.and_eq_true, decide_eq_true_eq] at h1 h2 ⊢
  rcases h1 with h1 | ⟨h1, h1'⟩ <;> rcases h2 with h2 | ⟨h2, h2'⟩
  · exact Or.inl (h1.trans h2)
  · exact Or.inl (h2 ▸ h1)
  · exact Or.inl (h1 ▸ h2)
  · exact Or.inr ⟨h1.trans h2, h1'.trans h2'⟩

theorem Point.lt_of_not (a b : Point F) (h1 : ¬ a = b) (h2 : ¬ Point.lt a b = true) :
    Point.lt b a = true := by
  obtain ⟨ax, ay⟩ := a
  obtain ⟨bx, by_⟩ := b
  simp only [Point.lt, Bool.or_eq_true, Bool.and_eq_true, decide_eq_true_eq, not_or, not_and,
    not_lt, Point.mk.injEq] at h1 h2 ⊢
  rcases lt_or_eq_of_le h2.1 with h | h
  · exact Or.inl h
  · right
    refine ⟨h, lt_of_le_of_ne (h2.2 h.symm) ?_⟩
    intro e; exact h1 h.symm e.symm

theorem Events.set_sorted (ev : Events F) (p : Point F) (v : List (ArcPtr F))
    (h : ev.sorted) : (Events.set ev p v).sorted := by
  induction ev with
  | nil => simp [Events.set, Events.sorted]
  | cons e' rest ih =>
    obtain ⟨q, w⟩ := e'
    unfold Events.sorted at h ih ⊢
    obtain ⟨h1, h2⟩ := List.pairwise_cons.1 h
    simp only [Events.set]
    split
    · exact List.pairwise_cons.2 ⟨h1, h2⟩
    · rename_i hq
      split
      · rename_i hlt
        refine List.pairwise_cons.2 ⟨?_, h⟩
        intro e he
        rcases List.mem_cons.1 he with he | he
        · rw [he]; exact hlt
        · exact Point.lt_trans _ _ _ hlt (h1 e he)
      · rename_i hlt
        refine List.pairwise_cons.2 ⟨?_, ih h2⟩
        intro e he
        rcases Events.mem_set _ _ _ _ he with he | he
        · exact h1 e he
        · rw [he]; exact Point.lt_of_not _ _ (fun e => hq e.symm) hlt

theorem Events.arcs_set_some (ev : Events F) (p : Point F) (w v : List (ArcPtr F))
    (hs : ev.sorted) (h : Events.find ev p = some w) :
    List.Perm (Events.arcs (Events.set ev p (w ++ v))) (v ++ ev.arcs) := by
  induction ev with
  | nil => simp [Events.find] at h
  | cons e' rest ih =>
    obtain ⟨q, w'⟩ := e'
    unfold Events.sorted at hs ih
    obtain ⟨hs1, hs2⟩ := List.pairwise_cons.1 hs
    simp only [Events.find] at h
    split at h
    · rename_i hq
      simp only [Option.some.injEq] at h; subst h
      simp only [Events.set, if_pos hq, Events.arcs]
      rw [← List.append_assoc]
      exact List.Perm.append_right _ List.perm_append_comm
    · rename_i hq
      simp only [Events.set, if_neg hq]
      split
      · rename_i hlt
        have := hs1 _ (Events.find_mem _ _ _ h)
        rw [Point.lt_asymm _ _ hlt] at this
        exact absurd this (by simp)
      · simp only [Events.arcs]
        refine (List.Perm.append_left w' (ih hs2 h)).trans ?_
        rw [← List.append_assoc, ← List.append_assoc]
        exact List.Perm.append_right _ List.perm_append_comm

theorem Events.arcs_set_nil (ev : Events F) (p : Point F) (h : Events.find ev p = none) :
    Events.arcs (Events.set ev p []) = ev.arcs := by
  induction ev with
  | nil => simp [Events.set, Events.arcs]
  | cons e' rest ih =>
    obtain ⟨q, w⟩ := e'
    simp only [Events.find] at h
    split at h
    · simp at h
    · rename_i hq
      simp only [Events.set, if_neg hq]
      split
      · simp [Events.arcs]
      · simp only [Events.arcs, ih h]

/-- The scheduling loops leave the first event in front, store no arc object, and report
only points of the list they walk. -/
theorem schedule_spec (p : Point F) (born : List (ArcPtr F)) (pts : List (Point F))
    (ints : List (Point F)) (rest : Events F) (ints' : List (Point F)) (ev' : Events F)
    (h : schedule p (ints, (p, born) :: rest) pts = (ints', ev')) :
    ∃ rest' : Events F, ev' = (p, born) :: rest' ∧ Events.arcs rest' = rest.arcs ∧
      (∀ e ∈ rest', e ∈ rest ∨ e.2 = []) ∧ (∀ q ∈ ints', q ∈ ints ∨ q ∈ pts) := by
  induction pts generalizing ints rest with
  | nil =>
    simp only [schedule, Prod.mk.injEq] at h
    obtain ⟨rfl, rfl⟩ := h
    exact ⟨rest, rfl, rfl, fun e he => Or.inl he, fun q hq => Or.inl hq⟩
  | cons point pts ih =>
    simp only [schedule] at h
    split at h
    · rename_i hc
      simp only [Bool.and_eq_true, Option.isNone_iff_eq_none] at hc
      obtain ⟨hf, hlt⟩ := hc
      have hp : ¬ p = point := by
        intro e
        simp [Events.find, e] at hf
      have hf' : Events.find rest point = none := by
        simpa [Events.find, hp] using hf
      have hset : Events.set ((p, born) :: rest) point []
          = (p, born) :: Events.set rest point [] := by
        simp [Events.set, hp, Point.lt_asymm _ _ hlt]
      rw [hset] at h
      obtain ⟨rest', e1, e2, e3, e4⟩ := ih _ _ h
      refine ⟨rest', e1, by rw [e2, Events.arcs_set_nil _ _ hf'], ?_, ?_⟩
      · intro e he
        rcases e3 e he with h1 | h1
        · rcases Events.mem_set _ _ _ _ h1 with h2 | h2
          · exact Or.inl h2
          · right; rw [h2]
        · exact Or.inr h1
      · intro q hq
        rcases e4 q hq with h1 | h1
        · rcases List.mem_append.1 h1 with h2 | h2
          · exact Or.inl h2
          · right; simp only [List.mem_singleton] at h2; rw [h2]; exact List.mem_cons_self _ _
        · exact Or.inr (List.mem_cons_of_mem _ h1)
    · obtain ⟨rest', e1, e2, e3, e4⟩ := ih _ _ h
      exact ⟨rest', e1, e2, e3, fun q hq => (e4 q hq).imp id (List.mem_cons_of_mem _)⟩

/-! ## The events the loop starts with -/

theorem seedCircle_spec (cs : List (Circle F)) (ev : Events F) (i : Nat) (c : Circle F)
    (hc : cs[i]? = some c) (hs : ev.sorted)
    (hq : ∀ e ∈ ev, ∀ a ∈ e.2, a.ofInput cs ∧ a.arc.circle.begin = e.1)
    (hb : ∀ a ∈ ev.arcs, a.addr < 2 * i) (hn : (ev.arcs.map fun a => a.addr).Nodup) :
    (seedCircle ev i c).sorted ∧
    (∀ e ∈ seedCircle ev i c, ∀ a ∈ e.2, a.ofInput cs ∧ a.arc.circle.begin = e.1) ∧
    (∀ a ∈ (seedCircle ev i c).arcs, a.addr < 2 * (i + 1)) ∧
    ((seedCircle ev i c).arcs.map fun a => a.addr).Nodup := by
  -- the two arc objects of the circle
  have hu : (⟨2 * i, ⟨c, true⟩⟩ : ArcPtr F).ofInput cs := by
    simp only [ArcPtr.ofInput]
    rw [show 2 * i / 2 = i by omega]; exact hc
  have hl : (⟨2 * i + 1, ⟨c, false⟩⟩ : ArcPtr F).ofInput cs := by
    simp only [ArcPtr.ofInput]
    rw [show (2 * i + 1) / 2 = i by omega]; exact hc
  -- the queue after the entry of `begin`
  obtain ⟨ev1, he1, hs1, hq1, hp1⟩ : ∃ ev1 : Events F,
      (match Events.find ev c.begin with
        | some v => Events.set ev c.begin (v ++ [⟨2 * i, ⟨c, true⟩⟩, ⟨2 * i + 1, ⟨c, false⟩⟩])
        | none => Events.set ev c.begin [⟨2 * i, ⟨c, true⟩⟩, ⟨2 * i + 1, ⟨c, false⟩⟩]) = ev1 ∧
      ev1.sorted ∧ (∀ e ∈ ev1, ∀ a ∈ e.2, a.ofInput cs ∧ a.arc.circle.begin = e.1) ∧
      List.Perm ev1.arcs ([⟨2 * i, ⟨c, true⟩⟩, ⟨2 * i + 1, ⟨c, false⟩⟩] ++ ev.arcs) := by
    cases hf : Events.find ev c.begin with
    | some v =>
      refine ⟨_, rfl, Events.set_sorted _ _ _ hs, ?_, Events.arcs_set_some _ _ _ _ hs hf⟩
      intro e he a ha
      rcases Events.mem_set _ _ _ _ he with he | he
      · exact hq e he a ha
      · subst he
        rcases List.mem_append.1 ha with ha | ha
        · exact hq _ (Events.find_mem _ _ _ hf) a ha
        · simp only [List.mem_cons, List.mem_singleton, List.not_mem_nil, or_false] at ha
          rcases ha with rfl | rfl
          · exact ⟨hu, rfl⟩
          · exact ⟨hl, rfl⟩
    | none =>
      refine ⟨_, rfl, Events.set_sorted _ _ _ hs, ?_, Events.arcs_set_none _ _ _ hf⟩
      intro e he a ha
      rcases Events.mem_set _ _ _ _ he with he | he
      · exact hq e he a ha
      · subst he
        simp only [List.mem_cons, List.mem_singleton, List.not_mem_nil, or_false] at ha
        rcases ha with rfl | rfl
        · exact ⟨hu, rfl⟩
        · exact ⟨hl, rfl⟩
  -- the queue after the entry of `end`
  obtain ⟨hs2, hq2, hp2⟩ : (seedCircle ev i c).sorted ∧
      (∀ e ∈ seedCircle ev i c, ∀ a ∈ e.2, a.ofInput cs ∧ a.arc.circle.begin = e.1) ∧
      (seedCircle ev i c).arcs = ev1.arcs := by
    have hsc : seedCircle ev i c = (match Events.find ev1 c.end_ with
        | some _ => ev1
        | none => Events.set ev1 c.end_ []) := by
      rw [← he1]; rfl
    rw [hsc]
    cases hf : Events.find ev1 c.end_ with
    | some v => exact ⟨hs1, hq1, rfl⟩
    | none =>
      simp only
      refine ⟨Events.set_sorted _ _ _ hs1, ?_, Events.arcs_set_nil _ _ hf⟩
      intro e he a ha
      rcases Events.mem_set _ _ _ _ he with he | he
      · exact hq1 e he a ha
      · subst he; simp at ha
  refine ⟨hs2, hq2, ?_, ?_⟩
  · intro a ha
    rw [hp2] at ha
    have := (hp1.mem_iff).1 ha
    simp only [List.cons_append, List.nil_append, List.mem_cons] at this
    rcases this with rfl | rfl | h
    · simp only; omega
    · simp only; omega
    · have := hb a h; omega
  · rw [hp2]
    refine ((hp1.map _).nodup_iff).2 ?_
    simp only [List.cons_append, List.nil_append, List.map_cons, List.nodup_cons, List.mem_cons,
      List.mem_map, not_or, not_exists, not_and]
    refine ⟨⟨by omega, ?_⟩, ⟨?_, hn⟩⟩
    · intro a ha e; have := hb a ha; omega
    · intro a ha e; have := hb a ha; omega

theorem seedEvents_spec (cs : List (Circle F)) (rest : List (Circle F)) (ev : Events F) (i : Nat)
    (hc : ∀ k c, rest[k]? = some c → cs[i + k]? = some c) (hs : ev.sorted)
    (hq : ∀ e ∈ ev, ∀ a ∈ e.2, a.ofInput cs ∧ a.arc.circle.begin = e.1)
    (hb : ∀ a ∈ ev.arcs, a.addr < 2 * i) (hn : (ev.arcs.map fun a => a.addr).Nodup) :
    (∀ e ∈ seedEvents ev i rest, ∀ a ∈ e.2, a.ofInput cs ∧ a.arc.circle.begin = e.1) ∧
    ((seedEvents ev i rest).arcs.map fun a => a.addr).Nodup := by
  induction rest generalizing ev i with
  | nil => exact ⟨hq, hn⟩
  | cons c rest ih =>
    obtain ⟨h1, h2, h3, h4⟩ := seedCircle_spec cs ev i c (hc 0 c (by simp)) hs hq hb hn
    refine ih _ _ ?_ h1 h2 h3 h4
    intro k c' hk
    have := hc (k + 1) c' (by simpa using hk)
    rw [show i + 1 + k = i + (k + 1) by omega]; exact this

theorem seed_inv (sqrt : F → F) (cs : List (Circle F)) :
    SweepInv sqrt cs ⟨[], seedEvents [] 0 cs, RBTree.empty⟩ := by
  obtain ⟨h1, h2⟩ := seedEvents_spec cs cs [] 0 (fun k c h => by simpa using h)
    (by simp [Events.sorted]) (by simp) (by simp [Events.arcs]) (by simp [Events.arcs])
  exact ⟨by simp, h1, by simp [RBTree.empty, Node.inorder],
    by simpa [RBTree.empty, Node.inorder] using h2⟩

/-! ## Points of a circle pass the test `Arc::contains` -/

theorem contains_begin (c : Circle ℝ) (h : 0 ≤ c.radius) (b : Bool) :
    Arc.contains Real.sqrt ⟨c, b⟩ c.begin = true := by
  have e : c.begin.x - c.center.x = -c.radius := by simp [Circle.begin, Point.sub]
  have h1 : |c.begin.x - c.center.x| ≤ c.radius := by rw [e, abs_neg, abs_of_nonneg h]
  have h2 : c.radius * c.radius - (c.begin.x - c.center.x) * (c.begin.x - c.center.x)
      = 0 * 0 := by rw [e]; ring
  show decide (|Arc.at_ Real.sqrt ⟨c, b⟩ c.begin.x - c.begin.y| < 1 / 100000) = true
  rw [decide_eq_true_eq]
  cases b
  · rw [at_lower_val c _ 0 le_rfl h1 h2]; simp [Circle.begin, Point.sub]
  · rw [at_upper_val c _ 0 le_rfl h1 h2]; simp [Circle.begin, Point.sub]

theorem contains_of_on (c : Circle ℝ) (q : Point ℝ) (h : 0 ≤ c.radius)
    (hq : q.distance Real.sqrt c.center = c.radius) :
    ∃ b, Arc.contains Real.sqrt ⟨c, b⟩ q = true := by
  rw [distance_eq_iff _ _ _ h] at hq
  have h1 : |q.x - c.center.x| ≤ c.radius :=
    abs_le.2 ⟨by nlinarith [mul_self_nonneg (q.y - c.center.y)],
      by nlinarith [mul_self_nonneg (q.y - c.center.y)]⟩
  rcases le_total c.center.y q.y with hy | hy
  · refine ⟨true, ?_⟩
    show decide (|Arc.at_ Real.sqrt ⟨c, true⟩ q.x - q.y| < 1 / 100000) = true
    rw [decide_eq_true_eq, at_upper_val c _ (q.y - c.center.y) (by linarith) h1 (by linarith)]
    norm_num
  · refine ⟨false, ?_⟩
    show decide (|Arc.at_ Real.sqrt ⟨c, false⟩ q.x - q.y| < 1 / 100000) = true
    rw [decide_eq_true_eq, at_lower_val c _ (c.center.y - q.y) (by linarith) h1 (by linarith)]
    norm_num

/-- A point that `Arc::intersect` returns lies on both circles, and the circles differ. -/
theorem arc_intersect_near (a b : Arc ℝ) (q : Point ℝ) (ha : 0 ≤ a.circle.radius)
    (hb : 0 ≤ b.circle.radius) (hq : q ∈ a.intersect Real.sqrt b) :
    a.circle ≠ b.circle ∧ (∃ ba, Arc.contains Real.sqrt ⟨a.circle, ba⟩ q = true) ∧
      ∃ bb, Arc.contains Real.sqrt ⟨b.circle, bb⟩ q = true := by
  have hq' : q ∈ a.circle.intersect Real.sqrt b.circle := (List.mem_filter.1 hq).1
  have hc : a.circle.center ≠ b.circle.center := by
    intro e
    rw [intersect_same_center _ _ e] at hq'
    simp at hq'
  obtain ⟨h1, h2⟩ := (intersect_mem_iff _ _ ha hb hc q).1 hq'
  exact ⟨fun e => hc (by rw [e]), contains_of_on _ _ ha h1, contains_of_on _ _ hb h2⟩

/-! ## The parts of one pass of the loop -/

theorem removeAll_spec (contains : List (ArcPtr F)) (status status' : RBTree (ArcPtr F))
    (h : removeAll status contains = some status') :
    List.Perm ((contains.map fun a => a.addr) ++ status'.root.inorder.map fun a => a.addr)
      (status.root.inorder.map fun a => a.addr) ∧
    ∀ a ∈ status'.root.inorder, a ∈ status.root.inorder := by
  induction contains generalizing status with
  | nil =>
    simp only [removeAll, Option.some.injEq] at h; subst h
    exact ⟨by simp, fun a ha => ha⟩
  | cons arc rest ih =>
    simp only [removeAll] at h
    split at h
    · simp at h
    · rename_i n hn
      split at h
      · simp at h
      · rename_i s1 hs1
        obtain ⟨hfill, k, c, l, r, hnode, hkey⟩ := locate_spec _ _ _ _ hn
        obtain ⟨k', c', l', r', hnode', hperm⟩ := remove_perm n s1 hs1
        rw [hnode] at hnode'
        simp only [Node.node.injEq] at hnode'
        obtain ⟨rfl, -, -, -⟩ := hnode'
        have htree : n.tree.root.inorder = status.root.inorder := by
          simp only [Loc.tree, hfill, Path.fill]
        rw [htree] at hperm
        have hk : k.addr = arc.addr := by simpa [isArc] using hkey
        obtain ⟨ih1, ih2⟩ := ih s1 h
        constructor
        · have := (hperm.map fun a => a.addr)
          simp only [List.map_cons, List.cons_append] at this ⊢
          rw [← hk]
          exact (List.Perm.cons _ ih1).trans this
        · intro a ha
          exact hperm.subset (List.mem_cons_of_mem _ (ih2 a ha))

theorem reinsert_spec (sqrt : F → F) (p : Point F) (cont : List (ArcPtr F))
    (status status' : RBTree (ArcPtr F)) (uandc uandc' : List (ArcPtr F))
    (h : reinsert sqrt p status uandc cont = some (status', uandc')) :
    ∃ added, uandc' = uandc ++ added ∧ List.Sublist added cont ∧
      List.Perm status'.root.inorder (added ++ status.root.inorder) := by
  induction cont generalizing status uandc with
  | nil =>
    simp only [reinsert, Option.some.injEq, Prod.mk.injEq] at h
    obtain ⟨rfl, rfl⟩ := h
    exact ⟨[], by simp, List.Sublist.refl _, by simp⟩
  | cons arc rest ih =>
    simp only [reinsert] at h
    split at h
    · split at h
      · simp at h
      · rename_i s1 hs1
        obtain ⟨added, e1, e2, e3⟩ := ih _ _ h
        refine ⟨arc :: added, by simp [e1], List.Sublist.cons₂ _ e2, ?_⟩
        refine e3.trans ?_
        refine (List.Perm.append_left added (insert_perm _ _ _ _ hs1)).trans ?_
        exact List.perm_middle
    · obtain ⟨added, e1, e2, e3⟩ := ih _ _ h
      exact ⟨added, e1, List.Sublist.cons _ e2, e3⟩

theorem insertBorn_spec (sqrt : F → F) (p : Point F) (born : List (ArcPtr F))
    (status status' : RBTree (ArcPtr F)) (uandc uandc' : List (ArcPtr F))
    (h : insertBorn sqrt p status uandc born = some (status', uandc')) :
    uandc' = uandc ++ born ∧ List.Perm status'.root.inorder (born ++ status.root.inorder) := by
  induction born generalizing status uandc with
  | nil =>
    simp only [insertBorn, Option.some.injEq, Prod.mk.injEq] at h
    obtain ⟨rfl, rfl⟩ := h
    exact ⟨by simp, by simp⟩
  | cons arc rest ih =>
    simp only [insertBorn] at h
    split at h
    · simp at h
    · rename_i s1 hs1
      obtain ⟨e1, e3⟩ := ih _ _ h
      refine ⟨by simp [e1], ?_⟩
      refine e3.trans ?_
      refine (List.Perm.append_left rest (insert_perm _ _ _ _ hs1)).trans ?_
      exact List.perm_middle

theorem minArc_mem (sqrt : F → F) (p : Point F) (a : ArcPtr F) (rest : List (ArcPtr F)) :
    minArc sqrt p a rest ∈ a :: rest := by
  induction rest generalizing a with
  | nil => simp [minArc]
  | cons b rest ih =>
    simp only [minArc]
    split
    · exact List.mem_cons_of_mem _ (ih b)
    · rcases List.mem_cons.1 (ih a) with h | h
      · rw [h]; exact List.mem_cons_self _ _
      · exact List.mem_cons_of_mem _ (List.mem_cons_of_mem _ h)

theorem maxArc_mem (sqrt : F → F) (p : Point F) (a : ArcPtr F) (rest : List (ArcPtr F)) :
    maxArc sqrt p a rest ∈ a :: rest := by
  induction rest generalizing a with
  | nil => simp [maxArc]
  | cons b rest ih =>
    simp only [maxArc]
    split
    · exact List.mem_cons_of_mem _ (ih b)
    · rcases List.mem_cons.1 (ih a) with h | h
      · rw [h]; exact List.mem_cons_self _ _
      · exact List.mem_cons_of_mem _ (List.mem_cons_of_mem _ h)

theorem report_spec (ints : List (Point F)) (p : Point F) (born contains : List (ArcPtr F))
    (q : Point F) (h : q ∈ report ints p born contains) :
    q ∈ ints ∨ (q = p ∧ (born.length > 2 ∨ contains.length > 2 ∨
      ∃ b a, b ∈ born ∧ a ∈ contains ∧ Circle.ne a.arc.circle b.arc.circle = true)) := by
  unfold report at h
  split at h
  · rename_i hb
    rcases List.mem_append.1 h with h | h
    · exact Or.inl h
    · exact Or.inr ⟨by simpa using h, Or.inl hb⟩
  · split at h
    · rename_i hc
      rcases List.mem_append.1 h with h | h
      · exact Or.inl h
      · exact Or.inr ⟨by simpa using h, Or.inr (Or.inl hc)⟩
    · cases born with
      | nil => exact Or.inl h
      | cons b tl =>
        simp only at h
        have key : ∀ (cont : List (ArcPtr F)) (acc : List (Point F)),
            q ∈ cont.foldl
              (fun acc arc => if Circle.ne arc.arc.circle b.arc.circle then acc ++ [p] else acc)
              acc →
            q ∈ acc ∨ (q = p ∧ ∃ a, a ∈ cont ∧ Circle.ne a.arc.circle b.arc.circle = true) := by
          intro cont
          induction cont with
          | nil => intro acc h; exact Or.inl h
          | cons a cont ih =>
            intro acc h
            simp only [List.foldl_cons] at h
            rcases ih _ h with h1 | ⟨h1, a', h2, h3⟩
            · split at h1
              · rename_i hne
                rcases List.mem_append.1 h1 with h1 | h1
                · exact Or.inl h1
                · exact Or.inr ⟨by simpa using h1, a, List.mem_cons_self _ _, hne⟩
              · exact Or.inl h1
            · exact Or.inr ⟨h1, a', List.mem_cons_of_mem _ h2, h3⟩
        rcases key _ _ h with h1 | ⟨h1, a, h2, h3⟩
        · exact Or.inl h1
        · exact Or.inr ⟨h1, Or.inr (Or.inr ⟨b, a, List.mem_cons_self _ _, h2, h3⟩)⟩

/-- The points `discover` reports are returned by `Arc::intersect` for two arcs that are in
the status or were just inserted; the queue keeps its first event and gets no arc object. -/
theorem discover_spec (sqrt : F → F) (p : Point F) (born : List (ArcPtr F))
    (status : RBTree (ArcPtr F)) (uandc : List (ArcPtr F)) (ints : List (Point F))
    (rest : Events F) (ints' : List (Point F)) (ev' : Events F)
    (h : discover sqrt p status uandc (ints, (p, born) :: rest) = some (ints', ev')) :
    ∃ rest' : Events F, ev' = (p, born) :: rest' ∧ Events.arcs rest' = rest.arcs ∧
      (∀ e ∈ rest', e ∈ rest ∨ e.2 = []) ∧
      (∀ q ∈ ints', q ∈ ints ∨ ∃ a b : ArcPtr F,
        (a ∈ status.root.inorder ∨ a ∈ uandc) ∧ (b ∈ status.root.inorder ∨ b ∈ uandc) ∧
          q ∈ a.arc.intersect sqrt b.arc) := by
  have base : ∃ rest' : Events F, (p, born) :: rest = (p, born) :: rest' ∧
      Events.arcs rest' = rest.arcs ∧ (∀ e ∈ rest', e ∈ rest ∨ e.2 = []) ∧
      (∀ q ∈ ints, q ∈ ints ∨ ∃ a b : ArcPtr F,
        (a ∈ status.root.inorder ∨ a ∈ uandc) ∧ (b ∈ status.root.inorder ∨ b ∈ uandc) ∧
          q ∈ a.arc.intersect sqrt b.arc) :=
    ⟨rest, rfl, rfl, fun e he => Or.inl he, fun q hq => Or.inl hq⟩
  -- one scheduling loop, for two arcs as in the statement
  have one : ∀ (a b : ArcPtr F) (ints0 ints1 : List (Point F)) (rest0 : Events F)
      (ev1 : Events F),
      (a ∈ status.root.inorder ∨ a ∈ uandc) → (b ∈ status.root.inorder ∨ b ∈ uandc) →
      Events.arcs rest0 = rest.arcs → (∀ e ∈ rest0, e ∈ rest ∨ e.2 = []) →
      (∀ q ∈ ints0, q ∈ ints ∨ ∃ a b : ArcPtr F,
        (a ∈ status.root.inorder ∨ a ∈ uandc) ∧ (b ∈ status.root.inorder ∨ b ∈ uandc) ∧
          q ∈ a.arc.intersect sqrt b.arc) →
      schedule p (ints0, (p, born) :: rest0) (a.arc.intersect sqrt b.arc) = (ints1, ev1) →
      ∃ rest' : Events F, ev1 = (p, born) :: rest' ∧ Events.arcs rest' = rest.arcs ∧
        (∀ e ∈ rest', e ∈ rest ∨ e.2 = []) ∧
        (∀ q ∈ ints1, q ∈ ints ∨ ∃ a b : ArcPtr F,
          (a ∈ status.root.inorder ∨ a ∈ uandc) ∧ (b ∈ status.root.inorder ∨ b ∈ uandc) ∧
            q ∈ a.arc.intersect sqrt b.arc) := by
    intro a b ints0 ints1 rest0 ev1 ha hb h1 h2 h3 hs
    obtain ⟨rest', e1, e2, e3, e4⟩ := schedule_spec p born _ ints0 rest0 ints1 ev1 hs
    refine ⟨rest', e1, e2.trans h1, ?_, ?_⟩
    · intro e he
      rcases e3 e he with h | h
      · exact h2 e h
      · exact Or.inr h
    · intro q hq
      rcases e4 q hq with h | h
      · exact h3 q h
      · exact Or.inr ⟨a, b, ha, hb, h⟩
  unfold discover at h
  split at h
  · -- no arc was inserted
    split at h
    · rename_i lb ub hlb hub
      split at h
      · rename_i l u hl hu
        simp only [Option.some.injEq] at h
        have ml : l ∈ status.root.inorder := by
          have := key_mem_tree lb l hl
          rwa [lower_bound_at_tree _ _ _ hlb] at this
        have mu : u ∈ status.root.inorder := by
          have := key_mem_tree ub u hu
          rwa [upper_bound_at_tree _ _ _ hub] at this
        exact one l u ints ints' rest ev' (Or.inl ml) (Or.inl mu) rfl
          (fun e he => Or.inl he) (fun q hq => Or.inl hq) h
      · simp at h
    · simp only [Option.some.injEq, Prod.mk.injEq] at h
      obtain ⟨rfl, rfl⟩ := h
      exact base
  · rename_i a tl
    simp only at h
    split at h
    · rename_i nmin nmax hmin hmax
      have tmin : nmin.tree = status := by
        have := (locate_spec _ _ _ _ hmin).1
        simp only [Loc.tree, this, Path.fill]
      have tmax : nmax.tree = status := by
        have := (locate_spec _ _ _ _ hmax).1
        simp only [Loc.tree, this, Path.fill]
      have mmin : minArc sqrt p a tl ∈ status.root.inorder ∨ minArc sqrt p a tl ∈ a :: tl :=
        Or.inr (minArc_mem sqrt p a tl)
      have mmax : maxArc sqrt p a tl ∈ status.root.inorder ∨ maxArc sqrt p a tl ∈ a :: tl :=
        Or.inr (maxArc_mem sqrt p a tl)
      -- the first loop
      obtain ⟨st1, hst1, hrest⟩ : ∃ st1 : List (Point F) × Events F,
          (match RBTree.lower_bound nmin with
            | none => some (ints, (p, born) :: rest)
            | some lb =>
              match lb.key? with
              | some l => some (schedule p (ints, (p, born) :: rest)
                  (l.arc.intersect sqrt (minArc sqrt p a tl).arc))
              | none => none) = some st1 ∧
          (match RBTree.upper_bound nmax with
            | none => some st1
            | some ub =>
              match ub.key? with
              | some u => some (schedule p st1 (u.arc.intersect sqrt (maxArc sqrt p a tl).arc))
              | none => none) = some (ints', ev') := by
        split at h
        · simp at h
        · rename_i st1 hst1
          exact ⟨st1, hst1, h⟩
      obtain ⟨ints1, ev1⟩ := st1
      have step1 : ∃ rest1 : Events F, ev1 = (p, born) :: rest1 ∧
          Events.arcs rest1 = rest.arcs ∧ (∀ e ∈ rest1, e ∈ rest ∨ e.2 = []) ∧
          (∀ q ∈ ints1, q ∈ ints ∨ ∃ a' b : ArcPtr F,
            (a' ∈ status.root.inorder ∨ a' ∈ a :: tl) ∧
              (b ∈ status.root.inorder ∨ b ∈ a :: tl) ∧ q ∈ a'.arc.intersect sqrt b.arc) := by
        split at hst1
        · simp only [Option.some.injEq, Prod.mk.injEq] at hst1
          obtain ⟨rfl, rfl⟩ := hst1
          exact base
        · rename_i lb hlb
          split at hst1
          · rename_i l hl
            simp only [Option.some.injEq] at hst1
            have ml : l ∈ status.root.inorder := by
              have := key_mem_tree lb l hl
              rwa [lower_bound_tree _ _ hlb, tmin] at this
            exact one l _ ints ints1 rest ev1 (Or.inl ml) mmin rfl
              (fun e he => Or.inl he) (fun q hq => Or.inl hq) hst1
          · simp at hst1
      obtain ⟨rest1, rfl, a1, a2, a3⟩ := step1
      split at hrest
      · simp only [Option.some.injEq, Prod.mk.injEq] at hrest
        obtain ⟨rfl, rfl⟩ := hrest
        exact ⟨rest1, rfl, a1, a2, a3⟩
      · rename_i ub hub
        split at hrest
        · rename_i u hu
          simp only [Option.some.injEq] at hrest
          have mu : u ∈ status.root.inorder := by
            have := key_mem_tree ub u hu
            rwa [upper_bound_tree _ _ hub, tmax] at this
          exact one u _ ints1 ints' rest1 ev' (Or.inl mu) mmax a1 a2 a3 hrest
        · simp at hrest
    · simp at h

/-! ## Every reported point is near two circles of the input -/

theorem Circle.ne_self (c : Circle ℝ) : Circle.ne c c = false := by
  simp [Circle.ne, Point.ne, Point.eq]

/-- Among three arc objects with different addresses two belong to different circles. -/
theorem two_positions (l : List (ArcPtr ℝ)) (hl : l.length > 2)
    (hn : (l.map fun a => a.addr).Nodup) :
    ∃ a b, a ∈ l ∧ b ∈ l ∧ a.addr / 2 ≠ b.addr / 2 := by
  match l, hl, hn with
  | x :: y :: z :: tl, _, hn =>
    simp only [List.map_cons, List.nodup_cons, List.mem_cons, not_or] at hn
    obtain ⟨⟨hxy, hxz, -⟩, ⟨hyz, -⟩, -⟩ := hn
    by_cases h1 : x.addr / 2 = y.addr / 2
    · by_cases h2 : x.addr / 2 = z.addr / 2
      · exfalso; omega
      · exact ⟨x, z, by simp, by simp, h2⟩
    · exact ⟨x, y, by simp, by simp, h1⟩

theorem near_of_arcs (cs : List (Circle ℝ)) (q : Point ℝ) (a b : ArcPtr ℝ)
    (ha : a.ofInput cs) (hb : b.ofInput cs) (hne : a.addr / 2 ≠ b.addr / 2)
    (ca : ∃ f, Arc.contains Real.sqrt ⟨a.arc.circle, f⟩ q = true)
    (cb : ∃ f, Arc.contains Real.sqrt ⟨b.arc.circle, f⟩ q = true) :
    NearTwoCircles Real.sqrt cs q := by
  obtain ⟨fa, ca⟩ := ca
  obtain ⟨fb, cb⟩ := cb
  exact ⟨a.addr / 2, b.addr / 2, a.arc.circle, b.arc.circle, fa, fb, hne, ha, hb, ca, cb⟩

theorem radius_of_input (cs : List (Circle ℝ)) (hr : ∀ c ∈ cs, 0 ≤ c.radius) (a : ArcPtr ℝ)
    (ha : a.ofInput cs) : 0 ≤ a.arc.circle.radius :=
  hr _ (List.getElem?_mem ha)

theorem positions_of_ne (cs : List (Circle ℝ)) (a b : ArcPtr ℝ) (ha : a.ofInput cs)
    (hb : b.ofInput cs) (hne : a.arc.circle ≠ b.arc.circle) : a.addr / 2 ≠ b.addr / 2 := by
  intro e
  unfold ArcPtr.ofInput at ha hb
  rw [e, hb] at ha
  exact hne (Option.some.inj ha).symm

theorem sweepStep_inv (cs : List (Circle ℝ)) (hr : ∀ c ∈ cs, 0 ≤ c.radius)
    (ints : List (Point ℝ)) (p : Point ℝ) (born : List (ArcPtr ℝ)) (rest : Events ℝ)
    (status : RBTree (ArcPtr ℝ)) (s' : Sweep ℝ)
    (hinv : SweepInv Real.sqrt cs ⟨ints, (p, born) :: rest, status⟩)
    (h : sweepStep Real.sqrt ints p born rest status = some s') :
    SweepInv Real.sqrt cs s' := by
  obtain ⟨hrep, hque, hsto, hdis⟩ := hinv
  simp only at hrep hque hsto hdis
  unfold sweepStep at h
  split at h
  · simp at h
  rename_i contains hcont
  simp only at h
  split at h
  · simp at h
  rename_i status1 hrem
  split at h
  · simp at h
  rename_i status2 uandc1 hre
  split at h
  · simp at h
  rename_i status3 uandc hbo
  split at h
  · simp at h
  rename_i ints' ev' hdi
  simp only [Option.some.injEq] at h
  subst h
  -- what the parts of the pass do
  have c1 := contains_mem _ _ _ _ hcont
  obtain ⟨r1, r2⟩ := removeAll_spec _ _ _ hrem
  obtain ⟨added, e1, e2, e3⟩ := reinsert_spec _ _ _ _ _ _ _ hre
  obtain ⟨b1, b2⟩ := insertBorn_spec _ _ _ _ _ _ _ hbo
  obtain ⟨rest', d1, d2, d3, d4⟩ := discover_spec _ _ _ _ _ _ _ _ _ hdi
  subst d1
  simp only [List.nil_append] at e1
  subst uandc1
  subst uandc
  have hborn : ∀ a ∈ born, a.ofInput cs ∧ a.arc.circle.begin = p :=
    hque _ (List.mem_cons_self _ _)
  have hadded : ∀ a ∈ added, a.ofInput cs := fun a ha => hsto a (c1 a (e2.subset ha)).1
  have hsto3 : ∀ a ∈ status3.root.inorder, a.ofInput cs := by
    intro a ha
    rcases List.mem_append.1 (b2.subset ha) with h | h
    · exact (hborn a h).1
    · rcases List.mem_append.1 (e3.subset h) with h | h
      · exact hadded a h
      · exact hsto a (r2 a h)
  have huandc : ∀ a ∈ added ++ born, a.ofInput cs := by
    intro a ha
    rcases List.mem_append.1 ha with h | h
    · exact hadded a h
    · exact (hborn a h).1
  -- the addresses
  have hold : List.Perm
      ((contains.map fun a => a.addr) ++ ((status1.root.inorder.map fun a => a.addr) ++
        ((born.map fun a => a.addr) ++ (rest.arcs.map fun a => a.addr))))
      ((status.root.inorder ++ Events.arcs ((p, born) :: rest)).map fun a => a.addr) := by
    simp only [Events.arcs, List.map_append]
    rw [← List.append_assoc]
    exact List.Perm.append_right _ r1
  have hold_nodup := (hold.nodup_iff).2 hdis
  have hcont_nodup : (contains.map fun a => a.addr).Nodup :=
    (List.nodup_append.1 hold_nodup).1
  have hborn_nodup : (born.map fun a => a.addr).Nodup :=
    (List.nodup_append.1 (List.nodup_append.1 (List.nodup_append.1 hold_nodup).2.1).2.1).1
  refine ⟨?_, ?_, hsto3, ?_⟩
  · -- the reported points
    intro q hq
    rcases d4 q hq with hq | ⟨a, b, ha, hb, hq⟩
    · rcases report_spec _ _ _ _ _ hq with hq | ⟨hqp, hcase⟩
      · exact hrep q hq
      · subst hqp
        rcases hcase with hq | hq | ⟨b, a, hb, ha, hne⟩
        · obtain ⟨a, b, ha, hb, hne⟩ := two_positions born hq hborn_nodup
          refine near_of_arcs cs q a b (hborn a ha).1 (hborn b hb).1 hne ⟨true, ?_⟩ ⟨true, ?_⟩
          · rw [← (hborn a ha).2]
            exact contains_begin _ (radius_of_input cs hr a (hborn a ha).1) _
          · rw [← (hborn b hb).2]
            exact contains_begin _ (radius_of_input cs hr b (hborn b hb).1) _
        · obtain ⟨a, b, ha, hb, hne⟩ := two_positions contains hq hcont_nodup
          exact near_of_arcs cs q a b (hsto a (c1 a ha).1) (hsto b (c1 b hb).1) hne
            ⟨a.arc.upper, (c1 a ha).2⟩ ⟨b.arc.upper, (c1 b hb).2⟩
        · have hab : a.arc.circle ≠ b.arc.circle := by
            intro e
            rw [e, Circle.ne_self] at hne
            exact absurd hne (by simp)
          refine near_of_arcs cs q a b (hsto a (c1 a ha).1) (hborn b hb).1
            (positions_of_ne cs a b (hsto a (c1 a ha).1) (hborn b hb).1 hab)
            ⟨a.arc.upper, (c1 a ha).2⟩ ⟨true, ?_⟩
          rw [← (hborn b hb).2]
          exact contains_begin _ (radius_of_input cs hr b (hborn b hb).1) _
    · have ha' : a.ofInput cs := ha.elim (hsto3 a) (huandc a)
      have hb' : b.ofInput cs := hb.elim (hsto3 b) (huandc b)
      obtain ⟨n1, n2, n3⟩ := arc_intersect_near a.arc b.arc q
        (radius_of_input cs hr a ha') (radius_of_input cs hr b hb') hq
      exact near_of_arcs cs q a b ha' hb' (positions_of_ne cs a b ha' hb' n1) n2 n3
  · -- the queue
    intro e he a ha
    have he' : e ∈ rest' := by
      have : e ∈ Events.erase ((p, born) :: rest') p := he
      simpa [Events.erase] using this
    rcases d3 e he' with h | h
    · exact hque e (List.mem_cons_of_mem _ h) a ha
    · rw [h] at ha; simp at ha
  · -- no arc object is stored twice
    have herase : Events.erase ((p, born) :: rest') p = rest' := by simp [Events.erase]
    simp only [herase, List.map_append, d2]
    have hnew : List.Perm ((status3.root.inorder.map fun a => a.addr)
          ++ (rest.arcs.map fun a => a.addr))
        ((added.map fun a => a.addr) ++ ((status1.root.inorder.map fun a => a.addr) ++
          ((born.map fun a => a.addr) ++ (rest.arcs.map fun a => a.addr)))) := by
      have p1 := (b2.trans (List.Perm.append_left born e3)).map fun a => a.addr
      simp only [List.map_append] at p1
      refine (List.Perm.append_right _ p1).trans ?_
      -- born ++ (added ++ status1) ++ rest ~ added ++ (status1 ++ (born ++ rest))
      rw [List.append_assoc]
      refine List.perm_append_comm.trans ?_
      simp only [List.append_assoc]
      refine List.Perm.append_left _ (List.Perm.append_left _ ?_)
      exact List.perm_append_comm
    refine (hnew.nodup_iff).2 ?_
    exact List.Nodup.sublist (List.Sublist.append_right (e2.map _) _) hold_nodup

theorem sweepLoop_sound (cs : List (Circle ℝ)) (hr : ∀ c ∈ cs, 0 ≤ c.radius) (fuel : Nat)
    (s out : Sweep ℝ) (hinv : SweepInv Real.sqrt cs s)
    (h : sweepLoop Real.sqrt fuel s = some out) :
    ∀ q ∈ out.intersections, NearTwoCircles Real.sqrt cs q := by
  induction fuel generalizing s with
  | zero =>
    obtain ⟨ints, ev, status⟩ := s
    cases ev with
    | nil =>
      simp only [sweepLoop, Option.some.injEq] at h; subst h
      exact hinv.reported
    | cons e rest => simp [sweepLoop] at h
  | succ fuel ih =>
    obtain ⟨ints, ev, status⟩ := s
    cases ev with
    | nil =>
      simp only [sweepLoop, Option.some.injEq] at h; subst h
      exact hinv.reported
    | cons e rest =>
      obtain ⟨p, born⟩ := e
      simp only [sweepLoop] at h
      split at h
      · simp at h
      · rename_i s' hs'
        exact ih s' (sweepStep_inv cs hr _ _ _ _ _ _ hinv hs') h

theorem eventLoop_sound (cs : List (Circle ℝ)) (hr : ∀ c ∈ cs, 0 ≤ c.radius)
    (fuel : Nat) (out : Sweep ℝ) (h : eventLoop Real.sqrt fuel cs = some out) :
    ∀ q ∈ out.intersections, NearTwoCircles Real.sqrt cs q :=
  sweepLoop_sound cs hr fuel _ out (seed_inv Real.sqrt cs) h

theorem circleIntersect_sound (cs : List (Circle ℝ)) (hr : ∀ c ∈ cs, 0 ≤ c.radius)
    (fuel : Nat) (out : List (Point ℝ)) (h : circleIntersect Real.sqrt fuel cs = some out) :
    ∀ q ∈ out, NearTwoCircles Real.sqrt cs q := by
  rw [circleIntersect] at h
  cases hl : eventLoop Real.sqrt fuel cs with
  | none => rw [hl] at h; simp at h
  | some s =>
    rw [hl] at h
    simp only at h
    cases hd : s.status.destroy with
    | none => rw [hd] at h; simp at h
    | some u =>
      rw [hd] at h
      simp only [Option.some.injEq] at h
      subst h
      exact eventLoop_sound cs hr fuel s hl

/-! ## The parts of one pass of the loop return -/

theorem removeAll_total (contains : List (ArcPtr F)) (status : RBTree (ArcPtr F))
    (hinv : status.invariant) (hn : (contains.map fun a => a.addr).Nodup)
    (hmem : ∀ a ∈ contains, ∃ k ∈ status.root.inorder, k.addr = a.addr) :
    ∃ status', removeAll status contains = some status' ∧ status'.invariant := by
  induction contains generalizing status with
  | nil => exact ⟨status, rfl, hinv⟩
  | cons arc rest ih =>
    obtain ⟨k0, hk0, hk0a⟩ := hmem arc (List.mem_cons_self _ _)
    obtain ⟨n, hn'⟩ := locate_total (isArc arc) status.root .root
      ⟨k0, hk0, by simp [isArc, hk0a]⟩
    obtain ⟨hfill, k, c, l, r, hnode, hkey⟩ := locate_spec _ _ _ _ hn'
    have htree : n.tree = status := by
      simp only [Loc.tree, hfill, Path.fill]
    obtain ⟨s1, hs1, hs1inv⟩ := remove_invariant n (by rw [hnode]; simp) (by rw [htree]; exact hinv)
    obtain ⟨k', c', l', r', hnode', hperm⟩ := remove_perm n s1 hs1
    rw [hnode] at hnode'
    simp only [Node.node.injEq] at hnode'
    obtain ⟨rfl, -, -, -⟩ := hnode'
    rw [htree] at hperm
    have hk : k.addr = arc.addr := by simpa [isArc] using hkey
    simp only [List.map_cons, List.nodup_cons] at hn
    obtain ⟨s2, hs2, hs2inv⟩ := ih s1 hs1inv hn.2 (by
      intro a ha
      obtain ⟨k1, hk1, hk1a⟩ := hmem a (List.mem_cons_of_mem _ ha)
      rcases List.mem_cons.1 (hperm.symm.subset hk1) with h | h
      · exfalso
        apply hn.1
        rw [← hk, ← h, hk1a]
        exact List.mem_map_of_mem _ ha
      · exact ⟨k1, h, hk1a⟩)
    refine ⟨s2, ?_, hs2inv⟩
    simp only [removeAll, RBTree.nodeOf, hn', hs1, hs2]

theorem reinsert_total (sqrt : F → F) (p : Point F) (cont : List (ArcPtr F))
    (status : RBTree (ArcPtr F)) (uandc : List (ArcPtr F)) (hinv : status.invariant) :
    ∃ status' uandc', reinsert sqrt p status uandc cont = some (status', uandc') ∧
      status'.invariant := by
  induction cont generalizing status uandc with
  | nil => exact ⟨status, uandc, rfl, hinv⟩
  | cons arc rest ih =>
    simp only [reinsert]
    split
    · obtain ⟨s1, hs1, hs1inv⟩ := insert_invariant (aboveAt sqrt p (some arc)) status arc hinv
      rw [hs1]
      exact ih s1 _ hs1inv
    · exact ih status uandc hinv

theorem insertBorn_total (sqrt : F → F) (p : Point F) (born : List (ArcPtr F))
    (status : RBTree (ArcPtr F)) (uandc : List (ArcPtr F)) (hinv : status.invariant) :
    ∃ status' uandc', insertBorn sqrt p status uandc born = some (status', uandc') ∧
      status'.invariant := by
  induction born generalizing status uandc with
  | nil => exact ⟨status, uandc, rfl, hinv⟩
  | cons arc rest ih =>
    simp only [insertBorn]
    obtain ⟨s1, hs1, hs1inv⟩ := insert_invariant (aboveAt sqrt p (some arc)) status arc hinv
    rw [hs1]
    exact ih s1 _ hs1inv

theorem schedule_nil (p : Point F) (st : List (Point F) × Events F) : schedule p st [] = st := by
  obtain ⟨a, b⟩ := st
  rfl

/-- The scheduling of `discover` is at most two scheduling loops, each over the list
`Arc::intersect` returns for two arcs of the status. -/
theorem discover_total (sqrt : F → F) (p : Point F) (status : RBTree (ArcPtr F))
    (uandc : List (ArcPtr F)) (st : List (Point F) × Events F)
    (hu : ∀ a ∈ uandc, a ∈ status.root.inorder) :
    ∃ pts1 pts2, discover sqrt p status uandc st = some (schedule p (schedule p st pts1) pts2) ∧
      (pts1 = [] ∨ ∃ a b : ArcPtr F, a ∈ status.root.inorder ∧ b ∈ status.root.inorder ∧
        pts1 = a.arc.intersect sqrt b.arc) ∧
      (pts2 = [] ∨ ∃ a b : ArcPtr F, a ∈ status.root.inorder ∧ b ∈ status.root.inorder ∧
        pts2 = a.arc.intersect sqrt b.arc) := by
  unfold discover
  cases uandc with
  | nil =>
    simp only
    cases hlb : status.lower_bound_at (aboveAt sqrt p none) with
    | none => exact ⟨[], [], by simp [schedule_nil], Or.inl rfl, Or.inl rfl⟩
    | some lb =>
      cases hub : status.upper_bound_at (aboveAt sqrt p none) with
      | none => exact ⟨[], [], by simp [schedule_nil], Or.inl rfl, Or.inl rfl⟩
      | some ub =>
        obtain ⟨l, hl⟩ := lower_bound_key _ _ hlb
        obtain ⟨u, hu'⟩ := upper_bound_key _ _ hub
        have ml : l ∈ status.root.inorder := by
          have := key_mem_tree lb l hl
          rwa [lower_bound_at_tree _ _ _ hlb] at this
        have mu : u ∈ status.root.inorder := by
          have := key_mem_tree ub u hu'
          rwa [upper_bound_at_tree _ _ _ hub] at this
        refine ⟨l.arc.intersect sqrt u.arc, [], ?_, Or.inr ⟨l, u, ml, mu, rfl⟩, Or.inl rfl⟩
        simp only [hl, hu', schedule_nil]
  | cons a tl =>
    simp only
    have mmin : minArc sqrt p a tl ∈ status.root.inorder := hu _ (minArc_mem sqrt p a tl)
    have mmax : maxArc sqrt p a tl ∈ status.root.inorder := hu _ (maxArc_mem sqrt p a tl)
    obtain ⟨nmin, hmin⟩ := locate_total (isArc (minArc sqrt p a tl)) status.root .root
      ⟨_, mmin, by simp [isArc]⟩
    obtain ⟨nmax, hmax⟩ := locate_total (isArc (maxArc sqrt p a tl)) status.root .root
      ⟨_, mmax, by simp [isArc]⟩
    have tmin : nmin.tree = status := by
      have := (locate_spec _ _ _ _ hmin).1
      simp only [Loc.tree, this, Path.fill]
    have tmax : nmax.tree = status := by
      have := (locate_spec _ _ _ _ hmax).1
      simp only [Loc.tree, this, Path.fill]
    simp only [RBTree.nodeOf, hmin, hmax]
    cases hlb : RBTree.lower_bound nmin with
    | none =>
      simp only
      cases hub : RBTree.upper_bound nmax with
      | none => exact ⟨[], [], by simp [schedule_nil], Or.inl rfl, Or.inl rfl⟩
      | some ub =>
        obtain ⟨u, hu'⟩ := upper_bound_key _ _ hub
        have mu : u ∈ status.root.inorder := by
          have := key_mem_tree ub u hu'
          rwa [upper_bound_tree _ _ hub, tmax] at this
        exact ⟨[], _, by simp only [hu', schedule_nil], Or.inl rfl, Or.inr ⟨u, _, mu, mmax, rfl⟩⟩
    | some lb =>
      obtain ⟨l, hl⟩ := lower_bound_key _ _ hlb
      have ml : l ∈ status.root.inorder := by
        have := key_mem_tree lb l hl
        rwa [lower_bound_tree _ _ hlb, tmin] at this
      simp only [hl]
      cases hub : RBTree.upper_bound nmax with
      | none =>
        exact ⟨_, [], by simp only [schedule_nil], Or.inr ⟨l, _, ml, mmin, rfl⟩, Or.inl rfl⟩
      | some ub =>
        obtain ⟨u, hu'⟩ := upper_bound_key _ _ hub
        have mu : u ∈ status.root.inorder := by
          have := key_mem_tree ub u hu'
          rwa [upper_bound_tree _ _ hub, tmax] at this
        exact ⟨_, _, by simp only [hu'], Or.inr ⟨l, _, ml, mmin, rfl⟩,
          Or.inr ⟨u, _, mu, mmax, rfl⟩⟩

/-! ## The keys of the event queue during one pass of the loop -/

theorem Events.find_eq_none_iff (ev : Events F) (q : Point F) :
    Events.find ev q = none ↔ ∀ e ∈ ev, e.1 ≠ q := by
  induction ev with
  | nil => simp [Events.find]
  | cons e rest ih =>
    obtain ⟨k, v⟩ := e
    simp only [Events.find, List.mem_cons, forall_eq_or_imp]
    split
    · rename_i h
      simp [h]
    · rename_i h
      rw [ih]
      simp [h]

theorem Events.key_mem_set (ev : Events F) (p : Point F) (v : List (ArcPtr F))
    (e : Point F × List (ArcPtr F)) (h : e ∈ ev) : ∃ e' ∈ Events.set ev p v, e'.1 = e.1 := by
  induction ev with
  | nil => simp at h
  | cons e0 rest ih =>
    obtain ⟨q, w⟩ := e0
    simp only [Events.set]
    split
    · rcases List.mem_cons.1 h with h | h
      · exact ⟨(q, v), List.mem_cons_self _ _, by rw [h]⟩
      · exact ⟨e, List.mem_cons_of_mem _ h, rfl⟩
    · split
      · exact ⟨e, List.mem_cons_of_mem _ h, rfl⟩
      · rcases List.mem_cons.1 h with h | h
        · exact ⟨(q, w), List.mem_cons_self _ _, by rw [h]⟩
        · obtain ⟨e', he', hk⟩ := ih h
          exact ⟨e', List.mem_cons_of_mem _ he', hk⟩

/-- The scheduling loop keeps the queue sorted; a new entry has no arcs, its key is a point
of the list the loop walks, lies after `p` and was no key of the queue. -/
theorem schedule_keys (p : Point F) (pts : List (Point F)) (ints : List (Point F))
    (ev : Events F) (ints' : List (Point F)) (ev' : Events F)
    (h : schedule p (ints, ev) pts = (ints', ev')) (hs : ev.sorted) :
    ev'.sorted ∧ ∀ e ∈ ev', e ∈ ev ∨
      (e.2 = [] ∧ e.1 ∈ pts ∧ Point.lt p e.1 = true ∧ Events.find ev e.1 = none) := by
  induction pts generalizing ints ev with
  | nil =>
    simp only [schedule, Prod.mk.injEq] at h
    obtain ⟨rfl, rfl⟩ := h
    exact ⟨hs, fun e he => Or.inl he⟩
  | cons point pts ih =>
    simp only [schedule] at h
    split at h
    · rename_i hc
      simp only [Bool.and_eq_true, Option.isNone_iff_eq_none] at hc
      obtain ⟨hf, hlt⟩ := hc
      obtain ⟨h1, h2⟩ := ih _ _ h (Events.set_sorted _ _ _ hs)
      refine ⟨h1, fun e he => ?_⟩
      rcases h2 e he with h3 | ⟨h3, h4, h5, h6⟩
      · rcases Events.mem_set _ _ _ _ h3 with h7 | h7
        · exact Or.inl h7
        · right
          rw [h7]
          exact ⟨rfl, List.mem_cons_self _ _, hlt, hf⟩
      · right
        refine ⟨h3, List.mem_cons_of_mem _ h4, h5, ?_⟩
        rw [Events.find_eq_none_iff] at h6 ⊢
        intro e0 he0
        obtain ⟨e', he', hk⟩ := Events.key_mem_set ev point [] e0 he0
        rw [← hk]
        exact h6 e' he'
    · obtain ⟨h1, h2⟩ := ih _ _ h hs
      refine ⟨h1, fun e he => ?_⟩
      rcases h2 e he with h3 | ⟨h3, h4, h5, h6⟩
      · exact Or.inl h3
      · exact Or.inr ⟨h3, List.mem_cons_of_mem _ h4, h5, h6⟩

/-- What one pass of the loop is made of, when it returns. -/
theorem sweepStep_parts (sqrt : F → F) (ints : List (Point F)) (p : Point F)
    (born : List (ArcPtr F)) (rest : Events F) (status : RBTree (ArcPtr F)) (s' : Sweep F)
    (h : sweepStep sqrt ints p born rest status = some s') :
    ∃ (contains added : List (ArcPtr F)) (status1 status2 status3 : RBTree (ArcPtr F))
      (pts1 pts2 : List (Point F)),
      status.contains (aboveAt sqrt p none) (fun k => k.arc.contains sqrt p) = some contains ∧
      removeAll status contains = some status1 ∧
      List.Sublist added contains ∧
      List.Perm status2.root.inorder (added ++ status1.root.inorder) ∧
      List.Perm status3.root.inorder (born ++ status2.root.inorder) ∧
      (pts1 = [] ∨ ∃ a b : ArcPtr F, a ∈ status3.root.inorder ∧ b ∈ status3.root.inorder ∧
        pts1 = a.arc.intersect sqrt b.arc) ∧
      (pts2 = [] ∨ ∃ a b : ArcPtr F, a ∈ status3.root.inorder ∧ b ∈ status3.root.inorder ∧
        pts2 = a.arc.intersect sqrt b.arc) ∧
      s' = ⟨(schedule p (schedule p (report ints p born contains, (p, born) :: rest) pts1)
              pts2).1,
            Events.erase (schedule p (schedule p (report ints p born contains,
              (p, born) :: rest) pts1) pts2).2 p,
            status3⟩ := by
  unfold sweepStep at h
  split at h
  · simp at h
  rename_i contains hcont
  simp only at h
  split at h
  · simp at h
  rename_i status1 hrem
  split at h
  · simp at h
  rename_i status2 uandc1 hre
  split at h
  · simp at h
  rename_i status3 uandc hbo
  split at h
  · simp at h
  rename_i ints' ev' hdi
  simp only [Option.some.injEq] at h
  subst h
  obtain ⟨added, e1, e2, e3⟩ := reinsert_spec _ _ _ _ _ _ _ hre
  obtain ⟨b1, b2⟩ := insertBorn_spec _ _ _ _ _ _ _ hbo
  simp only [List.nil_append] at e1
  subst uandc1
  subst uandc
  have hu : ∀ a ∈ added ++ born, a ∈ status3.root.inorder := by
    intro a ha
    apply b2.symm.subset
    rcases List.mem_append.1 ha with h | h
    · exact List.mem_append_right _ (e3.symm.subset (List.mem_append_left _ h))
    · exact List.mem_append_left _ h
  obtain ⟨pts1, pts2, d1, d2, d3⟩ := discover_total sqrt p status3 (added ++ born)
    (report ints p born contains, (p, born) :: rest) hu
  rw [d1, Option.some.injEq] at hdi
  refine ⟨contains, added, status1, status2, status3, pts1, pts2, hcont, hrem, e2, e3, b2,
    d2, d3, ?_⟩
  rw [hdi]

/-- The keys of the queue after one pass for the event `p`: the queue is sorted again, all
its keys lie after `p`, and a key that was not in the queue has no arcs. -/
theorem sweepStep_keys (sqrt : F → F) (ints : List (Point F)) (p : Point F)
    (born : List (ArcPtr F)) (rest : Events F) (status : RBTree (ArcPtr F)) (s' : Sweep F)
    (hs : Events.sorted ((p, born) :: rest))
    (h : sweepStep sqrt ints p born rest status = some s') :
    s'.events.sorted ∧ (∀ e ∈ s'.events, Point.lt p e.1 = true) ∧
      ∀ e ∈ s'.events, e ∈ rest ∨
        (e.2 = [] ∧ Point.lt p e.1 = true ∧ Events.find ((p, born) :: rest) e.1 = none) := by
  obtain ⟨contains, added, status1, status2, status3, pts1, pts2, -, -, -, -, -, -, -, rfl⟩ :=
    sweepStep_parts sqrt ints p born rest status s' h
  simp only
  -- the two scheduling loops
  cases hr1 : schedule p (report ints p born contains, (p, born) :: rest) pts1 with
  | mk i1 ev1 =>
    cases hr2 : schedule p (i1, ev1) pts2 with
    | mk i2 ev2 =>
      obtain ⟨k1, k2⟩ := schedule_keys p pts1 _ _ _ _ hr1 hs
      obtain ⟨rest1, rfl, -, -, -⟩ := schedule_spec p born pts1 _ rest _ _ hr1
      obtain ⟨k3, k4⟩ := schedule_keys p pts2 _ _ _ _ hr2 k1
      obtain ⟨rest2, rfl, -, -, -⟩ := schedule_spec p born pts2 _ rest1 _ _ hr2
      have herase : Events.erase ((p, born) :: rest2) p = rest2 := by simp [Events.erase]
      simp only [herase]
      unfold Events.sorted at k3 ⊢
      obtain ⟨k5, k6⟩ := List.pairwise_cons.1 k3
      refine ⟨k6, fun e he => k5 e he, fun e he => ?_⟩
      have hne : e ≠ (p, born) := by
        intro e0
        have := k5 e he
        rw [e0] at this
        simp [Point.lt] at this
      rcases k4 e (List.mem_cons_of_mem _ he) with h1 | ⟨h1, -, h3, h4⟩
      · rcases k2 e h1 with h5 | ⟨h5, -, h7, h8⟩
        · rcases List.mem_cons.1 h5 with h9 | h9
          · exact absurd h9 hne
          · exact Or.inl h9
        · exact Or.inr ⟨h5, h7, h8⟩
      · right
        refine ⟨h1, h3, ?_⟩
        rw [Events.find_eq_none_iff] at h4 ⊢
        intro e0 he0
        rcases List.mem_cons.1 he0 with h5 | h5
        · rw [h5]; exact h4 _ (List.mem_cons_self _ _)
        · -- an entry of `rest` is still in the queue after the first loop
          have hk : ∀ (pts : List (Point F)) (ints : List (Point F)) (ev : Events F)
              (ints' : List (Point F)) (ev' : Events F),
              schedule p (ints, ev) pts = (ints', ev') → ∀ e ∈ ev, ∃ e' ∈ ev', e'.1 = e.1 := by
            intro pts
            induction pts with
            | nil =>
              intro ints ev ints' ev' h e he
              simp only [schedule, Prod.mk.injEq] at h
              obtain ⟨-, rfl⟩ := h
              exact ⟨e, he, rfl⟩
            | cons point pts ih =>
              intro ints ev ints' ev' h e he
              simp only [schedule] at h
              split at h
              · obtain ⟨e1, he1, hk1⟩ := Events.key_mem_set ev point [] e he
                obtain ⟨e2, he2, hk2⟩ := ih _ _ _ _ h e1 he1
                exact ⟨e2, he2, hk2.trans hk1⟩
              · exact ih _ _ _ _ h e he
          obtain ⟨e', he', hk'⟩ := hk pts1 _ _ _ _ hr1 e0 (List.mem_cons_of_mem _ h5)
          rw [← hk']
          exact h4 e' he'

/-! ## The loop of `circleIntersect` ends -/

theorem mem_endpoints (cs : List (Circle F)) (c : Circle F) (h : c ∈ cs) :
    c.begin ∈ endpoints cs ∧ c.end_ ∈ endpoints cs := by
  induction cs with
  | nil => simp at h
  | cons c0 cs ih =>
    simp only [endpoints, List.mem_cons]
    rcases List.mem_cons.1 h with h | h
    · subst h; exact ⟨Or.inl rfl, Or.inr (Or.inl rfl)⟩
    · exact ⟨Or.inr (Or.inr (ih h).1), Or.inr (Or.inr (ih h).2)⟩

theorem mem_crossingsWith (sqrt : F → F) (a : Circle F) (bs : List (Circle F)) (b : Circle F)
    (q : Point F) (hb : b ∈ bs) (hq : q ∈ a.intersect sqrt b) : q ∈ crossingsWith sqrt a bs := by
  induction bs with
  | nil => simp at hb
  | cons b0 bs ih =>
    simp only [crossingsWith, List.mem_append]
    rcases List.mem_cons.1 hb with h | h
    · subst h; exact Or.inl hq
    · exact Or.inr (ih h)

theorem mem_crossings (sqrt : F → F) (all cs : List (Circle F)) (a b : Circle F) (q : Point F)
    (ha : a ∈ cs) (hb : b ∈ all) (hq : q ∈ a.intersect sqrt b) : q ∈ crossings sqrt all cs := by
  induction cs with
  | nil => simp at ha
  | cons a0 cs ih =>
    simp only [crossings, List.mem_append]
    rcases List.mem_cons.1 ha with h | h
    · subst h; exact Or.inl (mem_crossingsWith sqrt _ _ _ _ hb hq)
    · exact Or.inr (ih h)

theorem circle_of_input (cs : List (Circle F)) (a : ArcPtr F) (h : a.ofInput cs) :
    a.arc.circle ∈ cs :=
  List.getElem?_mem h

theorem seedCircle_keys (cs : List (Circle F)) (ev : Events F) (i : Nat) (c : Circle F)
    (hc : c ∈ cs) (hs : ev.sorted) (hk : ∀ e ∈ ev, e.1 ∈ endpoints cs) :
    (seedCircle ev i c).sorted ∧ ∀ e ∈ seedCircle ev i c, e.1 ∈ endpoints cs := by
  obtain ⟨ev1, he1, hs1, hk1⟩ : ∃ ev1 : Events F,
      (match Events.find ev c.begin with
        | some v => Events.set ev c.begin (v ++ [⟨2 * i, ⟨c, true⟩⟩, ⟨2 * i + 1, ⟨c, false⟩⟩])
        | none => Events.set ev c.begin [⟨2 * i, ⟨c, true⟩⟩, ⟨2 * i + 1, ⟨c, false⟩⟩]) = ev1 ∧
      ev1.sorted ∧ ∀ e ∈ ev1, e.1 ∈ endpoints cs := by
    cases hf : Events.find ev c.begin with
    | some v =>
      refine ⟨_, rfl, Events.set_sorted _ _ _ hs, fun e he => ?_⟩
      rcases Events.mem_set _ _ _ _ he with he | he
      · exact hk e he
      · rw [he]; exact (mem_endpoints cs c hc).1
    | none =>
      refine ⟨_, rfl, Events.set_sorted _ _ _ hs, fun e he => ?_⟩
      rcases Events.mem_set _ _ _ _ he with he | he
      · exact hk e he
      · rw [he]; exact (mem_endpoints cs c hc).1
  have hsc : seedCircle ev i c = (match Events.find ev1 c.end_ with
      | some _ => ev1
      | none => Events.set ev1 c.end_ []) := by
    rw [← he1]; rfl
  rw [hsc]
  cases hf : Events.find ev1 c.end_ with
  | some v => exact ⟨hs1, hk1⟩
  | none =>
    refine ⟨Events.set_sorted _ _ _ hs1, fun e he => ?_⟩
    rcases Events.mem_set _ _ _ _ he with he | he
    · exact hk1 e he
    · rw [he]; exact (mem_endpoints cs c hc).2

theorem seedEvents_keys (cs : List (Circle F)) (rest : List (Circle F)) (ev : Events F)
    (i : Nat) (hc : ∀ c ∈ rest, c ∈ cs) (hs : ev.sorted)
    (hk : ∀ e ∈ ev, e.1 ∈ endpoints cs) :
    (seedEvents ev i rest).sorted ∧ ∀ e ∈ seedEvents ev i rest, e.1 ∈ endpoints cs := by
  induction rest generalizing ev i with
  | nil => exact ⟨hs, hk⟩
  | cons c rest ih =>
    obtain ⟨h1, h2⟩ := seedCircle_keys cs ev i c (hc c (List.mem_cons_self _ _)) hs hk
    exact ih _ _ (fun c' hc' => hc c' (List.mem_cons_of_mem _ hc')) h1 h2

theorem empty_tree_invariant : (RBTree.empty : RBTree (ArcPtr F)).invariant := by
  rw [invariant_iff]
  exact ⟨rfl, trivial, trivial⟩

theorem seed_wf (sqrt : F → F) (cs : List (Circle F)) :
    SweepWF sqrt cs ⟨[], seedEvents [] 0 cs, RBTree.empty⟩ := by
  obtain ⟨h1, h2⟩ := seedEvents_spec cs cs [] 0 (fun k c h => by simpa using h)
    (by simp [Events.sorted]) (by simp) (by simp [Events.arcs]) (by simp [Events.arcs])
  obtain ⟨h3, h4⟩ := seedEvents_keys cs cs [] 0 (fun c hc => hc) (by simp [Events.sorted])
    (by simp)
  exact ⟨empty_tree_invariant, h3,
    fun e he => List.mem_append_left _ (h4 e he),
    fun e he a ha => (h1 e he a ha).1, by simp [RBTree.empty, Node.inorder],
    by simpa [RBTree.empty, Node.inorder] using h2⟩

/-- One pass of the loop returns, and leaves a state the next pass can start from. -/
theorem sweepStep_total (sqrt : F → F) (cs : List (Circle F)) (ints : List (Point F))
    (p : Point F) (born : List (ArcPtr F)) (rest : Events F) (status : RBTree (ArcPtr F))
    (hwf : SweepWF sqrt cs ⟨ints, (p, born) :: rest, status⟩) :
    ∃ s', sweepStep sqrt ints p born rest status = some s' ∧ SweepWF sqrt cs s' := by
  obtain ⟨hbal, hsort, hkeys, hque, hsto, hdis⟩ := hwf
  simp only at hbal hsort hkeys hque hsto hdis
  -- the pass returns
  obtain ⟨contains, hcont, hsub⟩ := contains_total (aboveAt sqrt p none)
    (fun k : ArcPtr F => k.arc.contains sqrt p) status
  have hsn : (status.root.inorder.map fun a => a.addr).Nodup := by
    rw [List.map_append] at hdis
    exact (List.nodup_append.1 hdis).1
  obtain ⟨status1, hrem, hbal1⟩ := removeAll_total contains status hbal
    ((hsub.map _).nodup hsn) (fun a ha => ⟨a, hsub.subset ha, rfl⟩)
  obtain ⟨status2, uandc1, hre, hbal2⟩ := reinsert_total sqrt p contains status1 [] hbal1
  obtain ⟨status3, uandc, hbo, hbal3⟩ := insertBorn_total sqrt p born status2 uandc1 hbal2
  obtain ⟨added, e1, e2, e3⟩ := reinsert_spec _ _ _ _ _ _ _ hre
  obtain ⟨b1, b2⟩ := insertBorn_spec _ _ _ _ _ _ _ hbo
  simp only [List.nil_append] at e1
  subst uandc1
  subst uandc
  have hu : ∀ a ∈ added ++ born, a ∈ status3.root.inorder := by
    intro a ha
    apply b2.symm.subset
    rcases List.mem_append.1 ha with h | h
    · exact List.mem_append_right _ (e3.symm.subset (List.mem_append_left _ h))
    · exact List.mem_append_left _ h
  obtain ⟨pts1, pts2, d1, d2, d3⟩ := discover_total sqrt p status3 (added ++ born)
    (report ints p born contains, (p, born) :: rest) hu
  have hstep : sweepStep sqrt ints p born rest status
      = some ⟨(schedule p (schedule p (report ints p born contains, (p, born) :: rest) pts1)
              pts2).1,
            Events.erase (schedule p (schedule p (report ints p born contains,
              (p, born) :: rest) pts1) pts2).2 p,
            status3⟩ := by
    simp only [sweepStep, hcont, hrem, hre, hbo, d1]
  refine ⟨_, hstep, ?_⟩
  -- the state after the pass
  obtain ⟨r1, r2⟩ := removeAll_spec _ _ _ hrem
  have hsto3 : ∀ a ∈ status3.root.inorder, a.ofInput cs := by
    intro a ha
    rcases List.mem_append.1 (b2.subset ha) with h | h
    · exact hque _ (List.mem_cons_self _ _) a h
    · rcases List.mem_append.1 (e3.subset h) with h | h
      · exact hsto a (hsub.subset (e2.subset h))
      · exact hsto a (r2 a h)
  have hpts : ∀ pts : List (Point F),
      (pts = [] ∨ ∃ a b : ArcPtr F, a ∈ status3.root.inorder ∧ b ∈ status3.root.inorder ∧
        pts = a.arc.intersect sqrt b.arc) → ∀ q ∈ pts, q ∈ candidates sqrt cs := by
    intro pts h q hq
    rcases h with h | ⟨a, b, ha, hb, h⟩
    · rw [h] at hq; simp at hq
    · rw [h] at hq
      exact List.mem_append_right _ (mem_crossings sqrt cs cs _ _ q
        (circle_of_input cs a (hsto3 a ha)) (circle_of_input cs b (hsto3 b hb))
        (List.mem_filter.1 hq).1)
  cases hr1 : schedule p (report ints p born contains, (p, born) :: rest) pts1 with
  | mk i1 ev1 =>
    cases hr2 : schedule p (i1, ev1) pts2 with
    | mk i2 ev2 =>
      obtain ⟨k1, k2⟩ := schedule_keys p pts1 _ _ _ _ hr1 hsort
      obtain ⟨rest1, rfl, s1, s2, -⟩ := schedule_spec p born pts1 _ rest _ _ hr1
      obtain ⟨k3, k4⟩ := schedule_keys p pts2 _ _ _ _ hr2 k1
      obtain ⟨rest2, rfl, s3, s4, -⟩ := schedule_spec p born pts2 _ rest1 _ _ hr2
      have herase : Events.erase ((p, born) :: rest2) p = rest2 := by simp [Events.erase]
      simp only [herase]
      refine ⟨hbal3, (List.pairwise_cons.1 k3).2, ?_, ?_, hsto3, ?_⟩
      · intro e he
        rcases k4 e (List.mem_cons_of_mem _ he) with h1 | ⟨-, h2, -, -⟩
        · rcases k2 e h1 with h3 | ⟨-, h4, -, -⟩
          · exact hkeys e h3
          · exact hpts pts1 d2 _ h4
        · exact hpts pts2 d3 _ h2
      · intro e he a ha
        rcases s4 e he with h1 | h1
        · rcases s2 e h1 with h2 | h2
          · exact hque e (List.mem_cons_of_mem _ h2) a ha
          · rw [h2] at ha; simp at ha
        · rw [h1] at ha; simp at ha
      · -- no arc object is stored twice
        have hold : List.Perm
            ((contains.map fun a => a.addr) ++ ((status1.root.inorder.map fun a => a.addr) ++
              ((born.map fun a => a.addr) ++ (rest.arcs.map fun a => a.addr))))
            ((status.root.inorder ++ Events.arcs ((p, born) :: rest)).map fun a => a.addr) := by
          simp only [Events.arcs, List.map_append]
          rw [← List.append_assoc]
          exact List.Perm.append_right _ r1
        have hold_nodup := (hold.nodup_iff).2 hdis
        simp only [List.map_append, s3, s1]
        have hnew : List.Perm ((status3.root.inorder.map fun a => a.addr)
              ++ (rest.arcs.map fun a => a.addr))
            ((added.map fun a => a.addr) ++ ((status1.root.inorder.map fun a => a.addr) ++
              ((born.map fun a => a.addr) ++ (rest.arcs.map fun a => a.addr)))) := by
          have p1 := (b2.trans (List.Perm.append_left born e3)).map fun a => a.addr
          simp only [List.map_append] at p1
          refine (List.Perm.append_right _ p1).trans ?_
          rw [List.append_assoc]
          refine List.perm_append_comm.trans ?_
          simp only [List.append_assoc]
          refine List.Perm.append_left _ (List.Perm.append_left _ ?_)
          exact List.perm_append_comm
        refine (hnew.nodup_iff).2 ?_
        exact List.Nodup.sublist (List.Sublist.append_right (e2.map _) _) hold_nodup

theorem Point.lt_irrefl (p : Point F) : Point.lt p p = false := by
  simp [Point.lt]

theorem sweepLoop_mono (sqrt : F → F) (fuel k : Nat) (s out : Sweep F)
    (h : sweepLoop sqrt fuel s = some out) : sweepLoop sqrt (fuel + k) s = some out := by
  induction fuel generalizing s with
  | zero =>
    obtain ⟨ints, ev, status⟩ := s
    cases ev with
    | nil =>
      simp only [sweepLoop, Option.some.injEq] at h
      cases k <;> simp [sweepLoop, h]
    | cons e rest => simp [sweepLoop] at h
  | succ fuel ih =>
    obtain ⟨ints, ev, status⟩ := s
    cases ev with
    | nil =>
      simp only [sweepLoop, Option.some.injEq] at h
      rw [show fuel + 1 + k = (fuel + k) + 1 by omega]
      simp [sweepLoop, h]
    | cons e rest =>
      obtain ⟨p, born⟩ := e
      rw [show fuel + 1 + k = (fuel + k) + 1 by omega]
      simp only [sweepLoop] at h ⊢
      split at h
      · simp at h
      · rename_i s' hs'
        exact ih s' h

/-- The loop ends within as many passes as there are candidate points that are not before
the first key of the queue. -/
theorem sweepLoop_total (sqrt : F → F) (cs : List (Circle F)) (n : Nat) (s : Sweep F)
    (hwf : SweepWF sqrt cs s)
    (hn : ∀ p born rest, s.events = (p, born) :: rest →
      ((candidates sqrt cs).toFinset.filter fun q => Point.lt q p = false).card ≤ n) :
    ∃ out, sweepLoop sqrt n s = some out ∧ out.events = [] := by
  induction n generalizing s with
  | zero =>
    obtain ⟨ints, ev, status⟩ := s
    cases ev with
    | nil => exact ⟨⟨ints, [], status⟩, rfl, rfl⟩
    | cons e rest =>
      obtain ⟨p, born⟩ := e
      exfalso
      have h0 := hn p born rest rfl
      have hp : p ∈ (candidates sqrt cs).toFinset.filter fun q => Point.lt q p = false := by
        simp only [Finset.mem_filter, List.mem_toFinset]
        exact ⟨hwf.keys _ (List.mem_cons_self _ _), Point.lt_irrefl p⟩
      have := Finset.card_pos.2 ⟨p, hp⟩
      omega
  | succ n ih =>
    obtain ⟨ints, ev, status⟩ := s
    cases ev with
    | nil => exact ⟨⟨ints, [], status⟩, rfl, rfl⟩
    | cons e rest =>
      obtain ⟨p, born⟩ := e
      obtain ⟨s', hs', hwf'⟩ := sweepStep_total sqrt cs ints p born rest status hwf
      obtain ⟨-, hgt, -⟩ := sweepStep_keys sqrt ints p born rest status s' hwf.sorted hs'
      simp only [sweepLoop, hs']
      apply ih s' hwf'
      intro p' born' rest' he
      have hlt : Point.lt p p' = true := hgt (p', born') (by rw [he]; exact List.mem_cons_self _ _)
      have hp : p ∈ (candidates sqrt cs).toFinset.filter fun q => Point.lt q p = false := by
        simp only [Finset.mem_filter, List.mem_toFinset]
        exact ⟨hwf.keys _ (List.mem_cons_self _ _), Point.lt_irrefl p⟩
      have hsub : ((candidates sqrt cs).toFinset.filter fun q => Point.lt q p' = false) ⊂
          ((candidates sqrt cs).toFinset.filter fun q => Point.lt q p = false) := by
        rw [Finset.ssubset_iff_of_subset]
        · refine ⟨p, hp, ?_⟩
          simp only [Finset.mem_filter, List.mem_toFinset, not_and]
          intro _
          rw [hlt]; simp
        · intro q hq
          simp only [Finset.mem_filter, List.mem_toFinset] at hq ⊢
          refine ⟨hq.1, ?_⟩
          by_contra hc
          have hqp : Point.lt q p = true := by simpa using hc
          rw [Point.lt_trans _ _ _ hqp hlt] at hq
          simp at hq
      have h1 := Finset.card_lt_card hsub
      have h2 := hn p born rest rfl
      omega

/-- The event loop of `circleIntersect` ends for every input, with an empty queue, whenever
the bound allows as many passes as there are candidate points. -/
theorem eventLoop_total (sqrt : F → F) (cs : List (Circle F)) (fuel : Nat)
    (h : (candidates sqrt cs).length ≤ fuel) :
    ∃ out, eventLoop sqrt fuel cs = some out ∧ out.events = [] := by
  obtain ⟨out, hout, hev⟩ := sweepLoop_total sqrt cs (candidates sqrt cs).length _ (seed_wf sqrt cs)
    (fun p born rest _ =>
      le_trans (Finset.card_filter_le _ _) (List.toFinset_card_le _))
  refine ⟨out, ?_, hev⟩
  have := sweepLoop_mono sqrt _ (fuel - (candidates sqrt cs).length) _ out hout
  rw [show (candidates sqrt cs).length + (fuel - (candidates sqrt cs).length) = fuel by omega]
    at this
  exact this

/-- More passes than the loop needs do not change the state in which it ends. -/
theorem eventLoop_mono (sqrt : F → F) (fuel k : Nat) (cs : List (Circle F)) (s : Sweep F)
    (h : eventLoop sqrt fuel cs = some s) : eventLoop sqrt (fuel + k) cs = some s :=
  sweepLoop_mono sqrt fuel k _ s h

/-- When the event loop ends with a node in the status, the call `circleIntersect` is
undefined whatever the bound on the passes. -/
theorem circleIntersect_none_of_stale (sqrt : F → F) (n : Nat) (cs : List (Circle F))
    (s : Sweep F) (h : eventLoop sqrt n cs = some s) (hs : s.status.root ≠ .nil) (fuel : Nat) :
    circleIntersect sqrt fuel cs = none := by
  cases hf : eventLoop sqrt fuel cs with
  | none => rw [circleIntersect, hf]
  | some s' =>
    have h1 := eventLoop_mono sqrt fuel n cs s' hf
    have h2 := eventLoop_mono sqrt n fuel cs s h
    rw [Nat.add_comm, h1, Option.some.injEq] at h2
    subst h2
    exact circleIntersect_of_stale sqrt fuel cs s' hf hs

/-! ## The number of keys one pass of the loop adds -/

theorem Events.set_length (ev : Events F) (p : Point F) (v : List (ArcPtr F)) :
    (Events.set ev p v).length ≤ ev.length + 1 := by
  induction ev with
  | nil => simp [Events.set]
  | cons e rest ih =>
    obtain ⟨q, w⟩ := e
    simp only [Events.set]
    split
    · simp
    · split
      · simp
      · simp only [List.length_cons]; omega

theorem circle_intersect_length_le (sqrt : F → F) (c1 c2 : Circle F) :
    (c1.intersect sqrt c2).length ≤ 2 := by
  unfold Circle.intersect
  simp only
  split
  · simp
  · split
    · simp
    · split <;> simp

theorem arc_intersect_length_le (sqrt : F → F) (a b : Arc F) :
    (a.intersect sqrt b).length ≤ 2 :=
  le_trans (List.length_filter_le _ _) (circle_intersect_length_le sqrt _ _)

/-- One scheduling loop for the event `p` at the head of the queue: the head stays, the rest
grows by at most one entry for each point of the list, and a new entry has no arcs, a key that
is a point of the list, lies after `p` and was no key of the queue. -/
theorem schedule_tail (p : Point F) (born : List (ArcPtr F)) (pts : List (Point F))
    (ints : List (Point F)) (rest : Events F) (ints' : List (Point F)) (ev' : Events F)
    (h : schedule p (ints, (p, born) :: rest) pts = (ints', ev')) :
    ∃ rest' : Events F, ev' = (p, born) :: rest' ∧ rest'.length ≤ rest.length + pts.length ∧
      ∀ e ∈ rest', e ∈ rest ∨ (e.2 = [] ∧ e.1 ∈ pts ∧ Point.lt p e.1 = true ∧
        Events.find ((p, born) :: rest) e.1 = none) := by
  induction pts generalizing ints rest with
  | nil =>
    simp only [schedule, Prod.mk.injEq] at h
    obtain ⟨rfl, rfl⟩ := h
    exact ⟨rest, rfl, by simp, fun e he => Or.inl he⟩
  | cons point pts ih =>
    simp only [schedule] at h
    split at h
    · rename_i hc
      simp only [Bool.and_eq_true, Option.isNone_iff_eq_none] at hc
      obtain ⟨hf, hlt⟩ := hc
      have hp : ¬ p = point := by
        intro e
        simp [Events.find, e] at hf
      have hset : Events.set ((p, born) :: rest) point []
          = (p, born) :: Events.set rest point [] := by
        simp [Events.set, hp, Point.lt_asymm _ _ hlt]
      rw [hset] at h
      obtain ⟨rest', e1, e2, e3⟩ := ih _ _ h
      refine ⟨rest', e1, ?_, ?_⟩
      · have := Events.set_length rest point []
        simp only [List.length_cons]
        omega
      · intro e he
        rcases e3 e he with h1 | ⟨h1, h2, h3, h4⟩
        · rcases Events.mem_set _ _ _ _ h1 with h5 | h5
          · exact Or.inl h5
          · right
            rw [h5]
            exact ⟨rfl, List.mem_cons_self _ _, hlt, hf⟩
        · right
          refine ⟨h1, List.mem_cons_of_mem _ h2, h3, ?_⟩
          rw [← hset] at h4
          rw [Events.find_eq_none_iff] at h4 ⊢
          intro e0 he0
          obtain ⟨e', he', hk⟩ := Events.key_mem_set ((p, born) :: rest) point [] e0 he0
          rw [← hk]
          exact h4 e' he'
    · obtain ⟨rest', e1, e2, e3⟩ := ih _ _ h
      refine ⟨rest', e1, by simp only [List.length_cons]; omega, fun e he => ?_⟩
      rcases e3 e he with h1 | ⟨h1, h2, h3, h4⟩
      · exact Or.inl h1
      · exact Or.inr ⟨h1, List.mem_cons_of_mem _ h2, h3, h4⟩

/-- One pass of the loop adds the keys of at most two scheduling loops, each over the list
`Arc::intersect` returns for two arcs of the status. -/
theorem sweepStep_bound (sqrt : F → F) (ints : List (Point F)) (p : Point F)
    (born : List (ArcPtr F)) (rest : Events F) (status : RBTree (ArcPtr F)) (s' : Sweep F)
    (h : sweepStep sqrt ints p born rest status = some s') :
    ∃ lower upper : List (Point F),
      (lower = [] ∨ ∃ a b : ArcPtr F, a ∈ s'.status.root.inorder ∧ b ∈ s'.status.root.inorder ∧
        lower = a.arc.intersect sqrt b.arc) ∧
      (upper = [] ∨ ∃ a b : ArcPtr F, a ∈ s'.status.root.inorder ∧ b ∈ s'.status.root.inorder ∧
        upper = a.arc.intersect sqrt b.arc) ∧
      lower.length ≤ 2 ∧ upper.length ≤ 2 ∧
      s'.events.length ≤ rest.length + lower.length + upper.length ∧
      ∀ e ∈ s'.events, e ∈ rest ∨
        (e.2 = [] ∧ (e.1 ∈ lower ∨ e.1 ∈ upper) ∧ Point.lt p e.1 = true ∧
          Events.find ((p, born) :: rest) e.1 = none) := by
  obtain ⟨contains, added, status1, status2, status3, pts1, pts2, -, -, -, -, -, d2, d3, rfl⟩ :=
    sweepStep_parts sqrt ints p born rest status s' h
  have hlen : ∀ pts : List (Point F),
      (pts = [] ∨ ∃ a b : ArcPtr F, a ∈ status3.root.inorder ∧ b ∈ status3.root.inorder ∧
        pts = a.arc.intersect sqrt b.arc) → pts.length ≤ 2 := by
    intro pts hp
    rcases hp with hp | ⟨a, b, -, -, hp⟩
    · rw [hp]; simp
    · rw [hp]; exact arc_intersect_length_le sqrt _ _
  refine ⟨pts1, pts2, d2, d3, hlen pts1 d2, hlen pts2 d3, ?_⟩
  simp only
  cases hr1 : schedule p (report ints p born contains, (p, born) :: rest) pts1 with
  | mk i1 ev1 =>
    cases hr2 : schedule p (i1, ev1) pts2 with
    | mk i2 ev2 =>
      obtain ⟨rest1, rfl, l1, m1⟩ := schedule_tail p born pts1 _ rest _ _ hr1
      obtain ⟨rest2, rfl, l2, m2⟩ := schedule_tail p born pts2 _ rest1 _ _ hr2
      have herase : Events.erase ((p, born) :: rest2) p = rest2 := by simp [Events.erase]
      simp only [herase]
      refine ⟨by omega, fun e he => ?_⟩
      rcases m2 e he with h1 | ⟨h1, h2, h3, h4⟩
      · rcases m1 e h1 with h5 | ⟨h5, h6, h7, h8⟩
        · exact Or.inl h5
        · exact Or.inr ⟨h5, Or.inl h6, h7, h8⟩
      · right
        refine ⟨h1, Or.inr h2, h3, ?_⟩
        rw [Events.find_eq_none_iff] at h4 ⊢
        intro e0 he0
        rcases List.mem_cons.1 he0 with h5 | h5
        · rw [h5]; exact h4 _ (List.mem_cons_self _ _)
        · -- an entry of `rest` keeps its key during the first loop
          have hk : ∀ (pts : List (Point F)) (ints : List (Point F)) (ev : Events F)
              (ints' : List (Point F)) (ev' : Events F),
              schedule p (ints, ev) pts = (ints', ev') → ∀ e ∈ ev, ∃ e' ∈ ev', e'.1 = e.1 := by
            intro pts
            induction pts with
            | nil =>
              intro ints ev ints' ev' h e he
              simp only [schedule, Prod.mk.injEq] at h
              obtain ⟨-, rfl⟩ := h
              exact ⟨e, he, rfl⟩
            | cons point pts ih =>
              intro ints ev ints' ev' h e he
              simp only [schedule] at h
              split at h
              · obtain ⟨e1, he1, hk1⟩ := Events.key_mem_set ev point [] e he
                obtain ⟨e2, he2, hk2⟩ := ih _ _ _ _ h e1 he1
                exact ⟨e2, he2, hk2.trans hk1⟩
              · exact ih _ _ _ _ h e he
          obtain ⟨e', he', hk'⟩ := hk pts1 _ _ _ _ hr1 e0 (List.mem_cons_of_mem _ h5)
          rw [← hk']
          exact h4 e' he'

/-! ## The claims about `circleIntersect` at concrete inputs -/

/-- C1 fails at two small circles: for the circles of radius 1/20000 with the centres (0,0)
and (1/12500,0), `circleIntersect` returns the empty list (whenever the bound allows the four
passes of the loop), although the radii are non-negative, the centres differ and the point
(1/25000, 3/100000) lies on both circles. -/
theorem completeness_fails_small_circles :
    (∀ fuel : Nat, circleIntersect Real.sqrt (fuel + 4)
        [⟨⟨0, 0⟩, 1 / 20000⟩, ⟨⟨1 / 12500, 0⟩, 1 / 20000⟩] = some []) ∧
    (0 : ℝ) ≤ 1 / 20000 ∧ (⟨0, 0⟩ : Point ℝ) ≠ ⟨1 / 12500, 0⟩ ∧
    Point.distance Real.sqrt (⟨1 / 25000, 3 / 100000⟩ : Point ℝ) ⟨0, 0⟩ = 1 / 20000 ∧
    Point.distance Real.sqrt (⟨1 / 25000, 3 / 100000⟩ : Point ℝ) ⟨1 / 12500, 0⟩ = 1 / 20000 := by
  refine ⟨fun fuel => circleIntersect_of_loop _ _ _ _ (EvTiny_run fuel) rfl, by norm_num,
    by simp [Point.mk.injEq], ?_, ?_⟩ <;>
    (rw [distance_eq_iff _ _ _ (by norm_num)]; norm_num)

/-- C2 fails at the two tangent circles of the claim: for the circles of radius 1 with the
centres (0,0) and (2,0), `circleIntersect` returns the list [(1,0), (1,0)] (whenever the bound
allows the three passes of the loop), in which the point (1,0) occurs twice. -/
theorem tangent_circles_reported_twice :
    (∀ fuel : Nat, circleIntersect Real.sqrt (fuel + 3) [⟨⟨0, 0⟩, 1⟩, ⟨⟨2, 0⟩, 1⟩]
      = some [⟨1, 0⟩, ⟨1, 0⟩]) ∧
    ¬ ([⟨1, 0⟩, ⟨1, 0⟩] : List (Point ℝ)).Nodup ∧
    ([⟨1, 0⟩, ⟨1, 0⟩] : List (Point ℝ)) ≠ [⟨1, 0⟩] := by
  refine ⟨fun fuel => circleIntersect_of_loop _ _ _ _ (EvTangent_run fuel) rfl, by simp, by simp⟩

/-- C4 fails at a list of three small circles and a permutation of it.  With w = 1/16384
the circles are A of centre (-w, 3w) and radius w, B of centre (4w, 0) and radius 5w, and C of
centre (0,0) and radius w; all these numbers are binary fractions.  For the order A, B, C the
result is [(-w,0), (0,3w)], for the order A, C, B it is [(-w,0)] (whenever the bound allows the
five passes of the loop; the status is empty at the end of both runs).  The point (0,3w),
which lies on A and on B, is in one result and not in the other. -/
theorem order_of_circles_matters :
    (∀ fuel : Nat, circleIntersect Real.sqrt (fuel + 5)
        [⟨⟨-(1 / 16384), 3 / 16384⟩, 1 / 16384⟩, ⟨⟨1 / 4096, 0⟩, 5 / 16384⟩,
          ⟨⟨0, 0⟩, 1 / 16384⟩]
      = some [⟨-(1 / 16384), 0⟩, ⟨0, 3 / 16384⟩]) ∧
    (∀ fuel : Nat, circleIntersect Real.sqrt (fuel + 5)
        [⟨⟨-(1 / 16384), 3 / 16384⟩, 1 / 16384⟩, ⟨⟨0, 0⟩, 1 / 16384⟩,
          ⟨⟨1 / 4096, 0⟩, 5 / 16384⟩]
      = some [⟨-(1 / 16384), 0⟩]) ∧
    List.Perm
      ([⟨⟨-(1 / 16384), 3 / 16384⟩, 1 / 16384⟩, ⟨⟨1 / 4096, 0⟩, 5 / 16384⟩,
        ⟨⟨0, 0⟩, 1 / 16384⟩] : List (Circle ℝ))
      [⟨⟨-(1 / 16384), 3 / 16384⟩, 1 / 16384⟩, ⟨⟨0, 0⟩, 1 / 16384⟩,
        ⟨⟨1 / 4096, 0⟩, 5 / 16384⟩] ∧
    (⟨0, 3 / 16384⟩ : Point ℝ) ∈ ([⟨-(1 / 16384), 0⟩, ⟨0, 3 / 16384⟩] : List (Point ℝ)) ∧
    (⟨0, 3 / 16384⟩ : Point ℝ) ∉ ([⟨-(1 / 16384), 0⟩] : List (Point ℝ)) ∧
    Point.distance Real.sqrt (⟨0, 3 / 16384⟩ : Point ℝ) ⟨-(1 / 16384), 3 / 16384⟩ = 1 / 16384 ∧
    Point.distance Real.sqrt (⟨0, 3 / 16384⟩ : Point ℝ) ⟨1 / 4096, 0⟩ = 5 / 16384 := by
  refine ⟨fun fuel => ?_, fun fuel => ?_, (List.Perm.swap _ _ _).cons _, by simp, ?_, ?_, ?_⟩
  · have h := circleIntersect_of_loop _ _ _ _ (EvOrdA_run fuel) rfl
    simpa using h
  · have h := circleIntersect_of_loop _ _ _ _ (EvOrdB_run fuel) rfl
    simpa using h
  · simp only [List.mem_singleton, Point.mk.injEq, not_and]
    intro h; norm_num at h
  · rw [distance_eq_iff _ _ _ (by norm_num)]; norm_num
  · rw [distance_eq_iff _ _ _ (by norm_num)]; norm_num

/-- C5: for the four circles of radius 1 with the centres (0,0), (1,1), (1,-1), (2,0),
`circleIntersect` returns (whenever the bound allows the seven passes of the loop) a list
without repeated points; its points are exactly (0,1), (0,-1), (1,0), (2,1), (2,-1); these are
exactly the points that lie on two different circles of the four; and the leftmost and
rightmost points (-1,0) and (3,0) are not in it. -/
theorem four_circles_example (fuel : Nat) :
    ∃ out, circleIntersect Real.sqrt (fuel + 7)
        [⟨⟨0, 0⟩, 1⟩, ⟨⟨1, 1⟩, 1⟩, ⟨⟨1, -1⟩, 1⟩, ⟨⟨2, 0⟩, 1⟩] = some out ∧
      out.Nodup ∧
      (∀ q : Point ℝ, q ∈ out ↔
        q = ⟨0, 1⟩ ∨ q = ⟨0, -1⟩ ∨ q = ⟨1, 0⟩ ∨ q = ⟨2, 1⟩ ∨ q = ⟨2, -1⟩) ∧
      (∀ q : Point ℝ, q ∈ out ↔
        ∃ c1 ∈ ([⟨⟨0, 0⟩, 1⟩, ⟨⟨1, 1⟩, 1⟩, ⟨⟨1, -1⟩, 1⟩, ⟨⟨2, 0⟩, 1⟩] : List (Circle ℝ)),
          ∃ c2 ∈ ([⟨⟨0, 0⟩, 1⟩, ⟨⟨1, 1⟩, 1⟩, ⟨⟨1, -1⟩, 1⟩, ⟨⟨2, 0⟩, 1⟩] : List (Circle ℝ)),
            c1 ≠ c2 ∧ q.distance Real.sqrt c1.center = c1.radius ∧
              q.distance Real.sqrt c2.center = c2.radius) ∧
      (⟨-1, 0⟩ : Point ℝ) ∉ out ∧ (⟨3, 0⟩ : Point ℝ) ∉ out := by
  refine ⟨_, circleIntersect_of_loop _ _ _ _ (EvFour_run fuel) rfl, ?_, ?_, ?_, ?_, ?_⟩
  · simp only [List.nodup_cons, List.mem_cons, List.mem_singleton, Point.mk.injEq,
      List.not_mem_nil, List.nodup_nil]
    norm_num
  · intro q
    simp only [List.mem_cons, List.mem_singleton, List.not_mem_nil, or_false]
    tauto
  · intro q
    exact (four_circles_common_points q).symm
  · simp only [List.mem_cons, List.mem_singleton, Point.mk.injEq, List.not_mem_nil]
    norm_num
  · simp only [List.mem_cons, List.mem_singleton, Point.mk.injEq, List.not_mem_nil]
    norm_num

/-- C6 fails at every circle of radius 0: its leftmost and rightmost point are one event, so
the event loop makes a single pass, which inserts both arcs into the status, and ends with
the empty list and these two arcs still in the status.  The destructor of the status then
deletes the sentinel `nil` three times, once per nil link, which is undefined behaviour: the
call `circleIntersect` has no defined result, whatever the bound on the passes.  (For the
empty input the result is the empty list.) -/
theorem point_circle_undefined (x y : ℝ) :
    (∀ fuel : Nat, eventLoop Real.sqrt (fuel + 1) [⟨⟨x, y⟩, 0⟩] = some ⟨[], [],
      ⟨.node ⟨0, ⟨⟨⟨x, y⟩, 0⟩, true⟩⟩ .BLACK
        (.node ⟨1, ⟨⟨⟨x, y⟩, 0⟩, false⟩⟩ .RED .nil .nil) .nil⟩⟩) ∧
    Node.destroyRecursive (.node (⟨0, ⟨⟨⟨x, y⟩, 0⟩, true⟩⟩ : ArcPtr ℝ) .BLACK
        (.node ⟨1, ⟨⟨⟨x, y⟩, 0⟩, false⟩⟩ .RED .nil .nil) .nil) = 3 ∧
    RBTree.destroy (⟨.node (⟨0, ⟨⟨⟨x, y⟩, 0⟩, true⟩⟩ : ArcPtr ℝ) .BLACK
        (.node ⟨1, ⟨⟨⟨x, y⟩, 0⟩, false⟩⟩ .RED .nil .nil) .nil⟩) = none ∧
    (∀ fuel : Nat, circleIntersect Real.sqrt fuel [(⟨⟨x, y⟩, 0⟩ : Circle ℝ)] = none) ∧
    (∀ fuel : Nat, circleIntersect Real.sqrt fuel ([] : List (Circle ℝ)) = some []) := by
  refine ⟨fun fuel => point_circle_loop ⟨⟨x, y⟩, 0⟩ rfl fuel, rfl, rfl, fun fuel => ?_,
    fun fuel => ?_⟩
  · cases fuel with
    | zero =>
      have e : (⟨⟨x, y⟩, 0⟩ : Circle ℝ).end_ = (⟨⟨x, y⟩, 0⟩ : Circle ℝ).begin := by
        simp [Circle.end_, Circle.begin, Point.add, Point.sub]
      simp [circleIntersect, eventLoop, seedEvents, seedCircle, Events.find, Events.set, e,
        sweepLoop]
    | succ n =>
      exact circleIntersect_of_stale _ _ _ _ (point_circle_loop ⟨⟨x, y⟩, 0⟩ rfl n) (by simp)
  · cases fuel <;> rfl

/-! ## Soundness of `circleIntersect` -/

/-- C3 fails at the circles of centre (-1, 1/2), radius 1/2, of centre (-3/2, -1), radius 3/2,
and of centre (2, 1/2), radius 2 (radii non-negative).  The event loop ends after six passes
with the list [(-3/2, 1/2), (0, 1/2), (4, 1/2)], which line 510 returns.  The points (0, 1/2)
and (4, 1/2) are the leftmost and the rightmost point of the third circle and lie on no other
circle of the input: they are at the distances 1 and 5 from the centre of the first circle
(radius 1/2) and their squared distances from the centre of the second are 9/2 and 65/2
(radius 3/2).  The lower arc of the first circle is not removed at the rightmost point of
its circle; it stays in the status, where `Arc::contains` accepts every point at the height
of its centre.  Two arcs are in the status when the loop ends, so that the destructor of
the status is undefined and the call has no defined result, whatever the bound on the
passes. -/
theorem reports_points_of_one_circle :
    (∀ fuel : Nat, eventLoop Real.sqrt (fuel + 6)
        [⟨⟨-1, 1 / 2⟩, 1 / 2⟩, ⟨⟨-(3 / 2), -1⟩, 3 / 2⟩, ⟨⟨2, 1 / 2⟩, 2⟩]
      = some ⟨[⟨-(3 / 2), 1 / 2⟩, ⟨0, 1 / 2⟩, ⟨4, 1 / 2⟩], [],
          ⟨.node ⟨2, ⟨⟨⟨-(3 / 2), -1⟩, 3 / 2⟩, true⟩⟩ .BLACK .nil
            (.node ⟨1, ⟨⟨⟨-1, 1 / 2⟩, 1 / 2⟩, false⟩⟩ .RED .nil .nil)⟩⟩) ∧
    ((0 : ℝ) ≤ 1 / 2 ∧ (0 : ℝ) ≤ 3 / 2 ∧ (0 : ℝ) ≤ 2) ∧
    (Point.distance Real.sqrt (⟨0, 1 / 2⟩ : Point ℝ) ⟨2, 1 / 2⟩ = 2 ∧
      Point.distance Real.sqrt (⟨0, 1 / 2⟩ : Point ℝ) ⟨-1, 1 / 2⟩ = 1 ∧
      Point.distance Real.sqrt (⟨0, 1 / 2⟩ : Point ℝ) ⟨-(3 / 2), -1⟩ ≠ 3 / 2) ∧
    (Point.distance Real.sqrt (⟨4, 1 / 2⟩ : Point ℝ) ⟨2, 1 / 2⟩ = 2 ∧
      Point.distance Real.sqrt (⟨4, 1 / 2⟩ : Point ℝ) ⟨-1, 1 / 2⟩ = 5 ∧
      Point.distance Real.sqrt (⟨4, 1 / 2⟩ : Point ℝ) ⟨-(3 / 2), -1⟩ ≠ 3 / 2) ∧
    (∀ fuel : Nat, circleIntersect Real.sqrt fuel
        [⟨⟨-1, 1 / 2⟩, 1 / 2⟩, ⟨⟨-(3 / 2), -1⟩, 3 / 2⟩, ⟨⟨2, 1 / 2⟩, 2⟩] = none) := by
  have run : ∀ fuel : Nat, eventLoop Real.sqrt (fuel + 6)
        [⟨⟨-1, 1 / 2⟩, 1 / 2⟩, ⟨⟨-(3 / 2), -1⟩, 3 / 2⟩, ⟨⟨2, 1 / 2⟩, 2⟩]
      = some ⟨[⟨-(3 / 2), 1 / 2⟩, ⟨0, 1 / 2⟩, ⟨4, 1 / 2⟩], [],
          ⟨.node ⟨2, ⟨⟨⟨-(3 / 2), -1⟩, 3 / 2⟩, true⟩⟩ .BLACK .nil
            (.node ⟨1, ⟨⟨⟨-1, 1 / 2⟩, 1 / 2⟩, false⟩⟩ .RED .nil .nil)⟩⟩ := by
    intro fuel
    have h := EvFar_run fuel
    simpa using h
  refine ⟨run, by norm_num, ⟨?_, ?_, ?_⟩, ⟨?_, ?_, ?_⟩, fun fuel => ?_⟩
  · rw [distance_eq_iff _ _ _ (by norm_num)]; norm_num
  · rw [distance_eq_iff _ _ _ (by norm_num)]; norm_num
  · rw [Ne, distance_eq_iff _ _ _ (by norm_num)]; norm_num
  · rw [distance_eq_iff _ _ _ (by norm_num)]; norm_num
  · rw [distance_eq_iff _ _ _ (by norm_num)]; norm_num
  · rw [Ne, distance_eq_iff _ _ _ (by norm_num)]; norm_num
  · exact circleIntersect_none_of_stale _ _ _ _ (run 0) (by simp) fuel

/-! ## The claims about `Circle::intersect` -/

/-- C7: `Circle::intersect` in exact real arithmetic, for radii `r1, r2 ≥ 0` and the distance
`d` of the centres: the result is empty if `d = 0`, `d > r1 + r2` or `d < |r1 - r2|`; it is
one point if `d ≠ 0` and (`d = r1 + r2` or `d = |r1 - r2|`); it is two different points in
every other case. -/
theorem circle_intersect_cardinality (c1 c2 : Circle ℝ)
    (h1 : 0 ≤ c1.radius) (h2 : 0 ≤ c2.radius) :
    ((c1.center.distance Real.sqrt c2.center = 0
        ∨ c1.center.distance Real.sqrt c2.center > c1.radius + c2.radius
        ∨ c1.center.distance Real.sqrt c2.center < |c1.radius - c2.radius|) →
      c1.intersect Real.sqrt c2 = []) ∧
    (c1.center.distance Real.sqrt c2.center ≠ 0 →
      (c1.center.distance Real.sqrt c2.center = c1.radius + c2.radius
        ∨ c1.center.distance Real.sqrt c2.center = |c1.radius - c2.radius|) →
      ∃ p, c1.intersect Real.sqrt c2 = [p]) ∧
    (¬ (c1.center.distance Real.sqrt c2.center = 0
        ∨ c1.center.distance Real.sqrt c2.center > c1.radius + c2.radius
        ∨ c1.center.distance Real.sqrt c2.center < |c1.radius - c2.radius|) →
      ¬ (c1.center.distance Real.sqrt c2.center = c1.radius + c2.radius
        ∨ c1.center.distance Real.sqrt c2.center = |c1.radius - c2.radius|) →
      ∃ p q, p ≠ q ∧ c1.intersect Real.sqrt c2 = [p, q]) :=
  intersect_cases c1 c2 h1 h2

/-- C7 at the circles of centre (0,0) and (2,0), radius 1. -/
theorem circle_intersect_cardinality_witness :
    (0 : ℝ) ≤ 1 ∧
    ((Point.distance Real.sqrt (⟨0, 0⟩ : Point ℝ) ⟨2, 0⟩ = 0
        ∨ Point.distance Real.sqrt (⟨0, 0⟩ : Point ℝ) ⟨2, 0⟩ > 1 + 1
        ∨ Point.distance Real.sqrt (⟨0, 0⟩ : Point ℝ) ⟨2, 0⟩ < |(1 : ℝ) - 1|) →
      Circle.intersect Real.sqrt (⟨⟨0, 0⟩, 1⟩ : Circle ℝ) ⟨⟨2, 0⟩, 1⟩ = []) :=
  ⟨zero_le_one,
    (circle_intersect_cardinality ⟨⟨0, 0⟩, 1⟩ ⟨⟨2, 0⟩, 1⟩ zero_le_one zero_le_one).1⟩

/-- C8: in exact real arithmetic, for two circles with radii `≥ 0` and different centres, a
point is in the list `c1.intersect(c2)` iff it lies on both circles. -/
theorem circle_intersect_correct (c1 c2 : Circle ℝ) (h1 : 0 ≤ c1.radius) (h2 : 0 ≤ c2.radius)
    (hc : c1.center ≠ c2.center) (q : Point ℝ) :
    q ∈ c1.intersect Real.sqrt c2 ↔
      q.distance Real.sqrt c1.center = c1.radius ∧ q.distance Real.sqrt c2.center = c2.radius :=
  intersect_mem_iff c1 c2 h1 h2 hc q

/-- C8 at the circles of centre (2,0) and (3,1), radius 1, and the point (2,1). -/
theorem circle_intersect_correct_witness :
    (⟨2, 1⟩ : Point ℝ) ∈ Circle.intersect Real.sqrt (⟨⟨2, 0⟩, 1⟩ : Circle ℝ) ⟨⟨3, 1⟩, 1⟩ ↔
      Point.distance Real.sqrt (⟨2, 1⟩ : Point ℝ) ⟨2, 0⟩ = 1 ∧
        Point.distance Real.sqrt (⟨2, 1⟩ : Point ℝ) ⟨3, 1⟩ = 1 :=
  circle_intersect_correct ⟨⟨2, 0⟩, 1⟩ ⟨⟨3, 1⟩, 1⟩ zero_le_one zero_le_one
    (by simp [Point.mk.injEq]) ⟨2, 1⟩

/-! ## The claims about the red-black tree -/

theorem empty_invariant : (RBTree.empty : RBTree κ).invariant := by
  rw [invariant_iff]
  exact ⟨rfl, trivial, trivial⟩

/-- C9: the red-black invariant (root BLACK, sentinel BLACK, no RED node with a RED child,
the same number of BLACK nodes on all paths from a node down to the sentinel) holds for the
tree built by `RBTree()`, and `insert(arc, p)` and `remove(node)` return (no undefined
behaviour) and preserve it, for every arc and point and for every node of the tree. -/
theorem rbtree_invariant_preserved (sqrt : F → F) :
    (RBTree.empty : RBTree (ArcPtr F)).invariant ∧
    (∀ (t : RBTree (ArcPtr F)) (arc : ArcPtr F) (p : Point F), t.invariant →
      ∃ t', t.insert (aboveAt sqrt p (some arc)) arc = some t' ∧ t'.invariant) ∧
    (∀ node : Loc (ArcPtr F), node.node ≠ .nil → node.tree.invariant →
      ∃ t', RBTree.remove node = some t' ∧ t'.invariant) :=
  ⟨empty_invariant, fun t arc p h => insert_invariant _ t arc h,
    fun node hn h => remove_invariant node hn h⟩

/-- C9 at the empty tree: an arc of the unit circle is inserted at the point (-1,0). -/
theorem rbtree_invariant_preserved_witness :
    ∃ t', (RBTree.empty : RBTree (ArcPtr ℝ)).insert
        (aboveAt Real.sqrt ⟨-1, 0⟩ (some ⟨0, ⟨⟨⟨0, 0⟩, 1⟩, true⟩⟩)) ⟨0, ⟨⟨⟨0, 0⟩, 1⟩, true⟩⟩
      = some t' ∧ t'.invariant :=
  (rbtree_invariant_preserved Real.sqrt).2.1 RBTree.empty ⟨0, ⟨⟨⟨0, 0⟩, 1⟩, true⟩⟩ ⟨-1, 0⟩
    (rbtree_invariant_preserved Real.sqrt).1

/-- C10: for a red-black tree `t`, an arc `a` and a point `p`, `insert(a, p)` returns a tree
whose in-order sequence is that of `t` with `a` put in at one position, the other arcs in
unchanged order; and if the sequence of `t` is non-decreasing in the height at
`x = p.x + 0.001`, so is the sequence after the insert. -/
theorem insert_inorder_sorted (sqrt : F → F) (t : RBTree (ArcPtr F)) (a : ArcPtr F)
    (p : Point F) (h : t.invariant) :
    ∃ t' l1 l2, t.insert (aboveAt sqrt p (some a)) a = some t' ∧
      t.root.inorder = l1 ++ l2 ∧ t'.root.inorder = l1 ++ a :: l2 ∧
      (t.root.inorder.Pairwise
          (fun u v => u.arc.at_ sqrt (p.x + 1 / 1000) ≤ v.arc.at_ sqrt (p.x + 1 / 1000)) →
        t'.root.inorder.Pairwise
          (fun u v => u.arc.at_ sqrt (p.x + 1 / 1000) ≤ v.arc.at_ sqrt (p.x + 1 / 1000))) := by
  obtain ⟨t', l1, l2, h1, _, h3, h4, h5⟩ :=
    insert_inorder (fun u v : ArcPtr F => u.arc.at_ sqrt (p.x + 1 / 1000) ≤ v.arc.at_ sqrt (p.x + 1 / 1000))
      (fun _ _ _ => le_trans) (aboveAt sqrt p (some a)) a
      (fun k hk => by simpa [aboveAt, Arc.above] using hk)
      (fun k hk => by
        have : ¬ (a.arc.at_ sqrt (p.x + 1 / 1000) ≤ k.arc.at_ sqrt (p.x + 1 / 1000)) := by
          simpa [aboveAt, Arc.above] using hk
        exact le_of_lt (not_le.1 this)) t h
  exact ⟨t', l1, l2, h1, h3, h4, h5⟩

/-- C10 at the empty tree: an arc of the unit circle is inserted at the point (-1,0). -/
theorem insert_inorder_sorted_witness :
    ∃ t' l1 l2, (RBTree.empty : RBTree (ArcPtr ℝ)).insert
        (aboveAt Real.sqrt ⟨-1, 0⟩ (some ⟨0, ⟨⟨⟨0, 0⟩, 1⟩, true⟩⟩)) ⟨0, ⟨⟨⟨0, 0⟩, 1⟩, true⟩⟩
        = some t' ∧
      (RBTree.empty : RBTree (ArcPtr ℝ)).root.inorder = l1 ++ l2 ∧
      t'.root.inorder = l1 ++ (⟨0, ⟨⟨⟨0, 0⟩, 1⟩, true⟩⟩ : ArcPtr ℝ) :: l2 ∧
      ((RBTree.empty : RBTree (ArcPtr ℝ)).root.inorder.Pairwise
          (fun u v => u.arc.at_ Real.sqrt ((⟨-1, 0⟩ : Point ℝ).x + 1 / 1000)
            ≤ v.arc.at_ Real.sqrt ((⟨-1, 0⟩ : Point ℝ).x + 1 / 1000)) →
        t'.root.inorder.Pairwise
          (fun u v => u.arc.at_ Real.sqrt ((⟨-1, 0⟩ : Point ℝ).x + 1 / 1000)
            ≤ v.arc.at_ Real.sqrt ((⟨-1, 0⟩ : Point ℝ).x + 1 / 1000))) :=
  insert_inorder_sorted Real.sqrt RBTree.empty ⟨0, ⟨⟨⟨0, 0⟩, 1⟩, true⟩⟩ ⟨-1, 0⟩ empty_invariant

/-! ## The claims about `remove` and the neighbour queries -/

/-- C11: for a red-black tree and a real node `n` of it with the key `k`, `remove(n)` returns
(no undefined behaviour) a tree whose in-order sequence is the in-order sequence of the tree
with the occurrence of `k` at the place of `n` deleted: the keys before `n` and the keys after
`n` are kept in their order, whatever the children of `n` are. -/
theorem remove_inorder_deletes (n : Loc κ) (k : κ) (hk : n.key? = some k)
    (h : n.tree.invariant) :
    ∃ t', RBTree.remove n = some t' ∧
      n.tree.root.inorder = n.before ++ k :: n.after ∧
      t'.root.inorder = n.before ++ n.after := by
  obtain ⟨path, node⟩ := n
  cases node with
  | nil => simp [Loc.key?] at hk
  | node k0 c l r =>
    obtain ⟨t', ht', -⟩ := remove_invariant ⟨path, .node k0 c l r⟩ (by simp) h
    refine ⟨t', ht', Loc.inorder_eq _ _ hk, ?_⟩
    rw [remove_inorder _ _ _ _ _ _ ht']
    simp [Loc.before, Loc.after]

/-- C11 at the tree of the keys 1, 2, 3 with the BLACK root 2 and two RED children: the root,
a node with two children, is removed. -/
theorem remove_inorder_deletes_witness :
    ∃ t', RBTree.remove (⟨.root, .node 2 .BLACK (.node 1 .RED .nil .nil)
        (.node 3 .RED .nil .nil)⟩ : Loc Nat) = some t' ∧
      (Loc.tree (⟨.root, .node 2 .BLACK (.node 1 .RED .nil .nil)
        (.node 3 .RED .nil .nil)⟩ : Loc Nat)).root.inorder
        = Loc.before (⟨.root, .node 2 .BLACK (.node 1 .RED .nil .nil)
            (.node 3 .RED .nil .nil)⟩ : Loc Nat) ++ 2 ::
          Loc.after (⟨.root, .node 2 .BLACK (.node 1 .RED .nil .nil)
            (.node 3 .RED .nil .nil)⟩ : Loc Nat) ∧
      t'.root.inorder
        = Loc.before (⟨.root, .node 2 .BLACK (.node 1 .RED .nil .nil)
            (.node 3 .RED .nil .nil)⟩ : Loc Nat) ++
          Loc.after (⟨.root, .node 2 .BLACK (.node 1 .RED .nil .nil)
            (.node 3 .RED .nil .nil)⟩ : Loc Nat) :=
  remove_inorder_deletes _ 2 rfl
    ((invariant_iff _).2 (by simp [Loc.tree, Path.fill, Node.noRedRed, Node.balanced,
      Node.blackHeight]))

/-- C12: for a pointer `n` into a tree, `lower_bound(n)` and `upper_bound(n)` are null when
`n` is the sentinel; when `n` is a real node with the key `k`, `upper_bound(n)` is null
exactly when no key stands after `n` in order, and otherwise it is the real node of the same
tree that stands immediately after `n` (the keys before it are the keys before `n` and `k`);
`lower_bound(n)` is null exactly when no key stands before `n`, and otherwise it is the real
node of the same tree that stands immediately before `n`. -/
theorem neighbours_of_node (n : Loc κ) :
    (n.key? = none → RBTree.lower_bound n = none ∧ RBTree.upper_bound n = none) ∧
    (∀ k, n.key? = some k →
      (RBTree.upper_bound n = none ↔ n.after = []) ∧
      (RBTree.lower_bound n = none ↔ n.before = []) ∧
      (∀ z, RBTree.upper_bound n = some z →
        z.tree = n.tree ∧ ∃ k', z.key? = some k' ∧ z.before = n.before ++ [k] ∧
          n.after = k' :: z.after) ∧
      (∀ z, RBTree.lower_bound n = some z →
        z.tree = n.tree ∧ ∃ k', z.key? = some k' ∧ n.before = z.before ++ [k'] ∧
          z.after = k :: n.after)) := by
  refine ⟨?_, fun k hk => ⟨(upper_bound_spec n k hk).1, (lower_bound_spec n k hk).1,
    (upper_bound_spec n k hk).2, (lower_bound_spec n k hk).2⟩⟩
  intro h
  obtain ⟨path, node⟩ := n
  cases node with
  | nil => exact ⟨rfl, rfl⟩
  | node k c l r => simp [Loc.key?] at h

/-- C12 at the tree of the keys 1, 2, 3 with the root 2, for the node of the key 1: its
upper bound is the root, and it has no lower bound. -/
theorem neighbours_of_node_witness :
    (RBTree.upper_bound (⟨.left .root 2 .BLACK (.node 3 .RED .nil .nil),
        .node 1 .RED .nil .nil⟩ : Loc Nat)
      = some ⟨.root, .node 2 .BLACK (.node 1 .RED .nil .nil) (.node 3 .RED .nil .nil)⟩) ∧
    (RBTree.lower_bound (⟨.left .root 2 .BLACK (.node 3 .RED .nil .nil),
        .node 1 .RED .nil .nil⟩ : Loc Nat) = none ↔
      Loc.before (⟨.left .root 2 .BLACK (.node 3 .RED .nil .nil),
        .node 1 .RED .nil .nil⟩ : Loc Nat) = []) :=
  ⟨rfl, ((neighbours_of_node (⟨.left .root 2 .BLACK (.node 3 .RED .nil .nil),
    .node 1 .RED .nil .nil⟩ : Loc Nat)).2 1 rfl).2.1⟩

/-! ## The claims about arcs -/

theorem arc_intersect_same_center (a b : Arc ℝ) (h : a.circle.center = b.circle.center) :
    a.intersect Real.sqrt b = [] := by
  unfold Arc.intersect
  rw [intersect_same_center _ _ h]
  rfl

/-- C15: for every circle `c`, the intersection of the upper arc of `c` with the lower arc
of `c` is empty, in both orders; and `Arc::intersect` is empty for any two arcs whose circles
have the same centre. -/
theorem arc_intersect_own_circle :
    (∀ c : Circle ℝ, Arc.intersect Real.sqrt ⟨c, true⟩ ⟨c, false⟩ = [] ∧
      Arc.intersect Real.sqrt ⟨c, false⟩ ⟨c, true⟩ = []) ∧
    (∀ a b : Arc ℝ, a.circle.center = b.circle.center → a.intersect Real.sqrt b = []) :=
  ⟨fun _ => ⟨arc_intersect_same_center _ _ rfl, arc_intersect_same_center _ _ rfl⟩,
    arc_intersect_same_center⟩

/-- C15 at the upper arc of centre (0,0), radius 1 and the lower arc of centre (0,0),
radius 2. -/
theorem arc_intersect_own_circle_witness :
    Arc.intersect Real.sqrt (⟨⟨⟨0, 0⟩, 1⟩, true⟩ : Arc ℝ) ⟨⟨⟨0, 0⟩, 2⟩, false⟩ = [] :=
  arc_intersect_own_circle.2 ⟨⟨⟨0, 0⟩, 1⟩, true⟩ ⟨⟨⟨0, 0⟩, 2⟩, false⟩ rfl

theorem contains_of_at (a : Arc ℝ) (T : Point ℝ) (h : a.at_ Real.sqrt T.x = T.y) :
    a.contains Real.sqrt T = true := by
  show decide (|a.at_ Real.sqrt T.x - T.y| < 1 / 100000) = true
  rw [decide_eq_true_eq, h]
  norm_num

/-- C16: in exact real arithmetic, for two tangent circles with non-negative radii (the
distance `d` of the centres is not 0 and is `r1 + r2` or `|r1 - r2|`), a point `T` of both
circles, and an arc `a` of the first and an arc `b` of the second circle that both have the
height `T.y` at `T.x`: `a.intersect(b)` is the list `[T]`, and `a.contains(T)` and
`b.contains(T)` hold. -/
theorem tangent_arcs_meet_once (c1 c2 : Circle ℝ) (h1 : 0 ≤ c1.radius) (h2 : 0 ≤ c2.radius)
    (hd : c1.center.distance Real.sqrt c2.center ≠ 0)
    (ht : c1.center.distance Real.sqrt c2.center = c1.radius + c2.radius
      ∨ c1.center.distance Real.sqrt c2.center = |c1.radius - c2.radius|)
    (T : Point ℝ) (hT1 : T.distance Real.sqrt c1.center = c1.radius)
    (hT2 : T.distance Real.sqrt c2.center = c2.radius) (f1 f2 : Bool)
    (ha : Arc.at_ Real.sqrt ⟨c1, f1⟩ T.x = T.y) (hb : Arc.at_ Real.sqrt ⟨c2, f2⟩ T.x = T.y) :
    Arc.intersect Real.sqrt ⟨c1, f1⟩ ⟨c2, f2⟩ = [T] ∧
      Arc.contains Real.sqrt ⟨c1, f1⟩ T = true ∧ Arc.contains Real.sqrt ⟨c2, f2⟩ T = true := by
  refine ⟨?_, contains_of_at _ _ ha, contains_of_at _ _ hb⟩
  have hc : c1.center ≠ c2.center := fun e => hd ((distance_eq_zero_iff _ _).2 e)
  obtain ⟨p, hp⟩ := (intersect_cases c1 c2 h1 h2).2.1 hd ht
  have hmem : T ∈ c1.intersect Real.sqrt c2 := (intersect_mem_iff c1 c2 h1 h2 hc T).2 ⟨hT1, hT2⟩
  rw [hp, List.mem_singleton] at hmem
  subst hmem
  unfold Arc.intersect
  simp only [hp, List.filter_cons, List.filter_nil, ha, hb]
  norm_num

/-- C16 at the example of the claim: the upper arc of centre (0,0), radius 1 and the lower
arc of centre (0,2), radius 1 give `[(0,1)]`. -/
theorem tangent_arcs_meet_once_witness :
    Arc.intersect Real.sqrt (⟨⟨⟨0, 0⟩, 1⟩, true⟩ : Arc ℝ) ⟨⟨⟨0, 2⟩, 1⟩, false⟩ = [⟨0, 1⟩] ∧
      Arc.contains Real.sqrt (⟨⟨⟨0, 0⟩, 1⟩, true⟩ : Arc ℝ) ⟨0, 1⟩ = true ∧
      Arc.contains Real.sqrt (⟨⟨⟨0, 2⟩, 1⟩, false⟩ : Arc ℝ) ⟨0, 1⟩ = true := by
  have hdist : Point.distance Real.sqrt (⟨0, 0⟩ : Point ℝ) ⟨0, 2⟩ = 2 := by
    rw [distance_eq_iff _ _ _ (by norm_num)]; norm_num
  exact tangent_arcs_meet_once ⟨⟨0, 0⟩, 1⟩ ⟨⟨0, 2⟩, 1⟩ zero_le_one zero_le_one
    (by rw [hdist]; norm_num) (Or.inl (by rw [hdist]; norm_num)) ⟨0, 1⟩
    (by rw [distance_eq_iff _ _ _ zero_le_one]; norm_num)
    (by rw [distance_eq_iff _ _ _ zero_le_one]; norm_num) true false
    (by rw [at_upper_val _ _ 1 zero_le_one (by norm_num) (by norm_num)]; norm_num)
    (by rw [at_lower_val _ _ 1 zero_le_one (by norm_num) (by norm_num)]; norm_num)

/-- C17 fails at the upper arc of centre (0,0), radius 5 and the lower arc of centre (0,6),
radius 5: both arcs pass through the two common points (-4,3) and (4,3) of the circles, and
`Arc::intersect` returns the two points. -/
theorem arc_intersect_two_points :
    Arc.intersect Real.sqrt (⟨⟨⟨0, 0⟩, 5⟩, true⟩ : Arc ℝ) ⟨⟨⟨0, 6⟩, 5⟩, false⟩
      = [⟨-4, 3⟩, ⟨4, 3⟩] ∧
    (0 : ℝ) ≤ 5 ∧
    ¬ (Arc.intersect Real.sqrt (⟨⟨⟨0, 0⟩, 5⟩, true⟩ : Arc ℝ) ⟨⟨⟨0, 6⟩, 5⟩, false⟩).length ≤ 1 := by
  have hc : Circle.intersect Real.sqrt (⟨⟨0, 0⟩, 5⟩ : Circle ℝ) ⟨⟨0, 6⟩, 5⟩
      = [⟨-4, 3⟩, ⟨4, 3⟩] := by
    rw [intersect_eval _ _ 36 (1 / 2) (2 / 3) (by norm_num) (by norm_num) (by norm_num)
      (by norm_num) (by norm_num) (by norm_num) (by norm_num) (by norm_num)]
    norm_num [Point.add, Point.sub, Point.scale, Point.turn]
  have u1 : Arc.at_ Real.sqrt (⟨⟨⟨0, 0⟩, 5⟩, true⟩ : Arc ℝ) (-4) = 3 := by
    rw [at_upper_val _ _ 3 (by norm_num) (by norm_num [abs_le]) (by norm_num)]; norm_num
  have u2 : Arc.at_ Real.sqrt (⟨⟨⟨0, 0⟩, 5⟩, true⟩ : Arc ℝ) 4 = 3 := by
    rw [at_upper_val _ _ 3 (by norm_num) (by norm_num [abs_le]) (by norm_num)]; norm_num
  have l1 : Arc.at_ Real.sqrt (⟨⟨⟨0, 6⟩, 5⟩, false⟩ : Arc ℝ) (-4) = 3 := by
    rw [at_lower_val _ _ 3 (by norm_num) (by norm_num [abs_le]) (by norm_num)]; norm_num
  have l2 : Arc.at_ Real.sqrt (⟨⟨⟨0, 6⟩, 5⟩, false⟩ : Arc ℝ) 4 = 3 := by
    rw [at_lower_val _ _ 3 (by norm_num) (by norm_num [abs_le]) (by norm_num)]; norm_num
  have e : Arc.intersect Real.sqrt (⟨⟨⟨0, 0⟩, 5⟩, true⟩ : Arc ℝ) ⟨⟨⟨0, 6⟩, 5⟩, false⟩
      = [⟨-4, 3⟩, ⟨4, 3⟩] := by
    unfold Arc.intersect
    simp only [hc, List.filter_cons, List.filter_nil, u1, u2, l1, l2]
    norm_num
  refine ⟨e, by norm_num, ?_⟩
  rw [e]; simp

theorem circle_intersect_length (sqrt : ℝ → ℝ) (c1 c2 : Circle ℝ) :
    (c1.intersect sqrt c2).length ≤ 2 := by
  unfold Circle.intersect
  simp only
  split
  · simp
  · split
    · simp
    · split <;> simp

/-- C17 as amended: for every two arcs `a` and `b`, the list `a.intersect(b)` consists of the
points of `a.circle.intersect(b.circle)` at whose `x` the two arc heights differ by at most
1e-5, and has length at most 2. -/
theorem arc_intersect_at_most_two (a b : Arc ℝ) :
    (a.intersect Real.sqrt b).length ≤ 2 ∧
    List.Sublist (a.intersect Real.sqrt b) (a.circle.intersect Real.sqrt b.circle) ∧
    ∀ q : Point ℝ, q ∈ a.intersect Real.sqrt b ↔
      q ∈ a.circle.intersect Real.sqrt b.circle ∧
        |a.at_ Real.sqrt q.x - b.at_ Real.sqrt q.x| ≤ 1 / 100000 := by
  refine ⟨?_, List.filter_sublist _, ?_⟩
  · exact le_trans (List.length_filter_le _ _) (circle_intersect_length _ _ _)
  · intro q
    unfold Arc.intersect
    simp only [List.mem_filter, Bool.not_eq_true', decide_eq_false_iff_not, not_lt, gt_iff_lt]

/-- C18: for every circle `c` and every point `p`, the upper arc of `c` is above the lower
arc of `c` at `p` (`Arc::above(p, other)`), and at every `x` the height of the upper arc is
at least the height of the centre, which is at least the height of the lower arc. -/
theorem upper_arc_above_lower (c : Circle ℝ) :
    (∀ p : Point ℝ, Arc.above Real.sqrt ⟨c, true⟩ p (some ⟨c, false⟩) = true) ∧
    (∀ x : ℝ, Arc.at_ Real.sqrt ⟨c, true⟩ x ≥ c.center.y ∧
      c.center.y ≥ Arc.at_ Real.sqrt ⟨c, false⟩ x) := by
  have hx : ∀ x : ℝ, Arc.at_ Real.sqrt ⟨c, true⟩ x ≥ c.center.y ∧
      c.center.y ≥ Arc.at_ Real.sqrt ⟨c, false⟩ x := by
    intro x
    by_cases h : c.radius < |x - c.center.x|
    · rw [at_out ⟨c, true⟩ x h, at_out ⟨c, false⟩ x h]
      exact ⟨le_refl _, le_refl _⟩
    · rw [at_upper _ _ (not_lt.1 h), at_lower _ _ (not_lt.1 h)]
      have := Real.sqrt_nonneg
        (c.radius * c.radius - (x - c.center.x) * (x - c.center.x))
      constructor <;> linarith
  refine ⟨fun p => ?_, hx⟩
  show decide (Arc.at_ Real.sqrt ⟨c, true⟩ (p.x + 1 / 1000)
    ≥ Arc.at_ Real.sqrt ⟨c, false⟩ (p.x + 1 / 1000)) = true
  rw [decide_eq_true_eq]
  exact le_trans (hx _).2 (hx _).1

/-- C19: in exact real arithmetic, for a circle `c` with the radius `r ≥ 0`, the upper and
the lower arc of `c` contain the leftmost point `c.begin()` and the rightmost point
`c.end()`; the upper arc contains the top point `(c.center.x, c.center.y + r)`; and the lower
arc does not contain the top point when `2 r ≥ 1e-5`. -/
theorem contains_extreme_points (c : Circle ℝ) (h : 0 ≤ c.radius) :
    (∀ f : Bool, Arc.contains Real.sqrt ⟨c, f⟩ c.begin = true ∧
      Arc.contains Real.sqrt ⟨c, f⟩ c.end_ = true) ∧
    Arc.contains Real.sqrt ⟨c, true⟩ ⟨c.center.x, c.center.y + c.radius⟩ = true ∧
    (2 * c.radius ≥ 1 / 100000 →
      Arc.contains Real.sqrt ⟨c, false⟩ ⟨c.center.x, c.center.y + c.radius⟩ = false) := by
  refine ⟨fun f => ⟨contains_begin c h f, contains_end c h f⟩, ?_, ?_⟩
  · apply contains_of_at
    show Arc.at_ Real.sqrt ⟨c, true⟩ c.center.x = c.center.y + c.radius
    rw [at_upper_val c _ c.radius h (by simpa using h) (by ring)]
  · intro h2
    show decide (|Arc.at_ Real.sqrt ⟨c, false⟩ c.center.x - (c.center.y + c.radius)|
      < 1 / 100000) = false
    rw [decide_eq_false_iff_not, at_lower_val c _ c.radius h (by simpa using h) (by ring)]
    rw [show c.center.y - c.radius - (c.center.y + c.radius) = -(2 * c.radius) by ring,
      abs_neg, abs_of_nonneg (by linarith)]
    linarith

/-- C19 at the circle of the test: centre (0,0), radius 2, with the points (0,2) and (2,0). -/
theorem contains_extreme_points_witness :
    Arc.contains Real.sqrt (⟨⟨⟨0, 0⟩, 2⟩, true⟩ : Arc ℝ) ⟨0, 0 + 2⟩ = true ∧
    Arc.contains Real.sqrt (⟨⟨⟨0, 0⟩, 2⟩, true⟩ : Arc ℝ) (Circle.end_ ⟨⟨0, 0⟩, 2⟩) = true ∧
    Arc.contains Real.sqrt (⟨⟨⟨0, 0⟩, 2⟩, false⟩ : Arc ℝ) (Circle.end_ ⟨⟨0, 0⟩, 2⟩) = true ∧
    Arc.contains Real.sqrt (⟨⟨⟨0, 0⟩, 2⟩, false⟩ : Arc ℝ) ⟨0, 0 + 2⟩ = false :=
  ⟨(contains_extreme_points ⟨⟨0, 0⟩, 2⟩ (by norm_num)).2.1,
    ((contains_extreme_points ⟨⟨0, 0⟩, 2⟩ (by norm_num)).1 true).2,
    ((contains_extreme_points ⟨⟨0, 0⟩, 2⟩ (by norm_num)).1 false).2,
    (contains_extreme_points ⟨⟨0, 0⟩, 2⟩ (by norm_num)).2.2 (by norm_num)⟩

/-! ## The queries on a position: `lower_bound(p)`, `upper_bound(p)`, `contains(p)` -/

theorem unit_upper_at_zero : Arc.at_ Real.sqrt (⟨⟨⟨0, 0⟩, 1⟩, true⟩ : Arc ℝ) 0 = 1 := by
  rw [at_upper_val _ _ 1 zero_le_one (by norm_num) (by norm_num)]; norm_num

theorem unit_lower_at_zero : Arc.at_ Real.sqrt (⟨⟨⟨0, 0⟩, 1⟩, false⟩ : Arc ℝ) 0 = -1 := by
  rw [at_lower_val _ _ 1 zero_le_one (by norm_num) (by norm_num)]; norm_num

theorem unit_upper_above_origin :
    aboveAt Real.sqrt ⟨0, 0⟩ none ⟨0, ⟨⟨⟨0, 0⟩, 1⟩, true⟩⟩ = true := by
  show decide (Arc.at_ Real.sqrt ⟨⟨⟨0, 0⟩, 1⟩, true⟩ 0 ≥ 0) = true
  rw [unit_upper_at_zero]; norm_num

theorem unit_lower_below_origin :
    aboveAt Real.sqrt ⟨0, 0⟩ none ⟨1, ⟨⟨⟨0, 0⟩, 1⟩, false⟩⟩ = false := by
  show decide (Arc.at_ Real.sqrt ⟨⟨⟨0, 0⟩, 1⟩, false⟩ 0 ≥ 0) = false
  rw [unit_lower_at_zero]; norm_num

/-- C13 fails at the status that holds the two arcs of the circle of centre (0,0) and
radius 1 (the upper arc, then the lower arc inserted at the point (-1,0)), for the bare point
(0,0).  The in-order sequence is lower arc, upper arc; an element inserted for the bare point
(0,0) stands between the two arcs; the lower arc (height -1) is the highest arc below the
point and the upper arc (height 1) the lowest arc above it.  But `lower_bound(p)` is null; only
`upper_bound(p)` is the node of the upper arc.  In the status that holds the upper arc alone,
`upper_bound(p)` is null as well. -/
theorem position_bounds_skip_a_neighbour :
    (RBTree.empty : RBTree (ArcPtr ℝ)).insert
        (aboveAt Real.sqrt ⟨-1, 0⟩ (some ⟨0, ⟨⟨⟨0, 0⟩, 1⟩, true⟩⟩)) ⟨0, ⟨⟨⟨0, 0⟩, 1⟩, true⟩⟩
      = some ⟨.node ⟨0, ⟨⟨⟨0, 0⟩, 1⟩, true⟩⟩ .BLACK .nil .nil⟩ ∧
    (⟨.node ⟨0, ⟨⟨⟨0, 0⟩, 1⟩, true⟩⟩ .BLACK .nil .nil⟩ : RBTree (ArcPtr ℝ)).insert
        (aboveAt Real.sqrt ⟨-1, 0⟩ (some ⟨1, ⟨⟨⟨0, 0⟩, 1⟩, false⟩⟩)) ⟨1, ⟨⟨⟨0, 0⟩, 1⟩, false⟩⟩
      = some ⟨.node ⟨0, ⟨⟨⟨0, 0⟩, 1⟩, true⟩⟩ .BLACK
          (.node ⟨1, ⟨⟨⟨0, 0⟩, 1⟩, false⟩⟩ .RED .nil .nil) .nil⟩ ∧
    (∀ x : ArcPtr ℝ, ∃ t',
      (⟨.node ⟨0, ⟨⟨⟨0, 0⟩, 1⟩, true⟩⟩ .BLACK
          (.node ⟨1, ⟨⟨⟨0, 0⟩, 1⟩, false⟩⟩ .RED .nil .nil) .nil⟩ : RBTree (ArcPtr ℝ)).insert
        (aboveAt Real.sqrt ⟨0, 0⟩ none) x = some t' ∧
      t'.root.inorder = [⟨1, ⟨⟨⟨0, 0⟩, 1⟩, false⟩⟩, x, ⟨0, ⟨⟨⟨0, 0⟩, 1⟩, true⟩⟩]) ∧
    Arc.at_ Real.sqrt (⟨⟨⟨0, 0⟩, 1⟩, false⟩ : Arc ℝ) 0 < 0 ∧
    Arc.at_ Real.sqrt (⟨⟨⟨0, 0⟩, 1⟩, true⟩ : Arc ℝ) 0 ≥ 0 ∧
    (⟨.node ⟨0, ⟨⟨⟨0, 0⟩, 1⟩, true⟩⟩ .BLACK
        (.node ⟨1, ⟨⟨⟨0, 0⟩, 1⟩, false⟩⟩ .RED .nil .nil) .nil⟩ : RBTree (ArcPtr ℝ)).lower_bound_at
      (aboveAt Real.sqrt ⟨0, 0⟩ none) = none ∧
    ((⟨.node ⟨0, ⟨⟨⟨0, 0⟩, 1⟩, true⟩⟩ .BLACK
        (.node ⟨1, ⟨⟨⟨0, 0⟩, 1⟩, false⟩⟩ .RED .nil .nil) .nil⟩ : RBTree (ArcPtr ℝ)).upper_bound_at
      (aboveAt Real.sqrt ⟨0, 0⟩ none)).bind Loc.key? = some ⟨0, ⟨⟨⟨0, 0⟩, 1⟩, true⟩⟩ ∧
    (⟨.node ⟨0, ⟨⟨⟨0, 0⟩, 1⟩, true⟩⟩ .BLACK .nil .nil⟩ : RBTree (ArcPtr ℝ)).upper_bound_at
      (aboveAt Real.sqrt ⟨0, 0⟩ none) = none := by
  have a1 := above_upper_lower ⟨-1, 0⟩ ⟨⟨0, 0⟩, 1⟩ 1 0
  have a2 := unit_upper_above_origin
  have a3 := unit_lower_below_origin
  refine ⟨?_, ?_, ?_, ?_, ?_, ?_, ?_, ?_⟩
  · simp [RBTree.insert, RBTree.insertPos, insertPosLoop, RBTree.empty, insertFixup,
      blackenRoot, Node.setColor]
  · simp [RBTree.insert, RBTree.insertPos, insertPosLoop, insertFixup, blackenRoot,
      Node.setColor, Path.fill, a1]
  · intro x
    refine ⟨⟨.node x .BLACK (.node ⟨1, ⟨⟨⟨0, 0⟩, 1⟩, false⟩⟩ .RED .nil .nil)
      (.node ⟨0, ⟨⟨⟨0, 0⟩, 1⟩, true⟩⟩ .RED .nil .nil)⟩, ?_, ?_⟩
    · simp [RBTree.insert, RBTree.insertPos, insertPosLoop, a2, a3, insertFixup,
        blackenRoot, Node.setColor, Loc.tree, rightRotate, Path.fill, leftRotate]
    · simp [Node.inorder]
  · rw [unit_lower_at_zero]; norm_num
  · rw [unit_upper_at_zero]; norm_num
  · simp [RBTree.lower_bound_at, RBTree.insertPos, insertPosLoop, a2, a3, RBTree.lower_bound,
      climbLeft]
  · simp [RBTree.upper_bound_at, RBTree.insertPos, insertPosLoop, a2, a3, RBTree.upper_bound,
      climbRight, Loc.key?]
  · simp [RBTree.upper_bound_at, RBTree.insertPos, insertPosLoop, a2, RBTree.upper_bound,
      climbRight]

theorem upper_at_zero (y : ℝ) : Arc.at_ Real.sqrt (⟨⟨⟨0, y⟩, 1⟩, true⟩ : Arc ℝ) 0 = y + 1 := by
  rw [at_upper_val _ _ 1 zero_le_one (by norm_num) (by norm_num)]

/-- C14 fails at the status that holds the upper arc of centre (0,0), radius 1 and, inserted
after it at the point (-1/1000, 0), the upper arc of centre (0, 1/250000), radius 1, for the
point p = (0, 125001/125000).  The in-order sequence (first arc, second arc) is non-decreasing
in the height at `p.x` (1 and 1 + 1/250000), both arcs pass `Arc::contains(p)` (they are
8e-6 and 4e-6 below `p`), but `contains(p)` returns the second arc only. -/
theorem contains_misses_arc_below :
    (⟨.node ⟨0, ⟨⟨⟨0, 0⟩, 1⟩, true⟩⟩ .BLACK .nil .nil⟩ : RBTree (ArcPtr ℝ)).insert
        (aboveAt Real.sqrt ⟨-(1 / 1000), 0⟩ (some ⟨2, ⟨⟨⟨0, 1 / 250000⟩, 1⟩, true⟩⟩))
        ⟨2, ⟨⟨⟨0, 1 / 250000⟩, 1⟩, true⟩⟩
      = some ⟨.node ⟨0, ⟨⟨⟨0, 0⟩, 1⟩, true⟩⟩ .BLACK .nil
          (.node ⟨2, ⟨⟨⟨0, 1 / 250000⟩, 1⟩, true⟩⟩ .RED .nil .nil)⟩ ∧
    (Node.inorder (.node ⟨0, ⟨⟨⟨0, 0⟩, 1⟩, true⟩⟩ .BLACK .nil
        (.node ⟨2, ⟨⟨⟨0, 1 / 250000⟩, 1⟩, true⟩⟩ .RED .nil .nil) : Node (ArcPtr ℝ))).Pairwise
      (fun u v => u.arc.at_ Real.sqrt 0 ≤ v.arc.at_ Real.sqrt 0) ∧
    Arc.contains Real.sqrt (⟨⟨⟨0, 0⟩, 1⟩, true⟩ : Arc ℝ) ⟨0, 125001 / 125000⟩ = true ∧
    Arc.contains Real.sqrt (⟨⟨⟨0, 1 / 250000⟩, 1⟩, true⟩ : Arc ℝ) ⟨0, 125001 / 125000⟩ = true ∧
    (⟨.node ⟨0, ⟨⟨⟨0, 0⟩, 1⟩, true⟩⟩ .BLACK .nil
        (.node ⟨2, ⟨⟨⟨0, 1 / 250000⟩, 1⟩, true⟩⟩ .RED .nil .nil)⟩ : RBTree (ArcPtr ℝ)).contains
      (aboveAt Real.sqrt ⟨0, 125001 / 125000⟩ none)
      (fun k => k.arc.contains Real.sqrt ⟨0, 125001 / 125000⟩)
      = some [⟨2, ⟨⟨⟨0, 1 / 250000⟩, 1⟩, true⟩⟩] := by
  have h0 := upper_at_zero 0
  have h1 := upper_at_zero (1 / 250000)
  have c0 : Arc.contains Real.sqrt (⟨⟨⟨0, 0⟩, 1⟩, true⟩ : Arc ℝ) ⟨0, 125001 / 125000⟩ = true := by
    show decide (|Arc.at_ Real.sqrt ⟨⟨⟨0, 0⟩, 1⟩, true⟩ 0 - 125001 / 125000| < 1 / 100000) = true
    rw [h0, decide_eq_true_eq, abs_lt]; constructor <;> norm_num
  have c1 : Arc.contains Real.sqrt (⟨⟨⟨0, 1 / 250000⟩, 1⟩, true⟩ : Arc ℝ)
      ⟨0, 125001 / 125000⟩ = true := by
    show decide (|Arc.at_ Real.sqrt ⟨⟨⟨0, 1 / 250000⟩, 1⟩, true⟩ 0 - 125001 / 125000|
      < 1 / 100000) = true
    rw [h1, decide_eq_true_eq, abs_lt]; constructor <;> norm_num
  have a0 : aboveAt Real.sqrt ⟨0, 125001 / 125000⟩ none ⟨0, ⟨⟨⟨0, 0⟩, 1⟩, true⟩⟩ = false := by
    show decide (Arc.at_ Real.sqrt ⟨⟨⟨0, 0⟩, 1⟩, true⟩ 0 ≥ 125001 / 125000) = false
    rw [h0]; norm_num
  have a1 : aboveAt Real.sqrt ⟨0, 125001 / 125000⟩ none
      ⟨2, ⟨⟨⟨0, 1 / 250000⟩, 1⟩, true⟩⟩ = false := by
    show decide (Arc.at_ Real.sqrt ⟨⟨⟨0, 1 / 250000⟩, 1⟩, true⟩ 0 ≥ 125001 / 125000) = false
    rw [h1]; norm_num
  have b0 : aboveAt Real.sqrt ⟨-(1 / 1000), 0⟩ (some ⟨2, ⟨⟨⟨0, 1 / 250000⟩, 1⟩, true⟩⟩)
      ⟨0, ⟨⟨⟨0, 0⟩, 1⟩, true⟩⟩ = false := by
    show decide (Arc.at_ Real.sqrt ⟨⟨⟨0, 0⟩, 1⟩, true⟩ (-(1 / 1000) + 1 / 1000)
      ≥ Arc.at_ Real.sqrt ⟨⟨⟨0, 1 / 250000⟩, 1⟩, true⟩ (-(1 / 1000) + 1 / 1000)) = false
    rw [show (-(1 / 1000) + 1 / 1000 : ℝ) = 0 by norm_num, h0, h1]; norm_num
  refine ⟨?_, ?_, c0, c1, ?_⟩
  · simp only [RBTree.insert, RBTree.insertPos, insertPosLoop, b0, Bool.false_eq_true,
      if_false, insertFixup, blackenRoot, Node.setColor, Path.fill]
  · simp only [Node.inorder, List.nil_append, List.pairwise_cons, List.mem_singleton,
      forall_eq, List.not_mem_nil, false_implies, implies_true, List.Pairwise.nil, and_true]
    rw [h0, h1]; norm_num
  · simp only [RBTree.contains, RBTree.insertPos, insertPosLoop, a0, a1, Bool.false_eq_true,
      if_false, Node.size, containsLoop, c1, if_true, RBTree.upper_bound, climbRight,
      List.nil_append]

/-! ## Termination of the event loop -/

/-- C20: for every input list of circles, the event loop of `circleIntersect` halts (the
event queue becomes empty and no pass runs into undefined behaviour) whenever the bound on the
passes of the loop is at least some number `N`; the queue the loop starts with is sorted; and a pass for the
event `p` that starts from a sorted queue leaves a sorted queue all of whose keys are strictly
greater than `p` in the lexicographic order, in which every entry that was not in the queue
before has no arcs, a key strictly greater than `p`, and a key that was not a key of the queue.
So the processed event points are strictly increasing. -/
theorem event_loop_terminates (cs : List (Circle ℝ)) :
    (∃ N : Nat, ∀ fuel : Nat, N ≤ fuel →
      ∃ out, eventLoop Real.sqrt fuel cs = some out ∧ out.events = []) ∧
    (seedEvents ([] : Events ℝ) 0 cs).sorted ∧
    (∀ (ints : List (Point ℝ)) (p : Point ℝ) (born : List (ArcPtr ℝ)) (rest : Events ℝ)
        (status : RBTree (ArcPtr ℝ)) (s' : Sweep ℝ),
      Events.sorted ((p, born) :: rest) →
      sweepStep Real.sqrt ints p born rest status = some s' →
      s'.events.sorted ∧ (∀ e ∈ s'.events, Point.lt p e.1 = true) ∧
        ∀ e ∈ s'.events, e ∈ rest ∨
          (e.2 = [] ∧ Point.lt p e.1 = true ∧
            Events.find ((p, born) :: rest) e.1 = none)) :=
  ⟨⟨(candidates Real.sqrt cs).length, fun fuel h => eventLoop_total Real.sqrt cs fuel h⟩,
    (seed_wf Real.sqrt cs).sorted,
    fun ints p born rest status s' hs h => sweepStep_keys Real.sqrt ints p born rest status s' hs h⟩

/-- C20 at the first pass for the circle of radius 1 with the centre (0,0): the event of
its leftmost point is processed, and the key that remains, its rightmost point, is greater. -/
theorem event_loop_terminates_witness :
    Events.sorted ([((⟨⟨0, 0⟩, 1⟩ : Circle ℝ).begin,
        [⟨0, ⟨⟨⟨0, 0⟩, 1⟩, true⟩⟩, ⟨1, ⟨⟨⟨0, 0⟩, 1⟩, false⟩⟩]),
      ((⟨⟨0, 0⟩, 1⟩ : Circle ℝ).end_, [])] : Events ℝ) ∧
    ∀ e ∈ ([((⟨⟨0, 0⟩, 1⟩ : Circle ℝ).end_, [])] : Events ℝ),
      Point.lt (⟨⟨0, 0⟩, 1⟩ : Circle ℝ).begin e.1 = true :=
  have hs : Events.sorted ([((⟨⟨0, 0⟩, 1⟩ : Circle ℝ).begin,
        [⟨0, ⟨⟨⟨0, 0⟩, 1⟩, true⟩⟩, ⟨1, ⟨⟨⟨0, 0⟩, 1⟩, false⟩⟩]),
      ((⟨⟨0, 0⟩, 1⟩ : Circle ℝ).end_, [])] : Events ℝ) := by
    simp only [Events.sorted, List.pairwise_cons, List.mem_singleton, forall_eq,
      List.not_mem_nil, false_implies, implies_true, List.Pairwise.nil, and_true, Point.lt,
      Circle.begin, Circle.end_, Point.sub, Point.add]
    norm_num
  ⟨hs, ((event_loop_terminates [⟨⟨0, 0⟩, 1⟩]).2.2 _ _ _ _ _ _ hs
    (single_step1 ⟨⟨0, 0⟩, 1⟩ [((⟨⟨0, 0⟩, 1⟩ : Circle ℝ).end_, [])])).2.1⟩

/-- C21 as amended: a pass of the loop for the event `p` that returns, from any state of the
status and of the queue, adds at most 4 keys to the queue: the new keys are points of at most
two lists, one for the lower and one for the upper outer neighbour, each the list
`Arc::intersect` returns for two arcs of the status and so of length at most 2; a new entry
has no arcs, its key lies after `p` and was no key of the queue. -/
theorem scheduling_adds_at_most_four_keys (ints : List (Point ℝ)) (p : Point ℝ)
    (born : List (ArcPtr ℝ)) (rest : Events ℝ) (status : RBTree (ArcPtr ℝ)) (s' : Sweep ℝ)
    (h : sweepStep Real.sqrt ints p born rest status = some s') :
    ∃ lower upper : List (Point ℝ),
      (lower = [] ∨ ∃ a b : ArcPtr ℝ, a ∈ s'.status.root.inorder ∧ b ∈ s'.status.root.inorder ∧
        lower = a.arc.intersect Real.sqrt b.arc) ∧
      (upper = [] ∨ ∃ a b : ArcPtr ℝ, a ∈ s'.status.root.inorder ∧ b ∈ s'.status.root.inorder ∧
        upper = a.arc.intersect Real.sqrt b.arc) ∧
      lower.length ≤ 2 ∧ upper.length ≤ 2 ∧
      s'.events.length ≤ rest.length + lower.length + upper.length ∧
      s'.events.length ≤ rest.length + 4 ∧
      ∀ e ∈ s'.events, e ∈ rest ∨
        (e.2 = [] ∧ (e.1 ∈ lower ∨ e.1 ∈ upper) ∧ Point.lt p e.1 = true ∧
          Events.find ((p, born) :: rest) e.1 = none) := by
  obtain ⟨lower, upper, h1, h2, h3, h4, h5, h6⟩ :=
    sweepStep_bound Real.sqrt ints p born rest status s' h
  exact ⟨lower, upper, h1, h2, h3, h4, h5, by omega, h6⟩

/-- C21 as amended, at the first pass for the circle of radius 1 with the centre (0,0). -/
theorem scheduling_adds_at_most_four_keys_witness :
    ∃ lower upper : List (Point ℝ), lower.length ≤ 2 ∧ upper.length ≤ 2 ∧
      ([((⟨⟨0, 0⟩, 1⟩ : Circle ℝ).end_, [])] : Events ℝ).length
        ≤ ([((⟨⟨0, 0⟩, 1⟩ : Circle ℝ).end_, [])] : Events ℝ).length
          + lower.length + upper.length :=
  let ⟨lower, upper, _, _, h3, h4, h5, _⟩ :=
    scheduling_adds_at_most_four_keys _ _ _ _ _ _
      (single_step1 ⟨⟨0, 0⟩, 1⟩ [((⟨⟨0, 0⟩, 1⟩ : Circle ℝ).end_, [])])
  ⟨lower, upper, h3, h4, h5⟩

/-! ## The arithmetic of `Circle::intersect` past the early returns -/

/-- C22: in exact real arithmetic, for two circles with non-negative radii `r1`, `r2`, the
distance `d` of the centres and `a = (r1^2 + d^2 - r2^2) / (2 d)`: when `d ≠ 0` and neither
`r1 + r2 < d` nor `d < |r1 - r2|` (the two early returns are passed), the divisors `2 d` and
`d` are not 0, the radicand `r1^2 - a^2` is non-negative, so that `h = sqrt(r1^2 - a^2)` has
the square `r1^2 - a^2`, and `Circle::intersect` returns what lines 23-31 compute. -/
theorem intersect_arithmetic_guarded (c1 c2 : Circle ℝ) (h1 : 0 ≤ c1.radius)
    (h2 : 0 ≤ c2.radius) (d a : ℝ) (hdef : d = c1.center.distance Real.sqrt c2.center)
    (hadef : a = (c1.radius * c1.radius + d * d - c2.radius * c2.radius) / (2 * d))
    (hd : d ≠ 0) (hg : ¬ (c1.radius + c2.radius < d ∨ d < |c1.radius - c2.radius|)) :
    2 * d ≠ 0 ∧ d ≠ 0 ∧ 0 ≤ c1.radius * c1.radius - a * a ∧
    Real.sqrt (c1.radius * c1.radius - a * a) * Real.sqrt (c1.radius * c1.radius - a * a)
      = c1.radius * c1.radius - a * a ∧
    c1.intersect Real.sqrt c2 =
      if Real.sqrt (c1.radius * c1.radius - a * a) = 0 then
        [c1.center.add ((c2.center.sub c1.center).scale (a / d))]
      else
        [(c1.center.add ((c2.center.sub c1.center).scale (a / d))).add
            ((c2.center.sub c1.center).turn.scale
              (Real.sqrt (c1.radius * c1.radius - a * a) / d)),
          (c1.center.add ((c2.center.sub c1.center).scale (a / d))).sub
            ((c2.center.sub c1.center).turn.scale
              (Real.sqrt (c1.radius * c1.radius - a * a) / d))] := by
  have hd0 : 0 ≤ d := hdef ▸ distance_nonneg _ _
  have hdpos : 0 < d := lt_of_le_of_ne hd0 (Ne.symm hd)
  push_neg at hg
  obtain ⟨g1, g2⟩ := hg
  obtain ⟨g3, g4⟩ := abs_le.1 g2
  have hrad : 0 ≤ c1.radius * c1.radius - a * a := by
    rw [hadef, radicand_eq _ _ _ hd]
    apply div_nonneg
    · apply mul_nonneg
      · apply mul_nonneg
        · apply mul_nonneg <;> linarith
        · linarith
      · linarith
    · positivity
  refine ⟨by positivity, hd, hrad, Real.mul_self_sqrt hrad, ?_⟩
  have hg' : ¬ (c1.radius + c2.radius < d ∨ d < |c1.radius - c2.radius|) := by
    push_neg; exact ⟨g1, g2⟩
  subst hadef
  subst hdef
  simp only [Circle.intersect, if_neg hd, if_neg hg']

/-- C22 at the circles of radius 1 with the centres (0,0) and (2,0): `d = 2`, `a = 1`. -/
theorem intersect_arithmetic_guarded_witness :
    2 * (2 : ℝ) ≠ 0 ∧ (2 : ℝ) ≠ 0 ∧ (0 : ℝ) ≤ 1 * 1 - 1 * 1 ∧
    Real.sqrt ((1 : ℝ) * 1 - 1 * 1) * Real.sqrt ((1 : ℝ) * 1 - 1 * 1) = 1 * 1 - 1 * 1 :=
  have hdist : (2 : ℝ) = Point.distance Real.sqrt (⟨0, 0⟩ : Point ℝ) ⟨2, 0⟩ := by
    symm; rw [distance_eq_iff _ _ _ (by norm_num)]; norm_num
  have h := intersect_arithmetic_guarded ⟨⟨0, 0⟩, 1⟩ ⟨⟨2, 0⟩, 1⟩ zero_le_one zero_le_one 2 1
    hdist (by norm_num) (by norm_num) (by norm_num)
  ⟨h.1, h.2.1, h.2.2.1, h.2.2.2.1⟩

end IntersectCircles
